import Mathlib

/-!
# ARM7TDMI interpreter core: shallow embedding

The definitions below follow `src/arm7tdmi/arm7tdmi.hpp` function by function.

* `u32` values are natural numbers; every arithmetic result is reduced
  modulo `2^32` where the C++ wraps.
* The template parameter `T& bus` is an external collaborator.  Its calls are
  recorded in the field `CPU.bus` (most recent call first) and the value a
  read returns is taken from the parameter `Env.busRead`, a function of the
  calls made so far and of the request, truncated to the requested width.
* The preprocessor toggles `ARM7TDMI_DISABLE_FIQ` and `ARM7TDMI_DISABLE_DEBUG`
  are the boolean parameters `Env.disableFiq` and `Env.disableDebug`.
* A step whose C++ has no defined behaviour (a store through the null
  `currentModeBank`, an index past the end of `thumbLUT`) yields `none`.
-/

namespace ARM7TDMI

/-! ## Bus -/

/-- One call on the `bus` object. -/
inductive BusEvent where
  | read (width : Nat) (code : Bool) (addr : Nat) (seq : Bool)
  | write (width : Nat) (addr : Nat) (value : Nat) (seq : Bool)
  | iCycle (n : Int)
  | breakpoint
  | hacf
  | logUnknownArm (opcode : Nat) (addr : Nat) (message : String)
  | logUnknownThumb (opcode : Nat) (addr : Nat) (message : String)
  | logInvalidMode (mode : Nat)
  deriving DecidableEq

/-- Build parameters: the bus the core is instantiated with and the two
preprocessor toggles. -/
structure Env where
  /-- Result of `bus.read<W, code>(addr, seq)` given the calls made before it:
  arguments are history, width in bits, code flag, address, sequential flag. -/
  busRead : List BusEvent → Nat → Bool → Nat → Bool → Nat
  /-- `ARM7TDMI_DISABLE_FIQ` is defined. -/
  disableFiq : Bool
  /-- `ARM7TDMI_DISABLE_DEBUG` is defined. -/
  disableDebug : Bool

/-! ## Machine words -/

/-- Conversion to `u32`. -/
def u32 (x : Nat) : Nat := x % 2 ^ 32

/-- `u32` subtraction `a - b`. -/
def sub32 (a b : Nat) : Nat := (a % 2 ^ 32 + 2 ^ 32 - b % 2 ^ 32) % 2 ^ 32

/-- `u32` complement `~a`. -/
def not32 (a : Nat) : Nat := 0xFFFFFFFF - a % 2 ^ 32

/-- Value of a `u32` reinterpreted as `i32`. -/
def toI32 (x : Nat) : Int := if x % 2 ^ 32 < 2 ^ 31 then (x % 2 ^ 32 : Nat) else (x % 2 ^ 32 : Nat) - 2 ^ 32

/-- Conversion of a signed value to `u32`. -/
def ofInt32 (i : Int) : Nat := (i % 2 ^ 32).toNat

/-- The expression `((i32)x) >> n` converted back to `u32`, for `n < 32`. -/
def asr32 (x n : Nat) : Nat := ofInt32 (toI32 x >>> n)

/-- The expression `(x >> n) | (x << (32 - n))` on `u32`, for `0 < n < 32`. -/
def ror32 (x n : Nat) : Nat := ((x % 2 ^ 32) >>> n) ||| (x <<< (32 - n)) % 2 ^ 32

/-- Assignment of `b` to the one-bit field at position `i`. -/
def setBit (x i : Nat) (b : Bool) : Nat := if b then x ||| 2 ^ i else x ^^^ (x &&& 2 ^ i)

/-- `std::countl_zero` on `u32`. -/
def countl_zero (x : Nat) : Nat := if x % 2 ^ 32 = 0 then 32 else 31 - Nat.log2 (x % 2 ^ 32)

/-- `std::countl_one` on `u32`. -/
def countl_one (x : Nat) : Nat := countl_zero (not32 x)

/-- `std::popcount` on the low 16 bits. -/
def popcount16 (x : Nat) : Nat := ((List.range 16).filter (fun i => x.testBit i)).length

/-! ## CPU state -/

/-- The values of `enum cpuMode`. -/
def MODE_USER : Nat := 0x10
def MODE_FIQ : Nat := 0x11
def MODE_IRQ : Nat := 0x12
def MODE_SUPERVISOR : Nat := 0x13
def MODE_ABORT : Nat := 0x17
def MODE_UNDEFINED : Nat := 0x1B
def MODE_SYSTEM : Nat := 0x1F

/-- Names of the six bank arrays `R_usr`, `R_fiq`, `R_svc`, `R_abt`, `R_irq`,
`R_und`; a `u32 *` into one of them is its name. -/
inductive BankId where
  | usr | fiq | svc | abt | irq | und
  deriving DecidableEq

/-- The members of `class ARM7TDMI`: `reg` (flattened), the pending-interrupt
flags, the pipeline, the breakpoint table and the calls made on `bus`. -/
structure CPU where
  processFiq : Bool
  processIrq : Bool
  /-- `reg.R[16]`. -/
  R : Fin 16 → Nat
  /-- `reg.CPSR`; the bit-fields `mode`, `thumbMode`, ... are views of it. -/
  CPSR : Nat
  R_usr : Fin 8 → Nat
  R_fiq : Fin 8 → Nat
  R_svc : Fin 8 → Nat
  R_abt : Fin 8 → Nat
  R_irq : Fin 8 → Nat
  R_und : Fin 8 → Nat
  pipelineOpcode1 : Nat
  pipelineOpcode2 : Nat
  pipelineOpcode3 : Nat
  nextFetchType : Bool
  /-- `breakpointsTable`: page index to page; a page (`std::bitset<65536>`)
  is the number whose binary digits are its bits. -/
  breakpointsTable : Nat → Option Nat
  /-- Calls made on `bus`, most recent first. -/
  bus : List BusEvent

namespace CPU

def mode (s : CPU) : Nat := s.CPSR % 32
def thumbMode (s : CPU) : Bool := s.CPSR.testBit 5
def fiqDisable (s : CPU) : Bool := s.CPSR.testBit 6
def irqDisable (s : CPU) : Bool := s.CPSR.testBit 7
def flagV (s : CPU) : Bool := s.CPSR.testBit 28
def flagC (s : CPU) : Bool := s.CPSR.testBit 29
def flagZ (s : CPU) : Bool := s.CPSR.testBit 30
def flagN (s : CPU) : Bool := s.CPSR.testBit 31

/-- Assignment `reg.CPSR = c`. -/
def setCPSR (s : CPU) (c : Nat) : CPU := { s with CPSR := c }

def setProcessFiq (s : CPU) (b : Bool) : CPU := { s with processFiq := b }
def setProcessIrq (s : CPU) (b : Bool) : CPU := { s with processIrq := b }
def setPipelineOpcode1 (s : CPU) (v : Nat) : CPU := { s with pipelineOpcode1 := v }
def setPipelineOpcode2 (s : CPU) (v : Nat) : CPU := { s with pipelineOpcode2 := v }
def setPipelineOpcode3 (s : CPU) (v : Nat) : CPU := { s with pipelineOpcode3 := v }
def setNextFetchType (s : CPU) (b : Bool) : CPU := { s with nextFetchType := b }

def setThumbMode (s : CPU) (b : Bool) : CPU := s.setCPSR (setBit s.CPSR 5 b)
def setFiqDisable (s : CPU) (b : Bool) : CPU := s.setCPSR (setBit s.CPSR 6 b)
def setIrqDisable (s : CPU) (b : Bool) : CPU := s.setCPSR (setBit s.CPSR 7 b)
def setFlagV (s : CPU) (b : Bool) : CPU := s.setCPSR (setBit s.CPSR 28 b)
def setFlagC (s : CPU) (b : Bool) : CPU := s.setCPSR (setBit s.CPSR 29 b)
def setFlagZ (s : CPU) (b : Bool) : CPU := s.setCPSR (setBit s.CPSR 30 b)
def setFlagN (s : CPU) (b : Bool) : CPU := s.setCPSR (setBit s.CPSR 31 b)

/-- Assignment `reg.R[i] = v`. -/
def setR (s : CPU) (i : Fin 16) (v : Nat) : CPU := { s with R := Function.update s.R i v }

/-- The array a bank pointer designates. -/
def bank (s : CPU) : BankId → Fin 8 → Nat
  | .usr => s.R_usr
  | .fiq => s.R_fiq
  | .svc => s.R_svc
  | .abt => s.R_abt
  | .irq => s.R_irq
  | .und => s.R_und

/-- Assignment `b[i] = v` through a bank pointer. -/
def setBank (s : CPU) (b : BankId) (i : Fin 8) (v : Nat) : CPU :=
  match b with
  | .usr => { s with R_usr := Function.update s.R_usr i v }
  | .fiq => { s with R_fiq := Function.update s.R_fiq i v }
  | .svc => { s with R_svc := Function.update s.R_svc i v }
  | .abt => { s with R_abt := Function.update s.R_abt i v }
  | .irq => { s with R_irq := Function.update s.R_irq i v }
  | .und => { s with R_und := Function.update s.R_und i v }

/-- The loop `for (int i = 0; i < 8; i++) b[i] = 0x00000000`. -/
def zeroBank (s : CPU) (b : BankId) : CPU :=
  match b with
  | .usr => { s with R_usr := fun _ => 0x00000000 }
  | .fiq => { s with R_fiq := fun _ => 0x00000000 }
  | .svc => { s with R_svc := fun _ => 0x00000000 }
  | .abt => { s with R_abt := fun _ => 0x00000000 }
  | .irq => { s with R_irq := fun _ => 0x00000000 }
  | .und => { s with R_und := fun _ => 0x00000000 }

/-- Record a call on the bus. -/
def emit (s : CPU) (e : BusEvent) : CPU := { s with bus := e :: s.bus }

end CPU

/-- Register index from a 4-bit opcode field. -/
def reg4 (x : Nat) : Fin 16 := ⟨x % 16, Nat.mod_lt _ (by decide)⟩

/-- Register index from a 3-bit opcode field. -/
def reg3 (x : Nat) : Fin 16 := ⟨x % 8, Nat.lt_of_lt_of_le (Nat.mod_lt _ (by decide)) (by decide)⟩

/-- Call `bus.read<W, code>(addr, seq)`: the value and the state after it. -/
def busRead (E : Env) (w : Nat) (code : Bool) (addr : Nat) (seq : Bool) (s : CPU) : Nat × CPU :=
  (E.busRead s.bus w code addr seq % 2 ^ w, s.emit (.read w code addr seq))

/-- Call `bus.write<W>(addr, value, seq)`; the value is converted to `W` bits. -/
def busWrite (w : Nat) (addr : Nat) (value : Nat) (seq : Bool) (s : CPU) : CPU :=
  s.emit (.write w addr (value % 2 ^ w) seq)

/-- Call `bus.iCycle(n)`. -/
def iCycle (n : Int) (s : CPU) : CPU := s.emit (.iCycle n)

/-- Function `unknownOpcodeArm(opcode, message)`. -/
def unknownOpcodeArm (opcode : Nat) (message : String) (s : CPU) : CPU :=
  (s.emit (.logUnknownArm opcode (sub32 (s.R 15) 8) message)).emit .hacf

/-- Function `unknownOpcodeThumb(opcode, message)`. -/
def unknownOpcodeThumb (opcode : Nat) (message : String) (s : CPU) : CPU :=
  (s.emit (.logUnknownThumb opcode (sub32 (s.R 15) 4) message)).emit .hacf

/-! ## Condition codes, pipeline, banking -/

/-- Function `checkCondition`: the result and the state after the call. -/
def checkCondition (conditionCode : Nat) (s : CPU) : Bool × CPU :=
  match conditionCode with
  | 0x0 => (s.flagZ, s)
  | 0x1 => (!s.flagZ, s)
  | 0x2 => (s.flagC, s)
  | 0x3 => (!s.flagC, s)
  | 0x4 => (s.flagN, s)
  | 0x5 => (!s.flagN, s)
  | 0x6 => (s.flagV, s)
  | 0x7 => (!s.flagV, s)
  | 0x8 => (s.flagC && !s.flagZ, s)
  | 0x9 => (!s.flagC || s.flagZ, s)
  | 0xA => (s.flagN == s.flagV, s)
  | 0xB => (s.flagN != s.flagV, s)
  | 0xC => (!s.flagZ && (s.flagN == s.flagV), s)
  | 0xD => (s.flagZ || (s.flagN != s.flagV), s)
  | 0xE => (true, s)
  | 0xF => (true, s)
  | _ => (false, unknownOpcodeArm s.pipelineOpcode3 "Invalid condition" s)

/-- Function `fetchOpcode`. -/
def fetchOpcode (E : Env) (s : CPU) : CPU :=
  if s.thumbMode then
    let r := busRead E 16 true (s.R 15) s.nextFetchType s
    let s := r.2.setPipelineOpcode1 r.1
    let s := s.setPipelineOpcode3 s.pipelineOpcode2
    let s := s.setPipelineOpcode2 s.pipelineOpcode1
    let s := s.setR 15 (u32 (s.R 15 + 2))
    s.setNextFetchType true
  else
    let r := busRead E 32 true (s.R 15) s.nextFetchType s
    let s := r.2.setPipelineOpcode1 r.1
    let s := s.setPipelineOpcode3 s.pipelineOpcode2
    let s := s.setPipelineOpcode2 s.pipelineOpcode1
    let s := s.setR 15 (u32 (s.R 15 + 4))
    s.setNextFetchType true

/-- Function `flushPipeline`. -/
def flushPipeline (E : Env) (s : CPU) : CPU :=
  if s.thumbMode then
    let s := s.setR 15 (u32 ((s.R 15 &&& 0xFFFFFFFE) + 4))
    let r := busRead E 16 true (sub32 (s.R 15) 4) false s
    let s := r.2.setPipelineOpcode3 r.1
    let r := busRead E 16 true (sub32 (s.R 15) 2) true s
    let s := r.2.setPipelineOpcode2 r.1
    s.setNextFetchType true
  else
    let s := s.setR 15 (u32 ((s.R 15 &&& 0xFFFFFFFC) + 8))
    let r := busRead E 32 true (sub32 (s.R 15) 8) false s
    let s := r.2.setPipelineOpcode3 r.1
    let r := busRead E 32 true (sub32 (s.R 15) 4) true s
    let s := r.2.setPipelineOpcode2 r.1
    s.setNextFetchType true

/-- The bank array selected by the `switch` over a mode value in
`bankRegisters`; `none` is the null pointer. -/
def modeBank (m : Nat) : Option BankId :=
  if m = MODE_SYSTEM then some .usr
  else if m = MODE_USER then some .usr
  else if m = MODE_FIQ then some .fiq
  else if m = MODE_IRQ then some .irq
  else if m = MODE_SUPERVISOR then some .svc
  else if m = MODE_ABORT then some .abt
  else if m = MODE_UNDEFINED then some .und
  else none

/-- Function `bankRegisters`.  The result is `none` when the store through
`currentModeBank` would go through the null pointer. -/
def bankRegisters (newMode : Nat) (enterMode : Bool) (s : CPU) : Option CPU :=
  let currentModeBank := modeBank s.mode
  match modeBank newMode with
  | none => some ((s.emit (.logInvalidMode newMode)).emit .hacf)
  | some newModeBank =>
    -- Save current bank
    let saveTo := if s.mode = MODE_FIQ then BankId.fiq else BankId.usr
    let s := s.setBank saveTo 0 (s.R 8)
    let s := s.setBank saveTo 1 (s.R 9)
    let s := s.setBank saveTo 2 (s.R 10)
    let s := s.setBank saveTo 3 (s.R 11)
    let s := s.setBank saveTo 4 (s.R 12)
    match currentModeBank with
    | none => none
    | some cur =>
      let s := s.setBank cur 5 (s.R 13)
      let s := s.setBank cur 6 (s.R 14)
      -- Load new bank
      let loadFrom := if newMode = MODE_FIQ then BankId.fiq else BankId.usr
      let s := s.setR 8 (s.bank loadFrom 0)
      let s := s.setR 9 (s.bank loadFrom 1)
      let s := s.setR 10 (s.bank loadFrom 2)
      let s := s.setR 11 (s.bank loadFrom 3)
      let s := s.setR 12 (s.bank loadFrom 4)
      let s := s.setR 13 (s.bank newModeBank 5)
      let s := s.setR 14 (s.bank newModeBank 6)
      -- Save SPSR and set new CPSR
      if enterMode then
        let s := if newMode ≠ MODE_SYSTEM ∧ newMode ≠ MODE_USER then s.setBank newModeBank 7 s.CPSR else s
        some (s.setCPSR ((s.CPSR &&& 0xFFFFFFC0) ||| newMode))
      else
        some s

/-- The SPSR slot of the current mode as selected by the `switch` shared by
`leaveMode`, `psrLoad` and the PSR stores; `none` is the `default` case. -/
def spsrBank (m : Nat) : Option BankId :=
  if m = MODE_FIQ then some .fiq
  else if m = MODE_IRQ then some .irq
  else if m = MODE_SUPERVISOR then some .svc
  else if m = MODE_ABORT then some .abt
  else if m = MODE_UNDEFINED then some .und
  else none

/-- Function `leaveMode`. -/
def leaveMode (s : CPU) : Option CPU :=
  let tmpPSR := match spsrBank s.mode with
    | some b => s.bank b 7
    | none => s.CPSR
  match bankRegisters (tmpPSR &&& 0x1F) false s with
  | none => none
  | some s => some (s.setCPSR tmpPSR)

/-- Function `resetARM7TDMI`. -/
def resetARM7TDMI (E : Env) (s : CPU) : CPU :=
  let s := s.setProcessFiq false
  let s := s.setProcessIrq false
  let s := s.setR 0 0x00000000
  let s := s.setR 1 0x00000000
  let s := s.setR 2 0x00000000
  let s := s.setR 3 0x00000000
  let s := s.setR 4 0x00000000
  let s := s.setR 5 0x00000000
  let s := s.setR 6 0x00000000
  let s := s.setR 7 0x00000000
  let s := s.setR 8 0x00000000
  let s := s.setR 9 0x00000000
  let s := s.setR 10 0x00000000
  let s := s.setR 11 0x00000000
  let s := s.setR 12 0x00000000
  let s := s.setR 13 0x00000000
  let s := s.setR 14 0x00000000
  let s := s.setR 15 0x00000000
  let s := s.setCPSR 0x000000D3
  let s := s.zeroBank .usr
  let s := s.zeroBank .fiq
  let s := s.zeroBank .svc
  let s := s.zeroBank .abt
  let s := s.zeroBank .irq
  let s := s.zeroBank .und
  flushPipeline E s

/-- Function `serviceFiq`. -/
def serviceFiq (E : Env) (s : CPU) : Option CPU :=
  let oldThumb := s.thumbMode
  let s := s.setProcessFiq false
  match bankRegisters MODE_FIQ true s with
  | none => none
  | some s =>
    let s := s.setR 14 (sub32 (s.R 15) (if oldThumb then 0 else 4))
    let s := s.setIrqDisable true
    let s := s.setFiqDisable true
    let s := s.setThumbMode false
    let s := s.setR 15 0x0000001C
    some (flushPipeline E s)

/-- Function `serviceIrq`. -/
def serviceIrq (E : Env) (s : CPU) : Option CPU :=
  let oldThumb := s.thumbMode
  let s := s.setProcessIrq false
  match bankRegisters MODE_IRQ true s with
  | none => none
  | some s =>
    let s := s.setR 14 (sub32 (s.R 15) (if oldThumb then 0 else 4))
    let s := s.setIrqDisable true
    let s := s.setFiqDisable true
    let s := s.setThumbMode false
    let s := s.setR 15 0x00000018
    some (flushPipeline E s)

/-! ## Helpers -/

/-- Function `rotateMisaligned<TT>` with `sizeof(TT) = bytes`: `std::rotr` of
the value by `(address & (bytes - 1)) * 8`. -/
def rotateMisaligned (bytes : Nat) (value : Nat) (address : Nat) : Nat :=
  let r := ((address &&& (bytes - 1)) * 8) % 32
  if r = 0 then u32 value else ror32 value r

/-- Function `computeShift<dataTransfer, iBit>`: the returned carry and the
value stored through `result`. -/
def computeShift (dataTransfer iBit : Bool) (opcode : Nat) (s : CPU) : Bool × Nat :=
  if dataTransfer && !iBit then
    (false, opcode &&& 0xFFF)
  else if iBit && !dataTransfer then
    let shiftOperand := opcode &&& 0xFF
    let shiftAmount := (opcode &&& 0xF00) >>> 7
    if shiftAmount = 0 then
      (s.flagC, shiftOperand)
    else
      (shiftOperand &&& (1 <<< (shiftAmount - 1)) ≠ 0, ror32 shiftOperand shiftAmount)
  else
    let shiftAmount := if opcode.testBit 4 then s.R (reg4 (opcode >>> 8)) &&& 0xFF else (opcode >>> 7) &&& 0x1F
    let shiftOperand := s.R (reg4 opcode)
    if opcode.testBit 4 && shiftAmount = 0 then
      (s.flagC, shiftOperand)
    else
      match (opcode >>> 5) &&& 3 with
      | 0 => -- LSL
        if shiftAmount ≠ 0 then
          if shiftAmount > 31 then
            (if shiftAmount = 32 then shiftOperand &&& 1 ≠ 0 else false, 0)
          else
            (shiftOperand &&& (1 <<< (31 - (shiftAmount - 1))) ≠ 0, u32 (shiftOperand <<< shiftAmount))
        else
          (s.flagC, shiftOperand)
      | 1 => -- LSR
        if shiftAmount = 0 ∨ shiftAmount = 32 then
          (shiftOperand >>> 31 ≠ 0, 0)
        else if shiftAmount > 32 then
          (false, 0)
        else
          ((shiftOperand >>> (shiftAmount - 1)) &&& 1 ≠ 0, shiftOperand >>> shiftAmount)
      | 2 => -- ASR
        if shiftAmount = 0 ∨ shiftAmount > 31 then
          if shiftOperand &&& 0x80000000 ≠ 0 then (true, 0xFFFFFFFF) else (false, 0)
        else
          ((shiftOperand >>> (shiftAmount - 1)) &&& 1 ≠ 0, asr32 shiftOperand shiftAmount)
      | _ => -- ROR
        if opcode.testBit 4 then
          if shiftAmount = 0 then
            (s.flagC, shiftOperand)
          else
            let shiftAmount := shiftAmount &&& 31
            if shiftAmount = 0 then
              (shiftOperand >>> 31 ≠ 0, shiftOperand)
            else
              (shiftOperand &&& (1 <<< (shiftAmount - 1)) ≠ 0, ror32 shiftOperand shiftAmount)
        else
          if shiftAmount = 0 then -- RRX
            (shiftOperand &&& 1 ≠ 0, (shiftOperand >>> 1) ||| (s.flagC.toNat <<< 31))
          else
            (shiftOperand &&& (1 <<< (shiftAmount - 1)) ≠ 0, ror32 shiftOperand shiftAmount)

/-- The multiplier cycle count
`((31 - std::max(std::countl_zero(m), std::countl_one(m))) / 8) + 1`
in `int` arithmetic. -/
def multiplierCyclesSigned (m : Nat) : Int :=
  Int.tdiv (31 - (max (countl_zero m) (countl_one m) : Nat)) 8 + 1

/-- The multiplier cycle count `((31 - std::countl_zero(m)) / 8) + 1`. -/
def multiplierCyclesUnsigned (m : Nat) : Int :=
  Int.tdiv (31 - (countl_zero m : Nat)) 8 + 1

/-! ## ARM instructions -/

/-- The `switch (operation)` of `dataProcessing`: result, `operationCarry`
and `operationOverflow`, given the operands and the incoming C and V. -/
def dataProcessingOp (operation : Nat) (operand1 operand2 : Nat) (flagC flagV : Bool) : Nat × Bool × Bool :=
  match operation with
  | 0x0 => (operand1 &&& operand2, flagC, flagV) -- AND
  | 0x1 => (operand1 ^^^ operand2, flagC, flagV) -- EOR
  | 0x2 => -- SUB
    let result := sub32 operand1 operand2
    (result, decide (operand1 ≥ operand2), ((operand1 ^^^ operand2) &&& (operand1 ^^^ result) &&& 0x80000000) > 0)
  | 0x3 => -- RSB
    let result := sub32 operand2 operand1
    (result, decide (operand2 ≥ operand1), ((operand2 ^^^ operand1) &&& (operand2 ^^^ result) &&& 0x80000000) > 0)
  | 0x4 => -- ADD
    let result := u32 (operand1 + operand2)
    (result, (operand1 + operand2) >>> 32 ≠ 0, (not32 (operand1 ^^^ operand2) &&& (operand1 ^^^ result) &&& 0x80000000) > 0)
  | 0x5 => -- ADC
    let result := u32 (operand1 + operand2 + flagC.toNat)
    (result, (operand1 + operand2 + flagC.toNat) >>> 32 ≠ 0, (not32 (operand1 ^^^ operand2) &&& (operand1 ^^^ result)) >>> 31 ≠ 0)
  | 0x6 => -- SBC
    let result := u32 (operand1 + 2 ^ 64 - (operand2 + (!flagC).toNat))
    (result, decide (operand1 ≥ operand2 + (!flagC).toNat), ((operand1 ^^^ operand2) &&& (operand1 ^^^ result)) >>> 31 ≠ 0)
  | 0x7 => -- RSC
    let result := u32 (operand2 + 2 ^ 64 - (operand1 + (!flagC).toNat))
    (result, decide (operand2 ≥ operand1 + (!flagC).toNat), ((operand2 ^^^ operand1) &&& (operand2 ^^^ result)) >>> 31 ≠ 0)
  | 0x8 => (operand1 &&& operand2, flagC, flagV) -- TST
  | 0x9 => (operand1 ^^^ operand2, flagC, flagV) -- TEQ
  | 0xA => -- CMP
    let result := sub32 operand1 operand2
    (result, decide (operand1 ≥ operand2), ((operand1 ^^^ operand2) &&& (operand1 ^^^ result) &&& 0x80000000) > 0)
  | 0xB => -- CMN
    let result := u32 (operand1 + operand2)
    (result, (operand1 + operand2) >>> 32 ≠ 0, (not32 (operand1 ^^^ operand2) &&& (operand1 ^^^ result) &&& 0x80000000) > 0)
  | 0xC => (operand1 ||| operand2, flagC, flagV) -- ORR
  | 0xD => (operand2, flagC, flagV) -- MOV
  | 0xE => (operand1 &&& not32 operand2, flagC, flagV) -- BIC
  | 0xF => (not32 operand2, flagC, flagV) -- MVN
  | _ => (0, flagC, flagV)

/-- Function `dataProcessing<iBit, operation, sBit>`. -/
def dataProcessing (E : Env) (iBit : Bool) (operation : Nat) (sBit : Bool) (opcode : Nat) (s : CPU) : Option CPU :=
  let shiftReg := !iBit && opcode.testBit 4
  let s := if shiftReg then fetchOpcode E s else s
  let sh := computeShift false iBit opcode s
  let shifterCarry := sh.1
  let operand2 := sh.2
  -- Perform operation
  let operand1 := s.R (reg4 (opcode >>> 16))
  let destinationReg := (opcode &&& 0xF000) >>> 12
  let r := dataProcessingOp operation operand1 operand2 s.flagC s.flagV
  let result := r.1
  let operationCarry := r.2.1
  let operationOverflow := r.2.2
  -- Compute common flags
  let s :=
    if sBit then
      let s := s.setFlagN (result >>> 31 ≠ 0)
      let s := s.setFlagZ (result = 0)
      if operation < 2 ∨ operation = 8 ∨ operation = 9 ∨ operation ≥ 0xC then
        s.setFlagC shifterCarry
      else
        (s.setFlagC operationCarry).setFlagV operationOverflow
    else s
  let s := if shiftReg then iCycle 1 s else fetchOpcode E s
  if operation < 8 ∨ operation ≥ 0xC then
    let s := s.setR (reg4 destinationReg) result
    if destinationReg = 15 then
      if sBit then
        match leaveMode s with
        | none => none
        | some s => some (flushPipeline E s)
      else
        some (flushPipeline E s)
    else
      some s
  else if sBit then
    if destinationReg = 15 then leaveMode s else some s
  else
    some s

/-- Function `multiply<accumulate, sBit>`. -/
def multiply (E : Env) (accumulate sBit : Bool) (opcode : Nat) (s : CPU) : CPU :=
  let destinationReg := (opcode >>> 16) &&& 0xF
  let multiplier := s.R (reg4 (opcode >>> 8))
  let s := fetchOpcode E s
  let result := u32 (multiplier * s.R (reg4 opcode))
  let result := if accumulate then u32 (result + s.R (reg4 (opcode >>> 12))) else result
  let s := if accumulate then iCycle 1 s else s
  let s := if destinationReg ≠ 15 then s.setR (reg4 destinationReg) result else s
  let s := if sBit then (s.setFlagN (result >>> 31 ≠ 0)).setFlagZ (result = 0) else s
  let multiplierCycles := multiplierCyclesSigned multiplier
  iCycle multiplierCycles s

/-- Function `multiplyLong<signedMul, accumulate, sBit>`. -/
def multiplyLong (E : Env) (signedMul accumulate sBit : Bool) (opcode : Nat) (s : CPU) : CPU :=
  let destinationRegLow := (opcode >>> 12) &&& 0xF
  let destinationRegHigh := (opcode >>> 16) &&& 0xF
  let multiplier := s.R (reg4 (opcode >>> 8))
  let s := fetchOpcode E s
  let result : Nat :=
    if signedMul then ((toI32 multiplier * toI32 (s.R (reg4 opcode))) % 2 ^ 64).toNat
    else (multiplier * s.R (reg4 opcode)) % 2 ^ 64
  let multiplierCycles := if signedMul then multiplierCyclesSigned multiplier else multiplierCyclesUnsigned multiplier
  let result :=
    if accumulate then
      (result + ((s.R (reg4 destinationRegHigh) <<< 32) ||| s.R (reg4 destinationRegLow))) % 2 ^ 64
    else result
  let s := if accumulate then iCycle 1 s else s
  let s := if sBit then (s.setFlagN (result >>> 63 ≠ 0)).setFlagZ (result = 0) else s
  let s := iCycle (multiplierCycles + 1) s
  let s := if destinationRegLow ≠ 15 then s.setR (reg4 destinationRegLow) (u32 result) else s
  if destinationRegHigh ≠ 15 then s.setR (reg4 destinationRegHigh) (u32 (result >>> 32)) else s

/-- Function `singleDataSwap<byteWord>`. -/
def singleDataSwap (E : Env) (byteWord : Bool) (opcode : Nat) (s : CPU) : CPU :=
  let address := s.R (reg4 (opcode >>> 16))
  let sourceRegister := reg4 opcode
  let destinationRegister := (opcode >>> 12) &&& 0xF
  let s := fetchOpcode E s
  let r :=
    if byteWord then
      let r := busRead E 8 false address true s
      (r.1, busWrite 8 address (s.R sourceRegister) false r.2)
    else
      let r := busRead E 32 false address true s
      (rotateMisaligned 4 r.1 address, busWrite 32 address (s.R sourceRegister) false r.2)
  let s := r.2.setR (reg4 destinationRegister) r.1
  let s := iCycle 1 s
  if destinationRegister = 15 then flushPipeline E s else s

/-- Function `psrLoad<targetPSR>`. -/
def psrLoad (E : Env) (targetPSR : Bool) (opcode : Nat) (s : CPU) : CPU :=
  let destinationReg := reg4 (opcode >>> 12)
  let s :=
    if targetPSR then
      match spsrBank s.mode with
      | some b => s.setR destinationReg (s.bank b 7)
      | none => s.setR destinationReg s.CPSR
    else
      s.setR destinationReg s.CPSR
  fetchOpcode E s

/-- The part of `psrStoreReg` and `psrStoreImmediate` after the operand has
been computed; the two functions share it verbatim. -/
def psrStore (E : Env) (targetPSR : Bool) (opcode : Nat) (operand : Nat) (s : CPU) : Option CPU :=
  -- `target`: `some b` is `&reg.R_b[7]`, `none` is `&reg.CPSR`
  let sel : Option (Option BankId) :=
    if targetPSR then
      match spsrBank s.mode with
      | some b => some (some b)
      | none => none
    else some none
  match sel with
  | none => some (fetchOpcode E s)
  | some target =>
    let deref := fun (s : CPU) => match target with
      | some b => s.bank b 7
      | none => s.CPSR
    let result := 0
    let result := if opcode.testBit 19 then result ||| (operand &&& 0xF0000000) else result ||| (deref s &&& 0xF0000000)
    let r : Option (Nat × CPU) :=
      if opcode.testBit 16 ∧ s.mode ≠ MODE_USER then
        let result := result ||| (operand &&& 0x000000FF)
        if !targetPSR then
          match bankRegisters (operand &&& 0x1F) false s with
          | none => none
          | some s => some (result, s)
        else some (result, s)
      else
        some (result ||| (deref s &&& 0x000000FF), s)
    match r with
    | none => none
    | some (result, s) =>
      let result := if E.disableFiq then result ||| 0x00000040 else result
      let s := match target with
        | some b => s.setBank b 7 (result ||| 0x00000010)
        | none => s.setCPSR (result ||| 0x00000010)
      some (fetchOpcode E s)

/-- Function `psrStoreReg<targetPSR>`. -/
def psrStoreReg (E : Env) (targetPSR : Bool) (opcode : Nat) (s : CPU) : Option CPU :=
  let operand := s.R (reg4 opcode)
  psrStore E targetPSR opcode operand s

/-- Function `psrStoreImmediate<targetPSR>`. -/
def psrStoreImmediate (E : Env) (targetPSR : Bool) (opcode : Nat) (s : CPU) : Option CPU :=
  let operand := opcode &&& 0xFF
  let shiftAmount := (opcode &&& 0xF00) >>> 7
  let operand := if shiftAmount ≠ 0 then ror32 operand shiftAmount else operand
  psrStore E targetPSR opcode operand s

/-- Function `branchExchange`. -/
def branchExchange (E : Env) (opcode : Nat) (s : CPU) : CPU :=
  let newThumb := s.R (reg4 opcode) &&& 1 ≠ 0
  let newAddress := s.R (reg4 opcode) &&& (if newThumb then 0xFFFFFFFE else 0xFFFFFFFC)
  let s := fetchOpcode E s
  let s := s.setThumbMode newThumb
  let s := s.setR 15 newAddress
  flushPipeline E s
/-- Function `halfwordDataTransfer<prePostIndex, upDown, immediateOffset,
writeBack, loadStore, shBits>`. -/
def halfwordDataTransfer (E : Env) (prePostIndex upDown immediateOffset writeBack loadStore : Bool) (shBits : Nat)
    (opcode : Nat) (s : CPU) : CPU :=
  let baseRegister := (opcode >>> 16) &&& 0xF
  let srcDestRegister := (opcode >>> 12) &&& 0xF
  let s := if baseRegister = 15 ∧ writeBack then unknownOpcodeArm opcode "r15 Operand With Writeback" s else s
  let offset := if immediateOffset then ((opcode &&& 0xF00) >>> 4) ||| (opcode &&& 0xF) else s.R (reg4 opcode)
  let address := s.R (reg4 baseRegister)
  let address := if prePostIndex then (if upDown then u32 (address + offset) else sub32 address offset) else address
  let s := fetchOpcode E s
  let r : Nat × CPU :=
    if loadStore then
      if shBits = 1 then -- LDRH
        let r := busRead E 16 false address false s
        (rotateMisaligned 2 r.1 address, r.2)
      else if shBits = 2 then -- LDRSB
        let r := busRead E 8 false address false s
        (asr32 (u32 (r.1 <<< 24)) 24, r.2)
      else if shBits = 3 then -- LDRSH
        let r := busRead E 16 false address false s
        let result := rotateMisaligned 2 r.1 address
        (if address &&& 1 ≠ 0 then asr32 (u32 (result <<< 24)) 24 else asr32 (u32 (result <<< 16)) 16, r.2)
      else (0, s)
    else
      let s := if shBits = 1 then busWrite 16 address (s.R (reg4 srcDestRegister)) false s else s -- STRH
      (0, s.setNextFetchType false)
  let result := r.1
  let s := r.2
  let s := if writeBack ∧ prePostIndex then s.setR (reg4 baseRegister) address else s
  let s :=
    if !prePostIndex then
      let address := if upDown then u32 (address + offset) else sub32 address offset
      s.setR (reg4 baseRegister) address
    else s
  if loadStore then
    let s := s.setR (reg4 srcDestRegister) result
    let s := iCycle 1 s
    if srcDestRegister = 15 then flushPipeline E s else s
  else s

/-- Function `singleDataTransfer<immediateOffset, prePostIndex, upDown,
byteWord, writeBack, loadStore>`. -/
def singleDataTransfer (E : Env) (immediateOffset prePostIndex upDown byteWord writeBack loadStore : Bool)
    (opcode : Nat) (s : CPU) : CPU :=
  let baseRegister := (opcode >>> 16) &&& 0xF
  let srcDestRegister := (opcode >>> 12) &&& 0xF
  let s := if writeBack then (if baseRegister = 15 then unknownOpcodeArm opcode "r15 Operand With Writeback" s else s) else s
  let offset := (computeShift true immediateOffset opcode s).2
  let address := s.R (reg4 baseRegister)
  let address := if prePostIndex then (if upDown then u32 (address + offset) else sub32 address offset) else address
  let s := fetchOpcode E s
  let r : Nat × CPU :=
    if loadStore then -- LDR
      if byteWord then
        busRead E 8 false address false s
      else
        let r := busRead E 32 false address false s
        (rotateMisaligned 4 r.1 address, r.2)
    else -- STR
      let s := if byteWord then busWrite 8 address (s.R (reg4 srcDestRegister)) false s
        else busWrite 32 address (s.R (reg4 srcDestRegister)) false s
      (0, s.setNextFetchType false)
  let result := r.1
  let s := r.2
  let s := if writeBack ∧ prePostIndex then s.setR (reg4 baseRegister) address else s
  let s :=
    if !prePostIndex then
      let address := if upDown then u32 (address + offset) else sub32 address offset
      s.setR (reg4 baseRegister) address
    else s
  if loadStore then
    let s := s.setR (reg4 srcDestRegister) result
    let s := iCycle 1 s
    if srcDestRegister = 15 then flushPipeline E s else s
  else s

/-- Function `undefined`. -/
def undefined (E : Env) (_opcode : Nat) (s : CPU) : Option CPU :=
  match bankRegisters MODE_UNDEFINED true s with
  | none => none
  | some s =>
    let s := s.setR 14 (sub32 (s.R 15) 4)
    let s := fetchOpcode E s
    let s := s.setR 15 0x4
    some (flushPipeline E s)

/-- Loop state of the register loops: the CPU, `address`, `firstReadWrite`. -/
structure LoopState where
  cpu : CPU
  address : Nat
  firstReadWrite : Bool

/-- Body of the `for` loop of the LDM branch of `blockDataTransfer`. -/
def ldmStep (E : Env) (writeBack useAltRegisterBank : Bool) (opcode baseRegister writeBackAddress : Nat)
    (st : LoopState) (i : Nat) : LoopState :=
  if opcode.testBit i then
    let s := st.cpu
    let s := if st.firstReadWrite then (if writeBack then s.setR (reg4 baseRegister) writeBackAddress else s) else s
    let r := busRead E 32 false st.address (!st.firstReadWrite) s
    let value := r.1
    let s := r.2
    let s :=
      if useAltRegisterBank ∧ i ≥ (if s.mode = MODE_FIQ then 8 else 13) ∧ i ≠ 15 then
        s.setBank .usr ⟨(i - 8) % 8, Nat.mod_lt _ (by decide)⟩ value
      else
        s.setR (reg4 i) value
    { cpu := s, address := u32 (st.address + 4), firstReadWrite := false }
  else st

/-- Body of the `for` loop of the STM branch of `blockDataTransfer`. -/
def stmStep (writeBack useAltRegisterBank : Bool) (opcode baseRegister writeBackAddress : Nat)
    (st : LoopState) (i : Nat) : LoopState :=
  if opcode.testBit i then
    let s := st.cpu
    let s :=
      if useAltRegisterBank ∧ i ≥ (if s.mode = MODE_FIQ then 8 else 13) ∧ i ≠ 15 then
        busWrite 32 st.address (s.bank .usr ⟨(i - 8) % 8, Nat.mod_lt _ (by decide)⟩) (!st.firstReadWrite) s
      else
        busWrite 32 st.address (s.R (reg4 i)) (!st.firstReadWrite) s
    let s := if st.firstReadWrite then (if writeBack then s.setR (reg4 baseRegister) writeBackAddress else s) else s
    { cpu := s, address := u32 (st.address + 4), firstReadWrite := false }
  else st

/-- Function `blockDataTransfer<prePostIndex, upDown, sBit, writeBack,
loadStore>`. -/
def blockDataTransfer (E : Env) (prePostIndex upDown sBit writeBack loadStore : Bool) (opcode : Nat) (s : CPU) :
    Option CPU :=
  let baseRegister := (opcode >>> 16) &&& 0xF
  let useAltRegisterBank : Bool :=
    sBit && !(loadStore && opcode.testBit 15) && decide (s.mode ≠ MODE_USER) && decide (s.mode ≠ MODE_SYSTEM)
  let s :=
    if baseRegister = 15 ∧ writeBack then
      unknownOpcodeArm opcode "LDM/STM has r15 as the Base Register When Writeback is Enabled" s
    else s
  let address := s.R (reg4 baseRegister)
  let emptyRegList : Bool := opcode &&& 0xFFFF = 0
  let aw : Nat × Nat := -- `address`, `writeBackAddress`
    if upDown then -- I
      let writeBackAddress := u32 (address + popcount16 (opcode &&& 0xFFFF) * 4)
      let writeBackAddress := if emptyRegList then u32 (writeBackAddress + 0x40) else writeBackAddress
      (if prePostIndex then u32 (address + 4) else address, writeBackAddress)
    else -- D
      let address := sub32 address (popcount16 (opcode &&& 0xFFFF) * 4)
      let address := if emptyRegList then sub32 address 0x40 else address
      (if !prePostIndex then u32 (address + 4) else address, address)
  let address := aw.1
  let writeBackAddress := aw.2
  let s := fetchOpcode E s
  let s :=
    if loadStore then -- LDM
      if emptyRegList then
        let s := if writeBack then s.setR (reg4 baseRegister) writeBackAddress else s
        let r := busRead E 32 false address false s
        let s := r.2.setR 15 r.1
        flushPipeline E s
      else
        let st := (List.range 16).foldl (ldmStep E writeBack useAltRegisterBank opcode baseRegister writeBackAddress)
          { cpu := s, address := address, firstReadWrite := true }
        let s := iCycle 1 st.cpu
        if opcode.testBit 15 then flushPipeline E s else s
    else -- STM
      let s :=
        if emptyRegList then
          let s := busWrite 32 address (s.R 15) false s
          if writeBack then s.setR (reg4 baseRegister) writeBackAddress else s
        else
          ((List.range 16).foldl (stmStep writeBack useAltRegisterBank opcode baseRegister writeBackAddress)
            { cpu := s, address := address, firstReadWrite := true }).cpu
      s.setNextFetchType false
  if sBit ∧ loadStore ∧ opcode.testBit 15 then leaveMode s else some s

/-- Function `branch<link>`. -/
def branch (E : Env) (link : Bool) (opcode : Nat) (s : CPU) : CPU :=
  let address := u32 (s.R 15 + asr32 (u32 ((opcode &&& 0x00FFFFFF) <<< 8)) 6)
  let s := fetchOpcode E s
  let s := if link then s.setR 14 (sub32 (s.R 15) 8) else s
  let s := s.setR 15 address
  flushPipeline E s

/-- Function `armCoprocessorRegisterTransfer<loadStore>`. -/
def armCoprocessorRegisterTransfer (E : Env) (_loadStore : Bool) (opcode : Nat) (s : CPU) : Option CPU :=
  let copNum := (opcode >>> 8) &&& 0xF
  if copNum = 14 then some (fetchOpcode E s) else undefined E opcode s

/-- Function `softwareInterrupt`. -/
def softwareInterrupt (E : Env) (_opcode : Nat) (s : CPU) : Option CPU :=
  let s := fetchOpcode E s
  match bankRegisters MODE_SUPERVISOR true s with
  | none => none
  | some s =>
    let s := s.setR 14 (sub32 (s.R 15) 8)
    let s := s.setR 15 0x8
    some (flushPipeline E s)
/-! ## THUMB instructions -/

/-- Function `thumbMoveShiftedReg<op, shiftAmount>`. -/
def thumbMoveShiftedReg (E : Env) (op shiftAmount : Nat) (opcode : Nat) (s : CPU) : CPU :=
  let shiftOperand := s.R (reg3 (opcode >>> 3))
  let r : Nat × CPU :=
    match op with
    | 0 => -- LSL
      if shiftAmount ≠ 0 then
        if shiftAmount > 31 then
          (0, s.setFlagC (if shiftAmount = 32 then shiftOperand &&& 1 ≠ 0 else false))
        else
          (u32 (shiftOperand <<< shiftAmount), s.setFlagC (shiftOperand &&& (1 <<< (31 - (shiftAmount - 1))) ≠ 0))
      else (shiftOperand, s)
    | 1 => -- LSR
      if shiftAmount = 0 then
        (0, s.setFlagC (shiftOperand >>> 31 ≠ 0))
      else
        (shiftOperand >>> shiftAmount, s.setFlagC ((shiftOperand >>> (shiftAmount - 1)) &&& 1 ≠ 0))
    | 2 => -- ASR
      if shiftAmount = 0 then
        if shiftOperand &&& 0x80000000 ≠ 0 then (0xFFFFFFFF, s.setFlagC true) else (0, s.setFlagC false)
      else
        (asr32 shiftOperand shiftAmount, s.setFlagC ((shiftOperand >>> (shiftAmount - 1)) &&& 1 ≠ 0))
    | _ => (shiftOperand, s)
  let shiftOperand := r.1
  let s := r.2
  let s := s.setFlagN (shiftOperand >>> 31 ≠ 0)
  let s := s.setFlagZ (shiftOperand = 0)
  let s := s.setR (reg3 opcode) shiftOperand
  fetchOpcode E s

/-- Function `thumbAddSubtract<immediate, op, offset>`. -/
def thumbAddSubtract (E : Env) (immediate op : Bool) (offset : Nat) (opcode : Nat) (s : CPU) : CPU :=
  let operand1 := s.R (reg3 (opcode >>> 3))
  let operand2 := if immediate then offset else s.R (reg4 offset)
  let r : Nat × CPU :=
    if op then -- SUB
      let s := s.setFlagC (operand1 ≥ operand2)
      let result := sub32 operand1 operand2
      let s := s.setFlagV (((operand1 ^^^ operand2) &&& (operand1 ^^^ result) &&& 0x80000000) > 0)
      let s := s.setFlagN (result >>> 31 ≠ 0)
      (result, s.setFlagZ (result = 0))
    else -- ADD
      let s := s.setFlagC ((operand1 + operand2) >>> 32 ≠ 0)
      let result := u32 (operand1 + operand2)
      let s := s.setFlagV ((not32 (operand1 ^^^ operand2) &&& (operand1 ^^^ result) &&& 0x80000000) > 0)
      let s := s.setFlagN (result >>> 31 ≠ 0)
      (result, s.setFlagZ (result = 0))
  let s := r.2.setR (reg3 opcode) r.1
  fetchOpcode E s

/-- Function `thumbAluImmediate<op, destinationReg>`. -/
def thumbAluImmediate (E : Env) (op destinationReg : Nat) (opcode : Nat) (s : CPU) : CPU :=
  let operand1 := s.R (reg4 destinationReg)
  let operand2 := opcode &&& 0xFF
  let r : Nat × CPU :=
    match op with
    | 0 => (operand2, s) -- MOV
    | 1 => -- CMP
      let s := s.setFlagC (operand1 ≥ operand2)
      let result := sub32 operand1 operand2
      (result, s.setFlagV (((operand1 ^^^ operand2) &&& (operand1 ^^^ result) &&& 0x80000000) > 0))
    | 2 => -- ADD
      let s := s.setFlagC ((operand1 + operand2) >>> 32 ≠ 0)
      let result := u32 (operand1 + operand2)
      (result, s.setFlagV ((not32 (operand1 ^^^ operand2) &&& (operand1 ^^^ result) &&& 0x80000000) > 0))
    | _ => -- SUB
      let s := s.setFlagC (operand1 ≥ operand2)
      let result := sub32 operand1 operand2
      (result, s.setFlagV (((operand1 ^^^ operand2) &&& (operand1 ^^^ result) &&& 0x80000000) > 0))
  let result := r.1
  let s := r.2
  let s := s.setFlagN (result >>> 31 ≠ 0)
  let s := s.setFlagZ (result = 0)
  let s := if op ≠ 1 then s.setR (reg4 destinationReg) result else s
  fetchOpcode E s

/-- The `switch (op)` of `thumbAluReg`: the result and the state after it. -/
def thumbAluRegOp (E : Env) (op : Nat) (operand1 operand2 : Nat) (s : CPU) : Nat × CPU :=
  match op with
  | 0x0 => (operand1 &&& operand2, s) -- AND
  | 0x1 => (operand1 ^^^ operand2, s) -- EOR
  | 0x2 => -- LSL
    let r : Nat × CPU :=
      if operand2 = 0 then (operand1, s)
      else if operand2 > 31 then
        (0, s.setFlagC (if operand2 = 32 then operand1 &&& 1 ≠ 0 else false))
      else
        (u32 (operand1 <<< operand2), s.setFlagC ((operand1 &&& (1 <<< (31 - (operand2 - 1)))) > 0))
    (r.1, fetchOpcode E r.2)
  | 0x3 => -- LSR
    let r : Nat × CPU :=
      if operand2 = 0 then (operand1, s)
      else if operand2 = 32 then (0, s.setFlagC (operand1 >>> 31 ≠ 0))
      else if operand2 > 32 then (0, s.setFlagC false)
      else (operand1 >>> operand2, s.setFlagC ((operand1 >>> (operand2 - 1)) &&& 1 ≠ 0))
    (r.1, fetchOpcode E r.2)
  | 0x4 => -- ASR
    let r : Nat × CPU :=
      if operand2 = 0 then (operand1, s)
      else if operand2 > 31 then
        if operand1 &&& 0x80000000 ≠ 0 then (0xFFFFFFFF, s.setFlagC true) else (0, s.setFlagC false)
      else (asr32 operand1 operand2, s.setFlagC ((operand1 >>> (operand2 - 1)) &&& 1 ≠ 0))
    (r.1, fetchOpcode E r.2)
  | 0x5 => -- ADC
    let result := u32 (operand1 + operand2 + s.flagC.toNat)
    let s := s.setFlagC ((operand1 + operand2 + s.flagC.toNat) >>> 32 ≠ 0)
    (result, s.setFlagV ((not32 (operand1 ^^^ operand2) &&& (operand1 ^^^ result)) >>> 31 ≠ 0))
  | 0x6 => -- SBC
    let result := u32 (operand1 + 2 ^ 64 - (operand2 + (!s.flagC).toNat))
    let s := s.setFlagC (operand1 ≥ operand2 + (!s.flagC).toNat)
    (result, s.setFlagV (((operand1 ^^^ operand2) &&& (operand1 ^^^ result)) >>> 31 ≠ 0))
  | 0x7 => -- ROR
    let r : Nat × CPU :=
      if operand2 = 0 then (operand1, s)
      else
        let operand2 := operand2 &&& 31
        if operand2 = 0 then (operand1, s.setFlagC (operand1 >>> 31 ≠ 0))
        else (ror32 operand1 operand2, s.setFlagC (operand1 &&& (1 <<< (operand2 - 1)) ≠ 0))
    (r.1, fetchOpcode E r.2)
  | 0x8 => (operand1 &&& operand2, s) -- TST
  | 0x9 => -- NEG
    let s := s.setFlagC (0 ≥ operand2)
    let result := sub32 0 operand2
    (result, s.setFlagV ((operand2 &&& result &&& 0x80000000) > 0))
  | 0xA => -- CMP
    let s := s.setFlagC (operand1 ≥ operand2)
    let result := sub32 operand1 operand2
    (result, s.setFlagV (((operand1 ^^^ operand2) &&& (operand1 ^^^ result) &&& 0x80000000) > 0))
  | 0xB => -- CMN
    let s := s.setFlagC ((operand1 + operand2) >>> 32 ≠ 0)
    let result := u32 (operand1 + operand2)
    (result, s.setFlagV ((not32 (operand1 ^^^ operand2) &&& (operand1 ^^^ result) &&& 0x80000000) > 0))
  | 0xC => (operand1 ||| operand2, s) -- ORR
  | 0xD => -- MUL
    let s := fetchOpcode E s
    let s := iCycle (Int.tdiv (31 - (max (countl_zero operand1) (countl_one operand1) : Nat)) 8) s
    (u32 (operand1 * operand2), s)
  | 0xE => (operand1 &&& not32 operand2, s) -- BIC
  | _ => (not32 operand2, s) -- MVN

/-- Function `thumbAluReg<op>`. -/
def thumbAluReg (E : Env) (op : Nat) (opcode : Nat) (s : CPU) : CPU :=
  let destinationReg := reg3 opcode
  let operand1 := s.R destinationReg
  let operand2 := s.R (reg3 (opcode >>> 3))
  let writeResult : Bool := op ≠ 0x8 ∧ op ≠ 0xA ∧ op ≠ 0xB
  let endWithIdle : Bool := op = 0x2 ∨ op = 0x3 ∨ op = 0x4 ∨ op = 0x7 ∨ op = 0xD
  let r := thumbAluRegOp E op operand1 operand2 s
  let result := r.1
  let s := r.2
  -- Compute common flags
  let s := s.setFlagN (result >>> 31 ≠ 0)
  let s := s.setFlagZ (result = 0)
  let s := if writeResult then s.setR destinationReg result else s
  if endWithIdle then iCycle 1 s else fetchOpcode E s

/-- Function `thumbHighRegOperation<op, opFlag1, opFlag2>`. -/
def thumbHighRegOperation (E : Env) (op : Nat) (opFlag1 opFlag2 : Bool) (opcode : Nat) (s : CPU) : CPU :=
  let operand1 := (opcode &&& 0x7) + (if opFlag1 then 8 else 0)
  let operand2 := ((opcode >>> 3) &&& 0x7) + (if opFlag2 then 8 else 0)
  if op = 3 then -- BX
    let newThumb := s.R (reg4 operand2) &&& 1 ≠ 0
    let newAddress := s.R (reg4 operand2)
    let s := fetchOpcode E s
    let s := s.setThumbMode newThumb
    let s := s.setR 15 newAddress
    flushPipeline E s
  else
    let r : Nat × CPU :=
      match op with
      | 0 => (u32 (s.R (reg4 operand1) + s.R (reg4 operand2)), s) -- ADD
      | 1 => -- CMP
        let s1 := s.setFlagC (s.R (reg4 operand1) ≥ s.R (reg4 operand2))
        let result := sub32 (s.R (reg4 operand1)) (s.R (reg4 operand2))
        let s1 := s1.setFlagV (((s.R (reg4 operand1) ^^^ s.R (reg4 operand2)) &&& (s.R (reg4 operand1) ^^^ result) &&& 0x80000000) > 0)
        let s1 := s1.setFlagN (result >>> 31 ≠ 0)
        (result, s1.setFlagZ (result = 0))
      | _ => (s.R (reg4 operand2), s) -- MOV
    let result := r.1
    let s := fetchOpcode E r.2
    let s := if op ≠ 1 then s.setR (reg4 operand1) result else s
    if operand1 = 15 then flushPipeline E s else s

/-- Function `thumbPcRelativeLoad<destinationReg>`. -/
def thumbPcRelativeLoad (E : Env) (destinationReg : Nat) (opcode : Nat) (s : CPU) : CPU :=
  let address := u32 (s.R 15 + ((opcode &&& 0xFF) <<< 2)) &&& 0xFFFFFFFC
  let s := fetchOpcode E s
  let r := busRead E 32 false address false s
  let s := r.2.setR (reg4 destinationReg) (rotateMisaligned 4 r.1 address)
  iCycle 1 s

/-- Function `thumbLoadStoreRegOffset<loadStore, byteWord, offsetReg>`. -/
def thumbLoadStoreRegOffset (E : Env) (loadStore byteWord : Bool) (offsetReg : Nat) (opcode : Nat) (s : CPU) : CPU :=
  let srcDestRegister := reg3 opcode
  let address := u32 (s.R (reg3 (opcode >>> 3)) + s.R (reg4 offsetReg))
  let s := fetchOpcode E s
  if loadStore then
    let s :=
      if byteWord then -- LDRB
        let r := busRead E 8 false address false s
        r.2.setR srcDestRegister r.1
      else -- LDR
        let r := busRead E 32 false address false s
        r.2.setR srcDestRegister (rotateMisaligned 4 r.1 address)
    iCycle 1 s
  else
    let s :=
      if byteWord then busWrite 8 address (s.R srcDestRegister) false s -- STRB
      else busWrite 32 address (s.R srcDestRegister) false s -- STR
    s.setNextFetchType false

/-- Function `thumbLoadStoreSext<hsBits, offsetReg>`. -/
def thumbLoadStoreSext (E : Env) (hsBits offsetReg : Nat) (opcode : Nat) (s : CPU) : CPU :=
  let srcDestRegister := reg3 opcode
  let address := u32 (s.R (reg3 (opcode >>> 3)) + s.R (reg4 offsetReg))
  let s := fetchOpcode E s
  let r : Nat × CPU :=
    match hsBits with
    | 0 => -- STRH
      let s := busWrite 16 address (s.R srcDestRegister) false s
      (0, s.setNextFetchType false)
    | 1 => -- LDSB
      let r := busRead E 8 false address false s
      (asr32 (u32 (r.1 <<< 24)) 24, r.2)
    | 2 => -- LDRH
      let r := busRead E 16 false address false s
      (rotateMisaligned 2 r.1 address, r.2)
    | _ => -- LDSH
      let r := busRead E 16 false address false s
      let result := rotateMisaligned 2 r.1 address
      (if address &&& 1 ≠ 0 then asr32 (u32 (result <<< 24)) 24 else asr32 (u32 (result <<< 16)) 16, r.2)
  if hsBits ≠ 0 then iCycle 1 (r.2.setR srcDestRegister r.1) else r.2

/-- Function `thumbLoadStoreImmediateOffset<byteWord, loadStore, offset>`. -/
def thumbLoadStoreImmediateOffset (E : Env) (byteWord loadStore : Bool) (offset : Nat) (opcode : Nat) (s : CPU) : CPU :=
  let srcDestRegister := reg3 opcode
  let address := u32 (s.R (reg3 (opcode >>> 3)) + (if byteWord then offset else offset <<< 2))
  let s := fetchOpcode E s
  if loadStore then
    let s :=
      if byteWord then -- LDRB
        let r := busRead E 8 false address false s
        r.2.setR srcDestRegister r.1
      else -- LDR
        let r := busRead E 32 false address false s
        r.2.setR srcDestRegister (rotateMisaligned 4 r.1 address)
    iCycle 1 s
  else
    let s :=
      if byteWord then busWrite 8 address (s.R srcDestRegister) false s -- STRB
      else busWrite 32 address (s.R srcDestRegister) false s -- STR
    s.setNextFetchType false

/-- Function `thumbLoadStoreHalfword<loadStore, offset>`. -/
def thumbLoadStoreHalfword (E : Env) (loadStore : Bool) (offset : Nat) (opcode : Nat) (s : CPU) : CPU :=
  let srcDestRegister := reg3 opcode
  let address := u32 (s.R (reg3 (opcode >>> 3)) + (offset <<< 1))
  let s := fetchOpcode E s
  if loadStore then -- LDRH
    let r := busRead E 16 false address false s
    let s := r.2.setR srcDestRegister (rotateMisaligned 2 r.1 address)
    iCycle 1 s
  else -- STRH
    let s := busWrite 16 address (s.R srcDestRegister) false s
    s.setNextFetchType false

/-- Function `thumbSpRelativeLoadStore<loadStore, destinationReg>`. -/
def thumbSpRelativeLoadStore (E : Env) (loadStore : Bool) (destinationReg : Nat) (opcode : Nat) (s : CPU) : CPU :=
  let address := u32 (s.R 13 + ((opcode &&& 0xFF) <<< 2))
  let s := fetchOpcode E s
  if loadStore then
    let r := busRead E 32 false address false s
    let s := r.2.setR (reg4 destinationReg) r.1
    iCycle 1 s
  else
    let s := busWrite 32 address (s.R (reg4 destinationReg)) false s
    s.setNextFetchType false

/-- Function `thumbLoadAddress<spPc, destinationReg>`. -/
def thumbLoadAddress (E : Env) (spPc : Bool) (destinationReg : Nat) (opcode : Nat) (s : CPU) : CPU :=
  let s :=
    if spPc then s.setR (reg4 destinationReg) (u32 (s.R 13 + ((opcode &&& 0xFF) <<< 2)))
    else s.setR (reg4 destinationReg) (u32 ((s.R 15 &&& 0xFFFFFFFC) + ((opcode &&& 0xFF) <<< 2)))
  fetchOpcode E s

/-- Function `thumbSpAddOffset<isNegative>`. -/
def thumbSpAddOffset (E : Env) (isNegative : Bool) (opcode : Nat) (s : CPU) : CPU :=
  let operand := (opcode &&& 0x7F) <<< 2
  let s := if isNegative then s.setR 13 (sub32 (s.R 13) operand) else s.setR 13 (u32 (s.R 13 + operand))
  fetchOpcode E s
/-- Body of the `for` loop of the POP branch of `thumbPushPopRegisters`. -/
def popStep (E : Env) (opcode : Nat) (st : LoopState) (i : Nat) : LoopState :=
  if opcode.testBit i then
    let r := busRead E 32 false st.address (!st.firstReadWrite) st.cpu
    { cpu := r.2.setR (reg4 i) r.1, address := u32 (st.address + 4), firstReadWrite := false }
  else st

/-- Body of the `for` loop of the PUSH branch of `thumbPushPopRegisters`;
the loop never clears `firstReadWrite`. -/
def pushStep (opcode : Nat) (st : LoopState) (i : Nat) : LoopState :=
  if opcode.testBit i then
    let s := busWrite 32 st.address (st.cpu.R (reg4 i)) (!st.firstReadWrite) st.cpu
    { cpu := s, address := u32 (st.address + 4), firstReadWrite := st.firstReadWrite }
  else st

/-- Function `thumbPushPopRegisters<loadStore, pcLr>`. -/
def thumbPushPopRegisters (E : Env) (loadStore pcLr : Bool) (opcode : Nat) (s : CPU) : CPU :=
  let address := s.R 13
  let emptyRegList : Bool := opcode &&& 0xFF = 0 ∧ !pcLr
  if loadStore then -- POP/LDMIA!
    let writeBackAddress := u32 (address + popcount16 (opcode &&& 0xFF) * 4)
    let writeBackAddress := if emptyRegList then u32 (writeBackAddress + 0x40) else writeBackAddress
    let s := s.setR 13 (u32 (writeBackAddress + pcLr.toNat * 4))
    let s := fetchOpcode E s
    if emptyRegList then
      let r := busRead E 32 false address false s
      let s := r.2.setR 15 r.1
      flushPipeline E s
    else
      let st := (List.range 8).foldl (popStep E opcode) { cpu := s, address := address, firstReadWrite := true }
      let s := iCycle 1 st.cpu
      if pcLr then
        let r := busRead E 32 false st.address true s
        let s := r.2.setR 15 r.1
        flushPipeline E s
      else s
  else -- PUSH/STMDB!
    let address := sub32 address ((popcount16 (opcode &&& 0xFF) + pcLr.toNat) * 4)
    let address := if emptyRegList then sub32 address 0x40 else address
    let s := s.setR 13 address
    let s := fetchOpcode E s
    let s :=
      if emptyRegList then
        busWrite 32 address (u32 (s.R 15 + 2)) false s
      else
        let st := (List.range 8).foldl (pushStep opcode) { cpu := s, address := address, firstReadWrite := true }
        if pcLr then busWrite 32 st.address (st.cpu.R 14) true st.cpu else st.cpu
    s.setNextFetchType false

/-- Body of the `for` loop of the LDMIA branch of `thumbMultipleLoadStore`. -/
def thumbLdmStep (E : Env) (opcode baseReg writeBackAddress : Nat) (st : LoopState) (i : Nat) : LoopState :=
  if opcode.testBit i then
    let s := if st.firstReadWrite then st.cpu.setR (reg4 baseReg) writeBackAddress else st.cpu
    let r := busRead E 32 false st.address (!st.firstReadWrite) s
    { cpu := r.2.setR (reg4 i) r.1, address := u32 (st.address + 4), firstReadWrite := false }
  else st

/-- Body of the `for` loop of the STMIA branch of `thumbMultipleLoadStore`. -/
def thumbStmStep (opcode baseReg writeBackAddress : Nat) (st : LoopState) (i : Nat) : LoopState :=
  if opcode.testBit i then
    let s := busWrite 32 st.address (st.cpu.R (reg4 i)) (!st.firstReadWrite) st.cpu
    let s := if st.firstReadWrite then s.setR (reg4 baseReg) writeBackAddress else s
    { cpu := s, address := u32 (st.address + 4), firstReadWrite := false }
  else st

/-- Function `thumbMultipleLoadStore<loadStore, baseReg>`. -/
def thumbMultipleLoadStore (E : Env) (loadStore : Bool) (baseReg : Nat) (opcode : Nat) (s : CPU) : CPU :=
  let address := s.R (reg4 baseReg)
  let emptyRegList : Bool := opcode &&& 0xFF = 0
  let writeBackAddress := u32 (address + popcount16 (opcode &&& 0xFF) * 4)
  let writeBackAddress := if emptyRegList then u32 (writeBackAddress + 0x40) else writeBackAddress
  let s := fetchOpcode E s
  if loadStore then -- LDMIA!
    if emptyRegList then
      let s := s.setR (reg4 baseReg) writeBackAddress
      let r := busRead E 32 false address true s
      let s := r.2.setR 15 r.1
      flushPipeline E s
    else
      let st := (List.range 8).foldl (thumbLdmStep E opcode baseReg writeBackAddress)
        { cpu := s, address := address, firstReadWrite := true }
      iCycle 1 st.cpu
  else -- STMIA!
    let s :=
      if emptyRegList then
        let s := busWrite 32 address (s.R 15) false s
        s.setR (reg4 baseReg) writeBackAddress
      else
        ((List.range 8).foldl (thumbStmStep opcode baseReg writeBackAddress)
          { cpu := s, address := address, firstReadWrite := true }).cpu
    s.setNextFetchType false

/-- The expression `(i16)(x) >> n` widened to `int` and converted to `u32`. -/
def asr16 (x n : Nat) : Nat :=
  ofInt32 ((if x % 2 ^ 16 < 2 ^ 15 then ((x % 2 ^ 16 : Nat) : Int) else ((x % 2 ^ 16 : Nat) : Int) - 2 ^ 16) >>> n)

/-- Function `thumbConditionalBranch<condition>`. -/
def thumbConditionalBranch (E : Env) (condition : Nat) (opcode : Nat) (s : CPU) : CPU :=
  let newAddress := u32 (s.R 15 + asr16 (opcode <<< 8) 7)
  let s := fetchOpcode E s
  let c := checkCondition condition s
  let s := c.2
  if c.1 then
    let s := s.setR 15 newAddress
    flushPipeline E s
  else s

/-- Function `thumbUndefined`. -/
def thumbUndefined (E : Env) (_opcode : Nat) (s : CPU) : Option CPU :=
  match bankRegisters MODE_UNDEFINED true s with
  | none => none
  | some s =>
    let s := s.setR 14 (sub32 (s.R 15) 2)
    let s := fetchOpcode E s
    let s := s.setR 15 0x4
    some (flushPipeline E s)

/-- Function `thumbSoftwareInterrupt`. -/
def thumbSoftwareInterrupt (E : Env) (_opcode : Nat) (s : CPU) : Option CPU :=
  let s := fetchOpcode E s
  match bankRegisters MODE_SUPERVISOR true s with
  | none => none
  | some s =>
    let s := s.setR 14 (sub32 (s.R 15) 4)
    let s := s.setR 15 0x8
    some (flushPipeline E s)

/-- Function `thumbUnconditionalBranch`. -/
def thumbUnconditionalBranch (E : Env) (opcode : Nat) (s : CPU) : CPU :=
  let newAddress := u32 (s.R 15 + asr16 (opcode <<< 5) 4)
  let s := fetchOpcode E s
  let s := s.setR 15 newAddress
  flushPipeline E s

/-- Function `thumbLongBranchLink<lowHigh>`. -/
def thumbLongBranchLink (E : Env) (lowHigh : Bool) (opcode : Nat) (s : CPU) : CPU :=
  if lowHigh then
    let address := u32 (s.R 14 + ((opcode &&& 0x7FF) <<< 1))
    let s := s.setR 14 (sub32 (s.R 15) 2 ||| 1)
    let s := fetchOpcode E s
    let s := s.setR 15 address
    flushPipeline E s
  else
    let s := s.setR 14 (u32 (s.R 15 + asr32 (u32 (opcode <<< 21)) 9))
    fetchOpcode E s

/-! ## Instruction tables -/

/-- The member functions an `armLUT` entry can point to, with their template
arguments. -/
inductive ArmEntry where
  | undefined
  | multiply (accumulate sBit : Bool)
  | multiplyLong (signedMul accumulate sBit : Bool)
  | psrLoad (targetPSR : Bool)
  | psrStoreReg (targetPSR : Bool)
  | psrStoreImmediate (targetPSR : Bool)
  | singleDataSwap (byteWord : Bool)
  | branchExchange
  | halfwordDataTransfer (prePostIndex upDown immediateOffset writeBack loadStore : Bool) (shBits : Nat)
  | dataProcessing (iBit : Bool) (operation : Nat) (sBit : Bool)
  | singleDataTransfer (immediateOffset prePostIndex upDown byteWord writeBack loadStore : Bool)
  | blockDataTransfer (prePostIndex upDown sBit writeBack loadStore : Bool)
  | branch (link : Bool)
  | armCoprocessorRegisterTransfer (loadStore : Bool)
  | softwareInterrupt
  | unknownOpcodeArm
  deriving DecidableEq

/-- The member functions a `thumbLUT` entry can point to, with their template
arguments. -/
inductive ThumbEntry where
  | thumbAddSubtract (immediate op : Bool) (offset : Nat)
  | thumbMoveShiftedReg (op shiftAmount : Nat)
  | thumbAluImmediate (op destinationReg : Nat)
  | thumbAluReg (op : Nat)
  | thumbHighRegOperation (op : Nat) (opFlag1 opFlag2 : Bool)
  | thumbPcRelativeLoad (destinationReg : Nat)
  | thumbLoadStoreRegOffset (loadStore byteWord : Bool) (offsetReg : Nat)
  | thumbLoadStoreSext (hsBits offsetReg : Nat)
  | thumbLoadStoreImmediateOffset (byteWord loadStore : Bool) (offset : Nat)
  | thumbLoadStoreHalfword (loadStore : Bool) (offset : Nat)
  | thumbSpRelativeLoadStore (loadStore : Bool) (destinationReg : Nat)
  | thumbLoadAddress (spPc : Bool) (destinationReg : Nat)
  | thumbSpAddOffset (isNegative : Bool)
  | thumbPushPopRegisters (loadStore pcLr : Bool)
  | thumbMultipleLoadStore (loadStore : Bool) (baseReg : Nat)
  | thumbUndefined
  | thumbSoftwareInterrupt
  | thumbConditionalBranch (condition : Nat)
  | thumbUnconditionalBranch
  | thumbLongBranchLink (lowHigh : Bool)
  | unknownOpcodeThumb
  deriving DecidableEq

/-- The conversion `(bool)(lutFillIndex & mask)`. -/
def bits (i mask : Nat) : Bool := i &&& mask ≠ 0

/-- Function `decode<lutFillIndex>`. -/
def decode (i : Nat) : ArmEntry :=
  if i &&& 0b111110110000 = 0b001100000000 then .undefined
  else if i &&& 0b111000000001 = 0b011000000001 then .undefined
  else if i &&& 0b1111111111111 = 0b0000101100001 then .undefined
  else if i &&& 0b1111110011111 = 0b0000100000101 then .undefined
  else if i &&& 0b111111001111 = 0b000000001001 then
    .multiply (bits i 0b000000100000) (bits i 0b000000010000)
  else if i &&& 0b111110001111 = 0b000010001001 then
    .multiplyLong (bits i 0b000001000000) (bits i 0b000000100000) (bits i 0b000000010000)
  else if i &&& 0b111110111111 = 0b000100000000 then .psrLoad (bits i 0b000001000000)
  else if i &&& 0b111110111111 = 0b000100100000 then .psrStoreReg (bits i 0b000001000000)
  else if i &&& 0b111110110000 = 0b001100100000 then .psrStoreImmediate (bits i 0b000001000000)
  else if i &&& 0b111110111111 = 0b000100001001 then .singleDataSwap (bits i 0b000001000000)
  else if i &&& 0b111111111111 = 0b000100100001 then .branchExchange
  else if i &&& 0b111000001001 = 0b000000001001 then
    .halfwordDataTransfer (bits i 0b000100000000) (bits i 0b000010000000) (bits i 0b000001000000)
      (bits i 0b000000100000) (bits i 0b000000010000) ((i &&& 0b000000000110) >>> 1)
  else if i &&& 0b110000000000 = 0b000000000000 then
    .dataProcessing (bits i 0b001000000000) ((i &&& 0b000111100000) >>> 5) (bits i 0b000000010000)
  else if i &&& 0b110000000000 = 0b010000000000 then
    .singleDataTransfer (bits i 0b001000000000) (bits i 0b000100000000) (bits i 0b000010000000)
      (bits i 0b000001000000) (bits i 0b000000100000) (bits i 0b000000010000)
  else if i &&& 0b111000000000 = 0b100000000000 then
    .blockDataTransfer (bits i 0b000100000000) (bits i 0b000010000000) (bits i 0b000001000000)
      (bits i 0b000000100000) (bits i 0b000000010000)
  else if i &&& 0b111000000000 = 0b101000000000 then .branch (bits i 0b000100000000)
  else if i &&& 0b111000000000 = 0b110000000000 then .undefined
  else if i &&& 0b111100000001 = 0b111000000000 then .undefined
  else if i &&& 0b111100000001 = 0b111000000001 then .armCoprocessorRegisterTransfer (bits i 0b000000010000)
  else if i &&& 0b111100000000 = 0b111100000000 then .softwareInterrupt
  else .unknownOpcodeArm

/-- Function `decodeThumb<lutFillIndex>`. -/
def decodeThumb (i : Nat) : ThumbEntry :=
  if i &&& 0b1111100000 = 0b0001100000 then
    .thumbAddSubtract (bits i 0b0000010000) (bits i 0b0000001000) (i &&& 0b0000000111)
  else if i &&& 0b1110000000 = 0b0000000000 then
    .thumbMoveShiftedReg ((i &&& 0b0001100000) >>> 5) (i &&& 0b0000011111)
  else if i &&& 0b1110000000 = 0b0010000000 then
    .thumbAluImmediate ((i &&& 0b0001100000) >>> 5) ((i &&& 0b0000011100) >>> 2)
  else if i &&& 0b1111110000 = 0b0100000000 then .thumbAluReg (i &&& 0b0000001111)
  else if i &&& 0b1111110000 = 0b0100010000 then
    .thumbHighRegOperation ((i &&& 0b0000001100) >>> 2) (bits i 0b0000000010) (bits i 0b0000000001)
  else if i &&& 0b1111100000 = 0b0100100000 then .thumbPcRelativeLoad ((i &&& 0b0000011100) >>> 2)
  else if i &&& 0b1111001000 = 0b0101000000 then
    .thumbLoadStoreRegOffset (bits i 0b0000100000) (bits i 0b0000010000) (i &&& 0b0000000111)
  else if i &&& 0b1111001000 = 0b0101001000 then
    .thumbLoadStoreSext ((i &&& 0b0000110000) >>> 4) (i &&& 0b0000000111)
  else if i &&& 0b1110000000 = 0b0110000000 then
    .thumbLoadStoreImmediateOffset (bits i 0b0001000000) (bits i 0b0000100000) (i &&& 0b0000011111)
  else if i &&& 0b1111000000 = 0b1000000000 then
    .thumbLoadStoreHalfword (bits i 0b0000100000) (i &&& 0b0000011111)
  else if i &&& 0b1111000000 = 0b1001000000 then
    .thumbSpRelativeLoadStore (bits i 0b0000100000) ((i &&& 0b0000011100) >>> 2)
  else if i &&& 0b1111000000 = 0b1010000000 then
    .thumbLoadAddress (bits i 0b0000100000) ((i &&& 0b0000011100) >>> 2)
  else if i &&& 0b1111111100 = 0b1011000000 then .thumbSpAddOffset (bits i 0b0000000010)
  else if i &&& 0b1111011000 = 0b1011010000 then
    .thumbPushPopRegisters (bits i 0b0000100000) (bits i 0b0000000100)
  else if i &&& 0b1111000000 = 0b1100000000 then
    .thumbMultipleLoadStore (bits i 0b0000100000) ((i &&& 0b0000011100) >>> 2)
  else if i &&& 0b1111111100 = 0b1101111000 then .thumbUndefined
  else if i &&& 0b1111111100 = 0b1101111100 then .thumbSoftwareInterrupt
  else if i &&& 0b1111000000 = 0b1101000000 then .thumbConditionalBranch ((i &&& 0b0000111100) >>> 2)
  else if i &&& 0b1111100000 = 0b1110000000 then .thumbUnconditionalBranch
  else if i &&& 0b1111100000 = 0b1110100000 then .thumbUndefined
  else if i &&& 0b1111000000 = 0b1111000000 then .thumbLongBranchLink (bits i 0b0000100000)
  else .unknownOpcodeThumb

/-- Call through an `armLUT` entry. -/
def ArmEntry.call (E : Env) (e : ArmEntry) (opcode : Nat) (s : CPU) : Option CPU :=
  match e with
  | .undefined => ARM7TDMI.undefined E opcode s
  | .multiply a b => some (ARM7TDMI.multiply E a b opcode s)
  | .multiplyLong a b c => some (ARM7TDMI.multiplyLong E a b c opcode s)
  | .psrLoad a => some (ARM7TDMI.psrLoad E a opcode s)
  | .psrStoreReg a => ARM7TDMI.psrStoreReg E a opcode s
  | .psrStoreImmediate a => ARM7TDMI.psrStoreImmediate E a opcode s
  | .singleDataSwap a => some (ARM7TDMI.singleDataSwap E a opcode s)
  | .branchExchange => some (ARM7TDMI.branchExchange E opcode s)
  | .halfwordDataTransfer a b c d e f => some (ARM7TDMI.halfwordDataTransfer E a b c d e f opcode s)
  | .dataProcessing a b c => ARM7TDMI.dataProcessing E a b c opcode s
  | .singleDataTransfer a b c d e f => some (ARM7TDMI.singleDataTransfer E a b c d e f opcode s)
  | .blockDataTransfer a b c d e => ARM7TDMI.blockDataTransfer E a b c d e opcode s
  | .branch a => some (ARM7TDMI.branch E a opcode s)
  | .armCoprocessorRegisterTransfer a => ARM7TDMI.armCoprocessorRegisterTransfer E a opcode s
  | .softwareInterrupt => ARM7TDMI.softwareInterrupt E opcode s
  | .unknownOpcodeArm => some (ARM7TDMI.unknownOpcodeArm opcode "No LUT entry" s)

/-- Call through a `thumbLUT` entry. -/
def ThumbEntry.call (E : Env) (e : ThumbEntry) (opcode : Nat) (s : CPU) : Option CPU :=
  match e with
  | .thumbAddSubtract a b c => some (ARM7TDMI.thumbAddSubtract E a b c opcode s)
  | .thumbMoveShiftedReg a b => some (ARM7TDMI.thumbMoveShiftedReg E a b opcode s)
  | .thumbAluImmediate a b => some (ARM7TDMI.thumbAluImmediate E a b opcode s)
  | .thumbAluReg a => some (ARM7TDMI.thumbAluReg E a opcode s)
  | .thumbHighRegOperation a b c => some (ARM7TDMI.thumbHighRegOperation E a b c opcode s)
  | .thumbPcRelativeLoad a => some (ARM7TDMI.thumbPcRelativeLoad E a opcode s)
  | .thumbLoadStoreRegOffset a b c => some (ARM7TDMI.thumbLoadStoreRegOffset E a b c opcode s)
  | .thumbLoadStoreSext a b => some (ARM7TDMI.thumbLoadStoreSext E a b opcode s)
  | .thumbLoadStoreImmediateOffset a b c => some (ARM7TDMI.thumbLoadStoreImmediateOffset E a b c opcode s)
  | .thumbLoadStoreHalfword a b => some (ARM7TDMI.thumbLoadStoreHalfword E a b opcode s)
  | .thumbSpRelativeLoadStore a b => some (ARM7TDMI.thumbSpRelativeLoadStore E a b opcode s)
  | .thumbLoadAddress a b => some (ARM7TDMI.thumbLoadAddress E a b opcode s)
  | .thumbSpAddOffset a => some (ARM7TDMI.thumbSpAddOffset E a opcode s)
  | .thumbPushPopRegisters a b => some (ARM7TDMI.thumbPushPopRegisters E a b opcode s)
  | .thumbMultipleLoadStore a b => some (ARM7TDMI.thumbMultipleLoadStore E a b opcode s)
  | .thumbUndefined => ARM7TDMI.thumbUndefined E opcode s
  | .thumbSoftwareInterrupt => ARM7TDMI.thumbSoftwareInterrupt E opcode s
  | .thumbConditionalBranch a => some (ARM7TDMI.thumbConditionalBranch E a opcode s)
  | .thumbUnconditionalBranch => some (ARM7TDMI.thumbUnconditionalBranch E opcode s)
  | .thumbLongBranchLink a => some (ARM7TDMI.thumbLongBranchLink E a opcode s)
  | .unknownOpcodeThumb => some (ARM7TDMI.unknownOpcodeThumb opcode "No LUT entry" s)

/-! ## Top level -/

/-- The `#ifndef ARM7TDMI_DISABLE_DEBUG` block at the end of `cycle`. -/
def breakpointCheck (E : Env) (s : CPU) : CPU :=
  if E.disableDebug then s
  else
    let nextInstrAddress := sub32 (s.R 15) (if s.thumbMode then 4 else 8)
    match s.breakpointsTable (nextInstrAddress >>> 16) with
    | some breakpointBitmap => if breakpointBitmap.testBit (nextInstrAddress &&& 0xFFFF) then s.emit .breakpoint else s
    | none => s

/-- The last `else` branch of `cycle`: decode and run the instruction in
`pipelineOpcode3`.  An index past the end of `thumbLUT` gives `none`. -/
def execute (E : Env) (s : CPU) : Option CPU :=
  if s.thumbMode then
    let lutIndex := (s.pipelineOpcode3 >>> 6) % 2 ^ 16
    if lutIndex < 1024 then (decodeThumb lutIndex).call E (s.pipelineOpcode3 % 2 ^ 16) s else none
  else
    let c := checkCondition (s.pipelineOpcode3 >>> 28) s
    let s := c.2
    if c.1 then
      let lutIndex := ((s.pipelineOpcode3 &&& 0x0FF00000) >>> 16) ||| ((s.pipelineOpcode3 &&& 0x000000F0) >>> 4)
      (decode lutIndex).call E s.pipelineOpcode3 s
    else
      some (fetchOpcode E s)

/-- Function `cycle`. -/
def cycle (E : Env) (s : CPU) : Option CPU :=
  let r :=
    if !E.disableFiq && (s.processFiq && !s.fiqDisable) then serviceFiq E s -- Service fast interrupt
    else if s.processIrq && !s.irqDisable then serviceIrq E s -- Service interrupt
    else execute E s
  match r with
  | none => none
  | some s => some (breakpointCheck E s)

/-- Function `addBreakpoint`. -/
def addBreakpoint (address : Nat) (s : CPU) : CPU :=
  let page := (s.breakpointsTable (address >>> 16)).getD 0
  { s with breakpointsTable := Function.update s.breakpointsTable (address >>> 16) (some (page ||| 2 ^ (address &&& 0xFFFF))) }

/-- Function `removeBreakpoint`. -/
def removeBreakpoint (address : Nat) (s : CPU) : CPU :=
  match s.breakpointsTable (address >>> 16) with
  | none => s
  | some page =>
    let page := page ^^^ (page &&& 2 ^ (address &&& 0xFFFF))
    { s with breakpointsTable := Function.update s.breakpointsTable (address >>> 16) (if page = 0 then none else some page) }

/-! ## Definitions used to state the properties -/

/-- The seven values of `enum cpuMode`. -/
def validMode (m : Nat) : Prop :=
  m = MODE_USER ∨ m = MODE_FIQ ∨ m = MODE_IRQ ∨ m = MODE_SUPERVISOR ∨ m = MODE_ABORT ∨ m = MODE_UNDEFINED ∨
    m = MODE_SYSTEM

instance (m : Nat) : Decidable (validMode m) := by unfold validMode; infer_instance

/-- The five modes that own an SPSR. -/
def privilegedMode (m : Nat) : Prop :=
  m = MODE_FIQ ∨ m = MODE_IRQ ∨ m = MODE_SUPERVISOR ∨ m = MODE_ABORT ∨ m = MODE_UNDEFINED

instance (m : Nat) : Decidable (privilegedMode m) := by unfold privilegedMode; infer_instance

/-- Instruction width in bytes: 2 in Thumb state, 4 in ARM state. -/
def width (s : CPU) : Nat := if s.thumbMode then 2 else 4

/-- States the host can observe: the state after `resetARM7TDMI` from `s0`,
and from there any number of `cycle` calls, with the pending-interrupt flags
set to any values between calls. -/
inductive Reachable (E : Env) (s0 : CPU) : CPU → Prop where
  | reset : Reachable E s0 (resetARM7TDMI E s0)
  | cycle {s s' : CPU} : Reachable E s0 s → cycle E s = some s' → Reachable E s0 s'
  | pending {s : CPU} (fiq irq : Bool) : Reachable E s0 s → Reachable E s0 ((s.setProcessFiq fiq).setProcessIrq irq)

/-- The bus record `l` holds no invalid-mode report of `bankRegisters`, which
is the log line `Invalid mode` followed by `hacf()`: `hacf()` does not occur
in `l`, or no `Invalid mode` line does. -/
def noModeReport (l : List BusEvent) : Prop :=
  BusEvent.hacf ∉ l ∨ ∀ m, BusEvent.logInvalidMode m ∉ l

/-- Relation between a state `s` and a later state `t` of the same `cycle`
used to carry invariants through the instruction handlers: the
pending-interrupt flags are those of `s`, the bus record of `t` extends that
of `s`, and unless `bankRegisters` reported an invalid mode in between, a
valid mode in `s` gives a valid mode in `t`. -/
def Step (s t : CPU) : Prop :=
  t.processFiq = s.processFiq ∧ t.processIrq = s.processIrq ∧
    ∃ l, t.bus = l ++ s.bus ∧ (noModeReport l → validMode s.mode → validMode t.mode)

/-- `Step` for a handler that may have no defined result. -/
def StepO (s : CPU) (o : Option CPU) : Prop := ∀ t, o = some t → Step s t

/-- A bus whose reads return the address plus one, with FIQ and the
breakpoint check compiled in. -/
def sampleEnv : Env where
  busRead := fun _ _ _ addr _ => addr + 1
  disableFiq := false
  disableDebug := false

/-- A state in SYS mode, ARM state, flags Z and C set. -/
def sampleCPU : CPU where
  processFiq := false
  processIrq := false
  R := fun i => 0x100 * (i.val + 1)
  CPSR := 0x6000001F
  R_usr := fun i => 0x10 + i.val
  R_fiq := fun i => 0x20 + i.val
  R_svc := fun i => 0x30 + i.val
  R_abt := fun i => 0x40 + i.val
  R_irq := fun i => 0x50 + i.val
  R_und := fun i => 0x60 + i.val
  pipelineOpcode1 := 0xE1A00000
  pipelineOpcode2 := 0xE1A01001
  pipelineOpcode3 := 0x01A02002
  nextFetchType := false
  breakpointsTable := fun _ => none
  bus := []

/-- A bus on which every read returns the word `w`, with FIQ and the
breakpoint check compiled in. -/
def constEnv (w : Nat) : Env where
  busRead := fun _ _ _ _ _ => w
  disableFiq := false
  disableDebug := false

/-- A bus on which every read returns `0xE1B0F000`, the ARM encoding of
`MOVS pc, r0`. -/
def movsPcEnv : Env where
  busRead := fun _ _ _ _ _ => 0xE1B0F000
  disableFiq := false
  disableDebug := false

/-- The breakpoint test at the end of `cycle`,
`breakpointBitmap && breakpointBitmap->test(address & BMP_MASK)`, for an
address. -/
def isBreakpoint (s : CPU) (address : Nat) : Bool :=
  match s.breakpointsTable (address >>> 16) with
  | some breakpointBitmap => breakpointBitmap.testBit (address &&& 0xFFFF)
  | none => false

/-- A call of the breakpoint interface. -/
inductive BreakpointCall where
  | add (address : Nat)
  | remove (address : Nat)

/-- Run one call of the breakpoint interface. -/
def BreakpointCall.run : BreakpointCall → CPU → CPU
  | .add a, s => addBreakpoint a s
  | .remove a, s => removeBreakpoint a s

/-- Run a sequence of calls of the breakpoint interface, first call first. -/
def runBreakpointCalls (cs : List BreakpointCall) (s : CPU) : CPU :=
  cs.foldl (fun s c => c.run s) s

/-- Spec side of the breakpoint claim: whether the last call in `cs` that
names the address `a` is an `addBreakpoint` (false when no call names it). -/
def lastCallIsAdd (a : Nat) (cs : List BreakpointCall) : Bool :=
  cs.foldl (fun st c =>
    match c with
    | .add b => if b = a then true else st
    | .remove b => if b = a then false else st) false

/-- Spec side of the block-transfer claims: the number of registers listed in
`opcode[15:0]` that are numbered below `i`, so that a listed register `i` is
the `registersBelow opcode i`-th lowest one (counting from 0). -/
def registersBelow (opcode i : Nat) : Nat :=
  ((List.range i).filter (fun j => opcode.testBit j)).length

/-- Spec side of the block-transfer claims: the bus events, most recent
first, of the transfers of the listed registers numbered below `j`, when the
`k`-th lowest listed register is transferred at `start + 4 * k`, the first
access non-sequential and the others sequential; `mk i address seq` is the
event for register `i`. -/
def blockEvents (mk : Nat → Nat → Bool → BusEvent) (opcode start j : Nat) : List BusEvent :=
  (((List.range j).filter (fun i => opcode.testBit i)).map
    (fun i => mk i (u32 (start + 4 * registersBelow opcode i)) (decide (registersBelow opcode i ≠ 0)))).reverse

/-- A bus over a memory that holds `0xDEADBEEF` at `0x108`, `0x11` at
`0x2000`, `0x3000` at `0x2004` and zero elsewhere. -/
def memoryEnv : Env where
  busRead := fun _ _ _ addr _ =>
    if addr = 0x108 then 0xDEADBEEF else if addr = 0x2000 then 0x11 else if addr = 0x2004 then 0x3000 else 0
  disableFiq := false
  disableDebug := false

/-! ## Word lemmas -/

theorem testBit_setBit (x i j : Nat) (b : Bool) :
    (setBit x i b).testBit j = if j = i then b else x.testBit j := by
  unfold setBit
  cases b <;> by_cases h : j = i
  · subst h; simp [Nat.testBit_xor, Nat.testBit_and, Nat.testBit_two_pow_self]
  · have : ¬ i = j := fun e => h e.symm
    simp [Nat.testBit_xor, Nat.testBit_and, Nat.testBit_two_pow, h, this]
  · subst h; simp [Nat.testBit_or, Nat.testBit_two_pow_self]
  · have : ¬ i = j := fun e => h e.symm
    simp [Nat.testBit_or, Nat.testBit_two_pow, h, this]

theorem setBit_mod_two_pow (x i k : Nat) (b : Bool) (h : k ≤ i) : setBit x i b % 2 ^ k = x % 2 ^ k := by
  apply Nat.eq_of_testBit_eq
  intro j
  simp only [Nat.testBit_mod_two_pow, testBit_setBit]
  by_cases hj : j < k
  · have : j ≠ i := by omega
    simp [hj, this]
  · simp [hj]

theorem and_mask_shift (x k j : Nat) : x &&& ((2 ^ k - 1) <<< j) = ((x >>> j) % 2 ^ k) <<< j := by
  apply Nat.eq_of_testBit_eq
  intro i
  simp only [Nat.testBit_and, Nat.testBit_shiftLeft, Nat.testBit_two_pow_sub_one, Nat.testBit_mod_two_pow,
    Nat.testBit_shiftRight]
  by_cases h : i ≥ j
  · have : j + (i - j) = i := by omega
    simp [h, this]
    rw [Bool.and_comm]
  · simp [h]

theorem and_FFFFFFFC (x : Nat) : x &&& 0xFFFFFFFC = x % 2 ^ 32 / 4 * 4 := by
  have h := and_mask_shift x 30 2
  have e : (2 ^ 30 - 1) <<< 2 = 0xFFFFFFFC := by decide
  rw [e] at h
  rw [h, Nat.shiftLeft_eq, Nat.shiftRight_eq_div_pow]
  omega

theorem and_FFFFFFFE (x : Nat) : x &&& 0xFFFFFFFE = x % 2 ^ 32 / 2 * 2 := by
  have h := and_mask_shift x 31 1
  have e : (2 ^ 31 - 1) <<< 1 = 0xFFFFFFFE := by decide
  rw [e] at h
  rw [h, Nat.shiftLeft_eq, Nat.shiftRight_eq_div_pow]
  omega

theorem and_1F (x : Nat) : x &&& 0x1F = x % 32 := Nat.and_pow_two_sub_one_eq_mod x 5

/-! ## Field access through the setters -/

@[simp] theorem processFiq_setCPSR (s : CPU) (c : Nat) : (s.setCPSR c).processFiq = s.processFiq := rfl

@[simp] theorem processIrq_setCPSR (s : CPU) (c : Nat) : (s.setCPSR c).processIrq = s.processIrq := rfl

@[simp] theorem R_setCPSR (s : CPU) (c : Nat) : (s.setCPSR c).R = s.R := rfl

@[simp] theorem CPSR_setCPSR (s : CPU) (c : Nat) : (s.setCPSR c).CPSR = c := rfl

@[simp] theorem bank_setCPSR (s : CPU) (c : Nat) (b' : BankId) : (s.setCPSR c).bank b' = s.bank b' := by
  cases b' <;> rfl

@[simp] theorem pipelineOpcode1_setCPSR (s : CPU) (c : Nat) : (s.setCPSR c).pipelineOpcode1 = s.pipelineOpcode1 := rfl

@[simp] theorem pipelineOpcode2_setCPSR (s : CPU) (c : Nat) : (s.setCPSR c).pipelineOpcode2 = s.pipelineOpcode2 := rfl

@[simp] theorem pipelineOpcode3_setCPSR (s : CPU) (c : Nat) : (s.setCPSR c).pipelineOpcode3 = s.pipelineOpcode3 := rfl

@[simp] theorem nextFetchType_setCPSR (s : CPU) (c : Nat) : (s.setCPSR c).nextFetchType = s.nextFetchType := rfl

@[simp] theorem breakpointsTable_setCPSR (s : CPU) (c : Nat) : (s.setCPSR c).breakpointsTable = s.breakpointsTable := rfl

@[simp] theorem bus_setCPSR (s : CPU) (c : Nat) : (s.setCPSR c).bus = s.bus := rfl

@[simp] theorem mode_setCPSR (s : CPU) (c : Nat) : (s.setCPSR c).mode = c % 32 := rfl

@[simp] theorem thumbMode_setCPSR (s : CPU) (c : Nat) : (s.setCPSR c).thumbMode = c.testBit 5 := rfl

@[simp] theorem fiqDisable_setCPSR (s : CPU) (c : Nat) : (s.setCPSR c).fiqDisable = c.testBit 6 := rfl

@[simp] theorem irqDisable_setCPSR (s : CPU) (c : Nat) : (s.setCPSR c).irqDisable = c.testBit 7 := rfl

@[simp] theorem flagV_setCPSR (s : CPU) (c : Nat) : (s.setCPSR c).flagV = c.testBit 28 := rfl

@[simp] theorem flagC_setCPSR (s : CPU) (c : Nat) : (s.setCPSR c).flagC = c.testBit 29 := rfl

@[simp] theorem flagZ_setCPSR (s : CPU) (c : Nat) : (s.setCPSR c).flagZ = c.testBit 30 := rfl

@[simp] theorem flagN_setCPSR (s : CPU) (c : Nat) : (s.setCPSR c).flagN = c.testBit 31 := rfl

@[simp] theorem processFiq_setProcessFiq (s : CPU) (x : Bool) : (s.setProcessFiq x).processFiq = x := rfl

@[simp] theorem processIrq_setProcessFiq (s : CPU) (x : Bool) : (s.setProcessFiq x).processIrq = s.processIrq := rfl

@[simp] theorem R_setProcessFiq (s : CPU) (x : Bool) : (s.setProcessFiq x).R = s.R := rfl

@[simp] theorem CPSR_setProcessFiq (s : CPU) (x : Bool) : (s.setProcessFiq x).CPSR = s.CPSR := rfl

@[simp] theorem bank_setProcessFiq (s : CPU) (x : Bool) (b' : BankId) : (s.setProcessFiq x).bank b' = s.bank b' := by
  cases b' <;> rfl

@[simp] theorem pipelineOpcode1_setProcessFiq (s : CPU) (x : Bool) : (s.setProcessFiq x).pipelineOpcode1 = s.pipelineOpcode1 := rfl

@[simp] theorem pipelineOpcode2_setProcessFiq (s : CPU) (x : Bool) : (s.setProcessFiq x).pipelineOpcode2 = s.pipelineOpcode2 := rfl

@[simp] theorem pipelineOpcode3_setProcessFiq (s : CPU) (x : Bool) : (s.setProcessFiq x).pipelineOpcode3 = s.pipelineOpcode3 := rfl

@[simp] theorem nextFetchType_setProcessFiq (s : CPU) (x : Bool) : (s.setProcessFiq x).nextFetchType = s.nextFetchType := rfl

@[simp] theorem breakpointsTable_setProcessFiq (s : CPU) (x : Bool) : (s.setProcessFiq x).breakpointsTable = s.breakpointsTable := rfl

@[simp] theorem bus_setProcessFiq (s : CPU) (x : Bool) : (s.setProcessFiq x).bus = s.bus := rfl

@[simp] theorem mode_setProcessFiq (s : CPU) (x : Bool) : (s.setProcessFiq x).mode = s.mode := rfl

@[simp] theorem thumbMode_setProcessFiq (s : CPU) (x : Bool) : (s.setProcessFiq x).thumbMode = s.thumbMode := rfl

@[simp] theorem fiqDisable_setProcessFiq (s : CPU) (x : Bool) : (s.setProcessFiq x).fiqDisable = s.fiqDisable := rfl

@[simp] theorem irqDisable_setProcessFiq (s : CPU) (x : Bool) : (s.setProcessFiq x).irqDisable = s.irqDisable := rfl

@[simp] theorem flagV_setProcessFiq (s : CPU) (x : Bool) : (s.setProcessFiq x).flagV = s.flagV := rfl

@[simp] theorem flagC_setProcessFiq (s : CPU) (x : Bool) : (s.setProcessFiq x).flagC = s.flagC := rfl

@[simp] theorem flagZ_setProcessFiq (s : CPU) (x : Bool) : (s.setProcessFiq x).flagZ = s.flagZ := rfl

@[simp] theorem flagN_setProcessFiq (s : CPU) (x : Bool) : (s.setProcessFiq x).flagN = s.flagN := rfl

@[simp] theorem processFiq_setProcessIrq (s : CPU) (x : Bool) : (s.setProcessIrq x).processFiq = s.processFiq := rfl

@[simp] theorem processIrq_setProcessIrq (s : CPU) (x : Bool) : (s.setProcessIrq x).processIrq = x := rfl

@[simp] theorem R_setProcessIrq (s : CPU) (x : Bool) : (s.setProcessIrq x).R = s.R := rfl

@[simp] theorem CPSR_setProcessIrq (s : CPU) (x : Bool) : (s.setProcessIrq x).CPSR = s.CPSR := rfl

@[simp] theorem bank_setProcessIrq (s : CPU) (x : Bool) (b' : BankId) : (s.setProcessIrq x).bank b' = s.bank b' := by
  cases b' <;> rfl

@[simp] theorem pipelineOpcode1_setProcessIrq (s : CPU) (x : Bool) : (s.setProcessIrq x).pipelineOpcode1 = s.pipelineOpcode1 := rfl

@[simp] theorem pipelineOpcode2_setProcessIrq (s : CPU) (x : Bool) : (s.setProcessIrq x).pipelineOpcode2 = s.pipelineOpcode2 := rfl

@[simp] theorem pipelineOpcode3_setProcessIrq (s : CPU) (x : Bool) : (s.setProcessIrq x).pipelineOpcode3 = s.pipelineOpcode3 := rfl

@[simp] theorem nextFetchType_setProcessIrq (s : CPU) (x : Bool) : (s.setProcessIrq x).nextFetchType = s.nextFetchType := rfl

@[simp] theorem breakpointsTable_setProcessIrq (s : CPU) (x : Bool) : (s.setProcessIrq x).breakpointsTable = s.breakpointsTable := rfl

@[simp] theorem bus_setProcessIrq (s : CPU) (x : Bool) : (s.setProcessIrq x).bus = s.bus := rfl

@[simp] theorem mode_setProcessIrq (s : CPU) (x : Bool) : (s.setProcessIrq x).mode = s.mode := rfl

@[simp] theorem thumbMode_setProcessIrq (s : CPU) (x : Bool) : (s.setProcessIrq x).thumbMode = s.thumbMode := rfl

@[simp] theorem fiqDisable_setProcessIrq (s : CPU) (x : Bool) : (s.setProcessIrq x).fiqDisable = s.fiqDisable := rfl

@[simp] theorem irqDisable_setProcessIrq (s : CPU) (x : Bool) : (s.setProcessIrq x).irqDisable = s.irqDisable := rfl

@[simp] theorem flagV_setProcessIrq (s : CPU) (x : Bool) : (s.setProcessIrq x).flagV = s.flagV := rfl

@[simp] theorem flagC_setProcessIrq (s : CPU) (x : Bool) : (s.setProcessIrq x).flagC = s.flagC := rfl

@[simp] theorem flagZ_setProcessIrq (s : CPU) (x : Bool) : (s.setProcessIrq x).flagZ = s.flagZ := rfl

@[simp] theorem flagN_setProcessIrq (s : CPU) (x : Bool) : (s.setProcessIrq x).flagN = s.flagN := rfl

@[simp] theorem processFiq_setPipelineOpcode1 (s : CPU) (x : Nat) : (s.setPipelineOpcode1 x).processFiq = s.processFiq := rfl

@[simp] theorem processIrq_setPipelineOpcode1 (s : CPU) (x : Nat) : (s.setPipelineOpcode1 x).processIrq = s.processIrq := rfl

@[simp] theorem R_setPipelineOpcode1 (s : CPU) (x : Nat) : (s.setPipelineOpcode1 x).R = s.R := rfl

@[simp] theorem CPSR_setPipelineOpcode1 (s : CPU) (x : Nat) : (s.setPipelineOpcode1 x).CPSR = s.CPSR := rfl

@[simp] theorem bank_setPipelineOpcode1 (s : CPU) (x : Nat) (b' : BankId) : (s.setPipelineOpcode1 x).bank b' = s.bank b' := by
  cases b' <;> rfl

@[simp] theorem pipelineOpcode1_setPipelineOpcode1 (s : CPU) (x : Nat) : (s.setPipelineOpcode1 x).pipelineOpcode1 = x := rfl

@[simp] theorem pipelineOpcode2_setPipelineOpcode1 (s : CPU) (x : Nat) : (s.setPipelineOpcode1 x).pipelineOpcode2 = s.pipelineOpcode2 := rfl

@[simp] theorem pipelineOpcode3_setPipelineOpcode1 (s : CPU) (x : Nat) : (s.setPipelineOpcode1 x).pipelineOpcode3 = s.pipelineOpcode3 := rfl

@[simp] theorem nextFetchType_setPipelineOpcode1 (s : CPU) (x : Nat) : (s.setPipelineOpcode1 x).nextFetchType = s.nextFetchType := rfl

@[simp] theorem breakpointsTable_setPipelineOpcode1 (s : CPU) (x : Nat) : (s.setPipelineOpcode1 x).breakpointsTable = s.breakpointsTable := rfl

@[simp] theorem bus_setPipelineOpcode1 (s : CPU) (x : Nat) : (s.setPipelineOpcode1 x).bus = s.bus := rfl

@[simp] theorem mode_setPipelineOpcode1 (s : CPU) (x : Nat) : (s.setPipelineOpcode1 x).mode = s.mode := rfl

@[simp] theorem thumbMode_setPipelineOpcode1 (s : CPU) (x : Nat) : (s.setPipelineOpcode1 x).thumbMode = s.thumbMode := rfl

@[simp] theorem fiqDisable_setPipelineOpcode1 (s : CPU) (x : Nat) : (s.setPipelineOpcode1 x).fiqDisable = s.fiqDisable := rfl

@[simp] theorem irqDisable_setPipelineOpcode1 (s : CPU) (x : Nat) : (s.setPipelineOpcode1 x).irqDisable = s.irqDisable := rfl

@[simp] theorem flagV_setPipelineOpcode1 (s : CPU) (x : Nat) : (s.setPipelineOpcode1 x).flagV = s.flagV := rfl

@[simp] theorem flagC_setPipelineOpcode1 (s : CPU) (x : Nat) : (s.setPipelineOpcode1 x).flagC = s.flagC := rfl

@[simp] theorem flagZ_setPipelineOpcode1 (s : CPU) (x : Nat) : (s.setPipelineOpcode1 x).flagZ = s.flagZ := rfl

@[simp] theorem flagN_setPipelineOpcode1 (s : CPU) (x : Nat) : (s.setPipelineOpcode1 x).flagN = s.flagN := rfl

@[simp] theorem processFiq_setPipelineOpcode2 (s : CPU) (x : Nat) : (s.setPipelineOpcode2 x).processFiq = s.processFiq := rfl

@[simp] theorem processIrq_setPipelineOpcode2 (s : CPU) (x : Nat) : (s.setPipelineOpcode2 x).processIrq = s.processIrq := rfl

@[simp] theorem R_setPipelineOpcode2 (s : CPU) (x : Nat) : (s.setPipelineOpcode2 x).R = s.R := rfl

@[simp] theorem CPSR_setPipelineOpcode2 (s : CPU) (x : Nat) : (s.setPipelineOpcode2 x).CPSR = s.CPSR := rfl

@[simp] theorem bank_setPipelineOpcode2 (s : CPU) (x : Nat) (b' : BankId) : (s.setPipelineOpcode2 x).bank b' = s.bank b' := by
  cases b' <;> rfl

@[simp] theorem pipelineOpcode1_setPipelineOpcode2 (s : CPU) (x : Nat) : (s.setPipelineOpcode2 x).pipelineOpcode1 = s.pipelineOpcode1 := rfl

@[simp] theorem pipelineOpcode2_setPipelineOpcode2 (s : CPU) (x : Nat) : (s.setPipelineOpcode2 x).pipelineOpcode2 = x := rfl

@[simp] theorem pipelineOpcode3_setPipelineOpcode2 (s : CPU) (x : Nat) : (s.setPipelineOpcode2 x).pipelineOpcode3 = s.pipelineOpcode3 := rfl

@[simp] theorem nextFetchType_setPipelineOpcode2 (s : CPU) (x : Nat) : (s.setPipelineOpcode2 x).nextFetchType = s.nextFetchType := rfl

@[simp] theorem breakpointsTable_setPipelineOpcode2 (s : CPU) (x : Nat) : (s.setPipelineOpcode2 x).breakpointsTable = s.breakpointsTable := rfl

@[simp] theorem bus_setPipelineOpcode2 (s : CPU) (x : Nat) : (s.setPipelineOpcode2 x).bus = s.bus := rfl

@[simp] theorem mode_setPipelineOpcode2 (s : CPU) (x : Nat) : (s.setPipelineOpcode2 x).mode = s.mode := rfl

@[simp] theorem thumbMode_setPipelineOpcode2 (s : CPU) (x : Nat) : (s.setPipelineOpcode2 x).thumbMode = s.thumbMode := rfl

@[simp] theorem fiqDisable_setPipelineOpcode2 (s : CPU) (x : Nat) : (s.setPipelineOpcode2 x).fiqDisable = s.fiqDisable := rfl

@[simp] theorem irqDisable_setPipelineOpcode2 (s : CPU) (x : Nat) : (s.setPipelineOpcode2 x).irqDisable = s.irqDisable := rfl

@[simp] theorem flagV_setPipelineOpcode2 (s : CPU) (x : Nat) : (s.setPipelineOpcode2 x).flagV = s.flagV := rfl

@[simp] theorem flagC_setPipelineOpcode2 (s : CPU) (x : Nat) : (s.setPipelineOpcode2 x).flagC = s.flagC := rfl

@[simp] theorem flagZ_setPipelineOpcode2 (s : CPU) (x : Nat) : (s.setPipelineOpcode2 x).flagZ = s.flagZ := rfl

@[simp] theorem flagN_setPipelineOpcode2 (s : CPU) (x : Nat) : (s.setPipelineOpcode2 x).flagN = s.flagN := rfl

@[simp] theorem processFiq_setPipelineOpcode3 (s : CPU) (x : Nat) : (s.setPipelineOpcode3 x).processFiq = s.processFiq := rfl

@[simp] theorem processIrq_setPipelineOpcode3 (s : CPU) (x : Nat) : (s.setPipelineOpcode3 x).processIrq = s.processIrq := rfl

@[simp] theorem R_setPipelineOpcode3 (s : CPU) (x : Nat) : (s.setPipelineOpcode3 x).R = s.R := rfl

@[simp] theorem CPSR_setPipelineOpcode3 (s : CPU) (x : Nat) : (s.setPipelineOpcode3 x).CPSR = s.CPSR := rfl

@[simp] theorem bank_setPipelineOpcode3 (s : CPU) (x : Nat) (b' : BankId) : (s.setPipelineOpcode3 x).bank b' = s.bank b' := by
  cases b' <;> rfl

@[simp] theorem pipelineOpcode1_setPipelineOpcode3 (s : CPU) (x : Nat) : (s.setPipelineOpcode3 x).pipelineOpcode1 = s.pipelineOpcode1 := rfl

@[simp] theorem pipelineOpcode2_setPipelineOpcode3 (s : CPU) (x : Nat) : (s.setPipelineOpcode3 x).pipelineOpcode2 = s.pipelineOpcode2 := rfl

@[simp] theorem pipelineOpcode3_setPipelineOpcode3 (s : CPU) (x : Nat) : (s.setPipelineOpcode3 x).pipelineOpcode3 = x := rfl

@[simp] theorem nextFetchType_setPipelineOpcode3 (s : CPU) (x : Nat) : (s.setPipelineOpcode3 x).nextFetchType = s.nextFetchType := rfl

@[simp] theorem breakpointsTable_setPipelineOpcode3 (s : CPU) (x : Nat) : (s.setPipelineOpcode3 x).breakpointsTable = s.breakpointsTable := rfl

@[simp] theorem bus_setPipelineOpcode3 (s : CPU) (x : Nat) : (s.setPipelineOpcode3 x).bus = s.bus := rfl

@[simp] theorem mode_setPipelineOpcode3 (s : CPU) (x : Nat) : (s.setPipelineOpcode3 x).mode = s.mode := rfl

@[simp] theorem thumbMode_setPipelineOpcode3 (s : CPU) (x : Nat) : (s.setPipelineOpcode3 x).thumbMode = s.thumbMode := rfl

@[simp] theorem fiqDisable_setPipelineOpcode3 (s : CPU) (x : Nat) : (s.setPipelineOpcode3 x).fiqDisable = s.fiqDisable := rfl

@[simp] theorem irqDisable_setPipelineOpcode3 (s : CPU) (x : Nat) : (s.setPipelineOpcode3 x).irqDisable = s.irqDisable := rfl

@[simp] theorem flagV_setPipelineOpcode3 (s : CPU) (x : Nat) : (s.setPipelineOpcode3 x).flagV = s.flagV := rfl

@[simp] theorem flagC_setPipelineOpcode3 (s : CPU) (x : Nat) : (s.setPipelineOpcode3 x).flagC = s.flagC := rfl

@[simp] theorem flagZ_setPipelineOpcode3 (s : CPU) (x : Nat) : (s.setPipelineOpcode3 x).flagZ = s.flagZ := rfl

@[simp] theorem flagN_setPipelineOpcode3 (s : CPU) (x : Nat) : (s.setPipelineOpcode3 x).flagN = s.flagN := rfl

@[simp] theorem processFiq_setNextFetchType (s : CPU) (x : Bool) : (s.setNextFetchType x).processFiq = s.processFiq := rfl

@[simp] theorem processIrq_setNextFetchType (s : CPU) (x : Bool) : (s.setNextFetchType x).processIrq = s.processIrq := rfl

@[simp] theorem R_setNextFetchType (s : CPU) (x : Bool) : (s.setNextFetchType x).R = s.R := rfl

@[simp] theorem CPSR_setNextFetchType (s : CPU) (x : Bool) : (s.setNextFetchType x).CPSR = s.CPSR := rfl

@[simp] theorem bank_setNextFetchType (s : CPU) (x : Bool) (b' : BankId) : (s.setNextFetchType x).bank b' = s.bank b' := by
  cases b' <;> rfl

@[simp] theorem pipelineOpcode1_setNextFetchType (s : CPU) (x : Bool) : (s.setNextFetchType x).pipelineOpcode1 = s.pipelineOpcode1 := rfl

@[simp] theorem pipelineOpcode2_setNextFetchType (s : CPU) (x : Bool) : (s.setNextFetchType x).pipelineOpcode2 = s.pipelineOpcode2 := rfl

@[simp] theorem pipelineOpcode3_setNextFetchType (s : CPU) (x : Bool) : (s.setNextFetchType x).pipelineOpcode3 = s.pipelineOpcode3 := rfl

@[simp] theorem nextFetchType_setNextFetchType (s : CPU) (x : Bool) : (s.setNextFetchType x).nextFetchType = x := rfl

@[simp] theorem breakpointsTable_setNextFetchType (s : CPU) (x : Bool) : (s.setNextFetchType x).breakpointsTable = s.breakpointsTable := rfl

@[simp] theorem bus_setNextFetchType (s : CPU) (x : Bool) : (s.setNextFetchType x).bus = s.bus := rfl

@[simp] theorem mode_setNextFetchType (s : CPU) (x : Bool) : (s.setNextFetchType x).mode = s.mode := rfl

@[simp] theorem thumbMode_setNextFetchType (s : CPU) (x : Bool) : (s.setNextFetchType x).thumbMode = s.thumbMode := rfl

@[simp] theorem fiqDisable_setNextFetchType (s : CPU) (x : Bool) : (s.setNextFetchType x).fiqDisable = s.fiqDisable := rfl

@[simp] theorem irqDisable_setNextFetchType (s : CPU) (x : Bool) : (s.setNextFetchType x).irqDisable = s.irqDisable := rfl

@[simp] theorem flagV_setNextFetchType (s : CPU) (x : Bool) : (s.setNextFetchType x).flagV = s.flagV := rfl

@[simp] theorem flagC_setNextFetchType (s : CPU) (x : Bool) : (s.setNextFetchType x).flagC = s.flagC := rfl

@[simp] theorem flagZ_setNextFetchType (s : CPU) (x : Bool) : (s.setNextFetchType x).flagZ = s.flagZ := rfl

@[simp] theorem flagN_setNextFetchType (s : CPU) (x : Bool) : (s.setNextFetchType x).flagN = s.flagN := rfl

@[simp] theorem processFiq_setR (s : CPU) (i : Fin 16) (v : Nat) : (s.setR i v).processFiq = s.processFiq := rfl

@[simp] theorem processIrq_setR (s : CPU) (i : Fin 16) (v : Nat) : (s.setR i v).processIrq = s.processIrq := rfl

@[simp] theorem R_setR (s : CPU) (i j : Fin 16) (v : Nat) : (s.setR i v).R j = if j = i then v else s.R j := by
  simp [CPU.setR, Function.update_apply]

@[simp] theorem CPSR_setR (s : CPU) (i : Fin 16) (v : Nat) : (s.setR i v).CPSR = s.CPSR := rfl

@[simp] theorem bank_setR (s : CPU) (i : Fin 16) (v : Nat) (b' : BankId) : (s.setR i v).bank b' = s.bank b' := by
  cases b' <;> rfl

@[simp] theorem pipelineOpcode1_setR (s : CPU) (i : Fin 16) (v : Nat) : (s.setR i v).pipelineOpcode1 = s.pipelineOpcode1 := rfl

@[simp] theorem pipelineOpcode2_setR (s : CPU) (i : Fin 16) (v : Nat) : (s.setR i v).pipelineOpcode2 = s.pipelineOpcode2 := rfl

@[simp] theorem pipelineOpcode3_setR (s : CPU) (i : Fin 16) (v : Nat) : (s.setR i v).pipelineOpcode3 = s.pipelineOpcode3 := rfl

@[simp] theorem nextFetchType_setR (s : CPU) (i : Fin 16) (v : Nat) : (s.setR i v).nextFetchType = s.nextFetchType := rfl

@[simp] theorem breakpointsTable_setR (s : CPU) (i : Fin 16) (v : Nat) : (s.setR i v).breakpointsTable = s.breakpointsTable := rfl

@[simp] theorem bus_setR (s : CPU) (i : Fin 16) (v : Nat) : (s.setR i v).bus = s.bus := rfl

@[simp] theorem mode_setR (s : CPU) (i : Fin 16) (v : Nat) : (s.setR i v).mode = s.mode := rfl

@[simp] theorem thumbMode_setR (s : CPU) (i : Fin 16) (v : Nat) : (s.setR i v).thumbMode = s.thumbMode := rfl

@[simp] theorem fiqDisable_setR (s : CPU) (i : Fin 16) (v : Nat) : (s.setR i v).fiqDisable = s.fiqDisable := rfl

@[simp] theorem irqDisable_setR (s : CPU) (i : Fin 16) (v : Nat) : (s.setR i v).irqDisable = s.irqDisable := rfl

@[simp] theorem flagV_setR (s : CPU) (i : Fin 16) (v : Nat) : (s.setR i v).flagV = s.flagV := rfl

@[simp] theorem flagC_setR (s : CPU) (i : Fin 16) (v : Nat) : (s.setR i v).flagC = s.flagC := rfl

@[simp] theorem flagZ_setR (s : CPU) (i : Fin 16) (v : Nat) : (s.setR i v).flagZ = s.flagZ := rfl

@[simp] theorem flagN_setR (s : CPU) (i : Fin 16) (v : Nat) : (s.setR i v).flagN = s.flagN := rfl

@[simp] theorem processFiq_setBank (s : CPU) (b : BankId) (k : Fin 8) (v : Nat) : (s.setBank b k v).processFiq = s.processFiq := by
  cases b <;> rfl

@[simp] theorem processIrq_setBank (s : CPU) (b : BankId) (k : Fin 8) (v : Nat) : (s.setBank b k v).processIrq = s.processIrq := by
  cases b <;> rfl

@[simp] theorem R_setBank (s : CPU) (b : BankId) (k : Fin 8) (v : Nat) : (s.setBank b k v).R = s.R := by
  cases b <;> rfl

@[simp] theorem CPSR_setBank (s : CPU) (b : BankId) (k : Fin 8) (v : Nat) : (s.setBank b k v).CPSR = s.CPSR := by
  cases b <;> rfl

@[simp] theorem bank_setBank (s : CPU) (b b' : BankId) (k j : Fin 8) (v : Nat) :
    (s.setBank b k v).bank b' j = if b' = b ∧ j = k then v else s.bank b' j := by
  cases b <;> cases b' <;> simp [CPU.setBank, CPU.bank, Function.update_apply]

@[simp] theorem pipelineOpcode1_setBank (s : CPU) (b : BankId) (k : Fin 8) (v : Nat) : (s.setBank b k v).pipelineOpcode1 = s.pipelineOpcode1 := by
  cases b <;> rfl

@[simp] theorem pipelineOpcode2_setBank (s : CPU) (b : BankId) (k : Fin 8) (v : Nat) : (s.setBank b k v).pipelineOpcode2 = s.pipelineOpcode2 := by
  cases b <;> rfl

@[simp] theorem pipelineOpcode3_setBank (s : CPU) (b : BankId) (k : Fin 8) (v : Nat) : (s.setBank b k v).pipelineOpcode3 = s.pipelineOpcode3 := by
  cases b <;> rfl

@[simp] theorem nextFetchType_setBank (s : CPU) (b : BankId) (k : Fin 8) (v : Nat) : (s.setBank b k v).nextFetchType = s.nextFetchType := by
  cases b <;> rfl

@[simp] theorem breakpointsTable_setBank (s : CPU) (b : BankId) (k : Fin 8) (v : Nat) : (s.setBank b k v).breakpointsTable = s.breakpointsTable := by
  cases b <;> rfl

@[simp] theorem bus_setBank (s : CPU) (b : BankId) (k : Fin 8) (v : Nat) : (s.setBank b k v).bus = s.bus := by
  cases b <;> rfl

@[simp] theorem mode_setBank (s : CPU) (b : BankId) (k : Fin 8) (v : Nat) : (s.setBank b k v).mode = s.mode := by
  cases b <;> rfl

@[simp] theorem thumbMode_setBank (s : CPU) (b : BankId) (k : Fin 8) (v : Nat) : (s.setBank b k v).thumbMode = s.thumbMode := by
  cases b <;> rfl

@[simp] theorem fiqDisable_setBank (s : CPU) (b : BankId) (k : Fin 8) (v : Nat) : (s.setBank b k v).fiqDisable = s.fiqDisable := by
  cases b <;> rfl

@[simp] theorem irqDisable_setBank (s : CPU) (b : BankId) (k : Fin 8) (v : Nat) : (s.setBank b k v).irqDisable = s.irqDisable := by
  cases b <;> rfl

@[simp] theorem flagV_setBank (s : CPU) (b : BankId) (k : Fin 8) (v : Nat) : (s.setBank b k v).flagV = s.flagV := by
  cases b <;> rfl

@[simp] theorem flagC_setBank (s : CPU) (b : BankId) (k : Fin 8) (v : Nat) : (s.setBank b k v).flagC = s.flagC := by
  cases b <;> rfl

@[simp] theorem flagZ_setBank (s : CPU) (b : BankId) (k : Fin 8) (v : Nat) : (s.setBank b k v).flagZ = s.flagZ := by
  cases b <;> rfl

@[simp] theorem flagN_setBank (s : CPU) (b : BankId) (k : Fin 8) (v : Nat) : (s.setBank b k v).flagN = s.flagN := by
  cases b <;> rfl

@[simp] theorem processFiq_emit (s : CPU) (e : BusEvent) : (s.emit e).processFiq = s.processFiq := rfl

@[simp] theorem processIrq_emit (s : CPU) (e : BusEvent) : (s.emit e).processIrq = s.processIrq := rfl

@[simp] theorem R_emit (s : CPU) (e : BusEvent) : (s.emit e).R = s.R := rfl

@[simp] theorem CPSR_emit (s : CPU) (e : BusEvent) : (s.emit e).CPSR = s.CPSR := rfl

@[simp] theorem bank_emit (s : CPU) (e : BusEvent) (b' : BankId) : (s.emit e).bank b' = s.bank b' := by
  cases b' <;> rfl

@[simp] theorem pipelineOpcode1_emit (s : CPU) (e : BusEvent) : (s.emit e).pipelineOpcode1 = s.pipelineOpcode1 := rfl

@[simp] theorem pipelineOpcode2_emit (s : CPU) (e : BusEvent) : (s.emit e).pipelineOpcode2 = s.pipelineOpcode2 := rfl

@[simp] theorem pipelineOpcode3_emit (s : CPU) (e : BusEvent) : (s.emit e).pipelineOpcode3 = s.pipelineOpcode3 := rfl

@[simp] theorem nextFetchType_emit (s : CPU) (e : BusEvent) : (s.emit e).nextFetchType = s.nextFetchType := rfl

@[simp] theorem breakpointsTable_emit (s : CPU) (e : BusEvent) : (s.emit e).breakpointsTable = s.breakpointsTable := rfl

@[simp] theorem bus_emit (s : CPU) (e : BusEvent) : (s.emit e).bus = e :: s.bus := rfl

@[simp] theorem mode_emit (s : CPU) (e : BusEvent) : (s.emit e).mode = s.mode := rfl

@[simp] theorem thumbMode_emit (s : CPU) (e : BusEvent) : (s.emit e).thumbMode = s.thumbMode := rfl

@[simp] theorem fiqDisable_emit (s : CPU) (e : BusEvent) : (s.emit e).fiqDisable = s.fiqDisable := rfl

@[simp] theorem irqDisable_emit (s : CPU) (e : BusEvent) : (s.emit e).irqDisable = s.irqDisable := rfl

@[simp] theorem flagV_emit (s : CPU) (e : BusEvent) : (s.emit e).flagV = s.flagV := rfl

@[simp] theorem flagC_emit (s : CPU) (e : BusEvent) : (s.emit e).flagC = s.flagC := rfl

@[simp] theorem flagZ_emit (s : CPU) (e : BusEvent) : (s.emit e).flagZ = s.flagZ := rfl

@[simp] theorem flagN_emit (s : CPU) (e : BusEvent) : (s.emit e).flagN = s.flagN := rfl

@[simp] theorem bank_zeroBank (s : CPU) (b b' : BankId) (j : Fin 8) :
    (s.zeroBank b).bank b' j = if b' = b then 0 else s.bank b' j := by
  cases b <;> cases b' <;> simp [CPU.zeroBank, CPU.bank]

@[simp] theorem processFiq_zeroBank (s : CPU) (b : BankId) : (s.zeroBank b).processFiq = s.processFiq := by
  cases b <;> rfl

@[simp] theorem processIrq_zeroBank (s : CPU) (b : BankId) : (s.zeroBank b).processIrq = s.processIrq := by
  cases b <;> rfl

@[simp] theorem R_zeroBank (s : CPU) (b : BankId) : (s.zeroBank b).R = s.R := by
  cases b <;> rfl

@[simp] theorem CPSR_zeroBank (s : CPU) (b : BankId) : (s.zeroBank b).CPSR = s.CPSR := by
  cases b <;> rfl

@[simp] theorem pipelineOpcode1_zeroBank (s : CPU) (b : BankId) : (s.zeroBank b).pipelineOpcode1 = s.pipelineOpcode1 := by
  cases b <;> rfl

@[simp] theorem pipelineOpcode2_zeroBank (s : CPU) (b : BankId) : (s.zeroBank b).pipelineOpcode2 = s.pipelineOpcode2 := by
  cases b <;> rfl

@[simp] theorem pipelineOpcode3_zeroBank (s : CPU) (b : BankId) : (s.zeroBank b).pipelineOpcode3 = s.pipelineOpcode3 := by
  cases b <;> rfl

@[simp] theorem nextFetchType_zeroBank (s : CPU) (b : BankId) : (s.zeroBank b).nextFetchType = s.nextFetchType := by
  cases b <;> rfl

@[simp] theorem breakpointsTable_zeroBank (s : CPU) (b : BankId) : (s.zeroBank b).breakpointsTable = s.breakpointsTable := by
  cases b <;> rfl

@[simp] theorem bus_zeroBank (s : CPU) (b : BankId) : (s.zeroBank b).bus = s.bus := by
  cases b <;> rfl

@[simp] theorem mode_zeroBank (s : CPU) (b : BankId) : (s.zeroBank b).mode = s.mode := by
  cases b <;> rfl

@[simp] theorem thumbMode_zeroBank (s : CPU) (b : BankId) : (s.zeroBank b).thumbMode = s.thumbMode := by
  cases b <;> rfl

@[simp] theorem fiqDisable_zeroBank (s : CPU) (b : BankId) : (s.zeroBank b).fiqDisable = s.fiqDisable := by
  cases b <;> rfl

@[simp] theorem irqDisable_zeroBank (s : CPU) (b : BankId) : (s.zeroBank b).irqDisable = s.irqDisable := by
  cases b <;> rfl

@[simp] theorem flagV_zeroBank (s : CPU) (b : BankId) : (s.zeroBank b).flagV = s.flagV := by
  cases b <;> rfl

@[simp] theorem flagC_zeroBank (s : CPU) (b : BankId) : (s.zeroBank b).flagC = s.flagC := by
  cases b <;> rfl

@[simp] theorem flagZ_zeroBank (s : CPU) (b : BankId) : (s.zeroBank b).flagZ = s.flagZ := by
  cases b <;> rfl

@[simp] theorem flagN_zeroBank (s : CPU) (b : BankId) : (s.zeroBank b).flagN = s.flagN := by
  cases b <;> rfl

@[simp] theorem processFiq_ite (c : Prop) [Decidable c] (a b : CPU) :
    (if c then a else b).processFiq = if c then a.processFiq else b.processFiq := by
  split <;> rfl

@[simp] theorem processIrq_ite (c : Prop) [Decidable c] (a b : CPU) :
    (if c then a else b).processIrq = if c then a.processIrq else b.processIrq := by
  split <;> rfl

@[simp] theorem R_ite (c : Prop) [Decidable c] (a b : CPU) :
    (if c then a else b).R = if c then a.R else b.R := by
  split <;> rfl

@[simp] theorem CPSR_ite (c : Prop) [Decidable c] (a b : CPU) :
    (if c then a else b).CPSR = if c then a.CPSR else b.CPSR := by
  split <;> rfl

@[simp] theorem pipelineOpcode1_ite (c : Prop) [Decidable c] (a b : CPU) :
    (if c then a else b).pipelineOpcode1 = if c then a.pipelineOpcode1 else b.pipelineOpcode1 := by
  split <;> rfl

@[simp] theorem pipelineOpcode2_ite (c : Prop) [Decidable c] (a b : CPU) :
    (if c then a else b).pipelineOpcode2 = if c then a.pipelineOpcode2 else b.pipelineOpcode2 := by
  split <;> rfl

@[simp] theorem pipelineOpcode3_ite (c : Prop) [Decidable c] (a b : CPU) :
    (if c then a else b).pipelineOpcode3 = if c then a.pipelineOpcode3 else b.pipelineOpcode3 := by
  split <;> rfl

@[simp] theorem nextFetchType_ite (c : Prop) [Decidable c] (a b : CPU) :
    (if c then a else b).nextFetchType = if c then a.nextFetchType else b.nextFetchType := by
  split <;> rfl

@[simp] theorem breakpointsTable_ite (c : Prop) [Decidable c] (a b : CPU) :
    (if c then a else b).breakpointsTable = if c then a.breakpointsTable else b.breakpointsTable := by
  split <;> rfl

@[simp] theorem bus_ite (c : Prop) [Decidable c] (a b : CPU) :
    (if c then a else b).bus = if c then a.bus else b.bus := by
  split <;> rfl

@[simp] theorem mode_ite (c : Prop) [Decidable c] (a b : CPU) :
    (if c then a else b).mode = if c then a.mode else b.mode := by
  split <;> rfl

@[simp] theorem thumbMode_ite (c : Prop) [Decidable c] (a b : CPU) :
    (if c then a else b).thumbMode = if c then a.thumbMode else b.thumbMode := by
  split <;> rfl

@[simp] theorem fiqDisable_ite (c : Prop) [Decidable c] (a b : CPU) :
    (if c then a else b).fiqDisable = if c then a.fiqDisable else b.fiqDisable := by
  split <;> rfl

@[simp] theorem irqDisable_ite (c : Prop) [Decidable c] (a b : CPU) :
    (if c then a else b).irqDisable = if c then a.irqDisable else b.irqDisable := by
  split <;> rfl

@[simp] theorem flagV_ite (c : Prop) [Decidable c] (a b : CPU) :
    (if c then a else b).flagV = if c then a.flagV else b.flagV := by
  split <;> rfl

@[simp] theorem flagC_ite (c : Prop) [Decidable c] (a b : CPU) :
    (if c then a else b).flagC = if c then a.flagC else b.flagC := by
  split <;> rfl

@[simp] theorem flagZ_ite (c : Prop) [Decidable c] (a b : CPU) :
    (if c then a else b).flagZ = if c then a.flagZ else b.flagZ := by
  split <;> rfl

@[simp] theorem flagN_ite (c : Prop) [Decidable c] (a b : CPU) :
    (if c then a else b).flagN = if c then a.flagN else b.flagN := by
  split <;> rfl

@[simp] theorem bank_ite (c : Prop) [Decidable c] (a b : CPU) (k : BankId) (j : Fin 8) :
    (if c then a else b).bank k j = if c then a.bank k j else b.bank k j := by
  split <;> rfl

/-! ## Condition codes -/

/-- For a 4-bit condition code `checkCondition` leaves the state alone. -/
theorem checkCondition_state (s : CPU) (c : Fin 16) : (checkCondition c.val s).2 = s := by
  fin_cases c <;> rfl

/-- C1: for each of the sixteen 4-bit condition codes `checkCondition` returns
the flag expression of the condition table (EQ Z, NE !Z, CS C, CC !C, MI N,
PL !N, VS V, VC !V, HI C&&!Z, LS !C||Z, GE N==V, LT N!=V, GT !Z&&(N==V),
LE Z||(N!=V), AL true, NV true); for every such code the state after the call
is the state before it, so the "Invalid condition" branch (which logs and
calls `hacf`) is not taken. -/
theorem checkCondition_table (s : CPU) :
    (checkCondition 0x0 s).1 = s.flagZ ∧
    (checkCondition 0x1 s).1 = (!s.flagZ) ∧
    (checkCondition 0x2 s).1 = s.flagC ∧
    (checkCondition 0x3 s).1 = (!s.flagC) ∧
    (checkCondition 0x4 s).1 = s.flagN ∧
    (checkCondition 0x5 s).1 = (!s.flagN) ∧
    (checkCondition 0x6 s).1 = s.flagV ∧
    (checkCondition 0x7 s).1 = (!s.flagV) ∧
    (checkCondition 0x8 s).1 = (s.flagC && !s.flagZ) ∧
    (checkCondition 0x9 s).1 = (!s.flagC || s.flagZ) ∧
    (checkCondition 0xA s).1 = (s.flagN == s.flagV) ∧
    (checkCondition 0xB s).1 = (s.flagN != s.flagV) ∧
    (checkCondition 0xC s).1 = (!s.flagZ && (s.flagN == s.flagV)) ∧
    (checkCondition 0xD s).1 = (s.flagZ || (s.flagN != s.flagV)) ∧
    (checkCondition 0xE s).1 = true ∧
    (checkCondition 0xF s).1 = true ∧
    ∀ c : Fin 16, (checkCondition c.val s).2 = s := by
  exact ⟨rfl, rfl, rfl, rfl, rfl, rfl, rfl, rfl, rfl, rfl, rfl, rfl, rfl, rfl, rfl, rfl, checkCondition_state s⟩

/-! ## Banking -/

/-- C5: for a `newMode` outside the seven defined modes `bankRegisters` calls
the bus `hacf()` hook (after logging the mode) and returns with `R`, the
CPSR, the six banks and every other member unchanged. -/
theorem bankRegisters_invalid_mode (s : CPU) (newMode : Nat) (enterMode : Bool) (h : ¬ validMode newMode) :
    ∃ s', bankRegisters newMode enterMode s = some s' ∧
      s'.bus = BusEvent.hacf :: BusEvent.logInvalidMode newMode :: s.bus ∧
      s' = { s with bus := s'.bus } := by
  have hm : modeBank newMode = none := by
    unfold validMode at h
    unfold modeBank
    simp only [not_or] at h
    obtain ⟨h1, h2, h3, h4, h5, h6, h7⟩ := h
    simp [h1, h2, h3, h4, h5, h6, h7]
  refine ⟨(s.emit (.logInvalidMode newMode)).emit .hacf, ?_, rfl, rfl⟩
  unfold bankRegisters
  simp only [hm]

/-- Witness for C5: mode value `0x14` is rejected. -/
theorem bankRegisters_invalid_mode_witness :
    ¬ validMode 0x14 ∧ ∃ s', bankRegisters 0x14 true sampleCPU = some s' ∧
      s'.bus = BusEvent.hacf :: BusEvent.logInvalidMode 0x14 :: sampleCPU.bus ∧
      s' = { sampleCPU with bus := s'.bus } :=
  ⟨by decide, bankRegisters_invalid_mode sampleCPU 0x14 true (by decide)⟩

/-! ## Pipeline -/

/-- C6: after `flushPipeline`, with `w` the instruction width, R15 is a
multiple of `w` and equals the old R15 rounded down to `w` plus `2*w` (in
32-bit arithmetic); `pipelineOpcode3` is the value of a non-sequential code
read of that width at `R15 - 2*w`, `pipelineOpcode2` the value of the
following sequential code read at `R15 - w`; these two reads are the only
bus calls, and `nextFetchType` is true. -/
theorem flushPipeline_spec (E : Env) (s : CPU) :
    let w := width s
    let s' := flushPipeline E s
    s'.R 15 % w = 0 ∧
    s'.R 15 = (u32 (s.R 15) / w * w + 2 * w) % 2 ^ 32 ∧
    s'.pipelineOpcode3 = (busRead E (8 * w) true (sub32 (s'.R 15) (2 * w)) false s).1 ∧
    s'.pipelineOpcode2 =
      (busRead E (8 * w) true (sub32 (s'.R 15) w) true (busRead E (8 * w) true (sub32 (s'.R 15) (2 * w)) false s).2).1 ∧
    s'.bus = .read (8 * w) true (sub32 (s'.R 15) w) true :: .read (8 * w) true (sub32 (s'.R 15) (2 * w)) false :: s.bus ∧
    s'.nextFetchType = true := by
  intro w s'
  by_cases ht : s.thumbMode = true
  · have hw : w = 2 := by simp [w, width, ht]
    have hR : s'.R 15 = u32 ((s.R 15 &&& 0xFFFFFFFE) + 4) := by
      simp [s', flushPipeline, ht, busRead]
    rw [hw, hR, and_FFFFFFFE]
    refine ⟨by unfold u32; omega, by unfold u32; omega, ?_, ?_, ?_, ?_⟩ <;>
      simp [s', flushPipeline, ht, busRead, and_FFFFFFFE]
  · have ht' : s.thumbMode = false := by simpa using ht
    have hw : w = 4 := by simp [w, width, ht']
    have hR : s'.R 15 = u32 ((s.R 15 &&& 0xFFFFFFFC) + 8) := by
      simp [s', flushPipeline, ht', busRead]
    rw [hw, hR, and_FFFFFFFC]
    refine ⟨by unfold u32; omega, by unfold u32; omega, ?_, ?_, ?_, ?_⟩ <;>
      simp [s', flushPipeline, ht', busRead, and_FFFFFFFC]

/-- C7 as stated fails: after `fetchOpcode` on the sample state
(`pipelineOpcode1 = 0xE1A00000`, next fetch at `0x1000` returning `0x1001`)
`pipelineOpcode2` is the newly fetched value `0x1001`, not the pre-call
`pipelineOpcode1`. -/
theorem fetchOpcode_p2_not_old_p1 :
    (fetchOpcode sampleEnv sampleCPU).pipelineOpcode2 = 0x1001 ∧
      (fetchOpcode sampleEnv sampleCPU).pipelineOpcode2 ≠ sampleCPU.pipelineOpcode1 := by
  decide

/-- C7 (amended): after `fetchOpcode`, `pipelineOpcode3` equals the pre-call
`pipelineOpcode2`; `pipelineOpcode1` and `pipelineOpcode2` both equal the
value the bus returned for a code read of the instruction width at the
pre-call R15 (16 bits zero-extended in Thumb state), issued with the pre-call
`nextFetchType` as its sequential flag; R15 has increased by the instruction
width modulo `2^32`; `nextFetchType` is true. -/
theorem fetchOpcode_spec (E : Env) (s : CPU) :
    let w := width s
    let s' := fetchOpcode E s
    let fetched := (busRead E (8 * w) true (s.R 15) s.nextFetchType s).1
    s'.pipelineOpcode3 = s.pipelineOpcode2 ∧
    s'.pipelineOpcode2 = fetched ∧
    s'.pipelineOpcode1 = fetched ∧
    fetched < 2 ^ (8 * w) ∧
    s'.bus = .read (8 * w) true (s.R 15) s.nextFetchType :: s.bus ∧
    s'.R 15 = (s.R 15 + w) % 2 ^ 32 ∧
    s'.nextFetchType = true := by
  intro w s' fetched
  by_cases ht : s.thumbMode = true
  · have hw : w = 2 := by simp [w, width, ht]
    simp only [fetched, hw]
    refine ⟨?_, ?_, ?_, ?_, ?_, ?_, ?_⟩ <;>
      simp [s', fetchOpcode, ht, busRead, u32, Nat.mod_lt]
  · have ht' : s.thumbMode = false := by simpa using ht
    have hw : w = 4 := by simp [w, width, ht']
    simp only [fetched, hw]
    refine ⟨?_, ?_, ?_, ?_, ?_, ?_, ?_⟩ <;>
      simp [s', fetchOpcode, ht', busRead, u32, Nat.mod_lt]

/-- The state after `resetARM7TDMI`, field by field. -/
theorem resetARM7TDMI_facts (E : Env) (s : CPU) :
    let s' := resetARM7TDMI E s
    (∀ i : Fin 16, i ≠ 15 → s'.R i = 0) ∧
    (∀ b : BankId, ∀ k : Fin 8, s'.bank b k = 0) ∧
    s'.processFiq = false ∧ s'.processIrq = false ∧
    s'.CPSR = 0x000000D3 ∧
    s'.mode = MODE_SUPERVISOR ∧ s'.irqDisable = true ∧ s'.fiqDisable = true ∧ s'.thumbMode = false ∧
    s'.R 15 = 8 ∧
    s'.pipelineOpcode3 = E.busRead s.bus 32 true 0 false % 2 ^ 32 ∧
    s'.pipelineOpcode2 = E.busRead (.read 32 true 0 false :: s.bus) 32 true 4 true % 2 ^ 32 ∧
    s'.bus = .read 32 true 4 true :: .read 32 true 0 false :: s.bus ∧
    s'.nextFetchType = true := by
  intro s'
  have hT : (211 : Nat).testBit 5 = false := by decide
  have h7 : (211 : Nat).testBit 7 = true := by decide
  have h6 : (211 : Nat).testBit 6 = true := by decide
  have hflush : ∀ t : CPU, t.thumbMode = false → t.R 15 = 0 →
      flushPipeline E t = ((((((t.setR 15 8).emit (.read 32 true 0 false)).setPipelineOpcode3
        (E.busRead t.bus 32 true 0 false % 2 ^ 32)).emit (.read 32 true 4 true)).setPipelineOpcode2
        (E.busRead (.read 32 true 0 false :: t.bus) 32 true 4 true % 2 ^ 32)).setNextFetchType true) := by
    intro t h1 h2
    simp [flushPipeline, h1, h2, busRead, u32, sub32]
  have hs : s' = flushPipeline E _ := rfl
  rw [hflush _ (by simp [hT]) (by simp)] at hs
  clear_value s'
  subst hs
  refine ⟨?_, ?_, ?_, ?_, ?_, ?_, ?_, ?_, ?_, ?_, ?_, ?_, ?_, ?_⟩
  · intro i hi
    fin_cases i <;> simp at hi ⊢
  · intro b k
    cases b <;> simp
  all_goals simp [hT, h6, h7, MODE_SUPERVISOR]

/-- C8: after `resetARM7TDMI` from any prior state, R0..R14 are 0, all
eight slots of each of the six banks are 0, both pending-interrupt flags are
false, the CPSR is `0x000000D3` (mode SVC, I = 1, F = 1, T = 0), R15 is 8, and
the pipeline holds the word read non-sequentially at 0 in `pipelineOpcode3`
and the word then read sequentially at 4 in `pipelineOpcode2`. -/
theorem resetARM7TDMI_spec (E : Env) (s : CPU) :
    let s' := resetARM7TDMI E s
    (∀ i : Fin 16, i ≠ 15 → s'.R i = 0) ∧
    (∀ b : BankId, ∀ k : Fin 8, s'.bank b k = 0) ∧
    s'.processFiq = false ∧ s'.processIrq = false ∧
    s'.CPSR = 0x000000D3 ∧
    s'.mode = MODE_SUPERVISOR ∧ s'.irqDisable = true ∧ s'.fiqDisable = true ∧ s'.thumbMode = false ∧
    s'.R 15 = 8 ∧
    s'.pipelineOpcode3 = E.busRead s.bus 32 true 0 false % 2 ^ 32 ∧
    s'.pipelineOpcode2 = E.busRead (.read 32 true 0 false :: s.bus) 32 true 4 true % 2 ^ 32 ∧
    s'.bus = .read 32 true 4 true :: .read 32 true 0 false :: s.bus ∧
    s'.nextFetchType = true :=
  resetARM7TDMI_facts E s

theorem enter_mode_bits (c p : Nat) : ((c &&& 0xFFFFFFC0) ||| p) % 32 = p % 32 := by
  have e : (0xFFFFFFC0 : Nat) = (2 ^ 26 - 1) <<< 6 := by decide
  have e32 : (32 : Nat) = 2 ^ 5 := by decide
  rw [e, e32]
  apply Nat.eq_of_testBit_eq
  intro i
  simp only [Nat.testBit_mod_two_pow, Nat.testBit_or, Nat.testBit_and, Nat.testBit_shiftLeft]
  by_cases h : i < 5
  · have : ¬ i ≥ 6 := by omega
    simp [h, this]
  · simp [h]

theorem modeBank_of_valid {m : Nat} (h : validMode m) : ∃ b, modeBank m = some b := by
  unfold validMode at h
  rcases h with h | h | h | h | h | h | h <;> rw [h] <;> exact ⟨_, rfl⟩

/-- Closed form of `bankRegisters` with `enterMode = false` when both mode
values select a bank. -/
theorem bankRegisters_false_some (s : CPU) (newMode : Nat) (cur new : BankId)
    (h1 : modeBank s.mode = some cur) (h2 : modeBank newMode = some new) :
    ∃ s', bankRegisters newMode false s = some s' ∧
      s'.bus = s.bus ∧ s'.processFiq = s.processFiq ∧ s'.processIrq = s.processIrq ∧
      s'.pipelineOpcode1 = s.pipelineOpcode1 ∧ s'.pipelineOpcode2 = s.pipelineOpcode2 ∧
      s'.pipelineOpcode3 = s.pipelineOpcode3 ∧ s'.nextFetchType = s.nextFetchType ∧
      s'.breakpointsTable = s.breakpointsTable ∧
      s'.CPSR = s.CPSR ∧
      (∀ i : Fin 16, s'.R i =
        if i = 14 then (if new = cur then s.R 14 else s.bank new 6)
        else if i = 13 then (if new = cur then s.R 13 else s.bank new 5)
        else if i = 12 then
          (if (if newMode = MODE_FIQ then BankId.fiq else BankId.usr) =
              (if s.mode = MODE_FIQ then BankId.fiq else BankId.usr) then s.R 12
           else s.bank (if newMode = MODE_FIQ then BankId.fiq else BankId.usr) 4)
        else if i = 11 then
          (if (if newMode = MODE_FIQ then BankId.fiq else BankId.usr) =
              (if s.mode = MODE_FIQ then BankId.fiq else BankId.usr) then s.R 11
           else s.bank (if newMode = MODE_FIQ then BankId.fiq else BankId.usr) 3)
        else if i = 10 then
          (if (if newMode = MODE_FIQ then BankId.fiq else BankId.usr) =
              (if s.mode = MODE_FIQ then BankId.fiq else BankId.usr) then s.R 10
           else s.bank (if newMode = MODE_FIQ then BankId.fiq else BankId.usr) 2)
        else if i = 9 then
          (if (if newMode = MODE_FIQ then BankId.fiq else BankId.usr) =
              (if s.mode = MODE_FIQ then BankId.fiq else BankId.usr) then s.R 9
           else s.bank (if newMode = MODE_FIQ then BankId.fiq else BankId.usr) 1)
        else if i = 8 then
          (if (if newMode = MODE_FIQ then BankId.fiq else BankId.usr) =
              (if s.mode = MODE_FIQ then BankId.fiq else BankId.usr) then s.R 8
           else s.bank (if newMode = MODE_FIQ then BankId.fiq else BankId.usr) 0)
        else s.R i) ∧
      (∀ (b : BankId) (j : Fin 8), s'.bank b j =
        if b = cur ∧ j = 6 then s.R 14
        else if b = cur ∧ j = 5 then s.R 13
        else if b = (if s.mode = MODE_FIQ then BankId.fiq else BankId.usr) ∧ j = 4 then s.R 12
        else if b = (if s.mode = MODE_FIQ then BankId.fiq else BankId.usr) ∧ j = 3 then s.R 11
        else if b = (if s.mode = MODE_FIQ then BankId.fiq else BankId.usr) ∧ j = 2 then s.R 10
        else if b = (if s.mode = MODE_FIQ then BankId.fiq else BankId.usr) ∧ j = 1 then s.R 9
        else if b = (if s.mode = MODE_FIQ then BankId.fiq else BankId.usr) ∧ j = 0 then s.R 8
        else s.bank b j) := by
  simp [bankRegisters, h1, h2]

/-- The `enterMode = true` call is the `enterMode = false` call followed by
the SPSR save and the CPSR mode rewrite. -/
theorem bankRegisters_true_eq (s : CPU) (newMode : Nat) (new : BankId) (h2 : modeBank newMode = some new) :
    bankRegisters newMode true s = (bankRegisters newMode false s).map (fun t =>
      (if newMode ≠ MODE_SYSTEM ∧ newMode ≠ MODE_USER then t.setBank new 7 t.CPSR else t).setCPSR
        (((if newMode ≠ MODE_SYSTEM ∧ newMode ≠ MODE_USER then t.setBank new 7 t.CPSR else t).CPSR &&& 0xFFFFFFC0)
          ||| newMode)) := by
  unfold bankRegisters
  rw [h2]
  cases modeBank s.mode <;> rfl

/-- Closed form of `bankRegisters` with `enterMode = true` when both mode
values select a bank. -/
theorem bankRegisters_true_some (s : CPU) (newMode : Nat) (cur new : BankId)
    (h1 : modeBank s.mode = some cur) (h2 : modeBank newMode = some new) :
    ∃ s', bankRegisters newMode true s = some s' ∧
      s'.bus = s.bus ∧ s'.processFiq = s.processFiq ∧ s'.processIrq = s.processIrq ∧
      s'.pipelineOpcode1 = s.pipelineOpcode1 ∧ s'.pipelineOpcode2 = s.pipelineOpcode2 ∧
      s'.pipelineOpcode3 = s.pipelineOpcode3 ∧ s'.nextFetchType = s.nextFetchType ∧
      s'.breakpointsTable = s.breakpointsTable ∧
      s'.CPSR = (s.CPSR &&& 0xFFFFFFC0) ||| newMode ∧
      (∀ i : Fin 16, s'.R i =
        if i = 14 then (if new = cur then s.R 14 else s.bank new 6)
        else if i = 13 then (if new = cur then s.R 13 else s.bank new 5)
        else if i = 12 then
          (if (if newMode = MODE_FIQ then BankId.fiq else BankId.usr) =
              (if s.mode = MODE_FIQ then BankId.fiq else BankId.usr) then s.R 12
           else s.bank (if newMode = MODE_FIQ then BankId.fiq else BankId.usr) 4)
        else if i = 11 then
          (if (if newMode = MODE_FIQ then BankId.fiq else BankId.usr) =
              (if s.mode = MODE_FIQ then BankId.fiq else BankId.usr) then s.R 11
           else s.bank (if newMode = MODE_FIQ then BankId.fiq else BankId.usr) 3)
        else if i = 10 then
          (if (if newMode = MODE_FIQ then BankId.fiq else BankId.usr) =
              (if s.mode = MODE_FIQ then BankId.fiq else BankId.usr) then s.R 10
           else s.bank (if newMode = MODE_FIQ then BankId.fiq else BankId.usr) 2)
        else if i = 9 then
          (if (if newMode = MODE_FIQ then BankId.fiq else BankId.usr) =
              (if s.mode = MODE_FIQ then BankId.fiq else BankId.usr) then s.R 9
           else s.bank (if newMode = MODE_FIQ then BankId.fiq else BankId.usr) 1)
        else if i = 8 then
          (if (if newMode = MODE_FIQ then BankId.fiq else BankId.usr) =
              (if s.mode = MODE_FIQ then BankId.fiq else BankId.usr) then s.R 8
           else s.bank (if newMode = MODE_FIQ then BankId.fiq else BankId.usr) 0)
        else s.R i) ∧
      (∀ (b : BankId) (j : Fin 8), s'.bank b j =
        if (newMode ≠ MODE_SYSTEM ∧ newMode ≠ MODE_USER) ∧ b = new ∧ j = 7 then s.CPSR
        else if b = cur ∧ j = 6 then s.R 14
        else if b = cur ∧ j = 5 then s.R 13
        else if b = (if s.mode = MODE_FIQ then BankId.fiq else BankId.usr) ∧ j = 4 then s.R 12
        else if b = (if s.mode = MODE_FIQ then BankId.fiq else BankId.usr) ∧ j = 3 then s.R 11
        else if b = (if s.mode = MODE_FIQ then BankId.fiq else BankId.usr) ∧ j = 2 then s.R 10
        else if b = (if s.mode = MODE_FIQ then BankId.fiq else BankId.usr) ∧ j = 1 then s.R 9
        else if b = (if s.mode = MODE_FIQ then BankId.fiq else BankId.usr) ∧ j = 0 then s.R 8
        else s.bank b j) := by
  obtain ⟨t, ht, e1, e2, e3, e4, e5, e6, e7, e8, e9, eR, eB⟩ := bankRegisters_false_some s newMode cur new h1 h2
  rw [bankRegisters_true_eq s newMode new h2, ht]
  refine ⟨_, rfl, ?_, ?_, ?_, ?_, ?_, ?_, ?_, ?_, ?_, ?_, ?_⟩
  · simp [e1]
  · simp [e2]
  · simp [e3]
  · simp [e4]
  · simp [e5]
  · simp [e6]
  · simp [e7]
  · simp [e8]
  · simp [e9]
  · intro i
    simp only [R_setCPSR, R_ite, R_setBank, ite_self]
    exact eR i
  · intro b j
    beta_reduce
    by_cases hp : newMode ≠ MODE_SYSTEM ∧ newMode ≠ MODE_USER
    · rw [if_pos hp, bank_setCPSR, bank_setBank]
      by_cases hb : b = new ∧ j = 7
      · rw [if_pos hb, if_pos ⟨hp, hb⟩, e9]
      · rw [if_neg hb, if_neg (fun h => hb h.2)]
        exact eB b j
    · rw [if_neg hp, bank_setCPSR, if_neg (fun h => hp h.1)]
      exact eB b j

/-- The bank `modeBank` selects for each of the seven modes. -/
theorem modeBank_valid {m : Nat} (h : validMode m) :
    modeBank m = some (if m = MODE_FIQ then BankId.fiq else if m = MODE_IRQ then BankId.irq
      else if m = MODE_SUPERVISOR then BankId.svc else if m = MODE_ABORT then BankId.abt
      else if m = MODE_UNDEFINED then BankId.und else BankId.usr) := by
  unfold validMode at h
  rcases h with h | h | h | h | h | h | h <;> rw [h] <;> rfl

/-- C4: `bankRegisters` from a valid current mode to a valid `newMode`, where
the bank of a mode is `R_fiq` for FIQ, `R_irq` for IRQ, `R_svc` for SVC,
`R_abt` for ABT, `R_und` for UND and `R_usr` for both USR and SYS:
(1) the pre-call R13 and R14 are in slots 5 and 6 of the current mode's bank
and the pre-call R8..R12 in slots 0..4 of the FIQ bank if the current mode is
FIQ, otherwise of the user bank; (2) R13/R14 equal slots 5/6 of `newMode`'s
bank and R8..R12 equal slots 0..4 of the FIQ bank if `newMode` is FIQ,
otherwise of the user bank; in terms of the pre-call state, R13/R14 are the
pre-call slots 5/6 of `newMode`'s bank unless that is the current mode's bank
(then they are unchanged), and R8..R12 are the pre-call slots 0..4 of the bank
they are loaded from unless that is the bank they were saved to; R0..R7 and
R15 are unchanged, and so is every slot 0..6 not written in (1). -/
theorem bankRegisters_spec (s : CPU) (newMode : Nat) (enterMode : Bool)
    (hc : validMode s.mode) (hn : validMode newMode) :
    let bankOf : Nat → BankId := fun m =>
      if m = MODE_FIQ then BankId.fiq else if m = MODE_IRQ then BankId.irq
      else if m = MODE_SUPERVISOR then BankId.svc else if m = MODE_ABORT then BankId.abt
      else if m = MODE_UNDEFINED then BankId.und else BankId.usr
    let cur := bankOf s.mode
    let new := bankOf newMode
    let saved := if s.mode = MODE_FIQ then BankId.fiq else BankId.usr
    let loaded := if newMode = MODE_FIQ then BankId.fiq else BankId.usr
    ∃ s', bankRegisters newMode enterMode s = some s' ∧
      (s'.bank cur 5 = s.R 13 ∧ s'.bank cur 6 = s.R 14 ∧
        s'.bank saved 0 = s.R 8 ∧ s'.bank saved 1 = s.R 9 ∧ s'.bank saved 2 = s.R 10 ∧
        s'.bank saved 3 = s.R 11 ∧ s'.bank saved 4 = s.R 12) ∧
      (s'.R 13 = s'.bank new 5 ∧ s'.R 14 = s'.bank new 6 ∧
        s'.R 8 = s'.bank loaded 0 ∧ s'.R 9 = s'.bank loaded 1 ∧ s'.R 10 = s'.bank loaded 2 ∧
        s'.R 11 = s'.bank loaded 3 ∧ s'.R 12 = s'.bank loaded 4) ∧
      (s'.R 13 = (if new = cur then s.R 13 else s.bank new 5) ∧
        s'.R 14 = (if new = cur then s.R 14 else s.bank new 6) ∧
        s'.R 8 = (if loaded = saved then s.R 8 else s.bank loaded 0) ∧
        s'.R 9 = (if loaded = saved then s.R 9 else s.bank loaded 1) ∧
        s'.R 10 = (if loaded = saved then s.R 10 else s.bank loaded 2) ∧
        s'.R 11 = (if loaded = saved then s.R 11 else s.bank loaded 3) ∧
        s'.R 12 = (if loaded = saved then s.R 12 else s.bank loaded 4)) ∧
      (∀ i : Fin 16, i.val < 8 ∨ i = 15 → s'.R i = s.R i) ∧
      (∀ (b : BankId) (j : Fin 8), j ≠ 7 → ¬ (b = cur ∧ (j = 5 ∨ j = 6)) → ¬ (b = saved ∧ j.val < 5) →
        s'.bank b j = s.bank b j) := by
  intro bankOf cur new saved loaded
  have h1 : modeBank s.mode = some cur := modeBank_valid hc
  have h2 : modeBank newMode = some new := modeBank_valid hn
  have key : ∃ s', bankRegisters newMode enterMode s = some s' ∧
      (∀ i : Fin 16, s'.R i =
        if i = 14 then (if new = cur then s.R 14 else s.bank new 6)
        else if i = 13 then (if new = cur then s.R 13 else s.bank new 5)
        else if i = 12 then (if loaded = saved then s.R 12 else s.bank loaded 4)
        else if i = 11 then (if loaded = saved then s.R 11 else s.bank loaded 3)
        else if i = 10 then (if loaded = saved then s.R 10 else s.bank loaded 2)
        else if i = 9 then (if loaded = saved then s.R 9 else s.bank loaded 1)
        else if i = 8 then (if loaded = saved then s.R 8 else s.bank loaded 0)
        else s.R i) ∧
      (∀ (b : BankId) (j : Fin 8), j ≠ 7 → s'.bank b j =
        if b = cur ∧ j = 6 then s.R 14
        else if b = cur ∧ j = 5 then s.R 13
        else if b = saved ∧ j = 4 then s.R 12
        else if b = saved ∧ j = 3 then s.R 11
        else if b = saved ∧ j = 2 then s.R 10
        else if b = saved ∧ j = 1 then s.R 9
        else if b = saved ∧ j = 0 then s.R 8
        else s.bank b j) := by
    cases enterMode
    · obtain ⟨t, ht, -, -, -, -, -, -, -, -, -, eR, eB⟩ := bankRegisters_false_some s newMode cur new h1 h2
      exact ⟨t, ht, eR, fun b j _ => eB b j⟩
    · obtain ⟨t, ht, -, -, -, -, -, -, -, -, -, eR, eB⟩ := bankRegisters_true_some s newMode cur new h1 h2
      refine ⟨t, ht, eR, fun b j hj => ?_⟩
      rw [eB b j]
      simp [hj]
  obtain ⟨s', hs, eR, eB⟩ := key
  have r14 := eR 14
  have r13 := eR 13
  have r12 := eR 12
  have r11 := eR 11
  have r10 := eR 10
  have r9 := eR 9
  have r8 := eR 8
  simp only [if_true, show ((13 : Fin 16) = 14) = False by decide, show ((12 : Fin 16) = 14) = False by decide,
    show ((12 : Fin 16) = 13) = False by decide, show ((11 : Fin 16) = 14) = False by decide,
    show ((11 : Fin 16) = 13) = False by decide, show ((11 : Fin 16) = 12) = False by decide,
    show ((10 : Fin 16) = 14) = False by decide, show ((10 : Fin 16) = 13) = False by decide,
    show ((10 : Fin 16) = 12) = False by decide, show ((10 : Fin 16) = 11) = False by decide,
    show ((9 : Fin 16) = 14) = False by decide, show ((9 : Fin 16) = 13) = False by decide,
    show ((9 : Fin 16) = 12) = False by decide, show ((9 : Fin 16) = 11) = False by decide,
    show ((9 : Fin 16) = 10) = False by decide, show ((8 : Fin 16) = 14) = False by decide,
    show ((8 : Fin 16) = 13) = False by decide, show ((8 : Fin 16) = 12) = False by decide,
    show ((8 : Fin 16) = 11) = False by decide, show ((8 : Fin 16) = 10) = False by decide,
    show ((8 : Fin 16) = 9) = False by decide, if_false] at r14 r13 r12 r11 r10 r9 r8
  have b6 : s'.bank cur 6 = s.R 14 := by rw [eB _ _ (by decide)]; simp
  have b5 : s'.bank cur 5 = s.R 13 := by rw [eB _ _ (by decide)]; simp
  have b4 : s'.bank saved 4 = s.R 12 := by rw [eB _ _ (by decide)]; simp
  have b3 : s'.bank saved 3 = s.R 11 := by rw [eB _ _ (by decide)]; simp
  have b2 : s'.bank saved 2 = s.R 10 := by rw [eB _ _ (by decide)]; simp
  have b1 : s'.bank saved 1 = s.R 9 := by rw [eB _ _ (by decide)]; simp
  have b0 : s'.bank saved 0 = s.R 8 := by rw [eB _ _ (by decide)]; simp
  refine ⟨s', hs, ⟨b5, b6, b0, b1, b2, b3, b4⟩, ⟨?_, ?_, ?_, ?_, ?_, ?_, ?_⟩,
    ⟨r13, r14, r8, r9, r10, r11, r12⟩, ?_, ?_⟩
  · rw [r13, eB _ _ (by decide)]; simp
  · rw [r14, eB _ _ (by decide)]; simp
  · rw [r8, eB _ _ (by decide)]; simp
  · rw [r9, eB _ _ (by decide)]; simp
  · rw [r10, eB _ _ (by decide)]; simp
  · rw [r11, eB _ _ (by decide)]; simp
  · rw [r12, eB _ _ (by decide)]; simp
  · intro i hi
    rw [eR]
    fin_cases i <;> simp at hi ⊢
  · intro b j hj hcur hsaved
    rw [eB b j hj]
    have c6 : ¬ (b = cur ∧ j = 6) := fun h => hcur ⟨h.1, Or.inr h.2⟩
    have c5 : ¬ (b = cur ∧ j = 5) := fun h => hcur ⟨h.1, Or.inl h.2⟩
    have c4 : ¬ (b = saved ∧ j = 4) := fun h => hsaved ⟨h.1, by rw [h.2]; decide⟩
    have c3 : ¬ (b = saved ∧ j = 3) := fun h => hsaved ⟨h.1, by rw [h.2]; decide⟩
    have c2 : ¬ (b = saved ∧ j = 2) := fun h => hsaved ⟨h.1, by rw [h.2]; decide⟩
    have c1 : ¬ (b = saved ∧ j = 1) := fun h => hsaved ⟨h.1, by rw [h.2]; decide⟩
    have c0 : ¬ (b = saved ∧ j = 0) := fun h => hsaved ⟨h.1, by rw [h.2]; decide⟩
    rw [if_neg c6, if_neg c5, if_neg c4, if_neg c3, if_neg c2, if_neg c1, if_neg c0]

/-- Witness for C4 on the sample state, whose registers are `0x100 * (i + 1)`
and whose bank slots are `0x10 + j` (user), `0x20 + j` (FIQ), `0x30 + j` (SVC),
`0x50 + j` (IRQ).  From SYS to FIQ: R8..R14 become `0x20..0x26` and the user
bank holds the old R8..R14.  From IRQ to SVC: R13/R14 become `0x35`/`0x36`,
the IRQ bank holds the old R13/R14, R8 is unchanged and the user slots 5 and
6 are untouched. -/
theorem bankRegisters_spec_witness :
    validMode sampleCPU.mode ∧ validMode MODE_FIQ ∧
    validMode (sampleCPU.setCPSR 0x12).mode ∧ validMode MODE_SUPERVISOR ∧
    (∃ s', bankRegisters MODE_FIQ true sampleCPU = some s' ∧
      s'.R 13 = 0x25 ∧ s'.R 14 = 0x26 ∧ s'.R 8 = 0x20 ∧ s'.R 12 = 0x24 ∧
      s'.bank .usr 5 = 0xE00 ∧ s'.bank .usr 6 = 0xF00 ∧ s'.bank .usr 0 = 0x900 ∧ s'.bank .usr 4 = 0xD00 ∧
      s'.R 0 = 0x100 ∧ s'.R 15 = 0x1000) ∧
    (∃ s', bankRegisters MODE_SUPERVISOR false (sampleCPU.setCPSR 0x12) = some s' ∧
      s'.R 13 = 0x35 ∧ s'.R 14 = 0x36 ∧ s'.R 8 = 0x900 ∧
      s'.bank .irq 5 = 0xE00 ∧ s'.bank .irq 6 = 0xF00 ∧ s'.bank .usr 5 = 0x15 ∧ s'.bank .usr 6 = 0x16) := by
  obtain ⟨s1, e1, ⟨a5, a6, a0, _, _, _, a4⟩, _, ⟨p13, p14, p8, _, _, _, p12⟩, f1, _⟩ :=
    bankRegisters_spec sampleCPU MODE_FIQ true (by decide) (by decide)
  obtain ⟨s2, e2, ⟨c5, c6, _⟩, _, ⟨q13, q14, q8, _⟩, _, g2⟩ :=
    bankRegisters_spec (sampleCPU.setCPSR 0x12) MODE_SUPERVISOR false (by decide) (by decide)
  exact ⟨by decide, by decide, by decide, by decide,
    ⟨s1, e1, p13.trans (by decide), p14.trans (by decide), p8.trans (by decide), p12.trans (by decide),
      a5.trans (by decide), a6.trans (by decide), a0.trans (by decide), a4.trans (by decide),
      (f1 0 (Or.inl (by decide))).trans (by decide), (f1 15 (Or.inr rfl)).trans (by decide)⟩,
    ⟨s2, e2, q13.trans (by decide), q14.trans (by decide), q8.trans (by decide),
      c5.trans (by decide), c6.trans (by decide),
      (g2 .usr 5 (by decide) (by decide) (by decide)).trans (by decide),
      (g2 .usr 6 (by decide) (by decide) (by decide)).trans (by decide)⟩⟩

theorem privileged_banks {p : Nat} (h : privilegedMode p) :
    ∃ b, modeBank p = some b ∧ spsrBank p = some b ∧ p ≠ MODE_SYSTEM ∧ p ≠ MODE_USER ∧ p % 32 = p := by
  unfold privilegedMode at h
  rcases h with h | h | h | h | h <;> rw [h] <;> exact ⟨_, rfl, rfl, by decide, by decide, by decide⟩

/-- C2: from a state whose CPSR mode is one of the seven valid modes, for
every privileged target mode `p` (FIQ, IRQ, SVC, ABT, UND),
`bankRegisters(p, enterMode = true)` followed by `leaveMode()` succeeds and
yields a state whose CPSR equals the pre-entry CPSR bit for bit and whose
registers (R13, R14 and R8..R12 in particular, and in fact all of R0..R15)
equal their pre-entry values. -/
theorem enter_leave_roundtrip (s : CPU) (p : Nat) (hc : validMode s.mode) (hp : privilegedMode p) :
    ∃ s1 s2, bankRegisters p true s = some s1 ∧ leaveMode s1 = some s2 ∧
      s2.CPSR = s.CPSR ∧ ∀ i : Fin 16, s2.R i = s.R i := by
  obtain ⟨cur, h1⟩ := modeBank_of_valid hc
  obtain ⟨new, h2, h3, hs, hu, hm⟩ := privileged_banks hp
  obtain ⟨s1, e1, -, -, -, -, -, -, -, -, c1, r1, b1⟩ := bankRegisters_true_some s p cur new h1 h2
  have m1 : s1.mode = p := by
    unfold CPU.mode
    rw [c1, enter_mode_bits, hm]
  have hsp : s1.bank new 7 = s.CPSR := by
    rw [b1]; simp [hs, hu]
  have h1' : modeBank s1.mode = some new := by rw [m1]; exact h2
  obtain ⟨s2, e2, -, -, -, -, -, -, -, -, -, r2, -⟩ := bankRegisters_false_some s1 s.mode new cur h1' h1
  refine ⟨s1, s2.setCPSR s.CPSR, e1, ?_, rfl, ?_⟩
  · unfold leaveMode
    simp only [m1, h3, hsp, and_1F]
    have : s.CPSR % 32 = s.mode := rfl
    rw [this, e2]
  · intro i
    rw [R_setCPSR, r2, m1]
    by_cases hf : s.mode = MODE_FIQ <;> by_cases hg : p = MODE_FIQ <;> by_cases hcn : cur = new <;>
      fin_cases i <;> simp [r1, b1, hf, hg, hcn, hs, hu]

/-- Witness for C2: SYS to IRQ and back on the sample state. -/
theorem enter_leave_roundtrip_witness :
    validMode sampleCPU.mode ∧ privilegedMode MODE_IRQ ∧
    ∃ s1 s2, bankRegisters MODE_IRQ true sampleCPU = some s1 ∧ leaveMode s1 = some s2 ∧
      s2.CPSR = sampleCPU.CPSR ∧ ∀ i : Fin 16, s2.R i = sampleCPU.R i :=
  ⟨by decide, by decide, enter_leave_roundtrip sampleCPU MODE_IRQ (by decide) (by decide)⟩

/-! ## Carrying invariants through the handlers -/

theorem noModeReport_nil : noModeReport [] := Or.inl (by simp)

theorem noModeReport_of_no_hacf {l : List BusEvent} (h : BusEvent.hacf ∉ l) : noModeReport l := Or.inl h

theorem noModeReport_of_no_log {l : List BusEvent} (h : ∀ m, BusEvent.logInvalidMode m ∉ l) :
    noModeReport l := Or.inr h

theorem noModeReport_append {l2 l1 : List BusEvent} (h : noModeReport (l2 ++ l1)) :
    noModeReport l2 ∧ noModeReport l1 := by
  rcases h with h | h
  · rw [List.mem_append, not_or] at h
    exact ⟨Or.inl h.1, Or.inl h.2⟩
  · refine ⟨Or.inr fun m hm => h m (List.mem_append_left _ hm),
      Or.inr fun m hm => h m (List.mem_append_right _ hm)⟩

/-- A bus record with both parts of an invalid-mode report. -/
theorem not_noModeReport {l : List BusEvent} {m : Nat} (h1 : BusEvent.hacf ∈ l)
    (h2 : BusEvent.logInvalidMode m ∈ l) : ¬ noModeReport l := by
  intro h
  rcases h with h | h
  · exact h h1
  · exact h m h2

theorem Step.refl (s : CPU) : Step s s :=
  ⟨rfl, rfl, [], rfl, fun _ h => h⟩

theorem Step.trans {s t u : CPU} (h1 : Step s t) (h2 : Step t u) : Step s u := by
  obtain ⟨a1, b1, l1, c1, d1⟩ := h1
  obtain ⟨a2, b2, l2, c2, d2⟩ := h2
  refine ⟨a2.trans a1, b2.trans b1, l2 ++ l1, by rw [c2, c1, List.append_assoc], fun hn hv => ?_⟩
  obtain ⟨hn2, hn1⟩ := noModeReport_append hn
  exact d2 hn2 (d1 hn1 hv)

/-- A state change that keeps the pending flags and the mode and only adds
bus calls. -/
theorem Step.same {s t u : CPU} (h : Step s t) (hf : u.processFiq = t.processFiq)
    (hi : u.processIrq = t.processIrq) (hm : u.mode = t.mode) (hb : ∃ l, u.bus = l ++ t.bus) : Step s u := by
  obtain ⟨l, hl⟩ := hb
  exact h.trans ⟨hf, hi, l, hl, fun _ hv => hm ▸ hv⟩

theorem mode_setBit (c i : Nat) (b : Bool) (h : 5 ≤ i) : setBit c i b % 32 = c % 32 :=
  setBit_mod_two_pow c i 5 b h

theorem Step.setR {s t : CPU} (i : Fin 16) (v : Nat) (h : Step s t) : Step s (t.setR i v) :=
  h.same rfl rfl rfl ⟨[], rfl⟩

theorem Step.setBank {s t : CPU} (b : BankId) (i : Fin 8) (v : Nat) (h : Step s t) : Step s (t.setBank b i v) :=
  h.same (by simp) (by simp) (by simp) ⟨[], by simp⟩

theorem Step.setPipelineOpcode1 {s t : CPU} (v : Nat) (h : Step s t) : Step s (t.setPipelineOpcode1 v) :=
  h.same rfl rfl rfl ⟨[], rfl⟩

theorem Step.setPipelineOpcode2 {s t : CPU} (v : Nat) (h : Step s t) : Step s (t.setPipelineOpcode2 v) :=
  h.same rfl rfl rfl ⟨[], rfl⟩

theorem Step.setPipelineOpcode3 {s t : CPU} (v : Nat) (h : Step s t) : Step s (t.setPipelineOpcode3 v) :=
  h.same rfl rfl rfl ⟨[], rfl⟩

theorem Step.setNextFetchType {s t : CPU} (v : Bool) (h : Step s t) : Step s (t.setNextFetchType v) :=
  h.same rfl rfl rfl ⟨[], rfl⟩

theorem Step.emit {s t : CPU} (e : BusEvent) (h : Step s t) : Step s (t.emit e) :=
  h.same rfl rfl rfl ⟨[e], rfl⟩

theorem Step.setThumbMode {s t : CPU} (b : Bool) (h : Step s t) : Step s (t.setThumbMode b) :=
  h.same rfl rfl (mode_setBit _ _ _ (by decide)) ⟨[], rfl⟩

theorem Step.setFiqDisable {s t : CPU} (b : Bool) (h : Step s t) : Step s (t.setFiqDisable b) :=
  h.same rfl rfl (mode_setBit _ _ _ (by decide)) ⟨[], rfl⟩

theorem Step.setIrqDisable {s t : CPU} (b : Bool) (h : Step s t) : Step s (t.setIrqDisable b) :=
  h.same rfl rfl (mode_setBit _ _ _ (by decide)) ⟨[], rfl⟩

theorem Step.setFlagV {s t : CPU} (b : Bool) (h : Step s t) : Step s (t.setFlagV b) :=
  h.same rfl rfl (mode_setBit _ _ _ (by decide)) ⟨[], rfl⟩

theorem Step.setFlagC {s t : CPU} (b : Bool) (h : Step s t) : Step s (t.setFlagC b) :=
  h.same rfl rfl (mode_setBit _ _ _ (by decide)) ⟨[], rfl⟩

theorem Step.setFlagZ {s t : CPU} (b : Bool) (h : Step s t) : Step s (t.setFlagZ b) :=
  h.same rfl rfl (mode_setBit _ _ _ (by decide)) ⟨[], rfl⟩

theorem Step.setFlagN {s t : CPU} (b : Bool) (h : Step s t) : Step s (t.setFlagN b) :=
  h.same rfl rfl (mode_setBit _ _ _ (by decide)) ⟨[], rfl⟩

theorem Step.busRead {s t : CPU} (E : Env) (w : Nat) (code : Bool) (addr : Nat) (seq : Bool) (h : Step s t) :
    Step s (busRead E w code addr seq t).2 :=
  h.emit _

theorem Step.busWrite {s t : CPU} (w addr value : Nat) (seq : Bool) (h : Step s t) :
    Step s (busWrite w addr value seq t) :=
  h.emit _

theorem Step.iCycle {s t : CPU} (n : Int) (h : Step s t) : Step s (iCycle n t) :=
  h.emit _

theorem Step.unknownOpcodeArm {s t : CPU} (opcode : Nat) (message : String) (h : Step s t) :
    Step s (unknownOpcodeArm opcode message t) :=
  (h.emit _).emit _

theorem Step.unknownOpcodeThumb {s t : CPU} (opcode : Nat) (message : String) (h : Step s t) :
    Step s (unknownOpcodeThumb opcode message t) :=
  (h.emit _).emit _

theorem Step.ite {s : CPU} (c : Prop) [Decidable c] {a b : CPU} (ha : Step s a) (hb : Step s b) :
    Step s (if c then a else b) := by
  split <;> assumption

theorem Step.ite_snd {s : CPU} {α : Type} (c : Prop) [Decidable c] {a b : α × CPU} (ha : Step s a.2)
    (hb : Step s b.2) : Step s (if c then a else b).2 := by
  split <;> assumption

theorem Step.ite_of_imp {s : CPU} (c : Prop) [Decidable c] {a b : CPU} (hb : Step s b)
    (ha : Step s b → Step s a) : Step s (if c then a else b) := by
  split
  · exact ha hb
  · exact hb

theorem Step.ite_snd_of_imp {s : CPU} {α : Type} (c : Prop) [Decidable c] {a b : α × CPU} (hb : Step s b.2)
    (ha : Step s b.2 → Step s a.2) : Step s (if c then a else b).2 := by
  split
  · exact ha hb
  · exact hb

theorem Step.fetchOpcode {s t : CPU} (E : Env) (h : Step s t) : Step s (fetchOpcode E t) := by
  unfold ARM7TDMI.fetchOpcode
  apply Step.ite
  · exact ((((h.busRead E _ _ _ _).setPipelineOpcode1 _).setPipelineOpcode3 _).setPipelineOpcode2 _).setR _ _
      |>.setNextFetchType _
  · exact ((((h.busRead E _ _ _ _).setPipelineOpcode1 _).setPipelineOpcode3 _).setPipelineOpcode2 _).setR _ _
      |>.setNextFetchType _

theorem Step.flushPipeline {s t : CPU} (E : Env) (h : Step s t) : Step s (flushPipeline E t) := by
  unfold ARM7TDMI.flushPipeline
  apply Step.ite
  · exact (((((h.setR _ _).busRead E _ _ _ _).setPipelineOpcode3 _).busRead E _ _ _ _).setPipelineOpcode2 _)
      |>.setNextFetchType _
  · exact (((((h.setR _ _).busRead E _ _ _ _).setPipelineOpcode3 _).busRead E _ _ _ _).setPipelineOpcode2 _)
      |>.setNextFetchType _

theorem Step.checkCondition {s t : CPU} (c : Nat) (h : Step s t) : Step s (checkCondition c t).2 := by
  unfold ARM7TDMI.checkCondition
  split <;> first | exact h | exact h.unknownOpcodeArm _ _

theorem Step.foldl {s : CPU} (f : LoopState → Nat → LoopState)
    (hf : ∀ st i, Step s st.cpu → Step s (f st i).cpu) (l : List Nat) (st : LoopState) (h : Step s st.cpu) :
    Step s (l.foldl f st).cpu := by
  induction l generalizing st with
  | nil => exact h
  | cons i l ih => exact ih _ (hf st i h)

theorem Step.ldmStep {s : CPU} (E : Env) (writeBack useAltRegisterBank : Bool) (opcode baseRegister writeBackAddress : Nat) (st : LoopState) (i : Nat)
    (h : Step s st.cpu) : Step s (ldmStep E writeBack useAltRegisterBank opcode baseRegister writeBackAddress st i).cpu := by
  unfold ARM7TDMI.ldmStep
  repeat (first
    | with_reducible assumption
    | with_reducible apply Step.fetchOpcode
    | with_reducible apply Step.flushPipeline
    | with_reducible apply Step.checkCondition
    | with_reducible apply Step.busRead
    | with_reducible apply Step.busWrite
    | with_reducible apply Step.iCycle
    | with_reducible apply Step.unknownOpcodeArm
    | with_reducible apply Step.unknownOpcodeThumb
    | with_reducible apply Step.setR
    | with_reducible apply Step.setBank
    | with_reducible apply Step.setNextFetchType
    | with_reducible apply Step.setThumbMode
    | with_reducible apply Step.setFlagN
    | with_reducible apply Step.setFlagZ
    | with_reducible apply Step.setFlagC
    | with_reducible apply Step.setFlagV
    | (with_reducible apply Step.ite_of_imp) <;> [skip; intro _]
    | split)

theorem Step.stmStep {s : CPU} (writeBack useAltRegisterBank : Bool) (opcode baseRegister writeBackAddress : Nat) (st : LoopState) (i : Nat)
    (h : Step s st.cpu) : Step s (stmStep writeBack useAltRegisterBank opcode baseRegister writeBackAddress st i).cpu := by
  unfold ARM7TDMI.stmStep
  repeat (first
    | with_reducible assumption
    | with_reducible apply Step.fetchOpcode
    | with_reducible apply Step.flushPipeline
    | with_reducible apply Step.checkCondition
    | with_reducible apply Step.busRead
    | with_reducible apply Step.busWrite
    | with_reducible apply Step.iCycle
    | with_reducible apply Step.unknownOpcodeArm
    | with_reducible apply Step.unknownOpcodeThumb
    | with_reducible apply Step.setR
    | with_reducible apply Step.setBank
    | with_reducible apply Step.setNextFetchType
    | with_reducible apply Step.setThumbMode
    | with_reducible apply Step.setFlagN
    | with_reducible apply Step.setFlagZ
    | with_reducible apply Step.setFlagC
    | with_reducible apply Step.setFlagV
    | (with_reducible apply Step.ite_of_imp) <;> [skip; intro _]
    | split)

theorem Step.popStep {s : CPU} (E : Env) (opcode : Nat) (st : LoopState) (i : Nat)
    (h : Step s st.cpu) : Step s (popStep E opcode st i).cpu := by
  unfold ARM7TDMI.popStep
  repeat (first
    | with_reducible assumption
    | with_reducible apply Step.fetchOpcode
    | with_reducible apply Step.flushPipeline
    | with_reducible apply Step.checkCondition
    | with_reducible apply Step.busRead
    | with_reducible apply Step.busWrite
    | with_reducible apply Step.iCycle
    | with_reducible apply Step.unknownOpcodeArm
    | with_reducible apply Step.unknownOpcodeThumb
    | with_reducible apply Step.setR
    | with_reducible apply Step.setBank
    | with_reducible apply Step.setNextFetchType
    | with_reducible apply Step.setThumbMode
    | with_reducible apply Step.setFlagN
    | with_reducible apply Step.setFlagZ
    | with_reducible apply Step.setFlagC
    | with_reducible apply Step.setFlagV
    | split)

theorem Step.pushStep {s : CPU} (opcode : Nat) (st : LoopState) (i : Nat)
    (h : Step s st.cpu) : Step s (pushStep opcode st i).cpu := by
  unfold ARM7TDMI.pushStep
  repeat (first
    | with_reducible assumption
    | with_reducible apply Step.fetchOpcode
    | with_reducible apply Step.flushPipeline
    | with_reducible apply Step.checkCondition
    | with_reducible apply Step.busRead
    | with_reducible apply Step.busWrite
    | with_reducible apply Step.iCycle
    | with_reducible apply Step.unknownOpcodeArm
    | with_reducible apply Step.unknownOpcodeThumb
    | with_reducible apply Step.setR
    | with_reducible apply Step.setBank
    | with_reducible apply Step.setNextFetchType
    | with_reducible apply Step.setThumbMode
    | with_reducible apply Step.setFlagN
    | with_reducible apply Step.setFlagZ
    | with_reducible apply Step.setFlagC
    | with_reducible apply Step.setFlagV
    | split)

theorem Step.thumbLdmStep {s : CPU} (E : Env) (opcode baseReg writeBackAddress : Nat) (st : LoopState) (i : Nat)
    (h : Step s st.cpu) : Step s (thumbLdmStep E opcode baseReg writeBackAddress st i).cpu := by
  unfold ARM7TDMI.thumbLdmStep
  repeat (first
    | with_reducible assumption
    | with_reducible apply Step.fetchOpcode
    | with_reducible apply Step.flushPipeline
    | with_reducible apply Step.checkCondition
    | with_reducible apply Step.busRead
    | with_reducible apply Step.busWrite
    | with_reducible apply Step.iCycle
    | with_reducible apply Step.unknownOpcodeArm
    | with_reducible apply Step.unknownOpcodeThumb
    | with_reducible apply Step.setR
    | with_reducible apply Step.setBank
    | with_reducible apply Step.setNextFetchType
    | with_reducible apply Step.setThumbMode
    | with_reducible apply Step.setFlagN
    | with_reducible apply Step.setFlagZ
    | with_reducible apply Step.setFlagC
    | with_reducible apply Step.setFlagV
    | (with_reducible apply Step.ite_of_imp) <;> [skip; intro _]
    | split)

theorem Step.thumbStmStep {s : CPU} (opcode baseReg writeBackAddress : Nat) (st : LoopState) (i : Nat)
    (h : Step s st.cpu) : Step s (thumbStmStep opcode baseReg writeBackAddress st i).cpu := by
  unfold ARM7TDMI.thumbStmStep
  repeat (first
    | with_reducible assumption
    | with_reducible apply Step.fetchOpcode
    | with_reducible apply Step.flushPipeline
    | with_reducible apply Step.checkCondition
    | with_reducible apply Step.busRead
    | with_reducible apply Step.busWrite
    | with_reducible apply Step.iCycle
    | with_reducible apply Step.unknownOpcodeArm
    | with_reducible apply Step.unknownOpcodeThumb
    | with_reducible apply Step.setR
    | with_reducible apply Step.setBank
    | with_reducible apply Step.setNextFetchType
    | with_reducible apply Step.setThumbMode
    | with_reducible apply Step.setFlagN
    | with_reducible apply Step.setFlagZ
    | with_reducible apply Step.setFlagC
    | with_reducible apply Step.setFlagV
    | (with_reducible apply Step.ite_of_imp) <;> [skip; intro _]
    | split)

theorem Step.thumbAluRegOp {s t : CPU} (E : Env) (op operand1 operand2 : Nat) (h : Step s t) :
    Step s (thumbAluRegOp E op operand1 operand2 t).2 := by
  unfold ARM7TDMI.thumbAluRegOp
  repeat (first
    | with_reducible assumption
    | with_reducible apply Step.fetchOpcode
    | with_reducible apply Step.flushPipeline
    | with_reducible apply Step.checkCondition
    | with_reducible apply Step.busRead
    | with_reducible apply Step.busWrite
    | with_reducible apply Step.iCycle
    | with_reducible apply Step.unknownOpcodeArm
    | with_reducible apply Step.unknownOpcodeThumb
    | with_reducible apply Step.setR
    | with_reducible apply Step.setBank
    | with_reducible apply Step.setNextFetchType
    | with_reducible apply Step.setThumbMode
    | with_reducible apply Step.setFlagN
    | with_reducible apply Step.setFlagZ
    | with_reducible apply Step.setFlagC
    | with_reducible apply Step.setFlagV
    | (with_reducible apply Step.ite_snd_of_imp) <;> [skip; intro _]
    | split)

theorem Step.multiply {s t : CPU} (E : Env) (accumulate sBit : Bool) (opcode : Nat) (h : Step s t) :
    Step s (multiply E accumulate sBit opcode t) := by
  unfold ARM7TDMI.multiply
  repeat (first
    | with_reducible assumption
    | (with_reducible apply Step.foldl _ (fun st i h => Step.ldmStep _ _ _ _ _ _ st i h))
    | (with_reducible apply Step.foldl _ (fun st i h => Step.stmStep _ _ _ _ _ st i h))
    | (with_reducible apply Step.foldl _ (fun st i h => Step.popStep _ _ st i h))
    | (with_reducible apply Step.foldl _ (fun st i h => Step.pushStep _ st i h))
    | (with_reducible apply Step.foldl _ (fun st i h => Step.thumbLdmStep _ _ _ _ st i h))
    | (with_reducible apply Step.foldl _ (fun st i h => Step.thumbStmStep _ _ _ st i h))
    | with_reducible apply Step.thumbAluRegOp
    | with_reducible apply Step.fetchOpcode
    | with_reducible apply Step.flushPipeline
    | with_reducible apply Step.checkCondition
    | with_reducible apply Step.busRead
    | with_reducible apply Step.busWrite
    | with_reducible apply Step.iCycle
    | with_reducible apply Step.unknownOpcodeArm
    | with_reducible apply Step.unknownOpcodeThumb
    | with_reducible apply Step.setR
    | with_reducible apply Step.setBank
    | with_reducible apply Step.setNextFetchType
    | with_reducible apply Step.setThumbMode
    | with_reducible apply Step.setFlagN
    | with_reducible apply Step.setFlagZ
    | with_reducible apply Step.setFlagC
    | with_reducible apply Step.setFlagV
    | (with_reducible apply Step.ite_of_imp) <;> [skip; intro _]
    | split)

theorem Step.multiplyLong {s t : CPU} (E : Env) (signedMul accumulate sBit : Bool) (opcode : Nat) (h : Step s t) :
    Step s (multiplyLong E signedMul accumulate sBit opcode t) := by
  unfold ARM7TDMI.multiplyLong
  repeat (first
    | with_reducible assumption
    | (with_reducible apply Step.foldl _ (fun st i h => Step.ldmStep _ _ _ _ _ _ st i h))
    | (with_reducible apply Step.foldl _ (fun st i h => Step.stmStep _ _ _ _ _ st i h))
    | (with_reducible apply Step.foldl _ (fun st i h => Step.popStep _ _ st i h))
    | (with_reducible apply Step.foldl _ (fun st i h => Step.pushStep _ st i h))
    | (with_reducible apply Step.foldl _ (fun st i h => Step.thumbLdmStep _ _ _ _ st i h))
    | (with_reducible apply Step.foldl _ (fun st i h => Step.thumbStmStep _ _ _ st i h))
    | with_reducible apply Step.thumbAluRegOp
    | with_reducible apply Step.fetchOpcode
    | with_reducible apply Step.flushPipeline
    | with_reducible apply Step.checkCondition
    | with_reducible apply Step.busRead
    | with_reducible apply Step.busWrite
    | with_reducible apply Step.iCycle
    | with_reducible apply Step.unknownOpcodeArm
    | with_reducible apply Step.unknownOpcodeThumb
    | with_reducible apply Step.setR
    | with_reducible apply Step.setBank
    | with_reducible apply Step.setNextFetchType
    | with_reducible apply Step.setThumbMode
    | with_reducible apply Step.setFlagN
    | with_reducible apply Step.setFlagZ
    | with_reducible apply Step.setFlagC
    | with_reducible apply Step.setFlagV
    | (with_reducible apply Step.ite_of_imp) <;> [skip; intro _]
    | split)

theorem Step.singleDataSwap {s t : CPU} (E : Env) (byteWord : Bool) (opcode : Nat) (h : Step s t) :
    Step s (singleDataSwap E byteWord opcode t) := by
  unfold ARM7TDMI.singleDataSwap
  repeat (first
    | with_reducible assumption
    | (with_reducible apply Step.foldl _ (fun st i h => Step.ldmStep _ _ _ _ _ _ st i h))
    | (with_reducible apply Step.foldl _ (fun st i h => Step.stmStep _ _ _ _ _ st i h))
    | (with_reducible apply Step.foldl _ (fun st i h => Step.popStep _ _ st i h))
    | (with_reducible apply Step.foldl _ (fun st i h => Step.pushStep _ st i h))
    | (with_reducible apply Step.foldl _ (fun st i h => Step.thumbLdmStep _ _ _ _ st i h))
    | (with_reducible apply Step.foldl _ (fun st i h => Step.thumbStmStep _ _ _ st i h))
    | with_reducible apply Step.thumbAluRegOp
    | with_reducible apply Step.fetchOpcode
    | with_reducible apply Step.flushPipeline
    | with_reducible apply Step.checkCondition
    | with_reducible apply Step.busRead
    | with_reducible apply Step.busWrite
    | with_reducible apply Step.iCycle
    | with_reducible apply Step.unknownOpcodeArm
    | with_reducible apply Step.unknownOpcodeThumb
    | with_reducible apply Step.setR
    | with_reducible apply Step.setBank
    | with_reducible apply Step.setNextFetchType
    | with_reducible apply Step.setThumbMode
    | with_reducible apply Step.setFlagN
    | with_reducible apply Step.setFlagZ
    | with_reducible apply Step.setFlagC
    | with_reducible apply Step.setFlagV
    | (with_reducible apply Step.ite_snd_of_imp) <;> [skip; intro _]
    | (with_reducible apply Step.ite_of_imp) <;> [skip; intro _]
    | split)

theorem Step.psrLoad {s t : CPU} (E : Env) (targetPSR : Bool) (opcode : Nat) (h : Step s t) :
    Step s (psrLoad E targetPSR opcode t) := by
  unfold ARM7TDMI.psrLoad
  repeat (first
    | with_reducible assumption
    | (with_reducible apply Step.foldl _ (fun st i h => Step.ldmStep _ _ _ _ _ _ st i h))
    | (with_reducible apply Step.foldl _ (fun st i h => Step.stmStep _ _ _ _ _ st i h))
    | (with_reducible apply Step.foldl _ (fun st i h => Step.popStep _ _ st i h))
    | (with_reducible apply Step.foldl _ (fun st i h => Step.pushStep _ st i h))
    | (with_reducible apply Step.foldl _ (fun st i h => Step.thumbLdmStep _ _ _ _ st i h))
    | (with_reducible apply Step.foldl _ (fun st i h => Step.thumbStmStep _ _ _ st i h))
    | with_reducible apply Step.thumbAluRegOp
    | with_reducible apply Step.fetchOpcode
    | with_reducible apply Step.flushPipeline
    | with_reducible apply Step.checkCondition
    | with_reducible apply Step.busRead
    | with_reducible apply Step.busWrite
    | with_reducible apply Step.iCycle
    | with_reducible apply Step.unknownOpcodeArm
    | with_reducible apply Step.unknownOpcodeThumb
    | with_reducible apply Step.setR
    | with_reducible apply Step.setBank
    | with_reducible apply Step.setNextFetchType
    | with_reducible apply Step.setThumbMode
    | with_reducible apply Step.setFlagN
    | with_reducible apply Step.setFlagZ
    | with_reducible apply Step.setFlagC
    | with_reducible apply Step.setFlagV
    | (with_reducible apply Step.ite_of_imp) <;> [skip; intro _]
    | split)

theorem Step.branchExchange {s t : CPU} (E : Env) (opcode : Nat) (h : Step s t) :
    Step s (branchExchange E opcode t) := by
  unfold ARM7TDMI.branchExchange
  repeat (first
    | with_reducible assumption
    | (with_reducible apply Step.foldl _ (fun st i h => Step.ldmStep _ _ _ _ _ _ st i h))
    | (with_reducible apply Step.foldl _ (fun st i h => Step.stmStep _ _ _ _ _ st i h))
    | (with_reducible apply Step.foldl _ (fun st i h => Step.popStep _ _ st i h))
    | (with_reducible apply Step.foldl _ (fun st i h => Step.pushStep _ st i h))
    | (with_reducible apply Step.foldl _ (fun st i h => Step.thumbLdmStep _ _ _ _ st i h))
    | (with_reducible apply Step.foldl _ (fun st i h => Step.thumbStmStep _ _ _ st i h))
    | with_reducible apply Step.thumbAluRegOp
    | with_reducible apply Step.fetchOpcode
    | with_reducible apply Step.flushPipeline
    | with_reducible apply Step.checkCondition
    | with_reducible apply Step.busRead
    | with_reducible apply Step.busWrite
    | with_reducible apply Step.iCycle
    | with_reducible apply Step.unknownOpcodeArm
    | with_reducible apply Step.unknownOpcodeThumb
    | with_reducible apply Step.setR
    | with_reducible apply Step.setBank
    | with_reducible apply Step.setNextFetchType
    | with_reducible apply Step.setThumbMode
    | with_reducible apply Step.setFlagN
    | with_reducible apply Step.setFlagZ
    | with_reducible apply Step.setFlagC
    | with_reducible apply Step.setFlagV
    | split)

theorem Step.halfwordDataTransfer {s t : CPU} (E : Env) (prePostIndex upDown immediateOffset writeBack loadStore : Bool) (shBits : Nat) (opcode : Nat) (h : Step s t) :
    Step s (halfwordDataTransfer E prePostIndex upDown immediateOffset writeBack loadStore shBits opcode t) := by
  unfold ARM7TDMI.halfwordDataTransfer
  repeat (first
    | with_reducible assumption
    | (with_reducible apply Step.foldl _ (fun st i h => Step.ldmStep _ _ _ _ _ _ st i h))
    | (with_reducible apply Step.foldl _ (fun st i h => Step.stmStep _ _ _ _ _ st i h))
    | (with_reducible apply Step.foldl _ (fun st i h => Step.popStep _ _ st i h))
    | (with_reducible apply Step.foldl _ (fun st i h => Step.pushStep _ st i h))
    | (with_reducible apply Step.foldl _ (fun st i h => Step.thumbLdmStep _ _ _ _ st i h))
    | (with_reducible apply Step.foldl _ (fun st i h => Step.thumbStmStep _ _ _ st i h))
    | with_reducible apply Step.thumbAluRegOp
    | with_reducible apply Step.fetchOpcode
    | with_reducible apply Step.flushPipeline
    | with_reducible apply Step.checkCondition
    | with_reducible apply Step.busRead
    | with_reducible apply Step.busWrite
    | with_reducible apply Step.iCycle
    | with_reducible apply Step.unknownOpcodeArm
    | with_reducible apply Step.unknownOpcodeThumb
    | with_reducible apply Step.setR
    | with_reducible apply Step.setBank
    | with_reducible apply Step.setNextFetchType
    | with_reducible apply Step.setThumbMode
    | with_reducible apply Step.setFlagN
    | with_reducible apply Step.setFlagZ
    | with_reducible apply Step.setFlagC
    | with_reducible apply Step.setFlagV
    | (with_reducible apply Step.ite_snd_of_imp) <;> [skip; intro _]
    | (with_reducible apply Step.ite_of_imp) <;> [skip; intro _]
    | split)

theorem Step.singleDataTransfer {s t : CPU} (E : Env) (immediateOffset prePostIndex upDown byteWord writeBack loadStore : Bool) (opcode : Nat) (h : Step s t) :
    Step s (singleDataTransfer E immediateOffset prePostIndex upDown byteWord writeBack loadStore opcode t) := by
  unfold ARM7TDMI.singleDataTransfer
  repeat (first
    | with_reducible assumption
    | (with_reducible apply Step.foldl _ (fun st i h => Step.ldmStep _ _ _ _ _ _ st i h))
    | (with_reducible apply Step.foldl _ (fun st i h => Step.stmStep _ _ _ _ _ st i h))
    | (with_reducible apply Step.foldl _ (fun st i h => Step.popStep _ _ st i h))
    | (with_reducible apply Step.foldl _ (fun st i h => Step.pushStep _ st i h))
    | (with_reducible apply Step.foldl _ (fun st i h => Step.thumbLdmStep _ _ _ _ st i h))
    | (with_reducible apply Step.foldl _ (fun st i h => Step.thumbStmStep _ _ _ st i h))
    | with_reducible apply Step.thumbAluRegOp
    | with_reducible apply Step.fetchOpcode
    | with_reducible apply Step.flushPipeline
    | with_reducible apply Step.checkCondition
    | with_reducible apply Step.busRead
    | with_reducible apply Step.busWrite
    | with_reducible apply Step.iCycle
    | with_reducible apply Step.unknownOpcodeArm
    | with_reducible apply Step.unknownOpcodeThumb
    | with_reducible apply Step.setR
    | with_reducible apply Step.setBank
    | with_reducible apply Step.setNextFetchType
    | with_reducible apply Step.setThumbMode
    | with_reducible apply Step.setFlagN
    | with_reducible apply Step.setFlagZ
    | with_reducible apply Step.setFlagC
    | with_reducible apply Step.setFlagV
    | (with_reducible apply Step.ite_snd_of_imp) <;> [skip; intro _]
    | (with_reducible apply Step.ite_of_imp) <;> [skip; intro _]
    | split)

theorem Step.branch {s t : CPU} (E : Env) (link : Bool) (opcode : Nat) (h : Step s t) :
    Step s (branch E link opcode t) := by
  unfold ARM7TDMI.branch
  repeat (first
    | with_reducible assumption
    | (with_reducible apply Step.foldl _ (fun st i h => Step.ldmStep _ _ _ _ _ _ st i h))
    | (with_reducible apply Step.foldl _ (fun st i h => Step.stmStep _ _ _ _ _ st i h))
    | (with_reducible apply Step.foldl _ (fun st i h => Step.popStep _ _ st i h))
    | (with_reducible apply Step.foldl _ (fun st i h => Step.pushStep _ st i h))
    | (with_reducible apply Step.foldl _ (fun st i h => Step.thumbLdmStep _ _ _ _ st i h))
    | (with_reducible apply Step.foldl _ (fun st i h => Step.thumbStmStep _ _ _ st i h))
    | with_reducible apply Step.thumbAluRegOp
    | with_reducible apply Step.fetchOpcode
    | with_reducible apply Step.flushPipeline
    | with_reducible apply Step.checkCondition
    | with_reducible apply Step.busRead
    | with_reducible apply Step.busWrite
    | with_reducible apply Step.iCycle
    | with_reducible apply Step.unknownOpcodeArm
    | with_reducible apply Step.unknownOpcodeThumb
    | with_reducible apply Step.setR
    | with_reducible apply Step.setBank
    | with_reducible apply Step.setNextFetchType
    | with_reducible apply Step.setThumbMode
    | with_reducible apply Step.setFlagN
    | with_reducible apply Step.setFlagZ
    | with_reducible apply Step.setFlagC
    | with_reducible apply Step.setFlagV
    | (with_reducible apply Step.ite_of_imp) <;> [skip; intro _]
    | split)

theorem Step.thumbMoveShiftedReg {s t : CPU} (E : Env) (op shiftAmount : Nat) (opcode : Nat) (h : Step s t) :
    Step s (thumbMoveShiftedReg E op shiftAmount opcode t) := by
  unfold ARM7TDMI.thumbMoveShiftedReg
  repeat (first
    | with_reducible assumption
    | (with_reducible apply Step.foldl _ (fun st i h => Step.ldmStep _ _ _ _ _ _ st i h))
    | (with_reducible apply Step.foldl _ (fun st i h => Step.stmStep _ _ _ _ _ st i h))
    | (with_reducible apply Step.foldl _ (fun st i h => Step.popStep _ _ st i h))
    | (with_reducible apply Step.foldl _ (fun st i h => Step.pushStep _ st i h))
    | (with_reducible apply Step.foldl _ (fun st i h => Step.thumbLdmStep _ _ _ _ st i h))
    | (with_reducible apply Step.foldl _ (fun st i h => Step.thumbStmStep _ _ _ st i h))
    | with_reducible apply Step.thumbAluRegOp
    | with_reducible apply Step.fetchOpcode
    | with_reducible apply Step.flushPipeline
    | with_reducible apply Step.checkCondition
    | with_reducible apply Step.busRead
    | with_reducible apply Step.busWrite
    | with_reducible apply Step.iCycle
    | with_reducible apply Step.unknownOpcodeArm
    | with_reducible apply Step.unknownOpcodeThumb
    | with_reducible apply Step.setR
    | with_reducible apply Step.setBank
    | with_reducible apply Step.setNextFetchType
    | with_reducible apply Step.setThumbMode
    | with_reducible apply Step.setFlagN
    | with_reducible apply Step.setFlagZ
    | with_reducible apply Step.setFlagC
    | with_reducible apply Step.setFlagV
    | (with_reducible apply Step.ite_snd_of_imp) <;> [skip; intro _]
    | split)

theorem Step.thumbAddSubtract {s t : CPU} (E : Env) (immediate op : Bool) (offset : Nat) (opcode : Nat) (h : Step s t) :
    Step s (thumbAddSubtract E immediate op offset opcode t) := by
  unfold ARM7TDMI.thumbAddSubtract
  repeat (first
    | with_reducible assumption
    | (with_reducible apply Step.foldl _ (fun st i h => Step.ldmStep _ _ _ _ _ _ st i h))
    | (with_reducible apply Step.foldl _ (fun st i h => Step.stmStep _ _ _ _ _ st i h))
    | (with_reducible apply Step.foldl _ (fun st i h => Step.popStep _ _ st i h))
    | (with_reducible apply Step.foldl _ (fun st i h => Step.pushStep _ st i h))
    | (with_reducible apply Step.foldl _ (fun st i h => Step.thumbLdmStep _ _ _ _ st i h))
    | (with_reducible apply Step.foldl _ (fun st i h => Step.thumbStmStep _ _ _ st i h))
    | with_reducible apply Step.thumbAluRegOp
    | with_reducible apply Step.fetchOpcode
    | with_reducible apply Step.flushPipeline
    | with_reducible apply Step.checkCondition
    | with_reducible apply Step.busRead
    | with_reducible apply Step.busWrite
    | with_reducible apply Step.iCycle
    | with_reducible apply Step.unknownOpcodeArm
    | with_reducible apply Step.unknownOpcodeThumb
    | with_reducible apply Step.setR
    | with_reducible apply Step.setBank
    | with_reducible apply Step.setNextFetchType
    | with_reducible apply Step.setThumbMode
    | with_reducible apply Step.setFlagN
    | with_reducible apply Step.setFlagZ
    | with_reducible apply Step.setFlagC
    | with_reducible apply Step.setFlagV
    | (with_reducible apply Step.ite_snd_of_imp) <;> [skip; intro _]
    | split)

theorem Step.thumbAluImmediate {s t : CPU} (E : Env) (op destinationReg : Nat) (opcode : Nat) (h : Step s t) :
    Step s (thumbAluImmediate E op destinationReg opcode t) := by
  unfold ARM7TDMI.thumbAluImmediate
  repeat (first
    | with_reducible assumption
    | (with_reducible apply Step.foldl _ (fun st i h => Step.ldmStep _ _ _ _ _ _ st i h))
    | (with_reducible apply Step.foldl _ (fun st i h => Step.stmStep _ _ _ _ _ st i h))
    | (with_reducible apply Step.foldl _ (fun st i h => Step.popStep _ _ st i h))
    | (with_reducible apply Step.foldl _ (fun st i h => Step.pushStep _ st i h))
    | (with_reducible apply Step.foldl _ (fun st i h => Step.thumbLdmStep _ _ _ _ st i h))
    | (with_reducible apply Step.foldl _ (fun st i h => Step.thumbStmStep _ _ _ st i h))
    | with_reducible apply Step.thumbAluRegOp
    | with_reducible apply Step.fetchOpcode
    | with_reducible apply Step.flushPipeline
    | with_reducible apply Step.checkCondition
    | with_reducible apply Step.busRead
    | with_reducible apply Step.busWrite
    | with_reducible apply Step.iCycle
    | with_reducible apply Step.unknownOpcodeArm
    | with_reducible apply Step.unknownOpcodeThumb
    | with_reducible apply Step.setR
    | with_reducible apply Step.setBank
    | with_reducible apply Step.setNextFetchType
    | with_reducible apply Step.setThumbMode
    | with_reducible apply Step.setFlagN
    | with_reducible apply Step.setFlagZ
    | with_reducible apply Step.setFlagC
    | with_reducible apply Step.setFlagV
    | (with_reducible apply Step.ite_of_imp) <;> [skip; intro _]
    | split)

theorem Step.thumbAluReg {s t : CPU} (E : Env) (op : Nat) (opcode : Nat) (h : Step s t) :
    Step s (thumbAluReg E op opcode t) := by
  unfold ARM7TDMI.thumbAluReg
  repeat (first
    | with_reducible assumption
    | (with_reducible apply Step.foldl _ (fun st i h => Step.ldmStep _ _ _ _ _ _ st i h))
    | (with_reducible apply Step.foldl _ (fun st i h => Step.stmStep _ _ _ _ _ st i h))
    | (with_reducible apply Step.foldl _ (fun st i h => Step.popStep _ _ st i h))
    | (with_reducible apply Step.foldl _ (fun st i h => Step.pushStep _ st i h))
    | (with_reducible apply Step.foldl _ (fun st i h => Step.thumbLdmStep _ _ _ _ st i h))
    | (with_reducible apply Step.foldl _ (fun st i h => Step.thumbStmStep _ _ _ st i h))
    | with_reducible apply Step.thumbAluRegOp
    | with_reducible apply Step.fetchOpcode
    | with_reducible apply Step.flushPipeline
    | with_reducible apply Step.checkCondition
    | with_reducible apply Step.busRead
    | with_reducible apply Step.busWrite
    | with_reducible apply Step.iCycle
    | with_reducible apply Step.unknownOpcodeArm
    | with_reducible apply Step.unknownOpcodeThumb
    | with_reducible apply Step.setR
    | with_reducible apply Step.setBank
    | with_reducible apply Step.setNextFetchType
    | with_reducible apply Step.setThumbMode
    | with_reducible apply Step.setFlagN
    | with_reducible apply Step.setFlagZ
    | with_reducible apply Step.setFlagC
    | with_reducible apply Step.setFlagV
    | (with_reducible apply Step.ite_of_imp) <;> [skip; intro _]
    | split)

theorem Step.thumbHighRegOperation {s t : CPU} (E : Env) (op : Nat) (opFlag1 opFlag2 : Bool) (opcode : Nat) (h : Step s t) :
    Step s (thumbHighRegOperation E op opFlag1 opFlag2 opcode t) := by
  unfold ARM7TDMI.thumbHighRegOperation
  repeat (first
    | with_reducible assumption
    | (with_reducible apply Step.foldl _ (fun st i h => Step.ldmStep _ _ _ _ _ _ st i h))
    | (with_reducible apply Step.foldl _ (fun st i h => Step.stmStep _ _ _ _ _ st i h))
    | (with_reducible apply Step.foldl _ (fun st i h => Step.popStep _ _ st i h))
    | (with_reducible apply Step.foldl _ (fun st i h => Step.pushStep _ st i h))
    | (with_reducible apply Step.foldl _ (fun st i h => Step.thumbLdmStep _ _ _ _ st i h))
    | (with_reducible apply Step.foldl _ (fun st i h => Step.thumbStmStep _ _ _ st i h))
    | with_reducible apply Step.thumbAluRegOp
    | with_reducible apply Step.fetchOpcode
    | with_reducible apply Step.flushPipeline
    | with_reducible apply Step.checkCondition
    | with_reducible apply Step.busRead
    | with_reducible apply Step.busWrite
    | with_reducible apply Step.iCycle
    | with_reducible apply Step.unknownOpcodeArm
    | with_reducible apply Step.unknownOpcodeThumb
    | with_reducible apply Step.setR
    | with_reducible apply Step.setBank
    | with_reducible apply Step.setNextFetchType
    | with_reducible apply Step.setThumbMode
    | with_reducible apply Step.setFlagN
    | with_reducible apply Step.setFlagZ
    | with_reducible apply Step.setFlagC
    | with_reducible apply Step.setFlagV
    | (with_reducible apply Step.ite_of_imp) <;> [skip; intro _]
    | split)

theorem Step.thumbPcRelativeLoad {s t : CPU} (E : Env) (destinationReg : Nat) (opcode : Nat) (h : Step s t) :
    Step s (thumbPcRelativeLoad E destinationReg opcode t) := by
  unfold ARM7TDMI.thumbPcRelativeLoad
  repeat (first
    | with_reducible assumption
    | (with_reducible apply Step.foldl _ (fun st i h => Step.ldmStep _ _ _ _ _ _ st i h))
    | (with_reducible apply Step.foldl _ (fun st i h => Step.stmStep _ _ _ _ _ st i h))
    | (with_reducible apply Step.foldl _ (fun st i h => Step.popStep _ _ st i h))
    | (with_reducible apply Step.foldl _ (fun st i h => Step.pushStep _ st i h))
    | (with_reducible apply Step.foldl _ (fun st i h => Step.thumbLdmStep _ _ _ _ st i h))
    | (with_reducible apply Step.foldl _ (fun st i h => Step.thumbStmStep _ _ _ st i h))
    | with_reducible apply Step.thumbAluRegOp
    | with_reducible apply Step.fetchOpcode
    | with_reducible apply Step.flushPipeline
    | with_reducible apply Step.checkCondition
    | with_reducible apply Step.busRead
    | with_reducible apply Step.busWrite
    | with_reducible apply Step.iCycle
    | with_reducible apply Step.unknownOpcodeArm
    | with_reducible apply Step.unknownOpcodeThumb
    | with_reducible apply Step.setR
    | with_reducible apply Step.setBank
    | with_reducible apply Step.setNextFetchType
    | with_reducible apply Step.setThumbMode
    | with_reducible apply Step.setFlagN
    | with_reducible apply Step.setFlagZ
    | with_reducible apply Step.setFlagC
    | with_reducible apply Step.setFlagV
    | split)

theorem Step.thumbLoadStoreRegOffset {s t : CPU} (E : Env) (loadStore byteWord : Bool) (offsetReg : Nat) (opcode : Nat) (h : Step s t) :
    Step s (thumbLoadStoreRegOffset E loadStore byteWord offsetReg opcode t) := by
  unfold ARM7TDMI.thumbLoadStoreRegOffset
  repeat (first
    | with_reducible assumption
    | (with_reducible apply Step.foldl _ (fun st i h => Step.ldmStep _ _ _ _ _ _ st i h))
    | (with_reducible apply Step.foldl _ (fun st i h => Step.stmStep _ _ _ _ _ st i h))
    | (with_reducible apply Step.foldl _ (fun st i h => Step.popStep _ _ st i h))
    | (with_reducible apply Step.foldl _ (fun st i h => Step.pushStep _ st i h))
    | (with_reducible apply Step.foldl _ (fun st i h => Step.thumbLdmStep _ _ _ _ st i h))
    | (with_reducible apply Step.foldl _ (fun st i h => Step.thumbStmStep _ _ _ st i h))
    | with_reducible apply Step.thumbAluRegOp
    | with_reducible apply Step.fetchOpcode
    | with_reducible apply Step.flushPipeline
    | with_reducible apply Step.checkCondition
    | with_reducible apply Step.busRead
    | with_reducible apply Step.busWrite
    | with_reducible apply Step.iCycle
    | with_reducible apply Step.unknownOpcodeArm
    | with_reducible apply Step.unknownOpcodeThumb
    | with_reducible apply Step.setR
    | with_reducible apply Step.setBank
    | with_reducible apply Step.setNextFetchType
    | with_reducible apply Step.setThumbMode
    | with_reducible apply Step.setFlagN
    | with_reducible apply Step.setFlagZ
    | with_reducible apply Step.setFlagC
    | with_reducible apply Step.setFlagV
    | (with_reducible apply Step.ite_of_imp) <;> [skip; intro _]
    | split)

theorem Step.thumbLoadStoreSext {s t : CPU} (E : Env) (hsBits offsetReg : Nat) (opcode : Nat) (h : Step s t) :
    Step s (thumbLoadStoreSext E hsBits offsetReg opcode t) := by
  unfold ARM7TDMI.thumbLoadStoreSext
  repeat (first
    | with_reducible assumption
    | (with_reducible apply Step.foldl _ (fun st i h => Step.ldmStep _ _ _ _ _ _ st i h))
    | (with_reducible apply Step.foldl _ (fun st i h => Step.stmStep _ _ _ _ _ st i h))
    | (with_reducible apply Step.foldl _ (fun st i h => Step.popStep _ _ st i h))
    | (with_reducible apply Step.foldl _ (fun st i h => Step.pushStep _ st i h))
    | (with_reducible apply Step.foldl _ (fun st i h => Step.thumbLdmStep _ _ _ _ st i h))
    | (with_reducible apply Step.foldl _ (fun st i h => Step.thumbStmStep _ _ _ st i h))
    | with_reducible apply Step.thumbAluRegOp
    | with_reducible apply Step.fetchOpcode
    | with_reducible apply Step.flushPipeline
    | with_reducible apply Step.checkCondition
    | with_reducible apply Step.busRead
    | with_reducible apply Step.busWrite
    | with_reducible apply Step.iCycle
    | with_reducible apply Step.unknownOpcodeArm
    | with_reducible apply Step.unknownOpcodeThumb
    | with_reducible apply Step.setR
    | with_reducible apply Step.setBank
    | with_reducible apply Step.setNextFetchType
    | with_reducible apply Step.setThumbMode
    | with_reducible apply Step.setFlagN
    | with_reducible apply Step.setFlagZ
    | with_reducible apply Step.setFlagC
    | with_reducible apply Step.setFlagV
    | (with_reducible apply Step.ite_of_imp) <;> [skip; intro _]
    | split)

theorem Step.thumbLoadStoreImmediateOffset {s t : CPU} (E : Env) (byteWord loadStore : Bool) (offset : Nat) (opcode : Nat) (h : Step s t) :
    Step s (thumbLoadStoreImmediateOffset E byteWord loadStore offset opcode t) := by
  unfold ARM7TDMI.thumbLoadStoreImmediateOffset
  repeat (first
    | with_reducible assumption
    | (with_reducible apply Step.foldl _ (fun st i h => Step.ldmStep _ _ _ _ _ _ st i h))
    | (with_reducible apply Step.foldl _ (fun st i h => Step.stmStep _ _ _ _ _ st i h))
    | (with_reducible apply Step.foldl _ (fun st i h => Step.popStep _ _ st i h))
    | (with_reducible apply Step.foldl _ (fun st i h => Step.pushStep _ st i h))
    | (with_reducible apply Step.foldl _ (fun st i h => Step.thumbLdmStep _ _ _ _ st i h))
    | (with_reducible apply Step.foldl _ (fun st i h => Step.thumbStmStep _ _ _ st i h))
    | with_reducible apply Step.thumbAluRegOp
    | with_reducible apply Step.fetchOpcode
    | with_reducible apply Step.flushPipeline
    | with_reducible apply Step.checkCondition
    | with_reducible apply Step.busRead
    | with_reducible apply Step.busWrite
    | with_reducible apply Step.iCycle
    | with_reducible apply Step.unknownOpcodeArm
    | with_reducible apply Step.unknownOpcodeThumb
    | with_reducible apply Step.setR
    | with_reducible apply Step.setBank
    | with_reducible apply Step.setNextFetchType
    | with_reducible apply Step.setThumbMode
    | with_reducible apply Step.setFlagN
    | with_reducible apply Step.setFlagZ
    | with_reducible apply Step.setFlagC
    | with_reducible apply Step.setFlagV
    | (with_reducible apply Step.ite_of_imp) <;> [skip; intro _]
    | split)

theorem Step.thumbLoadStoreHalfword {s t : CPU} (E : Env) (loadStore : Bool) (offset : Nat) (opcode : Nat) (h : Step s t) :
    Step s (thumbLoadStoreHalfword E loadStore offset opcode t) := by
  unfold ARM7TDMI.thumbLoadStoreHalfword
  repeat (first
    | with_reducible assumption
    | (with_reducible apply Step.foldl _ (fun st i h => Step.ldmStep _ _ _ _ _ _ st i h))
    | (with_reducible apply Step.foldl _ (fun st i h => Step.stmStep _ _ _ _ _ st i h))
    | (with_reducible apply Step.foldl _ (fun st i h => Step.popStep _ _ st i h))
    | (with_reducible apply Step.foldl _ (fun st i h => Step.pushStep _ st i h))
    | (with_reducible apply Step.foldl _ (fun st i h => Step.thumbLdmStep _ _ _ _ st i h))
    | (with_reducible apply Step.foldl _ (fun st i h => Step.thumbStmStep _ _ _ st i h))
    | with_reducible apply Step.thumbAluRegOp
    | with_reducible apply Step.fetchOpcode
    | with_reducible apply Step.flushPipeline
    | with_reducible apply Step.checkCondition
    | with_reducible apply Step.busRead
    | with_reducible apply Step.busWrite
    | with_reducible apply Step.iCycle
    | with_reducible apply Step.unknownOpcodeArm
    | with_reducible apply Step.unknownOpcodeThumb
    | with_reducible apply Step.setR
    | with_reducible apply Step.setBank
    | with_reducible apply Step.setNextFetchType
    | with_reducible apply Step.setThumbMode
    | with_reducible apply Step.setFlagN
    | with_reducible apply Step.setFlagZ
    | with_reducible apply Step.setFlagC
    | with_reducible apply Step.setFlagV
    | (with_reducible apply Step.ite_of_imp) <;> [skip; intro _]
    | split)

theorem Step.thumbSpRelativeLoadStore {s t : CPU} (E : Env) (loadStore : Bool) (destinationReg : Nat) (opcode : Nat) (h : Step s t) :
    Step s (thumbSpRelativeLoadStore E loadStore destinationReg opcode t) := by
  unfold ARM7TDMI.thumbSpRelativeLoadStore
  repeat (first
    | with_reducible assumption
    | (with_reducible apply Step.foldl _ (fun st i h => Step.ldmStep _ _ _ _ _ _ st i h))
    | (with_reducible apply Step.foldl _ (fun st i h => Step.stmStep _ _ _ _ _ st i h))
    | (with_reducible apply Step.foldl _ (fun st i h => Step.popStep _ _ st i h))
    | (with_reducible apply Step.foldl _ (fun st i h => Step.pushStep _ st i h))
    | (with_reducible apply Step.foldl _ (fun st i h => Step.thumbLdmStep _ _ _ _ st i h))
    | (with_reducible apply Step.foldl _ (fun st i h => Step.thumbStmStep _ _ _ st i h))
    | with_reducible apply Step.thumbAluRegOp
    | with_reducible apply Step.fetchOpcode
    | with_reducible apply Step.flushPipeline
    | with_reducible apply Step.checkCondition
    | with_reducible apply Step.busRead
    | with_reducible apply Step.busWrite
    | with_reducible apply Step.iCycle
    | with_reducible apply Step.unknownOpcodeArm
    | with_reducible apply Step.unknownOpcodeThumb
    | with_reducible apply Step.setR
    | with_reducible apply Step.setBank
    | with_reducible apply Step.setNextFetchType
    | with_reducible apply Step.setThumbMode
    | with_reducible apply Step.setFlagN
    | with_reducible apply Step.setFlagZ
    | with_reducible apply Step.setFlagC
    | with_reducible apply Step.setFlagV
    | (with_reducible apply Step.ite_of_imp) <;> [skip; intro _]
    | split)

theorem Step.thumbLoadAddress {s t : CPU} (E : Env) (spPc : Bool) (destinationReg : Nat) (opcode : Nat) (h : Step s t) :
    Step s (thumbLoadAddress E spPc destinationReg opcode t) := by
  unfold ARM7TDMI.thumbLoadAddress
  repeat (first
    | with_reducible assumption
    | (with_reducible apply Step.foldl _ (fun st i h => Step.ldmStep _ _ _ _ _ _ st i h))
    | (with_reducible apply Step.foldl _ (fun st i h => Step.stmStep _ _ _ _ _ st i h))
    | (with_reducible apply Step.foldl _ (fun st i h => Step.popStep _ _ st i h))
    | (with_reducible apply Step.foldl _ (fun st i h => Step.pushStep _ st i h))
    | (with_reducible apply Step.foldl _ (fun st i h => Step.thumbLdmStep _ _ _ _ st i h))
    | (with_reducible apply Step.foldl _ (fun st i h => Step.thumbStmStep _ _ _ st i h))
    | with_reducible apply Step.thumbAluRegOp
    | with_reducible apply Step.fetchOpcode
    | with_reducible apply Step.flushPipeline
    | with_reducible apply Step.checkCondition
    | with_reducible apply Step.busRead
    | with_reducible apply Step.busWrite
    | with_reducible apply Step.iCycle
    | with_reducible apply Step.unknownOpcodeArm
    | with_reducible apply Step.unknownOpcodeThumb
    | with_reducible apply Step.setR
    | with_reducible apply Step.setBank
    | with_reducible apply Step.setNextFetchType
    | with_reducible apply Step.setThumbMode
    | with_reducible apply Step.setFlagN
    | with_reducible apply Step.setFlagZ
    | with_reducible apply Step.setFlagC
    | with_reducible apply Step.setFlagV
    | (with_reducible apply Step.ite_of_imp) <;> [skip; intro _]
    | split)

theorem Step.thumbSpAddOffset {s t : CPU} (E : Env) (isNegative : Bool) (opcode : Nat) (h : Step s t) :
    Step s (thumbSpAddOffset E isNegative opcode t) := by
  unfold ARM7TDMI.thumbSpAddOffset
  repeat (first
    | with_reducible assumption
    | (with_reducible apply Step.foldl _ (fun st i h => Step.ldmStep _ _ _ _ _ _ st i h))
    | (with_reducible apply Step.foldl _ (fun st i h => Step.stmStep _ _ _ _ _ st i h))
    | (with_reducible apply Step.foldl _ (fun st i h => Step.popStep _ _ st i h))
    | (with_reducible apply Step.foldl _ (fun st i h => Step.pushStep _ st i h))
    | (with_reducible apply Step.foldl _ (fun st i h => Step.thumbLdmStep _ _ _ _ st i h))
    | (with_reducible apply Step.foldl _ (fun st i h => Step.thumbStmStep _ _ _ st i h))
    | with_reducible apply Step.thumbAluRegOp
    | with_reducible apply Step.fetchOpcode
    | with_reducible apply Step.flushPipeline
    | with_reducible apply Step.checkCondition
    | with_reducible apply Step.busRead
    | with_reducible apply Step.busWrite
    | with_reducible apply Step.iCycle
    | with_reducible apply Step.unknownOpcodeArm
    | with_reducible apply Step.unknownOpcodeThumb
    | with_reducible apply Step.setR
    | with_reducible apply Step.setBank
    | with_reducible apply Step.setNextFetchType
    | with_reducible apply Step.setThumbMode
    | with_reducible apply Step.setFlagN
    | with_reducible apply Step.setFlagZ
    | with_reducible apply Step.setFlagC
    | with_reducible apply Step.setFlagV
    | (with_reducible apply Step.ite_of_imp) <;> [skip; intro _]
    | split)

theorem Step.thumbPushPopRegisters {s t : CPU} (E : Env) (loadStore pcLr : Bool) (opcode : Nat) (h : Step s t) :
    Step s (thumbPushPopRegisters E loadStore pcLr opcode t) := by
  unfold ARM7TDMI.thumbPushPopRegisters
  repeat (first
    | with_reducible assumption
    | (with_reducible apply Step.foldl _ (fun st i h => Step.ldmStep _ _ _ _ _ _ st i h))
    | (with_reducible apply Step.foldl _ (fun st i h => Step.stmStep _ _ _ _ _ st i h))
    | (with_reducible apply Step.foldl _ (fun st i h => Step.popStep _ _ st i h))
    | (with_reducible apply Step.foldl _ (fun st i h => Step.pushStep _ st i h))
    | (with_reducible apply Step.foldl _ (fun st i h => Step.thumbLdmStep _ _ _ _ st i h))
    | (with_reducible apply Step.foldl _ (fun st i h => Step.thumbStmStep _ _ _ st i h))
    | with_reducible apply Step.thumbAluRegOp
    | with_reducible apply Step.fetchOpcode
    | with_reducible apply Step.flushPipeline
    | with_reducible apply Step.checkCondition
    | with_reducible apply Step.busRead
    | with_reducible apply Step.busWrite
    | with_reducible apply Step.iCycle
    | with_reducible apply Step.unknownOpcodeArm
    | with_reducible apply Step.unknownOpcodeThumb
    | with_reducible apply Step.setR
    | with_reducible apply Step.setBank
    | with_reducible apply Step.setNextFetchType
    | with_reducible apply Step.setThumbMode
    | with_reducible apply Step.setFlagN
    | with_reducible apply Step.setFlagZ
    | with_reducible apply Step.setFlagC
    | with_reducible apply Step.setFlagV
    | (with_reducible apply Step.ite_of_imp) <;> [skip; intro _]
    | split)

theorem Step.thumbMultipleLoadStore {s t : CPU} (E : Env) (loadStore : Bool) (baseReg : Nat) (opcode : Nat) (h : Step s t) :
    Step s (thumbMultipleLoadStore E loadStore baseReg opcode t) := by
  unfold ARM7TDMI.thumbMultipleLoadStore
  repeat (first
    | with_reducible assumption
    | (with_reducible apply Step.foldl _ (fun st i h => Step.ldmStep _ _ _ _ _ _ st i h))
    | (with_reducible apply Step.foldl _ (fun st i h => Step.stmStep _ _ _ _ _ st i h))
    | (with_reducible apply Step.foldl _ (fun st i h => Step.popStep _ _ st i h))
    | (with_reducible apply Step.foldl _ (fun st i h => Step.pushStep _ st i h))
    | (with_reducible apply Step.foldl _ (fun st i h => Step.thumbLdmStep _ _ _ _ st i h))
    | (with_reducible apply Step.foldl _ (fun st i h => Step.thumbStmStep _ _ _ st i h))
    | with_reducible apply Step.thumbAluRegOp
    | with_reducible apply Step.fetchOpcode
    | with_reducible apply Step.flushPipeline
    | with_reducible apply Step.checkCondition
    | with_reducible apply Step.busRead
    | with_reducible apply Step.busWrite
    | with_reducible apply Step.iCycle
    | with_reducible apply Step.unknownOpcodeArm
    | with_reducible apply Step.unknownOpcodeThumb
    | with_reducible apply Step.setR
    | with_reducible apply Step.setBank
    | with_reducible apply Step.setNextFetchType
    | with_reducible apply Step.setThumbMode
    | with_reducible apply Step.setFlagN
    | with_reducible apply Step.setFlagZ
    | with_reducible apply Step.setFlagC
    | with_reducible apply Step.setFlagV
    | (with_reducible apply Step.ite_of_imp) <;> [skip; intro _]
    | split)

theorem Step.thumbConditionalBranch {s t : CPU} (E : Env) (condition : Nat) (opcode : Nat) (h : Step s t) :
    Step s (thumbConditionalBranch E condition opcode t) := by
  unfold ARM7TDMI.thumbConditionalBranch
  repeat (first
    | with_reducible assumption
    | (with_reducible apply Step.foldl _ (fun st i h => Step.ldmStep _ _ _ _ _ _ st i h))
    | (with_reducible apply Step.foldl _ (fun st i h => Step.stmStep _ _ _ _ _ st i h))
    | (with_reducible apply Step.foldl _ (fun st i h => Step.popStep _ _ st i h))
    | (with_reducible apply Step.foldl _ (fun st i h => Step.pushStep _ st i h))
    | (with_reducible apply Step.foldl _ (fun st i h => Step.thumbLdmStep _ _ _ _ st i h))
    | (with_reducible apply Step.foldl _ (fun st i h => Step.thumbStmStep _ _ _ st i h))
    | with_reducible apply Step.thumbAluRegOp
    | with_reducible apply Step.fetchOpcode
    | with_reducible apply Step.flushPipeline
    | with_reducible apply Step.checkCondition
    | with_reducible apply Step.busRead
    | with_reducible apply Step.busWrite
    | with_reducible apply Step.iCycle
    | with_reducible apply Step.unknownOpcodeArm
    | with_reducible apply Step.unknownOpcodeThumb
    | with_reducible apply Step.setR
    | with_reducible apply Step.setBank
    | with_reducible apply Step.setNextFetchType
    | with_reducible apply Step.setThumbMode
    | with_reducible apply Step.setFlagN
    | with_reducible apply Step.setFlagZ
    | with_reducible apply Step.setFlagC
    | with_reducible apply Step.setFlagV
    | (with_reducible apply Step.ite_of_imp) <;> [skip; intro _]
    | split)

theorem Step.thumbUnconditionalBranch {s t : CPU} (E : Env) (opcode : Nat) (h : Step s t) :
    Step s (thumbUnconditionalBranch E opcode t) := by
  unfold ARM7TDMI.thumbUnconditionalBranch
  repeat (first
    | with_reducible assumption
    | (with_reducible apply Step.foldl _ (fun st i h => Step.ldmStep _ _ _ _ _ _ st i h))
    | (with_reducible apply Step.foldl _ (fun st i h => Step.stmStep _ _ _ _ _ st i h))
    | (with_reducible apply Step.foldl _ (fun st i h => Step.popStep _ _ st i h))
    | (with_reducible apply Step.foldl _ (fun st i h => Step.pushStep _ st i h))
    | (with_reducible apply Step.foldl _ (fun st i h => Step.thumbLdmStep _ _ _ _ st i h))
    | (with_reducible apply Step.foldl _ (fun st i h => Step.thumbStmStep _ _ _ st i h))
    | with_reducible apply Step.thumbAluRegOp
    | with_reducible apply Step.fetchOpcode
    | with_reducible apply Step.flushPipeline
    | with_reducible apply Step.checkCondition
    | with_reducible apply Step.busRead
    | with_reducible apply Step.busWrite
    | with_reducible apply Step.iCycle
    | with_reducible apply Step.unknownOpcodeArm
    | with_reducible apply Step.unknownOpcodeThumb
    | with_reducible apply Step.setR
    | with_reducible apply Step.setBank
    | with_reducible apply Step.setNextFetchType
    | with_reducible apply Step.setThumbMode
    | with_reducible apply Step.setFlagN
    | with_reducible apply Step.setFlagZ
    | with_reducible apply Step.setFlagC
    | with_reducible apply Step.setFlagV
    | split)

theorem Step.thumbLongBranchLink {s t : CPU} (E : Env) (lowHigh : Bool) (opcode : Nat) (h : Step s t) :
    Step s (thumbLongBranchLink E lowHigh opcode t) := by
  unfold ARM7TDMI.thumbLongBranchLink
  repeat (first
    | with_reducible assumption
    | (with_reducible apply Step.foldl _ (fun st i h => Step.ldmStep _ _ _ _ _ _ st i h))
    | (with_reducible apply Step.foldl _ (fun st i h => Step.stmStep _ _ _ _ _ st i h))
    | (with_reducible apply Step.foldl _ (fun st i h => Step.popStep _ _ st i h))
    | (with_reducible apply Step.foldl _ (fun st i h => Step.pushStep _ st i h))
    | (with_reducible apply Step.foldl _ (fun st i h => Step.thumbLdmStep _ _ _ _ st i h))
    | (with_reducible apply Step.foldl _ (fun st i h => Step.thumbStmStep _ _ _ st i h))
    | with_reducible apply Step.thumbAluRegOp
    | with_reducible apply Step.fetchOpcode
    | with_reducible apply Step.flushPipeline
    | with_reducible apply Step.checkCondition
    | with_reducible apply Step.busRead
    | with_reducible apply Step.busWrite
    | with_reducible apply Step.iCycle
    | with_reducible apply Step.unknownOpcodeArm
    | with_reducible apply Step.unknownOpcodeThumb
    | with_reducible apply Step.setR
    | with_reducible apply Step.setBank
    | with_reducible apply Step.setNextFetchType
    | with_reducible apply Step.setThumbMode
    | with_reducible apply Step.setFlagN
    | with_reducible apply Step.setFlagZ
    | with_reducible apply Step.setFlagC
    | with_reducible apply Step.setFlagV
    | (with_reducible apply Step.ite_of_imp) <;> [skip; intro _]
    | split)

theorem validMode_of_modeBank {m : Nat} {b : BankId} (h : modeBank m = some b) : validMode m := by
  unfold modeBank at h
  unfold validMode
  by_cases h1 : m = MODE_SYSTEM
  · simp [h1]
  by_cases h2 : m = MODE_USER
  · simp [h2]
  by_cases h3 : m = MODE_FIQ
  · simp [h3]
  by_cases h4 : m = MODE_IRQ
  · simp [h4]
  by_cases h5 : m = MODE_SUPERVISOR
  · simp [h5]
  by_cases h6 : m = MODE_ABORT
  · simp [h6]
  by_cases h7 : m = MODE_UNDEFINED
  · simp [h7]
  simp [h1, h2, h3, h4, h5, h6, h7] at h

theorem validMode_mod {m : Nat} (h : validMode m) : m % 32 = m := by
  unfold validMode at h
  rcases h with h | h | h | h | h | h | h <;> rw [h] <;> decide

theorem validMode_or_16 {m : Nat} (h : validMode m) : m ||| 16 = m := by
  unfold validMode at h
  rcases h with h | h | h | h | h | h | h <;> rw [h] <;> decide

theorem bankRegisters_none_mode (m : Nat) (em : Bool) (t : CPU) (hm : modeBank m = none) :
    bankRegisters m em t = some ((t.emit (.logInvalidMode m)).emit .hacf) := by
  unfold bankRegisters
  simp only [hm]

theorem bankRegisters_none_cur (m : Nat) (em : Bool) (t : CPU) (new : BankId) (hm : modeBank m = some new)
    (hc : modeBank t.mode = none) : bankRegisters m em t = none := by
  unfold bankRegisters
  simp only [hm, hc]

theorem Step.bankRegisters {s t u : CPU} {m : Nat} {em : Bool} (h : Step s t)
    (e : bankRegisters m em t = some u) : Step s u := by
  cases hm : modeBank m with
  | none =>
    rw [bankRegisters_none_mode m em t hm] at e
    injection e with e
    subst e
    exact (h.emit _).emit _
  | some new =>
    cases hc : modeBank t.mode with
    | none =>
      rw [bankRegisters_none_cur m em t new hm hc] at e
      exact absurd e (by simp)
    | some cur =>
      cases em with
      | false =>
        obtain ⟨u', hu', e1, e2, e3, -, -, -, -, -, e9, -, -⟩ := bankRegisters_false_some t m cur new hc hm
        rw [hu'] at e
        injection e with e
        subst e
        exact h.same e2 e3 (by unfold CPU.mode; rw [e9]) ⟨[], by simpa using e1⟩
      | true =>
        obtain ⟨u', hu', e1, e2, e3, -, -, -, -, -, e9, -, -⟩ := bankRegisters_true_some t m cur new hc hm
        rw [hu'] at e
        injection e with e
        subst e
        refine h.trans ⟨e2, e3, [], by simpa using e1, fun _ _ => ?_⟩
        unfold CPU.mode
        rw [e9, enter_mode_bits, validMode_mod (validMode_of_modeBank hm)]
        exact validMode_of_modeBank hm

/-- After a successful `bankRegisters(m, false)` either the invalid mode `m`
was reported and `hacf()` was the last bus call, or `m` is a valid mode; the
CPSR is unchanged. -/
theorem bankRegisters_false_cases {t u : CPU} {m : Nat} (e : bankRegisters m false t = some u) :
    u.processFiq = t.processFiq ∧ u.processIrq = t.processIrq ∧ u.CPSR = t.CPSR ∧
      ((∃ l, u.bus = l ++ t.bus ∧ ¬ noModeReport l) ∨ (u.bus = t.bus ∧ validMode m)) := by
  cases hm : modeBank m with
  | none =>
    rw [bankRegisters_none_mode m false t hm] at e
    injection e with e
    subst e
    exact ⟨rfl, rfl, rfl, Or.inl ⟨[.hacf, .logInvalidMode m], rfl,
      not_noModeReport (m := m) (by simp) (by simp)⟩⟩
  | some new =>
    cases hc : modeBank t.mode with
    | none =>
      rw [bankRegisters_none_cur m false t new hm hc] at e
      exact absurd e (by simp)
    | some cur =>
      obtain ⟨u', hu', e1, e2, e3, -, -, -, -, -, e9, -, -⟩ := bankRegisters_false_some t m cur new hc hm
      rw [hu'] at e
      injection e with e
      subst e
      exact ⟨e2, e3, e9, Or.inr ⟨e1, validMode_of_modeBank hm⟩⟩

theorem leaveMode_eq (t : CPU) : ∃ tmpPSR, leaveMode t =
    match bankRegisters (tmpPSR &&& 0x1F) false t with
    | none => none
    | some s => some (s.setCPSR tmpPSR) :=
  ⟨_, rfl⟩

theorem Step.leaveMode {s t u : CPU} (h : Step s t) (e : leaveMode t = some u) : Step s u := by
  obtain ⟨tmpPSR, ht⟩ := leaveMode_eq t
  rw [ht] at e
  cases ht' : ARM7TDMI.bankRegisters (tmpPSR &&& 0x1F) false t with
  | none =>
    rw [ht'] at e
    exact absurd e (by simp)
  | some t' =>
    rw [ht'] at e
    injection e with e
    subst e
    obtain ⟨e2, e3, -, hc⟩ := bankRegisters_false_cases ht'
    rcases hc with ⟨l, hl, hh⟩ | ⟨hb, hv⟩
    · exact h.trans ⟨by simpa using e2, by simpa using e3, l, by simpa using hl, fun hn => absurd hn hh⟩
    · refine h.trans ⟨by simpa using e2, by simpa using e3, [], by simpa using hb, fun _ _ => ?_⟩
      rw [and_1F] at hv
      simp only [mode_setCPSR]
      exact hv

theorem or_mod_32 (a b : Nat) : (a ||| b) % 32 = a % 32 ||| b % 32 := by
  have e32 : (32 : Nat) = 2 ^ 5 := by decide
  rw [e32]
  apply Nat.eq_of_testBit_eq
  intro i
  simp only [Nat.testBit_mod_two_pow, Nat.testBit_or]
  cases decide (i < 5) <;> simp

theorem and_F0000000_mod_32 (f : Nat) : (f &&& 0xF0000000) % 32 = 0 := by
  have e : (0xF0000000 : Nat) = 15 <<< 28 := by decide
  have e32 : (32 : Nat) = 2 ^ 5 := by decide
  rw [e, e32]
  apply Nat.eq_of_testBit_eq
  intro i
  simp only [Nat.testBit_mod_two_pow, Nat.testBit_and, Nat.testBit_shiftLeft, Nat.zero_testBit]
  by_cases h : i < 5
  · have : ¬ i ≥ 28 := by omega
    simp [this]
  · simp [h]

theorem and_FF_mod_32 (x : Nat) : (x &&& 0xFF) % 32 = x % 32 := by
  have e : (0xFF : Nat) = 2 ^ 8 - 1 := by decide
  have e32 : (32 : Nat) = 2 ^ 5 := by decide
  rw [e, e32]
  apply Nat.eq_of_testBit_eq
  intro i
  simp only [Nat.testBit_mod_two_pow, Nat.testBit_and, Nat.testBit_two_pow_sub_one]
  by_cases h : i < 5
  · have : i < 8 := by omega
    simp [h, this]
  · simp [h]

/-- Mode field of the value the PSR stores write. -/
theorem psr_result_mode (F x : Nat) (q : Bool) (hF : F % 32 = 0) :
    ((if q = true then (F ||| (x &&& 0x000000FF)) ||| 0x00000040 else (F ||| (x &&& 0x000000FF))) ||| 0x00000010) % 32
      = x % 32 ||| 16 := by
  cases q <;> simp only [Bool.false_eq_true, if_true, if_false, or_mod_32, hF, and_FF_mod_32] <;> simp

theorem psr_flags_mod (c : Prop) [Decidable c] (a b : Nat) :
    (if c then 0 ||| (a &&& 0xF0000000) else 0 ||| (b &&& 0xF0000000)) % 32 = 0 := by
  split <;> simp only [Nat.zero_or, and_F0000000_mod_32]

theorem psrStore_step {E : Env} {targetPSR : Bool} {opcode operand : Nat} {t u : CPU}
    (e : psrStore E targetPSR opcode operand t = some u) : Step t u := by
  unfold psrStore at e
  cases targetPSR with
  | true =>
    simp only [if_true] at e
    cases hs : spsrBank t.mode with
    | none =>
      simp only [hs] at e
      injection e with e
      subst e
      exact (Step.refl t).fetchOpcode E
    | some b =>
      simp only [hs, Bool.not_true, Bool.false_eq_true, if_false] at e
      split at e
      · exact absurd e (by simp)
      · rename_i result t' hr
        injection e with e
        subst e
        have ht' : t' = t := by
          split at hr <;> (injection hr with hr; injection hr with _ hr; exact hr.symm)
        subst ht'
        exact ((Step.refl t').setBank _ _ _).fetchOpcode E
  | false =>
    simp only [Bool.false_eq_true, if_false, Bool.not_false, if_true] at e
    by_cases hc : opcode.testBit 16 = true ∧ t.mode ≠ MODE_USER
    · rw [if_pos hc] at e
      cases hb : bankRegisters (operand &&& 31) false t with
      | none =>
        simp only [hb] at e
        exact absurd e (by simp)
      | some t' =>
        simp only [hb] at e
        injection e with e
        subst e
        obtain ⟨e2, e3, -, hcs⟩ := bankRegisters_false_cases hb
        apply Step.fetchOpcode
        rcases hcs with ⟨l, hl, hh⟩ | ⟨hbus, hv⟩
        · exact ⟨by simpa using e2, by simpa using e3, l, by simpa using hl, fun hn => absurd hn hh⟩
        · refine ⟨by simpa using e2, by simpa using e3, [], by simpa using hbus, fun _ _ => ?_⟩
          simp only [mode_setCPSR]
          rw [psr_result_mode _ _ _ (psr_flags_mod _ _ _)]
          rw [and_1F] at hv
          rw [validMode_or_16 hv]
          exact hv
    · rw [if_neg hc] at e
      simp only at e
      injection e with e
      subst e
      apply Step.fetchOpcode
      refine ⟨rfl, rfl, [], rfl, fun _ hv => ?_⟩
      simp only [mode_setCPSR]
      rw [psr_result_mode _ _ _ (psr_flags_mod _ _ _)]
      have : t.CPSR % 32 = t.mode := rfl
      rw [this, validMode_or_16 hv]
      exact hv

theorem dataProcessing_step {E : Env} {iBit : Bool} {operation : Nat} {sBit : Bool} {opcode : Nat} {t u : CPU}
    (e : dataProcessing E iBit operation sBit opcode t = some u) : Step t u := by
  obtain ⟨pre, result, hpre, heq⟩ : ∃ pre result, Step t pre ∧
      dataProcessing E iBit operation sBit opcode t =
        (if operation < 8 ∨ operation ≥ 0xC then
          if (opcode &&& 0xF000) >>> 12 = 15 then
            if sBit = true then
              match leaveMode (pre.setR (reg4 ((opcode &&& 0xF000) >>> 12)) result) with
              | none => none
              | some s => some (flushPipeline E s)
            else some (flushPipeline E (pre.setR (reg4 ((opcode &&& 0xF000) >>> 12)) result))
          else some (pre.setR (reg4 ((opcode &&& 0xF000) >>> 12)) result)
        else if sBit = true then (if (opcode &&& 0xF000) >>> 12 = 15 then leaveMode pre else some pre)
        else some pre) := by
    have h := Step.refl t
    refine ⟨_, _, ?_, rfl⟩
    repeat (first
      | with_reducible assumption
      | with_reducible apply Step.fetchOpcode
      | with_reducible apply Step.iCycle
      | with_reducible apply Step.setFlagN
      | with_reducible apply Step.setFlagZ
      | with_reducible apply Step.setFlagC
      | with_reducible apply Step.setFlagV
      | (with_reducible apply Step.ite_of_imp) <;> [skip; intro _])
  rw [heq] at e
  split at e
  · split at e
    · split at e
      · split at e
        · exact absurd e (by simp)
        · rename_i v hv
          injection e with e
          subst e
          exact (Step.leaveMode (hpre.setR _ _) hv).flushPipeline E
      · injection e with e
        subst e
        exact (hpre.setR _ _).flushPipeline E
    · injection e with e
      subst e
      exact hpre.setR _ _
  · split at e
    · split at e
      · exact Step.leaveMode hpre e
      · injection e with e
        subst e
        exact hpre
    · injection e with e
      subst e
      exact hpre

theorem undefined_step {E : Env} {opcode : Nat} {t u : CPU} (e : undefined E opcode t = some u) : Step t u := by
  unfold undefined at e
  cases hb : bankRegisters MODE_UNDEFINED true t with
  | none =>
    simp only [hb] at e
    exact absurd e (by simp)
  | some t' =>
    simp only [hb] at e
    injection e with e
    subst e
    exact ((((Step.refl t).bankRegisters hb).setR _ _).fetchOpcode E |>.setR _ _).flushPipeline E

theorem thumbUndefined_step {E : Env} {opcode : Nat} {t u : CPU} (e : thumbUndefined E opcode t = some u) :
    Step t u := by
  unfold thumbUndefined at e
  cases hb : bankRegisters MODE_UNDEFINED true t with
  | none =>
    simp only [hb] at e
    exact absurd e (by simp)
  | some t' =>
    simp only [hb] at e
    injection e with e
    subst e
    exact ((((Step.refl t).bankRegisters hb).setR _ _).fetchOpcode E |>.setR _ _).flushPipeline E

theorem softwareInterrupt_step {E : Env} {opcode : Nat} {t u : CPU} (e : softwareInterrupt E opcode t = some u) :
    Step t u := by
  unfold softwareInterrupt at e
  cases hb : bankRegisters MODE_SUPERVISOR true (fetchOpcode E t) with
  | none =>
    simp only [hb] at e
    exact absurd e (by simp)
  | some t' =>
    simp only [hb] at e
    injection e with e
    subst e
    exact (((((Step.refl t).fetchOpcode E).bankRegisters hb).setR _ _).setR _ _).flushPipeline E

theorem thumbSoftwareInterrupt_step {E : Env} {opcode : Nat} {t u : CPU}
    (e : thumbSoftwareInterrupt E opcode t = some u) : Step t u := by
  unfold thumbSoftwareInterrupt at e
  cases hb : bankRegisters MODE_SUPERVISOR true (fetchOpcode E t) with
  | none =>
    simp only [hb] at e
    exact absurd e (by simp)
  | some t' =>
    simp only [hb] at e
    injection e with e
    subst e
    exact (((((Step.refl t).fetchOpcode E).bankRegisters hb).setR _ _).setR _ _).flushPipeline E

theorem armCoprocessorRegisterTransfer_step {E : Env} {loadStore : Bool} {opcode : Nat} {t u : CPU}
    (e : armCoprocessorRegisterTransfer E loadStore opcode t = some u) : Step t u := by
  unfold armCoprocessorRegisterTransfer at e
  simp only at e
  split at e
  · injection e with e
    subst e
    exact (Step.refl t).fetchOpcode E
  · exact undefined_step e

theorem blockDataTransfer_step {E : Env} {prePostIndex upDown sBit writeBack loadStore : Bool} {opcode : Nat}
    {t u : CPU} (e : blockDataTransfer E prePostIndex upDown sBit writeBack loadStore opcode t = some u) :
    Step t u := by
  obtain ⟨pre, hpre, heq⟩ : ∃ pre, Step t pre ∧
      blockDataTransfer E prePostIndex upDown sBit writeBack loadStore opcode t =
        (if sBit = true ∧ loadStore = true ∧ opcode.testBit 15 = true then leaveMode pre else some pre) := by
    have h := Step.refl t
    refine ⟨_, ?_, rfl⟩
    repeat (first
      | with_reducible assumption
      | with_reducible apply Step.fetchOpcode
      | with_reducible apply Step.flushPipeline
      | with_reducible apply Step.busRead
      | with_reducible apply Step.busWrite
      | with_reducible apply Step.iCycle
      | with_reducible apply Step.unknownOpcodeArm
      | with_reducible apply Step.setR
      | with_reducible apply Step.setNextFetchType
      | (with_reducible apply Step.foldl _ (fun st i h => Step.ldmStep _ _ _ _ _ _ st i h))
      | (with_reducible apply Step.foldl _ (fun st i h => Step.stmStep _ _ _ _ _ st i h))
      | (with_reducible apply Step.ite_of_imp) <;> [skip; intro _])
  rw [heq] at e
  split at e
  · exact Step.leaveMode hpre e
  · injection e with e
    subst e
    exact hpre

theorem StepO_of {s t : CPU} {o : Option CPU} (h : Step s t) (ho : ∀ u, o = some u → Step t u) : StepO s o :=
  fun u hu => h.trans (ho u hu)

theorem Step.armCall {s t : CPU} (E : Env) (e : ArmEntry) (opcode : Nat) (h : Step s t) :
    StepO s (e.call E opcode t) := by
  cases e with
  | undefined => exact StepO_of h fun u hu => @undefined_step E opcode t u hu
  | multiply a b => exact fun u hu => Option.some.inj hu ▸ h.multiply E a b opcode
  | multiplyLong a b c => exact fun u hu => Option.some.inj hu ▸ h.multiplyLong E a b c opcode
  | psrLoad a => exact fun u hu => Option.some.inj hu ▸ h.psrLoad E a opcode
  | psrStoreReg a => exact StepO_of h fun _ => psrStore_step
  | psrStoreImmediate a => exact StepO_of h fun _ => psrStore_step
  | singleDataSwap a => exact fun u hu => Option.some.inj hu ▸ h.singleDataSwap E a opcode
  | branchExchange => exact fun u hu => Option.some.inj hu ▸ h.branchExchange E opcode
  | halfwordDataTransfer a b c d e f =>
    exact fun u hu => Option.some.inj hu ▸ h.halfwordDataTransfer E a b c d e f opcode
  | dataProcessing a b c => exact StepO_of h fun _ => dataProcessing_step
  | singleDataTransfer a b c d e f =>
    exact fun u hu => Option.some.inj hu ▸ h.singleDataTransfer E a b c d e f opcode
  | blockDataTransfer a b c d e => exact StepO_of h fun _ => blockDataTransfer_step
  | branch a => exact fun u hu => Option.some.inj hu ▸ h.branch E a opcode
  | armCoprocessorRegisterTransfer a => exact StepO_of h fun u hu => @armCoprocessorRegisterTransfer_step E a opcode t u hu
  | softwareInterrupt => exact StepO_of h fun u hu => @softwareInterrupt_step E opcode t u hu
  | unknownOpcodeArm => exact fun u hu => Option.some.inj hu ▸ h.unknownOpcodeArm opcode _

theorem Step.thumbCall {s t : CPU} (E : Env) (e : ThumbEntry) (opcode : Nat) (h : Step s t) :
    StepO s (e.call E opcode t) := by
  cases e with
  | thumbAddSubtract a b c => exact fun u hu => Option.some.inj hu ▸ h.thumbAddSubtract E a b c opcode
  | thumbMoveShiftedReg a b => exact fun u hu => Option.some.inj hu ▸ h.thumbMoveShiftedReg E a b opcode
  | thumbAluImmediate a b => exact fun u hu => Option.some.inj hu ▸ h.thumbAluImmediate E a b opcode
  | thumbAluReg a => exact fun u hu => Option.some.inj hu ▸ h.thumbAluReg E a opcode
  | thumbHighRegOperation a b c => exact fun u hu => Option.some.inj hu ▸ h.thumbHighRegOperation E a b c opcode
  | thumbPcRelativeLoad a => exact fun u hu => Option.some.inj hu ▸ h.thumbPcRelativeLoad E a opcode
  | thumbLoadStoreRegOffset a b c =>
    exact fun u hu => Option.some.inj hu ▸ h.thumbLoadStoreRegOffset E a b c opcode
  | thumbLoadStoreSext a b => exact fun u hu => Option.some.inj hu ▸ h.thumbLoadStoreSext E a b opcode
  | thumbLoadStoreImmediateOffset a b c =>
    exact fun u hu => Option.some.inj hu ▸ h.thumbLoadStoreImmediateOffset E a b c opcode
  | thumbLoadStoreHalfword a b => exact fun u hu => Option.some.inj hu ▸ h.thumbLoadStoreHalfword E a b opcode
  | thumbSpRelativeLoadStore a b => exact fun u hu => Option.some.inj hu ▸ h.thumbSpRelativeLoadStore E a b opcode
  | thumbLoadAddress a b => exact fun u hu => Option.some.inj hu ▸ h.thumbLoadAddress E a b opcode
  | thumbSpAddOffset a => exact fun u hu => Option.some.inj hu ▸ h.thumbSpAddOffset E a opcode
  | thumbPushPopRegisters a b => exact fun u hu => Option.some.inj hu ▸ h.thumbPushPopRegisters E a b opcode
  | thumbMultipleLoadStore a b => exact fun u hu => Option.some.inj hu ▸ h.thumbMultipleLoadStore E a b opcode
  | thumbUndefined => exact StepO_of h fun u hu => @thumbUndefined_step E opcode t u hu
  | thumbSoftwareInterrupt => exact StepO_of h fun u hu => @thumbSoftwareInterrupt_step E opcode t u hu
  | thumbConditionalBranch a => exact fun u hu => Option.some.inj hu ▸ h.thumbConditionalBranch E a opcode
  | thumbUnconditionalBranch => exact fun u hu => Option.some.inj hu ▸ h.thumbUnconditionalBranch E opcode
  | thumbLongBranchLink a => exact fun u hu => Option.some.inj hu ▸ h.thumbLongBranchLink E a opcode
  | unknownOpcodeThumb => exact fun u hu => Option.some.inj hu ▸ h.unknownOpcodeThumb opcode _

/-- Every instruction keeps the pending-interrupt flags, only adds bus calls,
and keeps the mode valid unless `bankRegisters` reports an invalid mode. -/
theorem execute_step {E : Env} {t u : CPU} (e : execute E t = some u) : Step t u := by
  unfold execute at e
  split at e
  · simp only at e
    split at e
    · exact Step.thumbCall E _ _ (Step.refl t) u e
    · exact absurd e (by simp)
  · simp only at e
    split at e
    · exact Step.armCall E _ _ ((Step.refl t).checkCondition _) u e
    · injection e with e
      subst e
      exact ((Step.refl t).checkCondition _).fetchOpcode E

theorem breakpointCheck_cases (E : Env) (t : CPU) :
    breakpointCheck E t = t ∨ breakpointCheck E t = t.emit .breakpoint := by
  unfold breakpointCheck
  by_cases hd : E.disableDebug = true
  · left; simp [hd]
  · simp only [hd, Bool.false_eq_true, if_false]
    cases t.breakpointsTable (sub32 (t.R 15) (if t.thumbMode = true then 4 else 8) >>> 16) with
    | none => left; rfl
    | some bm =>
      by_cases hb : bm.testBit (sub32 (t.R 15) (if t.thumbMode = true then 4 else 8) &&& 0xFFFF) = true
      · right; simp [hb]
      · left; simp [hb]

theorem Step.breakpointCheck {s t : CPU} (E : Env) (h : Step s t) : Step s (breakpointCheck E t) := by
  rcases breakpointCheck_cases E t with e | e <;> rw [e]
  · exact h
  · exact h.emit _

theorem serviceFiq_step {E : Env} {t u : CPU} (e : serviceFiq E t = some u) : Step (t.setProcessFiq false) u := by
  unfold serviceFiq at e
  simp only at e
  cases hb : bankRegisters MODE_FIQ true (t.setProcessFiq false) with
  | none =>
    simp only [hb] at e
    exact absurd e (by simp)
  | some t' =>
    simp only [hb] at e
    injection e with e
    subst e
    exact (((((((Step.refl _).bankRegisters hb).setR _ _).setIrqDisable _).setFiqDisable _).setThumbMode _).setR _ _
      ).flushPipeline E

theorem serviceIrq_step {E : Env} {t u : CPU} (e : serviceIrq E t = some u) : Step (t.setProcessIrq false) u := by
  unfold serviceIrq at e
  simp only at e
  cases hb : bankRegisters MODE_IRQ true (t.setProcessIrq false) with
  | none =>
    simp only [hb] at e
    exact absurd e (by simp)
  | some t' =>
    simp only [hb] at e
    injection e with e
    subst e
    exact (((((((Step.refl _).bankRegisters hb).setR _ _).setIrqDisable _).setFiqDisable _).setThumbMode _).setR _ _
      ).flushPipeline E

/-- The three branches of `cycle`. -/
theorem cycle_eq (E : Env) (s : CPU) :
    cycle E s =
      (if !E.disableFiq && (s.processFiq && !s.fiqDisable) then serviceFiq E s
       else if s.processIrq && !s.irqDisable then serviceIrq E s
       else execute E s).map (breakpointCheck E) := by
  unfold cycle
  simp only
  split <;> rename_i h <;> rw [h] <;> rfl

/-- C10: in ARM state with no serviceable interrupt, when the condition
field `pipelineOpcode3[31:28]` evaluates to false, `cycle` is exactly one
`fetchOpcode` followed by the breakpoint check: R0..R14, the CPSR and every
bank slot are unchanged, R15 advances by 4 (modulo `2^32`), and the bus sees
the one code fetch (and the `breakpoint()` hook if a breakpoint is set at the
next instruction) and so no write and no internal cycle. -/
theorem cycle_condition_false (E : Env) (s : CPU) (hT : s.thumbMode = false)
    (hF : ¬ (s.processFiq = true ∧ s.fiqDisable = false))
    (hI : ¬ (s.processIrq = true ∧ s.irqDisable = false))
    (hp : s.pipelineOpcode3 < 2 ^ 32)
    (hc : (checkCondition (s.pipelineOpcode3 >>> 28) s).1 = false) :
    cycle E s = some (breakpointCheck E (fetchOpcode E s)) ∧
    (∀ s', cycle E s = some s' →
      (∀ i : Fin 16, i ≠ 15 → s'.R i = s.R i) ∧
      s'.R 15 = (s.R 15 + 4) % 2 ^ 32 ∧
      s'.CPSR = s.CPSR ∧
      (∀ b : BankId, s'.bank b = s.bank b) ∧
      (s'.bus = .read 32 true (s.R 15) s.nextFetchType :: s.bus ∨
        s'.bus = .breakpoint :: .read 32 true (s.R 15) s.nextFetchType :: s.bus)) := by
  have hlt : s.pipelineOpcode3 >>> 28 < 16 := by
    rw [Nat.shiftRight_eq_div_pow]
    omega
  have hs : (checkCondition (s.pipelineOpcode3 >>> 28) s).2 = s :=
    checkCondition_state s ⟨_, hlt⟩
  have hcyc : cycle E s = some (breakpointCheck E (fetchOpcode E s)) := by
    have a : (s.processFiq && !s.fiqDisable) = false := by
      cases hp : s.processFiq <;> cases hd : s.fiqDisable <;> simp_all
    have b : (s.processIrq && !s.irqDisable) = false := by
      cases hp : s.processIrq <;> cases hd : s.irqDisable <;> simp_all
    rw [cycle_eq]
    simp [a, b, execute, hT, hc, hs]
  refine ⟨hcyc, fun s' hs' => ?_⟩
  rw [hcyc] at hs'
  injection hs' with hs'
  subst hs'
  have hf : fetchOpcode E s =
      ((((((s.emit (.read 32 true (s.R 15) s.nextFetchType)).setPipelineOpcode1
        (E.busRead s.bus 32 true (s.R 15) s.nextFetchType % 2 ^ 32)).setPipelineOpcode3 s.pipelineOpcode2
        ).setPipelineOpcode2 (E.busRead s.bus 32 true (s.R 15) s.nextFetchType % 2 ^ 32)).setR 15
        (u32 (s.R 15 + 4))).setNextFetchType true) := by
    simp [fetchOpcode, hT, busRead]
  rcases breakpointCheck_cases E (fetchOpcode E s) with e | e <;> rw [e, hf]
  · refine ⟨fun i hi => by simp [hi], by simp [u32], by simp, fun b => by simp, Or.inl (by simp)⟩
  · refine ⟨fun i hi => by simp [hi], by simp [u32], by simp, fun b => by simp, Or.inr (by simp)⟩

/-- Witness for C10: the sample state with CPSR `0x1F` (Z clear) holds
`0x01A02002`, condition EQ, in `pipelineOpcode3`. -/
theorem cycle_condition_false_witness :
    let s := sampleCPU.setCPSR 0x1F
    s.thumbMode = false ∧ ¬ (s.processFiq = true ∧ s.fiqDisable = false) ∧
    ¬ (s.processIrq = true ∧ s.irqDisable = false) ∧ s.pipelineOpcode3 < 2 ^ 32 ∧
    (checkCondition (s.pipelineOpcode3 >>> 28) s).1 = false ∧
    cycle sampleEnv s = some (breakpointCheck sampleEnv (fetchOpcode sampleEnv s)) ∧
    (∀ s', cycle sampleEnv s = some s' →
      (∀ i : Fin 16, i ≠ 15 → s'.R i = s.R i) ∧
      s'.R 15 = (s.R 15 + 4) % 2 ^ 32 ∧
      s'.CPSR = s.CPSR ∧
      (∀ b : BankId, s'.bank b = s.bank b) ∧
      (s'.bus = .read 32 true (s.R 15) s.nextFetchType :: s.bus ∨
        s'.bus = .breakpoint :: .read 32 true (s.R 15) s.nextFetchType :: s.bus)) :=
  ⟨by decide, by decide, by decide, by decide, by decide,
    cycle_condition_false sampleEnv (sampleCPU.setCPSR 0x1F) (by decide) (by decide) (by decide) (by decide)
      (by decide)⟩

/-! ## Mode invariant -/

theorem validMode_testBit {m : Nat} (h : validMode m) : m.testBit 4 = true := by
  unfold validMode at h
  rcases h with h | h | h | h | h | h | h <;> rw [h] <;> decide

theorem testBit_four_mode (s : CPU) : s.CPSR.testBit 4 = s.mode.testBit 4 := by
  have e32 : (32 : Nat) = 2 ^ 5 := by decide
  unfold CPU.mode
  rw [e32, Nat.testBit_mod_two_pow]
  simp

/-- One `cycle` only adds bus calls and keeps the mode valid unless
`bankRegisters` reports an invalid mode in it. -/
theorem cycle_mode {E : Env} {s s' : CPU} (h : cycle E s = some s') :
    ∃ l, s'.bus = l ++ s.bus ∧ (noModeReport l → validMode s.mode → validMode s'.mode) := by
  rw [cycle_eq] at h
  obtain ⟨t, ht, rfl⟩ := Option.map_eq_some'.mp h
  split at ht
  · exact ((serviceFiq_step ht).breakpointCheck E).2.2
  · split at ht
    · exact ((serviceIrq_step ht).breakpointCheck E).2.2
    · exact ((execute_step ht).breakpointCheck E).2.2

/-- C3 as stated fails: on a bus that returns `0xE1B0F000` (`MOVS pc, r0`)
for every read, the state after `resetARM7TDMI` and one `cycle` has CPSR 0
(the zeroed SPSR_svc), so its mode is none of the seven modes and bit 4 of
the CPSR is 0. -/
theorem mode_invalid_after_reset_cycle :
    ∃ s, Reachable movsPcEnv sampleCPU s ∧ s.CPSR = 0 ∧ ¬ validMode s.mode ∧ s.CPSR.testBit 4 = false ∧
      BusEvent.hacf ∈ s.bus := by
  have hv : (cycle movsPcEnv (resetARM7TDMI movsPcEnv sampleCPU)).map (fun s => (s.CPSR, decide (BusEvent.hacf ∈ s.bus)))
      = some (0, true) := by
    decide
  cases hc : cycle movsPcEnv (resetARM7TDMI movsPcEnv sampleCPU) with
  | none => rw [hc] at hv; exact absurd hv (by simp)
  | some s =>
    rw [hc] at hv
    simp only [Option.map_some', Option.some.injEq, Prod.mk.injEq, decide_eq_true_eq] at hv
    refine ⟨s, Reachable.cycle Reachable.reset hc, hv.1, ?_, ?_, hv.2⟩
    · unfold CPU.mode
      rw [hv.1]
      decide
    · rw [hv.1]
      decide

/-! ## Exception entry -/

/-- Bits 6..31 of the CPSR survive the mode switch of `bankRegisters`. -/
theorem enter_high_bits (c m i : Nat) (hm : m < 64) (h6 : 6 ≤ i) (h32 : i < 32) :
    ((c &&& 0xFFFFFFC0) ||| m).testBit i = c.testBit i := by
  have e : (0xFFFFFFC0 : Nat) = (2 ^ 26 - 1) <<< 6 := by decide
  have hm' : m.testBit i = false :=
    Nat.testBit_lt_two_pow (lt_of_lt_of_le hm (Nat.pow_le_pow_right (by decide : 0 < 2) h6))
  rw [e]
  simp only [Nat.testBit_or, Nat.testBit_and, Nat.testBit_shiftLeft, Nat.testBit_two_pow_sub_one, hm',
    Bool.or_false]
  have h1 : decide (i ≥ 6) = true := by simpa using h6
  have h2 : decide (i - 6 < 26) = true := by simp; omega
  simp [h1, h2]

/-- Bit 5 of the CPSR is clear after the mode switch of `bankRegisters`. -/
theorem enter_bit5 (c m : Nat) (hm : m < 32) : ((c &&& 0xFFFFFFC0) ||| m).testBit 5 = false := by
  have e : Nat.testBit 0xFFFFFFC0 5 = false := by decide
  have hm' : m.testBit 5 = false := Nat.testBit_lt_two_pow hm
  rw [Nat.testBit_or, Nat.testBit_and, hm', e]
  simp

/-- Closed form of `flushPipeline` in ARM state. -/
theorem flushPipeline_arm (E : Env) (t : CPU) (hT : t.thumbMode = false) :
    let r := u32 ((t.R 15 &&& 0xFFFFFFFC) + 8)
    flushPipeline E t =
      ((((((t.setR 15 r).emit (.read 32 true (sub32 r 8) false)).setPipelineOpcode3
        (E.busRead t.bus 32 true (sub32 r 8) false % 2 ^ 32)).emit
          (.read 32 true (sub32 r 4) true)).setPipelineOpcode2
        (E.busRead (.read 32 true (sub32 r 8) false :: t.bus) 32 true (sub32 r 4) true % 2 ^ 32)).setNextFetchType
        true) := by
  simp [flushPipeline, hT, busRead]

/-- Closed form of `fetchOpcode` in ARM state. -/
theorem fetchOpcode_arm (E : Env) (t : CPU) (hT : t.thumbMode = false) :
    fetchOpcode E t =
      ((((((t.emit (.read 32 true (t.R 15) t.nextFetchType)).setPipelineOpcode1
        (E.busRead t.bus 32 true (t.R 15) t.nextFetchType % 2 ^ 32)).setPipelineOpcode3
          t.pipelineOpcode2).setPipelineOpcode2
        (E.busRead t.bus 32 true (t.R 15) t.nextFetchType % 2 ^ 32)).setR 15
          (u32 (t.R 15 + 4))).setNextFetchType true) := by
  simp [fetchOpcode, hT, busRead]

/-- Closed form of `fetchOpcode` in Thumb state. -/
theorem fetchOpcode_thumb (E : Env) (t : CPU) (hT : t.thumbMode = true) :
    fetchOpcode E t =
      ((((((t.emit (.read 16 true (t.R 15) t.nextFetchType)).setPipelineOpcode1
        (E.busRead t.bus 16 true (t.R 15) t.nextFetchType % 2 ^ 16)).setPipelineOpcode3
          t.pipelineOpcode2).setPipelineOpcode2
        (E.busRead t.bus 16 true (t.R 15) t.nextFetchType % 2 ^ 16)).setR 15
          (u32 (t.R 15 + 2))).setNextFetchType true) := by
  simp [fetchOpcode, hT, busRead]

theorem sub32_zero (a : Nat) : sub32 a 0 = u32 a := by unfold sub32 u32; omega

/-- Fields after `flushPipeline` in ARM state from a word-aligned vector. -/
theorem flushPipeline_vector (E : Env) (u : CPU) (v : Nat) (hT : u.thumbMode = false) (hR : u.R 15 = v)
    (h4 : v % 4 = 0) (hlt : v + 8 < 2 ^ 32) :
    (flushPipeline E u).R 15 = v + 8 ∧ (∀ i : Fin 16, i ≠ 15 → (flushPipeline E u).R i = u.R i) ∧
    (flushPipeline E u).CPSR = u.CPSR ∧ (∀ b j, (flushPipeline E u).bank b j = u.bank b j) ∧
    (flushPipeline E u).processFiq = u.processFiq ∧ (flushPipeline E u).processIrq = u.processIrq ∧
    (flushPipeline E u).pipelineOpcode3 = E.busRead u.bus 32 true v false % 2 ^ 32 ∧
    (flushPipeline E u).pipelineOpcode2 = E.busRead (.read 32 true v false :: u.bus) 32 true (v + 4) true % 2 ^ 32 ∧
    (flushPipeline E u).bus = .read 32 true (v + 4) true :: .read 32 true v false :: u.bus ∧
    (flushPipeline E u).nextFetchType = true := by
  have hu : u32 ((u.R 15 &&& 0xFFFFFFFC) + 8) = v + 8 := by
    rw [hR, and_FFFFFFFC]; unfold u32; omega
  have hs8 : sub32 (v + 8) 8 = v := by unfold sub32; omega
  have hs4 : sub32 (v + 8) 4 = v + 4 := by unfold sub32; omega
  rw [flushPipeline_arm E u hT]
  simp only [hu, hs8, hs4]
  refine ⟨by simp, ?_, by simp, by simp, by simp, by simp, by simp, by simp, by simp, by simp⟩
  intro i hi
  simp [R_setR, hi]

/-- Effects of `serviceFiq` from a valid mode. -/
theorem serviceFiq_closed (E : Env) (s : CPU) (hv : validMode s.mode) :
    ∃ s', serviceFiq E s = some s' ∧ s'.processFiq = false ∧ s'.processIrq = s.processIrq ∧
      s'.bank .fiq 7 = s.CPSR ∧
      s'.mode = MODE_FIQ ∧ s'.irqDisable = true ∧ s'.fiqDisable = true ∧ s'.thumbMode = false ∧
      s'.flagN = s.flagN ∧ s'.flagZ = s.flagZ ∧ s'.flagC = s.flagC ∧ s'.flagV = s.flagV ∧
      s'.R 14 = (if s.thumbMode then u32 (s.R 15) else sub32 (s.R 15) 4) ∧
      s'.R 15 = 0x24 ∧
      s'.pipelineOpcode3 = E.busRead s.bus 32 true 0x1C false % 2 ^ 32 ∧
      s'.pipelineOpcode2 = E.busRead (.read 32 true 0x1C false :: s.bus) 32 true 0x20 true % 2 ^ 32 ∧
      s'.bus = .read 32 true 0x20 true :: .read 32 true 0x1C false :: s.bus ∧
      s'.nextFetchType = true := by
  obtain ⟨cur, h1⟩ := modeBank_of_valid hv
  have h1' : modeBank (s.setProcessFiq false).mode = some cur := h1
  obtain ⟨t, ht, e1, e2, e3, e4, e5, e6, e7, e8, eC, eR, eB⟩ :=
    bankRegisters_true_some (s.setProcessFiq false) MODE_FIQ cur .fiq h1' rfl
  have hp : MODE_FIQ ≠ MODE_SYSTEM ∧ MODE_FIQ ≠ MODE_USER := by decide
  have r15 : t.R 15 = s.R 15 := by rw [eR]; simp
  have hspsr : t.bank .fiq 7 = s.CPSR := by rw [eB]; simp [hp]
  have hs : serviceFiq E s = some (flushPipeline E
      (((((t.setR 14 (sub32 (t.R 15) (if s.thumbMode then 0 else 4))).setIrqDisable true).setFiqDisable
      true).setThumbMode false).setR 15 0x0000001C)) := by simp only [serviceFiq, ht]
  refine ⟨_, hs, ?_⟩
  clear hs
  generalize hu : ((((t.setR 14 (sub32 (t.R 15) (if s.thumbMode then 0 else 4))).setIrqDisable true).setFiqDisable
      true).setThumbMode false).setR 15 0x0000001C = u
  have hCP : u.CPSR = setBit (setBit (setBit ((s.CPSR &&& 0xFFFFFFC0) ||| MODE_FIQ) 7 true) 6 true) 5 false := by
    subst hu; simp [CPU.setThumbMode, CPU.setFiqDisable, CPU.setIrqDisable, eC]
  have hbit : ∀ i, u.CPSR.testBit i = if i = 5 then false else if i = 6 then true else if i = 7 then true
      else ((s.CPSR &&& 0xFFFFFFC0) ||| MODE_FIQ).testBit i := by
    intro i; rw [hCP]; simp only [testBit_setBit]
  have hT : u.thumbMode = false := by
    show u.CPSR.testBit 5 = false
    rw [hbit]; rfl
  obtain ⟨f15, fR, fC, fB, fF, fI, f3, f2, fbus, fn⟩ :=
    flushPipeline_vector E u 0x1C hT (by subst hu; simp) (by decide) (by decide)
  have hhigh : ∀ i, 8 ≤ i → i < 32 → (flushPipeline E u).CPSR.testBit i = s.CPSR.testBit i := by
    intro i h8 h32
    rw [fC, hbit, if_neg (by omega), if_neg (by omega), if_neg (by omega)]
    exact enter_high_bits _ _ _ (by decide) (by omega) h32
  have hbus : u.bus = s.bus := by
    subst hu; simp [CPU.setThumbMode, CPU.setFiqDisable, CPU.setIrqDisable, e1]
  refine ⟨?_, ?_, ?_, ?_, ?_, ?_, ?_, ?_, ?_, ?_, ?_, ?_, f15, ?_, ?_, ?_, fn⟩
  · rw [fF]; subst hu; simp [CPU.setThumbMode, CPU.setFiqDisable, CPU.setIrqDisable, e2]
  · rw [fI]; subst hu; simp [CPU.setThumbMode, CPU.setFiqDisable, CPU.setIrqDisable, e3]
  · rw [fB]; subst hu; simp [CPU.setThumbMode, CPU.setFiqDisable, CPU.setIrqDisable, hspsr]
  · show (flushPipeline E u).CPSR % 32 = MODE_FIQ
    rw [fC, hCP, mode_setBit _ _ _ (by decide), mode_setBit _ _ _ (by decide), mode_setBit _ _ _ (by decide),
      enter_mode_bits]; rfl
  · show (flushPipeline E u).CPSR.testBit 7 = true
    rw [fC, hbit]; rfl
  · show (flushPipeline E u).CPSR.testBit 6 = true
    rw [fC, hbit]; rfl
  · show (flushPipeline E u).CPSR.testBit 5 = false
    rw [fC, hbit]; rfl
  · exact hhigh 31 (by decide) (by decide)
  · exact hhigh 30 (by decide) (by decide)
  · exact hhigh 29 (by decide) (by decide)
  · exact hhigh 28 (by decide) (by decide)
  · rw [fR 14 (by decide)]; subst hu
    simp only [CPU.setThumbMode, CPU.setFiqDisable, CPU.setIrqDisable, R_setR, R_setCPSR, r15]
    by_cases hth : s.thumbMode = true <;> simp [hth, sub32_zero]
  · rw [f3, hbus]
  · rw [f2, hbus]
  · rw [fbus, hbus]

/-- Effects of `serviceIrq` from a valid mode. -/
theorem serviceIrq_closed (E : Env) (s : CPU) (hv : validMode s.mode) :
    ∃ s', serviceIrq E s = some s' ∧ s'.processIrq = false ∧ s'.processFiq = s.processFiq ∧
      s'.bank .irq 7 = s.CPSR ∧
      s'.mode = MODE_IRQ ∧ s'.irqDisable = true ∧ s'.fiqDisable = true ∧ s'.thumbMode = false ∧
      s'.flagN = s.flagN ∧ s'.flagZ = s.flagZ ∧ s'.flagC = s.flagC ∧ s'.flagV = s.flagV ∧
      s'.R 14 = (if s.thumbMode then u32 (s.R 15) else sub32 (s.R 15) 4) ∧
      s'.R 15 = 0x20 ∧
      s'.pipelineOpcode3 = E.busRead s.bus 32 true 0x18 false % 2 ^ 32 ∧
      s'.pipelineOpcode2 = E.busRead (.read 32 true 0x18 false :: s.bus) 32 true 0x1C true % 2 ^ 32 ∧
      s'.bus = .read 32 true 0x1C true :: .read 32 true 0x18 false :: s.bus ∧
      s'.nextFetchType = true := by
  obtain ⟨cur, h1⟩ := modeBank_of_valid hv
  have h1' : modeBank (s.setProcessIrq false).mode = some cur := h1
  obtain ⟨t, ht, e1, e2, e3, e4, e5, e6, e7, e8, eC, eR, eB⟩ :=
    bankRegisters_true_some (s.setProcessIrq false) MODE_IRQ cur .irq h1' rfl
  have hp : MODE_IRQ ≠ MODE_SYSTEM ∧ MODE_IRQ ≠ MODE_USER := by decide
  have r15 : t.R 15 = s.R 15 := by rw [eR]; simp
  have hspsr : t.bank .irq 7 = s.CPSR := by rw [eB]; simp [hp]
  have hs : serviceIrq E s = some (flushPipeline E
      (((((t.setR 14 (sub32 (t.R 15) (if s.thumbMode then 0 else 4))).setIrqDisable true).setFiqDisable
      true).setThumbMode false).setR 15 0x00000018)) := by simp only [serviceIrq, ht]
  refine ⟨_, hs, ?_⟩
  clear hs
  generalize hu : ((((t.setR 14 (sub32 (t.R 15) (if s.thumbMode then 0 else 4))).setIrqDisable true).setFiqDisable
      true).setThumbMode false).setR 15 0x00000018 = u
  have hCP : u.CPSR = setBit (setBit (setBit ((s.CPSR &&& 0xFFFFFFC0) ||| MODE_IRQ) 7 true) 6 true) 5 false := by
    subst hu; simp [CPU.setThumbMode, CPU.setFiqDisable, CPU.setIrqDisable, eC]
  have hbit : ∀ i, u.CPSR.testBit i = if i = 5 then false else if i = 6 then true else if i = 7 then true
      else ((s.CPSR &&& 0xFFFFFFC0) ||| MODE_IRQ).testBit i := by
    intro i; rw [hCP]; simp only [testBit_setBit]
  have hT : u.thumbMode = false := by
    show u.CPSR.testBit 5 = false
    rw [hbit]; rfl
  obtain ⟨f15, fR, fC, fB, fF, fI, f3, f2, fbus, fn⟩ :=
    flushPipeline_vector E u 0x18 hT (by subst hu; simp) (by decide) (by decide)
  have hhigh : ∀ i, 8 ≤ i → i < 32 → (flushPipeline E u).CPSR.testBit i = s.CPSR.testBit i := by
    intro i h8 h32
    rw [fC, hbit, if_neg (by omega), if_neg (by omega), if_neg (by omega)]
    exact enter_high_bits _ _ _ (by decide) (by omega) h32
  have hbus : u.bus = s.bus := by
    subst hu; simp [CPU.setThumbMode, CPU.setFiqDisable, CPU.setIrqDisable, e1]
  refine ⟨?_, ?_, ?_, ?_, ?_, ?_, ?_, ?_, ?_, ?_, ?_, ?_, f15, ?_, ?_, ?_, fn⟩
  · rw [fI]; subst hu; simp [CPU.setThumbMode, CPU.setFiqDisable, CPU.setIrqDisable, e3]
  · rw [fF]; subst hu; simp [CPU.setThumbMode, CPU.setFiqDisable, CPU.setIrqDisable, e2]
  · rw [fB]; subst hu; simp [CPU.setThumbMode, CPU.setFiqDisable, CPU.setIrqDisable, hspsr]
  · show (flushPipeline E u).CPSR % 32 = MODE_IRQ
    rw [fC, hCP, mode_setBit _ _ _ (by decide), mode_setBit _ _ _ (by decide), mode_setBit _ _ _ (by decide),
      enter_mode_bits]; rfl
  · show (flushPipeline E u).CPSR.testBit 7 = true
    rw [fC, hbit]; rfl
  · show (flushPipeline E u).CPSR.testBit 6 = true
    rw [fC, hbit]; rfl
  · show (flushPipeline E u).CPSR.testBit 5 = false
    rw [fC, hbit]; rfl
  · exact hhigh 31 (by decide) (by decide)
  · exact hhigh 30 (by decide) (by decide)
  · exact hhigh 29 (by decide) (by decide)
  · exact hhigh 28 (by decide) (by decide)
  · rw [fR 14 (by decide)]; subst hu
    simp only [CPU.setThumbMode, CPU.setFiqDisable, CPU.setIrqDisable, R_setR, R_setCPSR, r15]
    by_cases hth : s.thumbMode = true <;> simp [hth, sub32_zero]
  · rw [f3, hbus]
  · rw [f2, hbus]
  · rw [fbus, hbus]

/-- Entering an exception mode with `bankRegisters`: the facts the exception
handlers rely on. -/
theorem enter_exception (s : CPU) (m : Nat) (new : BankId) (hv : validMode s.mode)
    (h2 : modeBank m = some new) (hp : m ≠ MODE_SYSTEM ∧ m ≠ MODE_USER) (hm : m < 32) :
    ∃ t, bankRegisters m true s = some t ∧ t.bus = s.bus ∧ t.processFiq = s.processFiq ∧
      t.processIrq = s.processIrq ∧ t.pipelineOpcode2 = s.pipelineOpcode2 ∧
      t.nextFetchType = s.nextFetchType ∧ t.R 15 = s.R 15 ∧ t.bank new 7 = s.CPSR ∧
      t.mode = m ∧ t.thumbMode = false ∧
      (∀ i, 6 ≤ i → i < 32 → t.CPSR.testBit i = s.CPSR.testBit i) := by
  obtain ⟨cur, h1⟩ := modeBank_of_valid hv
  obtain ⟨t, ht, e1, e2, e3, _, e5, _, e7, _, eC, eR, eB⟩ := bankRegisters_true_some s m cur new h1 h2
  refine ⟨t, ht, e1, e2, e3, e5, e7, ?_, ?_, ?_, ?_, ?_⟩
  · rw [eR]; simp
  · rw [eB]; simp [hp]
  · show t.CPSR % 32 = m
    rw [eC, enter_mode_bits]; exact Nat.mod_eq_of_lt hm
  · show t.CPSR.testBit 5 = false
    rw [eC]; exact enter_bit5 _ _ hm
  · intro i h6 h32
    rw [eC]; exact enter_high_bits _ _ _ (by omega) h6 h32

/-- Fields after `fetchOpcode`. -/
theorem fetchOpcode_fields (E : Env) (s : CPU) :
    (fetchOpcode E s).CPSR = s.CPSR ∧ (∀ b j, (fetchOpcode E s).bank b j = s.bank b j) ∧
    (fetchOpcode E s).R 15 = u32 (s.R 15 + width s) ∧
    (∀ i : Fin 16, i ≠ 15 → (fetchOpcode E s).R i = s.R i) ∧
    (fetchOpcode E s).bus = .read (8 * width s) true (s.R 15) s.nextFetchType :: s.bus ∧
    (fetchOpcode E s).processFiq = s.processFiq ∧ (fetchOpcode E s).processIrq = s.processIrq := by
  by_cases hT : s.thumbMode = true
  · rw [fetchOpcode_thumb E s hT]
    refine ⟨by simp, by simp, by simp [width, hT], ?_, by simp [width, hT], by simp, by simp⟩
    intro i hi; simp [R_setR, hi]
  · have hT' : s.thumbMode = false := by simpa using hT
    rw [fetchOpcode_arm E s hT']
    refine ⟨by simp, by simp, by simp [width, hT'], ?_, by simp [width, hT'], by simp, by simp⟩
    intro i hi; simp [R_setR, hi]

/-- The shared body of `softwareInterrupt` (`k = 8`) and
`thumbSoftwareInterrupt` (`k = 4`) from a valid mode. -/
theorem swi_closed (E : Env) (s : CPU) (k : Nat) (hv : validMode s.mode) :
    ∃ s', (match bankRegisters MODE_SUPERVISOR true (fetchOpcode E s) with
        | none => none
        | some t => some (flushPipeline E ((t.setR 14 (sub32 (t.R 15) k)).setR 15 0x8))) = some s' ∧
      s'.mode = MODE_SUPERVISOR ∧ s'.bank .svc 7 = s.CPSR ∧ s'.thumbMode = false ∧
      s'.irqDisable = s.irqDisable ∧ s'.fiqDisable = s.fiqDisable ∧
      s'.flagN = s.flagN ∧ s'.flagZ = s.flagZ ∧ s'.flagC = s.flagC ∧ s'.flagV = s.flagV ∧
      s'.R 14 = sub32 (u32 (s.R 15 + width s)) k ∧ s'.R 15 = 0x10 ∧
      s'.pipelineOpcode3 =
        E.busRead (.read (8 * width s) true (s.R 15) s.nextFetchType :: s.bus) 32 true 0x8 false % 2 ^ 32 ∧
      s'.pipelineOpcode2 =
        E.busRead (.read 32 true 0x8 false :: .read (8 * width s) true (s.R 15) s.nextFetchType :: s.bus)
          32 true 0xC true % 2 ^ 32 ∧
      s'.bus = .read 32 true 0xC true :: .read 32 true 0x8 false ::
        .read (8 * width s) true (s.R 15) s.nextFetchType :: s.bus := by
  obtain ⟨gC, gB, g15, gR, gbus, gF, gI⟩ := fetchOpcode_fields E s
  have hv1 : validMode (fetchOpcode E s).mode := by
    show validMode ((fetchOpcode E s).CPSR % 32)
    rw [gC]; exact hv
  obtain ⟨t, ht, e1, e2, e3, e5, e7, e15, esp, em, eT, eH⟩ :=
    enter_exception (fetchOpcode E s) MODE_SUPERVISOR .svc hv1 rfl (by decide) (by decide)
  rw [ht]
  refine ⟨_, rfl, ?_⟩
  generalize hu : (t.setR 14 (sub32 (t.R 15) k)).setR 15 0x8 = u
  have hT : u.thumbMode = false := by subst hu; simpa using eT
  have hC : u.CPSR = t.CPSR := by subst hu; simp
  have hbus : u.bus = .read (8 * width s) true (s.R 15) s.nextFetchType :: s.bus := by
    subst hu; simp [e1, gbus]
  obtain ⟨f15, fR, fC, fB, fF, fI, f3, f2, fbus, fn⟩ :=
    flushPipeline_vector E u 0x8 hT (by subst hu; simp) (by decide) (by decide)
  have hhigh : ∀ i, 6 ≤ i → i < 32 → (flushPipeline E u).CPSR.testBit i = s.CPSR.testBit i := by
    intro i h6 h32
    rw [fC, hC, eH i h6 h32, gC]
  refine ⟨?_, ?_, ?_, hhigh 7 (by decide) (by decide), hhigh 6 (by decide) (by decide),
    hhigh 31 (by decide) (by decide), hhigh 30 (by decide) (by decide), hhigh 29 (by decide) (by decide),
    hhigh 28 (by decide) (by decide), ?_, f15, ?_, ?_, ?_⟩
  · show (flushPipeline E u).CPSR % 32 = MODE_SUPERVISOR
    rw [fC, hC]; exact em
  · rw [fB]; subst hu; simp [esp, gC]
  · show (flushPipeline E u).CPSR.testBit 5 = false
    rw [fC, hC]; exact eT
  · rw [fR 14 (by decide)]; subst hu; simp [R_setR, e15, g15]
  · rw [f3, hbus]
  · rw [f2, hbus]
  · rw [fbus, hbus]

/-- The shared body of `undefined` (`k = 4`) and `thumbUndefined` (`k = 2`)
from a valid mode. -/
theorem undefined_closed (E : Env) (s : CPU) (k : Nat) (hv : validMode s.mode) :
    ∃ s', (match bankRegisters MODE_UNDEFINED true s with
        | none => none
        | some t =>
          some (flushPipeline E ((fetchOpcode E (t.setR 14 (sub32 (t.R 15) k))).setR 15 0x4))) = some s' ∧
      s'.mode = MODE_UNDEFINED ∧ s'.bank .und 7 = s.CPSR ∧ s'.thumbMode = false ∧
      s'.irqDisable = s.irqDisable ∧ s'.fiqDisable = s.fiqDisable ∧
      s'.flagN = s.flagN ∧ s'.flagZ = s.flagZ ∧ s'.flagC = s.flagC ∧ s'.flagV = s.flagV ∧
      s'.R 14 = sub32 (s.R 15) k ∧ s'.R 15 = 0xC ∧
      s'.pipelineOpcode3 =
        E.busRead (.read 32 true (s.R 15) s.nextFetchType :: s.bus) 32 true 0x4 false % 2 ^ 32 ∧
      s'.pipelineOpcode2 =
        E.busRead (.read 32 true 0x4 false :: .read 32 true (s.R 15) s.nextFetchType :: s.bus)
          32 true 0x8 true % 2 ^ 32 ∧
      s'.bus = .read 32 true 0x8 true :: .read 32 true 0x4 false ::
        .read 32 true (s.R 15) s.nextFetchType :: s.bus := by
  obtain ⟨t, ht, e1, e2, e3, e5, e7, e15, esp, em, eT, eH⟩ :=
    enter_exception s MODE_UNDEFINED .und hv rfl (by decide) (by decide)
  rw [ht]
  refine ⟨_, rfl, ?_⟩
  have hw : (t.setR 14 (sub32 (t.R 15) k)).thumbMode = false := by simpa using eT
  have hwid : width (t.setR 14 (sub32 (t.R 15) k)) = 4 := by simp [width, eT]
  obtain ⟨gC, gB, g15, gR, gbus, gF, gI⟩ := fetchOpcode_fields E (t.setR 14 (sub32 (t.R 15) k))
  rw [hwid] at gbus
  generalize hx : fetchOpcode E (t.setR 14 (sub32 (t.R 15) k)) = x at gC gB g15 gR gbus gF gI
  generalize hu : x.setR 15 0x4 = u
  have hC : u.CPSR = t.CPSR := by subst hu; simp [gC]
  have hT : u.thumbMode = false := by
    show u.CPSR.testBit 5 = false
    rw [hC]; exact eT
  have hbus : u.bus = .read 32 true (s.R 15) s.nextFetchType :: s.bus := by
    subst hu; simp [gbus, e1, e15, e7, R_setR]
  obtain ⟨f15, fR, fC, fB, fF, fI, f3, f2, fbus, fn⟩ :=
    flushPipeline_vector E u 0x4 hT (by subst hu; simp) (by decide) (by decide)
  have hhigh : ∀ i, 6 ≤ i → i < 32 → (flushPipeline E u).CPSR.testBit i = s.CPSR.testBit i := by
    intro i h6 h32
    rw [fC, hC, eH i h6 h32]
  refine ⟨?_, ?_, ?_, hhigh 7 (by decide) (by decide), hhigh 6 (by decide) (by decide),
    hhigh 31 (by decide) (by decide), hhigh 30 (by decide) (by decide), hhigh 29 (by decide) (by decide),
    hhigh 28 (by decide) (by decide), ?_, f15, ?_, ?_, ?_⟩
  · show (flushPipeline E u).CPSR % 32 = MODE_UNDEFINED
    rw [fC, hC]; exact em
  · rw [fB]; subst hu; simp [gB, esp]
  · show (flushPipeline E u).CPSR.testBit 5 = false
    rw [fC, hC]; exact eT
  · rw [fR 14 (by decide)]; subst hu
    simp only [R_setR]
    rw [if_neg (by decide), gR 14 (by decide)]
    simp [R_setR, e15]
  · rw [f3, hbus]
  · rw [f2, hbus]
  · rw [fbus, hbus]

set_option maxRecDepth 100000 in
/-- Routing of the coprocessor and software-interrupt signatures by `decode`,
checked on every table index written as `64 * a + b`. -/
theorem decode_coproc_aux : ∀ a : Fin 64, ∀ b : Fin 64,
    ((64 * a.val + b.val) &&& 0xE00 = 0xC00 → decode (64 * a.val + b.val) = .undefined) ∧
    ((64 * a.val + b.val) &&& 0xF01 = 0xE00 → decode (64 * a.val + b.val) = .undefined) ∧
    ((64 * a.val + b.val) &&& 0xF01 = 0xE01 →
      decode (64 * a.val + b.val) = .armCoprocessorRegisterTransfer (bits (64 * a.val + b.val) 0x10)) ∧
    ((64 * a.val + b.val) &&& 0xF00 = 0xF00 → decode (64 * a.val + b.val) = .softwareInterrupt) := by
  decide

/-- Routing of the coprocessor and software-interrupt signatures by `decode`. -/
theorem decode_coproc (i : Nat) (h : i < 4096) :
    (i &&& 0xE00 = 0xC00 → decode i = .undefined) ∧
    (i &&& 0xF01 = 0xE00 → decode i = .undefined) ∧
    (i &&& 0xF01 = 0xE01 → decode i = .armCoprocessorRegisterTransfer (bits i 0x10)) ∧
    (i &&& 0xF00 = 0xF00 → decode i = .softwareInterrupt) := by
  have := decode_coproc_aux ⟨i / 64, by omega⟩ ⟨i % 64, Nat.mod_lt _ (by decide)⟩
  have e : 64 * (i / 64) + i % 64 = i := Nat.div_add_mod i 64
  simp only [e] at this
  exact this

/-- C11: `serviceFiq` from a valid mode returns a state in which
`processFiq` is clear, SPSR_fiq (slot 7 of the FIQ bank) holds the pre-entry
CPSR, the mode is FIQ, I and F are set, T is clear and N, Z, C, V are
unchanged; R14 is the pre-entry R15 minus 4 when the interrupted code was in
ARM state and the pre-entry R15 itself (as a 32-bit word) when it was in Thumb
state; the pipeline is refilled from `0x1C` (code reads at `0x1C` and `0x20`),
so R15 is `0x24`.  `serviceIrq` does the same with `processIrq`, SPSR_irq,
mode IRQ and vector `0x18`, so R15 is `0x20`. -/
theorem service_interrupt_entry (E : Env) (s : CPU) (hv : validMode s.mode) :
    (∃ s', serviceFiq E s = some s' ∧ s'.processFiq = false ∧
      s'.bank .fiq 7 = s.CPSR ∧ s'.mode = MODE_FIQ ∧
      s'.irqDisable = true ∧ s'.fiqDisable = true ∧ s'.thumbMode = false ∧
      s'.flagN = s.flagN ∧ s'.flagZ = s.flagZ ∧ s'.flagC = s.flagC ∧ s'.flagV = s.flagV ∧
      s'.R 14 = (if s.thumbMode then u32 (s.R 15) else sub32 (s.R 15) 4) ∧
      s'.R 15 = 0x24 ∧
      s'.pipelineOpcode3 = E.busRead s.bus 32 true 0x1C false % 2 ^ 32 ∧
      s'.pipelineOpcode2 = E.busRead (.read 32 true 0x1C false :: s.bus) 32 true 0x20 true % 2 ^ 32 ∧
      s'.bus = .read 32 true 0x20 true :: .read 32 true 0x1C false :: s.bus) ∧
    (∃ s', serviceIrq E s = some s' ∧ s'.processIrq = false ∧
      s'.bank .irq 7 = s.CPSR ∧ s'.mode = MODE_IRQ ∧
      s'.irqDisable = true ∧ s'.fiqDisable = true ∧ s'.thumbMode = false ∧
      s'.flagN = s.flagN ∧ s'.flagZ = s.flagZ ∧ s'.flagC = s.flagC ∧ s'.flagV = s.flagV ∧
      s'.R 14 = (if s.thumbMode then u32 (s.R 15) else sub32 (s.R 15) 4) ∧
      s'.R 15 = 0x20 ∧
      s'.pipelineOpcode3 = E.busRead s.bus 32 true 0x18 false % 2 ^ 32 ∧
      s'.pipelineOpcode2 = E.busRead (.read 32 true 0x18 false :: s.bus) 32 true 0x1C true % 2 ^ 32 ∧
      s'.bus = .read 32 true 0x1C true :: .read 32 true 0x18 false :: s.bus) := by
  obtain ⟨a, h0, h1, _, h2, h3, h4, h5, h6, h7, h8, h9, h10, h11, h12, h13, h14, h15, _⟩ := serviceFiq_closed E s hv
  obtain ⟨b, k0, k1, _, k2, k3, k4, k5, k6, k7, k8, k9, k10, k11, k12, k13, k14, k15, _⟩ := serviceIrq_closed E s hv
  exact ⟨⟨a, h0, h1, h2, h3, h4, h5, h6, h7, h8, h9, h10, h11, h12, h13, h14, h15⟩,
    ⟨b, k0, k1, k2, k3, k4, k5, k6, k7, k8, k9, k10, k11, k12, k13, k14, k15⟩⟩

/-- Witness for C11 on the sample state (SYS mode, ARM state). -/
theorem service_interrupt_entry_witness :
    validMode sampleCPU.mode ∧
    ((∃ s', serviceFiq sampleEnv sampleCPU = some s' ∧ s'.processFiq = false ∧
      s'.bank .fiq 7 = sampleCPU.CPSR ∧ s'.mode = MODE_FIQ ∧
      s'.irqDisable = true ∧ s'.fiqDisable = true ∧ s'.thumbMode = false ∧
      s'.flagN = sampleCPU.flagN ∧ s'.flagZ = sampleCPU.flagZ ∧ s'.flagC = sampleCPU.flagC ∧ s'.flagV = sampleCPU.flagV ∧
      s'.R 14 = (if sampleCPU.thumbMode then u32 (sampleCPU.R 15) else sub32 (sampleCPU.R 15) 4) ∧
      s'.R 15 = 0x24 ∧
      s'.pipelineOpcode3 = sampleEnv.busRead sampleCPU.bus 32 true 0x1C false % 2 ^ 32 ∧
      s'.pipelineOpcode2 = sampleEnv.busRead (.read 32 true 0x1C false :: sampleCPU.bus) 32 true 0x20 true % 2 ^ 32 ∧
      s'.bus = .read 32 true 0x20 true :: .read 32 true 0x1C false :: sampleCPU.bus) ∧
    (∃ s', serviceIrq sampleEnv sampleCPU = some s' ∧ s'.processIrq = false ∧
      s'.bank .irq 7 = sampleCPU.CPSR ∧ s'.mode = MODE_IRQ ∧
      s'.irqDisable = true ∧ s'.fiqDisable = true ∧ s'.thumbMode = false ∧
      s'.flagN = sampleCPU.flagN ∧ s'.flagZ = sampleCPU.flagZ ∧ s'.flagC = sampleCPU.flagC ∧ s'.flagV = sampleCPU.flagV ∧
      s'.R 14 = (if sampleCPU.thumbMode then u32 (sampleCPU.R 15) else sub32 (sampleCPU.R 15) 4) ∧
      s'.R 15 = 0x20 ∧
      s'.pipelineOpcode3 = sampleEnv.busRead sampleCPU.bus 32 true 0x18 false % 2 ^ 32 ∧
      s'.pipelineOpcode2 = sampleEnv.busRead (.read 32 true 0x18 false :: sampleCPU.bus) 32 true 0x1C true % 2 ^ 32 ∧
      s'.bus = .read 32 true 0x1C true :: .read 32 true 0x18 false :: sampleCPU.bus)) :=
  ⟨by decide, service_interrupt_entry sampleEnv sampleCPU (by decide)⟩

/-- C12: a software interrupt at address `A` (so R15 is `A + 8` in ARM state,
`A + 4` in Thumb state) from any valid mode returns a state in Supervisor
mode in which SPSR_svc (slot 7 of the SVC bank) holds the pre-instruction
CPSR, T is clear, R14 is `A + 4` for the ARM encoding and `A + 2` for the
Thumb encoding, and the pipeline is refilled from `0x8` (code reads at `0x8`
and `0xC` after the handler's own prefetch), so R15 is `0x10`.  Every ARM
table index with bits 11..8 all set is routed to `softwareInterrupt`. -/
theorem softwareInterrupt_entry (E : Env) (opcode : Nat) (s : CPU) (A : Nat) (hv : validMode s.mode) :
    (s.thumbMode = false → s.R 15 = u32 (A + 8) →
      (∃ s', softwareInterrupt E opcode s = some s' ∧ s'.mode = MODE_SUPERVISOR ∧
        s'.bank .svc 7 = s.CPSR ∧ s'.thumbMode = false ∧ s'.R 14 = u32 (A + 4) ∧ s'.R 15 = 0x10 ∧
        s'.pipelineOpcode3 =
          E.busRead (.read 32 true (s.R 15) s.nextFetchType :: s.bus) 32 true 0x8 false % 2 ^ 32 ∧
        s'.pipelineOpcode2 =
          E.busRead (.read 32 true 0x8 false :: .read 32 true (s.R 15) s.nextFetchType :: s.bus)
            32 true 0xC true % 2 ^ 32 ∧
        s'.bus = .read 32 true 0xC true :: .read 32 true 0x8 false ::
          .read 32 true (s.R 15) s.nextFetchType :: s.bus)) ∧
    (s.thumbMode = true → s.R 15 = u32 (A + 4) →
      (∃ s', thumbSoftwareInterrupt E opcode s = some s' ∧ s'.mode = MODE_SUPERVISOR ∧
        s'.bank .svc 7 = s.CPSR ∧ s'.thumbMode = false ∧ s'.R 14 = u32 (A + 2) ∧ s'.R 15 = 0x10 ∧
        s'.pipelineOpcode3 =
          E.busRead (.read 16 true (s.R 15) s.nextFetchType :: s.bus) 32 true 0x8 false % 2 ^ 32 ∧
        s'.pipelineOpcode2 =
          E.busRead (.read 32 true 0x8 false :: .read 16 true (s.R 15) s.nextFetchType :: s.bus)
            32 true 0xC true % 2 ^ 32 ∧
        s'.bus = .read 32 true 0xC true :: .read 32 true 0x8 false ::
          .read 16 true (s.R 15) s.nextFetchType :: s.bus)) ∧
    (∀ i, i < 4096 → i &&& 0xF00 = 0xF00 → (decode i).call E opcode s = softwareInterrupt E opcode s) := by
  refine ⟨?_, ?_, ?_⟩
  · intro hT h15
    obtain ⟨a, h0, h1, h2, h3, _, _, _, _, _, _, h10, h11, h12, h13, h14⟩ := swi_closed E s 8 hv
    have hw : width s = 4 := by simp [width, hT]
    rw [hw] at h10 h12 h13 h14
    refine ⟨a, h0, h1, h2, h3, ?_, h11, h12, h13, h14⟩
    rw [h10, h15]; unfold sub32 u32; omega
  · intro hT h15
    obtain ⟨a, h0, h1, h2, h3, _, _, _, _, _, _, h10, h11, h12, h13, h14⟩ := swi_closed E s 4 hv
    have hw : width s = 2 := by simp [width, hT]
    rw [hw] at h10 h12 h13 h14
    refine ⟨a, h0, h1, h2, h3, ?_, h11, h12, h13, h14⟩
    rw [h10, h15]; unfold sub32 u32; omega
  · intro i hi h
    rw [(decode_coproc i hi).2.2.2 h]
    rfl

/-- Witness for C12: `SWI` at `0x1000` in User mode with `CPSR = 0x10` gives
`SPSR_svc = 0x10` and `R14_svc = 0x1004`; the Thumb encoding at `0x1000` with
`CPSR = 0x30` gives `R14_svc = 0x1002`. -/
theorem softwareInterrupt_entry_witness :
    validMode ((sampleCPU.setCPSR 0x10).setR 15 0x1008).mode ∧ validMode ((sampleCPU.setCPSR 0x30).setR 15 0x1004).mode ∧
    (∃ s', softwareInterrupt sampleEnv 0xEF000000 ((sampleCPU.setCPSR 0x10).setR 15 0x1008) = some s' ∧ s'.mode = MODE_SUPERVISOR ∧
      s'.bank .svc 7 = ((sampleCPU.setCPSR 0x10).setR 15 0x1008).CPSR ∧ s'.thumbMode = false ∧ s'.R 14 = u32 (0x1000 + 4) ∧ s'.R 15 = 0x10 ∧
      s'.pipelineOpcode3 =
        sampleEnv.busRead (.read 32 true (((sampleCPU.setCPSR 0x10).setR 15 0x1008).R 15) ((sampleCPU.setCPSR 0x10).setR 15 0x1008).nextFetchType :: ((sampleCPU.setCPSR 0x10).setR 15 0x1008).bus) 32 true 0x8 false % 2 ^ 32 ∧
      s'.pipelineOpcode2 =
        sampleEnv.busRead (.read 32 true 0x8 false :: .read 32 true (((sampleCPU.setCPSR 0x10).setR 15 0x1008).R 15) ((sampleCPU.setCPSR 0x10).setR 15 0x1008).nextFetchType :: ((sampleCPU.setCPSR 0x10).setR 15 0x1008).bus)
          32 true 0xC true % 2 ^ 32 ∧
      s'.bus = .read 32 true 0xC true :: .read 32 true 0x8 false ::
        .read 32 true (((sampleCPU.setCPSR 0x10).setR 15 0x1008).R 15) ((sampleCPU.setCPSR 0x10).setR 15 0x1008).nextFetchType :: ((sampleCPU.setCPSR 0x10).setR 15 0x1008).bus) ∧
    (∃ s', thumbSoftwareInterrupt sampleEnv 0xDF00 ((sampleCPU.setCPSR 0x30).setR 15 0x1004) = some s' ∧ s'.mode = MODE_SUPERVISOR ∧
      s'.bank .svc 7 = ((sampleCPU.setCPSR 0x30).setR 15 0x1004).CPSR ∧ s'.thumbMode = false ∧ s'.R 14 = u32 (0x1000 + 2) ∧ s'.R 15 = 0x10 ∧
      s'.pipelineOpcode3 =
        sampleEnv.busRead (.read 16 true (((sampleCPU.setCPSR 0x30).setR 15 0x1004).R 15) ((sampleCPU.setCPSR 0x30).setR 15 0x1004).nextFetchType :: ((sampleCPU.setCPSR 0x30).setR 15 0x1004).bus) 32 true 0x8 false % 2 ^ 32 ∧
      s'.pipelineOpcode2 =
        sampleEnv.busRead (.read 32 true 0x8 false :: .read 16 true (((sampleCPU.setCPSR 0x30).setR 15 0x1004).R 15) ((sampleCPU.setCPSR 0x30).setR 15 0x1004).nextFetchType :: ((sampleCPU.setCPSR 0x30).setR 15 0x1004).bus)
          32 true 0xC true % 2 ^ 32 ∧
      s'.bus = .read 32 true 0xC true :: .read 32 true 0x8 false ::
        .read 16 true (((sampleCPU.setCPSR 0x30).setR 15 0x1004).R 15) ((sampleCPU.setCPSR 0x30).setR 15 0x1004).nextFetchType :: ((sampleCPU.setCPSR 0x30).setR 15 0x1004).bus) :=
  ⟨by decide, by decide,
    (softwareInterrupt_entry sampleEnv 0xEF000000 ((sampleCPU.setCPSR 0x10).setR 15 0x1008) 0x1000 (by decide)).1 (by decide) (by decide),
    (softwareInterrupt_entry sampleEnv 0xDF00 ((sampleCPU.setCPSR 0x30).setR 15 0x1004) 0x1000 (by decide)).2.1 (by decide) (by decide)⟩

/-- C13 fails on the code: `softwareInterrupt` and `thumbSoftwareInterrupt`
never write the I bit (`serviceFiq` and `serviceIrq` do).  `SWI` executed at
`0x1000` in User mode with `CPSR = 0x10` (I clear) ends with `CPSR = 0x13`:
Supervisor mode with I still clear; the Thumb encoding with `CPSR = 0x30`
ends the same way. -/
theorem softwareInterrupt_irq_not_disabled :
    (softwareInterrupt sampleEnv 0xEF000000 ((sampleCPU.setCPSR 0x10).setR 15 0x1008)).map
      (fun s => (s.CPSR, s.irqDisable)) = some (0x13, false) ∧
    (thumbSoftwareInterrupt sampleEnv 0xDF00 ((sampleCPU.setCPSR 0x30).setR 15 0x1004)).map
      (fun s => (s.CPSR, s.irqDisable)) = some (0x13, false) := by
  decide

/-- C14: the undefined-instruction handler, run for an instruction at address
`A` (R15 is `A + 8` for the ARM encoding, `A + 4` for the Thumb encoding) from
a valid mode, returns a state in Undefined mode in which SPSR_und (slot 7 of
the UND bank) holds the pre-instruction CPSR, R14 is `A + 4` for the ARM
encoding and `A + 2` for the Thumb encoding, T is clear, and the pipeline is
refilled from `0x4` (code reads at `0x4` and `0x8` after the handler's own
prefetch), so R15 is `0xC`.  The ARM handler is what runs for every table
index decoded as undefined, among them the coprocessor data transfers (bits
11..9 = 110) and the coprocessor data operations (bits 11..8 = 1110, bit 0
clear), and for the coprocessor register transfers (bits 11..8 = 1110, bit 0
set) whose CP number `opcode[11:8]` is not 14. -/
theorem undefined_entry (E : Env) (opcode : Nat) (s : CPU) (A : Nat) (hv : validMode s.mode) :
    (s.R 15 = u32 (A + 8) →
      (∃ s', undefined E opcode s = some s' ∧ s'.mode = MODE_UNDEFINED ∧
        s'.bank .und 7 = s.CPSR ∧ s'.R 14 = u32 (A + 4) ∧ s'.thumbMode = false ∧ s'.R 15 = 0xC ∧
        s'.pipelineOpcode3 =
          E.busRead (.read 32 true (s.R 15) s.nextFetchType :: s.bus) 32 true 0x4 false % 2 ^ 32 ∧
        s'.pipelineOpcode2 =
          E.busRead (.read 32 true 0x4 false :: .read 32 true (s.R 15) s.nextFetchType :: s.bus)
            32 true 0x8 true % 2 ^ 32 ∧
        s'.bus = .read 32 true 0x8 true :: .read 32 true 0x4 false ::
          .read 32 true (s.R 15) s.nextFetchType :: s.bus)) ∧
    (s.R 15 = u32 (A + 4) →
      (∃ s', thumbUndefined E opcode s = some s' ∧ s'.mode = MODE_UNDEFINED ∧
        s'.bank .und 7 = s.CPSR ∧ s'.R 14 = u32 (A + 2) ∧ s'.thumbMode = false ∧ s'.R 15 = 0xC ∧
        s'.pipelineOpcode3 =
          E.busRead (.read 32 true (s.R 15) s.nextFetchType :: s.bus) 32 true 0x4 false % 2 ^ 32 ∧
        s'.pipelineOpcode2 =
          E.busRead (.read 32 true 0x4 false :: .read 32 true (s.R 15) s.nextFetchType :: s.bus)
            32 true 0x8 true % 2 ^ 32 ∧
        s'.bus = .read 32 true 0x8 true :: .read 32 true 0x4 false ::
          .read 32 true (s.R 15) s.nextFetchType :: s.bus)) ∧
    (∀ ls, (opcode >>> 8) &&& 0xF ≠ 14 →
      armCoprocessorRegisterTransfer E ls opcode s = undefined E opcode s) ∧
    (∀ i, i < 4096 →
      (decode i = .undefined → (decode i).call E opcode s = undefined E opcode s) ∧
      (i &&& 0xE00 = 0xC00 → (decode i).call E opcode s = undefined E opcode s) ∧
      (i &&& 0xF01 = 0xE00 → (decode i).call E opcode s = undefined E opcode s) ∧
      (i &&& 0xF01 = 0xE01 → (opcode >>> 8) &&& 0xF ≠ 14 →
        (decode i).call E opcode s = undefined E opcode s)) := by
  refine ⟨?_, ?_, ?_, ?_⟩
  · intro h15
    obtain ⟨a, h0, h1, h2, h3, _, _, _, _, _, _, h10, h11, h12, h13, h14⟩ := undefined_closed E s 4 hv
    refine ⟨a, h0, h1, h2, ?_, h3, h11, h12, h13, h14⟩
    rw [h10, h15]; unfold sub32 u32; omega
  · intro h15
    obtain ⟨a, h0, h1, h2, h3, _, _, _, _, _, _, h10, h11, h12, h13, h14⟩ := undefined_closed E s 2 hv
    refine ⟨a, h0, h1, h2, ?_, h3, h11, h12, h13, h14⟩
    rw [h10, h15]; unfold sub32 u32; omega
  · intro ls h
    simp only [armCoprocessorRegisterTransfer, if_neg h]
  · intro i hi
    obtain ⟨d1, d2, d3, _⟩ := decode_coproc i hi
    refine ⟨?_, ?_, ?_, ?_⟩
    · intro h; rw [h]; rfl
    · intro h; rw [d1 h]; rfl
    · intro h; rw [d2 h]; rfl
    · intro h hc; rw [d3 h]
      show armCoprocessorRegisterTransfer E (bits i 16) opcode s = _
      simp only [armCoprocessorRegisterTransfer, if_neg hc]

/-- Witness for C14: an undefined instruction at `0x1000` in User mode with
`CPSR = 0x10` gives `SPSR_und = 0x10` and `R14_und = 0x1004`; the opcode
`0xEE000F10` is a coprocessor register transfer to CP15. -/
theorem undefined_entry_witness :
    validMode ((sampleCPU.setCPSR 0x10).setR 15 0x1008).mode ∧
    (∃ s', undefined sampleEnv 0xEE000F10 ((sampleCPU.setCPSR 0x10).setR 15 0x1008) = some s' ∧ s'.mode = MODE_UNDEFINED ∧
      s'.bank .und 7 = ((sampleCPU.setCPSR 0x10).setR 15 0x1008).CPSR ∧ s'.R 14 = u32 (0x1000 + 4) ∧ s'.thumbMode = false ∧ s'.R 15 = 0xC ∧
      s'.pipelineOpcode3 =
        sampleEnv.busRead (.read 32 true (((sampleCPU.setCPSR 0x10).setR 15 0x1008).R 15) ((sampleCPU.setCPSR 0x10).setR 15 0x1008).nextFetchType :: ((sampleCPU.setCPSR 0x10).setR 15 0x1008).bus) 32 true 0x4 false % 2 ^ 32 ∧
      s'.pipelineOpcode2 =
        sampleEnv.busRead (.read 32 true 0x4 false :: .read 32 true (((sampleCPU.setCPSR 0x10).setR 15 0x1008).R 15) ((sampleCPU.setCPSR 0x10).setR 15 0x1008).nextFetchType :: ((sampleCPU.setCPSR 0x10).setR 15 0x1008).bus)
          32 true 0x8 true % 2 ^ 32 ∧
      s'.bus = .read 32 true 0x8 true :: .read 32 true 0x4 false ::
        .read 32 true (((sampleCPU.setCPSR 0x10).setR 15 0x1008).R 15) ((sampleCPU.setCPSR 0x10).setR 15 0x1008).nextFetchType :: ((sampleCPU.setCPSR 0x10).setR 15 0x1008).bus) ∧
    armCoprocessorRegisterTransfer sampleEnv false 0xEE000F10 ((sampleCPU.setCPSR 0x10).setR 15 0x1008) =
      undefined sampleEnv 0xEE000F10 ((sampleCPU.setCPSR 0x10).setR 15 0x1008) :=
  ⟨by decide,
    (undefined_entry sampleEnv 0xEE000F10 ((sampleCPU.setCPSR 0x10).setR 15 0x1008) 0x1000 (by decide)).1 (by decide),
    (undefined_entry sampleEnv 0xEE000F10 ((sampleCPU.setCPSR 0x10).setR 15 0x1008) 0x1000 (by decide)).2.2.1 false (by decide)⟩

/-! ## The barrel shifter -/

theorem and_one_shiftLeft_ne_zero (x k : Nat) : decide (x &&& (1 <<< k) ≠ 0) = x.testBit k := by
  rw [Nat.one_shiftLeft, Nat.and_two_pow]
  cases x.testBit k <;> simp

theorem shiftRight_and_one_ne_zero (x k : Nat) : decide ((x >>> k) &&& 1 ≠ 0) = x.testBit k := by
  have h := and_one_shiftLeft_ne_zero (x >>> k) 0
  rw [Nat.testBit_shiftRight] at h
  simp at h
  simp [h]

theorem and_one_ne_zero (x : Nat) : decide (x &&& 1 ≠ 0) = x.testBit 0 := by
  have h := and_one_shiftLeft_ne_zero x 0
  simp at h
  simp [h]

theorem and_80000000_ne_zero (x : Nat) : decide (x &&& 0x80000000 ≠ 0) = x.testBit 31 := by
  have h := and_one_shiftLeft_ne_zero x 31
  simp at h
  simp [h]

theorem testBit_31 (x : Nat) (h : x < 2 ^ 32) : x.testBit 31 = decide (2 ^ 31 ≤ x) := by
  rw [Nat.testBit_to_div_mod]
  by_cases hx : 2147483648 ≤ x
  · have : x / 2147483648 = 1 := by omega
    simp [this, hx]
  · have : x / 2147483648 = 0 := by omega
    simp [this, hx]

theorem shiftRight_31_ne_zero (x : Nat) (h : x < 2 ^ 32) : decide (x >>> 31 ≠ 0) = x.testBit 31 := by
  rw [testBit_31 x h, Nat.shiftRight_eq_div_pow]
  by_cases hx : 2147483648 ≤ x
  · have : x / 2147483648 = 1 := by omega
    simp [this, hx]
  · have : x / 2147483648 = 0 := by omega
    simp [this, hx]

/-- The register-operand branch of `computeShift`, taken by the
instantiations `<false, false>` and `<true, true>`. -/
theorem computeShift_reg (dt : Bool) (opcode : Nat) (s : CPU) :
    computeShift dt dt opcode s = computeShift false false opcode s := by
  cases dt <;> rfl

theorem shiftAmount_le (opcode : Nat) (s : CPU) :
    (opcode.testBit 4 = false →
      (if opcode.testBit 4 then s.R (reg4 (opcode >>> 8)) &&& 0xFF else (opcode >>> 7) &&& 0x1F) ≤ 31) ∧
    (if opcode.testBit 4 then s.R (reg4 (opcode >>> 8)) &&& 0xFF else (opcode >>> 7) &&& 0x1F) ≤ 255 := by
  constructor
  · intro h; rw [h]; exact Nat.and_le_right
  · split
    · exact Nat.and_le_right
    · exact le_trans Nat.and_le_right (by decide)

/-- Bits of a right rotation of a 32-bit word. -/
theorem testBit_ror32 (x k i : Nat) (hx : x < 2 ^ 32) (hk : k < 32) (hi : i < 32) :
    (ror32 x k).testBit i = x.testBit ((i + k) % 32) := by
  unfold ror32
  rw [Nat.mod_eq_of_lt hx, Nat.testBit_or, Nat.testBit_shiftRight, Nat.testBit_mod_two_pow,
    Nat.testBit_shiftLeft]
  by_cases h : i + k < 32
  · have h1 : ¬ i ≥ 32 - k := by omega
    have h2 : (i + k) % 32 = i + k := Nat.mod_eq_of_lt h
    rw [h2, Nat.add_comm k i]
    simp [h1]
  · have h1 : i ≥ 32 - k := by omega
    have h2 : (i + k) % 32 = i - (32 - k) := by omega
    have h3 : x.testBit (k + i) = false :=
      Nat.testBit_lt_two_pow (lt_of_lt_of_le hx (Nat.pow_le_pow_right (by decide : 0 < 2) (by omega)))
    rw [h2, h3]
    simp [h1, hi]

theorem ror32_lt (x k : Nat) : ror32 x k < 2 ^ 32 := by
  unfold ror32
  apply Nat.or_lt_two_pow
  · rw [Nat.shiftRight_eq_div_pow]
    exact lt_of_le_of_lt (Nat.div_le_self _ _) (Nat.mod_lt _ (by decide))
  · exact Nat.mod_lt _ (by decide)

theorem toI32_range (v : Nat) : -2 ^ 31 ≤ toI32 v ∧ toI32 v < 2 ^ 31 := by
  unfold toI32
  split <;> omega

theorem toI32_ofInt32 (x : Int) (h1 : -2 ^ 31 ≤ x) (h2 : x < 2 ^ 31) : toI32 (ofInt32 x) = x := by
  unfold toI32 ofInt32
  split <;> omega

theorem ofInt32_lt (x : Int) : ofInt32 x < 2 ^ 32 := by
  unfold ofInt32
  omega

/-- The signed value of `asr32 v n` is the signed value of `v` divided by
`2 ^ n`, rounded towards minus infinity. -/
theorem toI32_asr32 (v n : Nat) : toI32 (asr32 v n) = toI32 v / 2 ^ n := by
  obtain ⟨h1, h2⟩ := toI32_range v
  have hd : (0 : Int) < 2 ^ n := by positivity
  have hd1 : (1 : Int) ≤ 2 ^ n := hd
  unfold asr32
  rw [Int.shiftRight_eq_div_pow]
  push_cast
  apply toI32_ofInt32
  · rw [Int.le_ediv_iff_mul_le hd]; nlinarith
  · rw [Int.ediv_lt_iff_lt_mul hd]; nlinarith

theorem rot_imm_amount (opcode : Nat) : (opcode &&& 0xF00) >>> 7 = 2 * ((opcode >>> 8) &&& 0xF) := by
  have h := and_mask_shift opcode 4 8
  have e : (0xF00 : Nat) = (2 ^ 4 - 1) <<< 8 := by decide
  have e2 : (opcode >>> 8) &&& 0xF = (opcode >>> 8) % 2 ^ 4 := Nat.and_pow_two_sub_one_eq_mod _ 4
  rw [e, h, e2, Nat.shiftLeft_eq, Nat.shiftRight_eq_div_pow]
  omega

/-- C15: `computeShift` on a register operand with shift type LSL, for the
operand value `v`, incoming carry `C` and amount `n` (the immediate field,
0..31, or the low byte of Rs, 0..255): `n = 0` gives `(v, C)`; `1 ≤ n ≤ 31`
gives `(v << n) mod 2^32` with carry-out bit `32 - n` of `v`; `n = 32` gives 0
with carry-out bit 0 of `v`; `n > 32` gives 0 with carry-out 0. -/
theorem computeShift_lsl (dt : Bool) (opcode : Nat) (s : CPU) (hty : (opcode >>> 5) &&& 3 = 0) :
    let v := s.R (reg4 opcode)
    let n := if opcode.testBit 4 then s.R (reg4 (opcode >>> 8)) &&& 0xFF else (opcode >>> 7) &&& 0x1F
    (opcode.testBit 4 = false → n ≤ 31) ∧ n ≤ 255 ∧
    computeShift dt dt opcode s =
      if n = 0 then (s.flagC, v)
      else if n ≤ 31 then (v.testBit (32 - n), (v <<< n) % 2 ^ 32)
      else if n = 32 then (v.testBit 0, 0)
      else (false, 0) := by
  intro v n
  have hle := shiftAmount_le opcode s
  have hn : n = (if opcode.testBit 4 then s.R (reg4 (opcode >>> 8)) &&& 0xFF else (opcode >>> 7) &&& 0x1F) := rfl
  have hv : v = s.R (reg4 opcode) := rfl
  rw [← hn] at hle
  clear_value n v
  refine ⟨hle.1, hle.2, ?_⟩
  rw [computeShift_reg]
  unfold computeShift
  simp only [hty, ← hn, ← hv]
  simp only [Bool.false_and, Bool.false_eq_true, if_false, and_one_shiftLeft_ne_zero, and_one_ne_zero,
    shiftRight_and_one_ne_zero, and_80000000_ne_zero]
  by_cases h0 : n = 0
  · simp [h0]
  · by_cases h31 : n ≤ 31
    · have e : 31 - (n - 1) = 32 - n := by omega
      have h31' : ¬ n > 31 := by omega
      simp [h0, h31, h31', e, u32]
    · have h31' : n > 31 := by omega
      by_cases h32 : n = 32
      · simp [h32]
      · simp [h0, h31, h31', h32]

/-- C16: `computeShift` on a register operand with shift type LSR, for a
32-bit operand value `v`, incoming carry `C` and amount `n`: an immediate
field of 0 gives 0 with carry-out bit 31 of `v`; a register amount of 0 gives
`(v, C)`; amounts 1..31 give `v >> n` with carry-out bit `n - 1` of `v`; a
register amount of 32 gives 0 with carry-out bit 31 of `v`; a register amount
above 32 gives 0 with carry-out 0. -/
theorem computeShift_lsr (dt : Bool) (opcode : Nat) (s : CPU) (hty : (opcode >>> 5) &&& 3 = 1)
    (h32 : s.R (reg4 opcode) < 2 ^ 32) :
    let v := s.R (reg4 opcode)
    let n := if opcode.testBit 4 then s.R (reg4 (opcode >>> 8)) &&& 0xFF else (opcode >>> 7) &&& 0x1F
    (opcode.testBit 4 = false → n ≤ 31) ∧ n ≤ 255 ∧
    computeShift dt dt opcode s =
      if opcode.testBit 4 then
        (if n = 0 then (s.flagC, v)
         else if n ≤ 31 then (v.testBit (n - 1), v >>> n)
         else if n = 32 then (v.testBit 31, 0)
         else (false, 0))
      else
        (if n = 0 then (v.testBit 31, 0) else (v.testBit (n - 1), v >>> n)) := by
  intro v n
  have hle := shiftAmount_le opcode s
  have hn : n = (if opcode.testBit 4 then s.R (reg4 (opcode >>> 8)) &&& 0xFF else (opcode >>> 7) &&& 0x1F) := rfl
  have hv : v = s.R (reg4 opcode) := rfl
  rw [← hn] at hle
  clear_value n v
  refine ⟨hle.1, hle.2, ?_⟩
  rw [computeShift_reg]
  unfold computeShift
  simp only [hty, ← hn, ← hv]
  simp only [Bool.false_and, Bool.false_eq_true, if_false, and_one_shiftLeft_ne_zero, and_one_ne_zero,
    shiftRight_and_one_ne_zero, and_80000000_ne_zero]
  rw [← hv] at h32
  simp only [shiftRight_31_ne_zero v h32]
  cases hb : opcode.testBit 4
  · have := hle.1 hb
    by_cases h0 : n = 0
    · simp [h0]
    · have h1 : ¬ n = 32 := by omega
      have h2 : ¬ n > 32 := by omega
      simp [h0, h1, h2]
  · by_cases h0 : n = 0
    · simp [h0]
    · by_cases h31 : n ≤ 31
      · have h1 : ¬ n = 32 := by omega
        have h2 : ¬ n > 32 := by omega
        simp [h0, h1, h2, h31]
      · by_cases h1 : n = 32
        · simp [h1]
        · have h2 : n > 32 := by omega
          simp [h0, h1, h2, h31]

/-- C17: `computeShift` on a register operand with shift type ASR, for the
operand value `v`, incoming carry `C` and amount `n`: an immediate field of 0
or a register amount above 31 gives `0xFFFFFFFF` when bit 31 of `v` is set and
0 otherwise, with carry-out bit 31 of `v`; amounts 1..31 give the arithmetic
right shift of `v` by `n` (a 32-bit word whose signed value is the signed
value of `v` divided by `2^n`, rounded down) with carry-out bit `n - 1` of
`v`; a register amount of 0 gives `(v, C)`. -/
theorem computeShift_asr (dt : Bool) (opcode : Nat) (s : CPU) (hty : (opcode >>> 5) &&& 3 = 2) :
    let v := s.R (reg4 opcode)
    let n := if opcode.testBit 4 then s.R (reg4 (opcode >>> 8)) &&& 0xFF else (opcode >>> 7) &&& 0x1F
    (opcode.testBit 4 = false → n ≤ 31) ∧ n ≤ 255 ∧
    computeShift dt dt opcode s =
      (if opcode.testBit 4 then
        (if n = 0 then (s.flagC, v)
         else if n ≤ 31 then (v.testBit (n - 1), asr32 v n)
         else (v.testBit 31, if v.testBit 31 then 0xFFFFFFFF else 0))
      else
        (if n = 0 then (v.testBit 31, if v.testBit 31 then 0xFFFFFFFF else 0)
         else (v.testBit (n - 1), asr32 v n))) ∧
    asr32 v n < 2 ^ 32 ∧ toI32 (asr32 v n) = toI32 v / 2 ^ n := by
  intro v n
  have hle := shiftAmount_le opcode s
  have hn : n = (if opcode.testBit 4 then s.R (reg4 (opcode >>> 8)) &&& 0xFF else (opcode >>> 7) &&& 0x1F) := rfl
  have hv : v = s.R (reg4 opcode) := rfl
  rw [← hn] at hle
  clear_value n v
  refine ⟨hle.1, hle.2, ?_, ofInt32_lt _, toI32_asr32 v n⟩
  rw [computeShift_reg]
  unfold computeShift
  simp only [hty, ← hn, ← hv]
  simp only [Bool.false_and, Bool.false_eq_true, if_false, and_one_shiftLeft_ne_zero, and_one_ne_zero,
    shiftRight_and_one_ne_zero, and_80000000_ne_zero]
  cases hb : opcode.testBit 4
  · have := hle.1 hb
    by_cases h0 : n = 0
    · cases h31 : v.testBit 31
      · have hp : v &&& 2147483648 = 0 := by
          have := and_80000000_ne_zero v; rw [h31] at this; simpa using this
        simp [h0, hp]
      · have hp : ¬ v &&& 2147483648 = 0 := by
          have := and_80000000_ne_zero v; rw [h31] at this; simpa using this
        simp [h0, hp]
    · have h1 : ¬ n > 31 := by omega
      simp [h0, h1]
  · by_cases h0 : n = 0
    · simp [h0]
    · by_cases h31 : n ≤ 31
      · have h1 : ¬ n > 31 := by omega
        simp [h0, h1, h31]
      · have h1 : n > 31 := by omega
        cases hs : v.testBit 31
        · have hp : v &&& 2147483648 = 0 := by
            have := and_80000000_ne_zero v; rw [hs] at this; simpa using this
          simp [h0, h1, h31, hp]
        · have hp : ¬ v &&& 2147483648 = 0 := by
            have := and_80000000_ne_zero v; rw [hs] at this; simpa using this
          simp [h0, h1, h31, hp]

/-- C18: `computeShift` on a register operand with shift type ROR, for a
32-bit operand value `v`, incoming carry `C` and amount `n`: an immediate
field of 0 is RRX, giving `(v >> 1) | (C << 31)` with carry-out bit 0 of `v`; a
register amount of 0 gives `(v, C)`; a non-zero register amount with
`n mod 32 = 0` gives `v` with carry-out bit 31 of `v`; every other amount gives
`v` rotated right by `n mod 32` with carry-out bit 31 of that result, which is
bit `(n mod 32) - 1` of `v`. -/
theorem computeShift_ror (dt : Bool) (opcode : Nat) (s : CPU) (hty : (opcode >>> 5) &&& 3 = 3)
    (h32 : s.R (reg4 opcode) < 2 ^ 32) :
    let v := s.R (reg4 opcode)
    let n := if opcode.testBit 4 then s.R (reg4 (opcode >>> 8)) &&& 0xFF else (opcode >>> 7) &&& 0x1F
    (opcode.testBit 4 = false → n ≤ 31) ∧ n ≤ 255 ∧
    computeShift dt dt opcode s =
      (if opcode.testBit 4 then
        (if n = 0 then (s.flagC, v)
         else if n % 32 = 0 then (v.testBit 31, v)
         else ((ror32 v (n % 32)).testBit 31, ror32 v (n % 32)))
      else
        (if n = 0 then (v.testBit 0, (v >>> 1) ||| (s.flagC.toNat <<< 31))
         else ((ror32 v n).testBit 31, ror32 v n))) ∧
    (∀ k, 0 < k → k < 32 → ror32 v k < 2 ^ 32 ∧
      (∀ i, i < 32 → (ror32 v k).testBit i = v.testBit ((i + k) % 32)) ∧
      (ror32 v k).testBit 31 = v.testBit (k - 1)) := by
  intro v n
  have hle := shiftAmount_le opcode s
  have hn : n = (if opcode.testBit 4 then s.R (reg4 (opcode >>> 8)) &&& 0xFF else (opcode >>> 7) &&& 0x1F) := rfl
  have hv : v = s.R (reg4 opcode) := rfl
  rw [← hn] at hle
  clear_value n v
  rw [← hv] at h32
  have hrot : ∀ k, 0 < k → k < 32 → (ror32 v k).testBit 31 = v.testBit (k - 1) := by
    intro k h0 hk
    rw [testBit_ror32 v k 31 h32 hk (by decide)]
    congr 1
    omega
  refine ⟨hle.1, hle.2, ?_, fun k h0 hk => ⟨ror32_lt v k, fun i hi => testBit_ror32 v k i h32 hk hi, hrot k h0 hk⟩⟩
  rw [computeShift_reg]
  unfold computeShift
  simp only [hty, ← hn, ← hv]
  simp only [Bool.false_and, Bool.false_eq_true, if_false, and_one_shiftLeft_ne_zero, and_one_ne_zero,
    shiftRight_and_one_ne_zero, and_80000000_ne_zero]
  simp only [shiftRight_31_ne_zero v h32, and_1F]
  cases hb : opcode.testBit 4
  · have := hle.1 hb
    by_cases h0 : n = 0
    · simp [h0]
    · simp [h0, hrot n (by omega) (by omega)]
  · by_cases h0 : n = 0
    · simp [h0]
    · by_cases h1 : n % 32 = 0
      · simp [h0, h1]
      · simp [h0, h1, hrot (n % 32) (by omega) (Nat.mod_lt _ (by decide))]

/-- C19: for a data-processing instruction with an immediate operand,
`computeShift` returns `opcode[7:0]` rotated right by `2 * opcode[11:8]` (a
32-bit word whose bit `i` is bit `(i + 2 * opcode[11:8]) mod 32` of the 8-bit
value); the carry-out is the incoming C when the rotate field is 0 and bit 31
of the rotated operand otherwise. -/
theorem computeShift_rotated_immediate (opcode : Nat) (s : CPU) :
    let imm := opcode &&& 0xFF
    let r := (opcode >>> 8) &&& 0xF
    (computeShift false true opcode s).2 = (if r = 0 then imm else ror32 imm (2 * r)) ∧
    (computeShift false true opcode s).2 < 2 ^ 32 ∧
    (∀ i, i < 32 → (computeShift false true opcode s).2.testBit i = imm.testBit ((i + 2 * r) % 32)) ∧
    (computeShift false true opcode s).1 =
      (if r = 0 then s.flagC else (computeShift false true opcode s).2.testBit 31) := by
  intro imm r
  have himm : imm < 2 ^ 32 := lt_of_le_of_lt (Nat.and_le_right : opcode &&& 0xFF ≤ 0xFF) (by decide)
  have hr : r < 16 := lt_of_le_of_lt (Nat.and_le_right : (opcode >>> 8) &&& 0xF ≤ 0xF) (by decide)
  have hc : computeShift false true opcode s =
      if r = 0 then (s.flagC, imm) else (imm.testBit (2 * r - 1), ror32 imm (2 * r)) := by
    unfold computeShift
    simp only [rot_imm_amount, and_one_shiftLeft_ne_zero]
    by_cases h0 : r = 0
    · have : (opcode >>> 8) &&& 0xF = 0 := h0
      simp [h0, this]
    · have h1 : ¬ (opcode >>> 8) &&& 0xF = 0 := h0
      simp [h0, h1, imm, r]
  rw [hc]
  by_cases h0 : r = 0
  · rw [if_pos h0, if_pos h0, if_pos h0]
    refine ⟨rfl, himm, ?_, rfl⟩
    intro i hi
    show imm.testBit i = _
    rw [h0, Nat.mul_zero, Nat.add_zero, Nat.mod_eq_of_lt hi]
  · rw [if_neg h0, if_neg h0, if_neg h0]
    have h31 : (ror32 imm (2 * r)).testBit 31 = imm.testBit (2 * r - 1) := by
      rw [testBit_ror32 imm (2 * r) 31 himm (by omega) (by decide)]
      congr 1
      omega
    exact ⟨rfl, ror32_lt _ _, fun i hi => testBit_ror32 imm (2 * r) i himm (by omega) hi, h31.symm⟩

/-- Witness for C15: `MOV r0, r2, LSL #23` on the sample state (R2 = `0x300`). -/
theorem computeShift_lsl_witness :
    (0xE1A00B82 >>> 5) &&& 3 = 0 ∧ computeShift false false 0xE1A00B82 sampleCPU = (true, 0x80000000) :=
  ⟨by decide, (computeShift_lsl false 0xE1A00B82 sampleCPU (by decide)).2.2.trans (by decide)⟩

/-- Witness for C16: `MOV r0, r2, LSR #9` on the sample state (R2 = `0x300`). -/
theorem computeShift_lsr_witness :
    (0xE1A004A2 >>> 5) &&& 3 = 1 ∧ sampleCPU.R (reg4 0xE1A004A2) < 2 ^ 32 ∧
    computeShift false false 0xE1A004A2 sampleCPU = (true, 1) :=
  ⟨by decide, by decide,
    (computeShift_lsr false 0xE1A004A2 sampleCPU (by decide) (by decide)).2.2.trans (by decide)⟩

/-- Witness for C17: `MOV r0, r2, ASR #9` on the sample state (R2 = `0x300`). -/
theorem computeShift_asr_witness :
    (0xE1A004C2 >>> 5) &&& 3 = 2 ∧ computeShift false false 0xE1A004C2 sampleCPU = (true, 1) :=
  ⟨by decide, (computeShift_asr false 0xE1A004C2 sampleCPU (by decide)).2.2.1.trans (by decide)⟩

/-- Witness for C18: `MOV r0, r2, ROR #9` on the sample state (R2 = `0x300`). -/
theorem computeShift_ror_witness :
    (0xE1A004E2 >>> 5) &&& 3 = 3 ∧ sampleCPU.R (reg4 0xE1A004E2) < 2 ^ 32 ∧
    computeShift false false 0xE1A004E2 sampleCPU = (true, 0x80000001) :=
  ⟨by decide, by decide,
    (computeShift_ror false 0xE1A004E2 sampleCPU (by decide) (by decide)).2.2.1.trans (by decide)⟩

/-! ## Addition flags -/

theorem testBit_not32 (x i : Nat) : (not32 x).testBit i = (decide (i < 32) && !x.testBit i) := by
  have h : x % 2 ^ 32 < 2 ^ 32 := Nat.mod_lt _ (by decide)
  have e : not32 x = 2 ^ 32 - (x % 2 ^ 32 + 1) := by unfold not32; omega
  rw [e, Nat.testBit_two_pow_sub_succ h, Nat.testBit_mod_two_pow]
  by_cases hi : i < 32 <;> simp [hi]

theorem not32_lt (x : Nat) : not32 x < 2 ^ 32 := by unfold not32; omega

theorem and_lt_left {a b n : Nat} (h : a < n) : a &&& b < n := lt_of_le_of_lt Nat.and_le_left h

/-- The overflow expression of ADD and CMN. -/
theorem add_overflow_bit (a b r : Nat) :
    decide ((not32 (a ^^^ b) &&& (a ^^^ r) &&& 0x80000000) > 0) =
      ((a.testBit 31 == b.testBit 31) && (r.testBit 31 != a.testBit 31)) := by
  have h := and_80000000_ne_zero (not32 (a ^^^ b) &&& (a ^^^ r))
  have e : (not32 (a ^^^ b) &&& (a ^^^ r) &&& 0x80000000 > 0) ↔
      (not32 (a ^^^ b) &&& (a ^^^ r) &&& 0x80000000 ≠ 0) := Nat.pos_iff_ne_zero
  rw [decide_eq_decide.mpr e, h, Nat.testBit_and, testBit_not32, Nat.testBit_xor, Nat.testBit_xor]
  cases a.testBit 31 <;> cases b.testBit 31 <;> cases r.testBit 31 <;> rfl

/-- The overflow expression of ADC. -/
theorem adc_overflow_bit (a b r : Nat) :
    decide ((not32 (a ^^^ b) &&& (a ^^^ r)) >>> 31 ≠ 0) =
      ((a.testBit 31 == b.testBit 31) && (r.testBit 31 != a.testBit 31)) := by
  rw [shiftRight_31_ne_zero _ (and_lt_left (not32_lt _)), Nat.testBit_and, testBit_not32, Nat.testBit_xor,
    Nat.testBit_xor]
  cases a.testBit 31 <;> cases b.testBit 31 <;> cases r.testBit 31 <;> rfl

/-- Sign disagreement is signed overflow of the exact sum. -/
theorem overflow_signed (a b c : Nat) (ha : a < 2 ^ 32) (hb : b < 2 ^ 32) (hc : c ≤ 1) :
    ((a.testBit 31 == b.testBit 31) && (((a + b + c) % 2 ^ 32).testBit 31 != a.testBit 31)) =
      decide (¬ (-2 ^ 31 ≤ toI32 a + toI32 b + (c : Int) ∧ toI32 a + toI32 b + (c : Int) < 2 ^ 31)) := by
  have hr : (a + b + c) % 2 ^ 32 < 2 ^ 32 := Nat.mod_lt _ (by decide)
  rw [testBit_31 a ha, testBit_31 b hb, testBit_31 _ hr]
  unfold toI32
  rw [Nat.mod_eq_of_lt ha, Nat.mod_eq_of_lt hb]
  by_cases h1 : 2 ^ 31 ≤ a <;> by_cases h2 : 2 ^ 31 ≤ b <;> by_cases h3 : 2 ^ 31 ≤ (a + b + c) % 2 ^ 32 <;>
    simp only [h1, h2, h3, decide_True, decide_False] <;> (split <;> split <;> simp <;> omega)

/-- The carry expression of ADD, CMN and ADC is bit 32 of the exact sum. -/
theorem carry_bit32 (x : Nat) : decide (x >>> 32 ≠ 0) = decide (2 ^ 32 ≤ x) := by
  rw [Nat.shiftRight_eq_div_pow]
  by_cases h : 4294967296 ≤ x
  · have : x / 4294967296 ≠ 0 := by omega
    simp [this, h]
  · have : x / 4294967296 = 0 := by omega
    simp [this, h]

theorem testBit_32 (x : Nat) (h : x < 2 ^ 33) : x.testBit 32 = decide (2 ^ 32 ≤ x) := by
  rw [Nat.testBit_to_div_mod]
  by_cases hx : 4294967296 ≤ x
  · have : x / 4294967296 = 1 := by omega
    simp [this, hx]
  · have : x / 4294967296 = 0 := by omega
    simp [this, hx]

theorem flag_chain (t : CPU) (n z c v : Bool) :
    ((((t.setFlagN n).setFlagZ z).setFlagC c).setFlagV v).flagN = n ∧
    ((((t.setFlagN n).setFlagZ z).setFlagC c).setFlagV v).flagZ = z ∧
    ((((t.setFlagN n).setFlagZ z).setFlagC c).setFlagV v).flagC = c ∧
    ((((t.setFlagN n).setFlagZ z).setFlagC c).setFlagV v).flagV = v ∧
    (∀ i, ((((t.setFlagN n).setFlagZ z).setFlagC c).setFlagV v).R i = t.R i) := by
  simp [CPU.setFlagN, CPU.setFlagZ, CPU.setFlagC, CPU.setFlagV, testBit_setBit]

theorem flags_fetchOpcode (E : Env) (t : CPU) :
    (fetchOpcode E t).flagN = t.flagN ∧ (fetchOpcode E t).flagZ = t.flagZ ∧
    (fetchOpcode E t).flagC = t.flagC ∧ (fetchOpcode E t).flagV = t.flagV := by
  have h := (fetchOpcode_fields E t).1
  refine ⟨?_, ?_, ?_, ?_⟩
  · show (fetchOpcode E t).CPSR.testBit 31 = t.CPSR.testBit 31; rw [h]
  · show (fetchOpcode E t).CPSR.testBit 30 = t.CPSR.testBit 30; rw [h]
  · show (fetchOpcode E t).CPSR.testBit 29 = t.CPSR.testBit 29; rw [h]
  · show (fetchOpcode E t).CPSR.testBit 28 = t.CPSR.testBit 28; rw [h]

/-- The state returned by `dataProcessing` for an arithmetic operation with
the S bit set and a destination other than R15. -/
theorem dataProcessing_arith (E : Env) (iBit : Bool) (operation opcode : Nat) (s : CPU)
    (hlog : ¬ (operation < 2 ∨ operation = 8 ∨ operation = 9 ∨ operation ≥ 0xC))
    (hRd : (opcode &&& 0xF000) >>> 12 ≠ 15) :
    ∃ s1 f g, s1 = (if (!iBit && opcode.testBit 4) then fetchOpcode E s else s) ∧
      f = (((s1.setFlagN ((dataProcessingOp operation (s1.R (reg4 (opcode >>> 16)))
              (computeShift false iBit opcode s1).2 s1.flagC s1.flagV).1 >>> 31 ≠ 0)).setFlagZ
            ((dataProcessingOp operation (s1.R (reg4 (opcode >>> 16)))
              (computeShift false iBit opcode s1).2 s1.flagC s1.flagV).1 = 0)).setFlagC
            (dataProcessingOp operation (s1.R (reg4 (opcode >>> 16)))
              (computeShift false iBit opcode s1).2 s1.flagC s1.flagV).2.1).setFlagV
            (dataProcessingOp operation (s1.R (reg4 (opcode >>> 16)))
              (computeShift false iBit opcode s1).2 s1.flagC s1.flagV).2.2 ∧
      g = (if (!iBit && opcode.testBit 4) then iCycle 1 f else fetchOpcode E f) ∧
      dataProcessing E iBit operation true opcode s =
        some (if operation < 8 ∨ operation ≥ 0xC then
          g.setR (reg4 ((opcode &&& 0xF000) >>> 12))
            (dataProcessingOp operation (s1.R (reg4 (opcode >>> 16)))
              (computeShift false iBit opcode s1).2 s1.flagC s1.flagV).1
          else g) := by
  refine ⟨_, _, _, rfl, rfl, rfl, ?_⟩
  unfold dataProcessing
  simp only [hlog, hRd, if_true, if_false]
  split <;> rfl

/-- C20: ADD, CMN and ADC with the S bit set and a destination other than
R15, on 32-bit operands `op1` (Rn) and `op2` (the shifter output) with carry-in
`c` (the incoming C for ADC, 0 for ADD and CMN): the instruction returns a
state in which C is bit 32 of the exact sum `op1 + op2 + c`, V is set exactly
when the signed sum lies outside `[-2^31, 2^31)`, which is when `op1` and
`op2` have the same sign bit and the result has the other one, N is bit 31 of
the result `(op1 + op2 + c) mod 2^32` and Z is set exactly when the result is
0; ADD and ADC write the result to Rd. -/
theorem dataProcessing_add_flags (E : Env) (iBit : Bool) (operation opcode : Nat) (s : CPU)
    (hop : operation = 0x4 ∨ operation = 0xB ∨ operation = 0x5)
    (hRd : (opcode &&& 0xF000) >>> 12 ≠ 15)
    (h1 : (if (!iBit && opcode.testBit 4) then fetchOpcode E s else s).R (reg4 (opcode >>> 16)) < 2 ^ 32)
    (h2 : (computeShift false iBit opcode (if (!iBit && opcode.testBit 4) then fetchOpcode E s else s)).2 < 2 ^ 32) :
    let s1 := if (!iBit && opcode.testBit 4) then fetchOpcode E s else s
    let op1 := s1.R (reg4 (opcode >>> 16))
    let op2 := (computeShift false iBit opcode s1).2
    let c := if operation = 0x5 then s.flagC.toNat else 0
    let result := (op1 + op2 + c) % 2 ^ 32
    ∃ s', dataProcessing E iBit operation true opcode s = some s' ∧
      s'.flagC = (op1 + op2 + c).testBit 32 ∧
      s'.flagV = decide (¬ (-2 ^ 31 ≤ toI32 op1 + toI32 op2 + (c : Int) ∧
        toI32 op1 + toI32 op2 + (c : Int) < 2 ^ 31)) ∧
      s'.flagV = ((op1.testBit 31 == op2.testBit 31) && (result.testBit 31 != op1.testBit 31)) ∧
      s'.flagN = result.testBit 31 ∧
      s'.flagZ = decide (result = 0) ∧
      (operation ≠ 0xB → s'.R (reg4 ((opcode &&& 0xF000) >>> 12)) = result) := by
  intro s1 op1 op2 c result
  have hlog : ¬ (operation < 2 ∨ operation = 8 ∨ operation = 9 ∨ operation ≥ 0xC) := by
    rcases hop with h | h | h <;> subst h <;> decide
  obtain ⟨t1, f, g, ht1, hf, hg, hd⟩ := dataProcessing_arith E iBit operation opcode s hlog hRd
  have hs1 : t1 = s1 := ht1
  rw [hs1] at hf hd
  clear ht1 hs1 t1
  have hC1 : s1.flagC = s.flagC := by
    show (if (!iBit && opcode.testBit 4) = true then fetchOpcode E s else s).flagC = s.flagC
    split
    · exact (flags_fetchOpcode E s).2.2.1
    · rfl
  have hc1 : c ≤ 1 := by
    show (if operation = 0x5 then s.flagC.toNat else 0) ≤ 1
    split
    · cases s.flagC <;> decide
    · exact Nat.zero_le _
  have hr : dataProcessingOp operation op1 op2 s1.flagC s1.flagV =
      (result, decide (2 ^ 32 ≤ op1 + op2 + c),
        (op1.testBit 31 == op2.testBit 31) && (result.testBit 31 != op1.testBit 31)) := by
    rcases hop with h | h | h <;> subst h
    · simp only [dataProcessingOp, carry_bit32, add_overflow_bit, u32]
      rfl
    · simp only [dataProcessingOp, carry_bit32, add_overflow_bit, u32]
      rfl
    · simp only [dataProcessingOp, carry_bit32, adc_overflow_bit, u32, hC1]
      rfl
  have hop1 : dataProcessingOp operation (s1.R (reg4 (opcode >>> 16))) (computeShift false iBit opcode s1).2
      s1.flagC s1.flagV = dataProcessingOp operation op1 op2 s1.flagC s1.flagV := rfl
  rw [hop1, hr] at hf hd
  have hres : result < 2 ^ 32 := Nat.mod_lt _ (by decide)
  obtain ⟨fN, fZ, fC, fV, _⟩ := flag_chain s1 (decide (result >>> 31 ≠ 0)) (decide (result = 0))
    (decide (2 ^ 32 ≤ op1 + op2 + c))
    ((op1.testBit 31 == op2.testBit 31) && (result.testBit 31 != op1.testBit 31))
  rw [← hf] at fN fZ fC fV
  have gflags : g.flagN = f.flagN ∧ g.flagZ = f.flagZ ∧ g.flagC = f.flagC ∧ g.flagV = f.flagV := by
    rw [hg]
    split
    · exact ⟨rfl, rfl, rfl, rfl⟩
    · exact flags_fetchOpcode E f
  have hsum : op1 + op2 + c < 2 ^ 33 := by
    have a : op1 < 2 ^ 32 := h1
    have b : op2 < 2 ^ 32 := h2
    omega
  refine ⟨_, hd, ?_, ?_, ?_, ?_, ?_, ?_⟩
  · rw [testBit_32 _ hsum, ← fC, ← gflags.2.2.1]
    split <;> rfl
  · rw [← overflow_signed op1 op2 c h1 h2 hc1, ← fV, ← gflags.2.2.2]
    split <;> rfl
  · rw [← fV, ← gflags.2.2.2]
    split <;> rfl
  · rw [← shiftRight_31_ne_zero result hres, ← fN, ← gflags.1]
    split <;> rfl
  · rw [← fZ, ← gflags.2.1]
    split <;> rfl
  · intro hne
    have : operation < 8 ∨ operation ≥ 0xC := by
      rcases hop with h | h | h <;> subst h <;> first | decide | exact absurd rfl hne
    rw [if_pos this]
    simp [R_setR]

/-- Witness for C20: `ADDS r0, r0, r0` with `R0 = 0x80000000` and all flags
clear gives `R0 = 0`, Z = 1, N = 0, C = 1, V = 1; the opcode `0xE0900000` is
decoded to `dataProcessing<false, 4, true>`. -/
theorem dataProcessing_add_flags_witness :
    (0xE0900000 &&& 0xF000) >>> 12 ≠ 15 ∧
    decode (((0xE0900000 &&& 0x0FF00000) >>> 16) ||| ((0xE0900000 &&& 0x000000F0) >>> 4)) =
      .dataProcessing false 4 true ∧
    ∃ s', dataProcessing sampleEnv false 4 true 0xE0900000 ((sampleCPU.setCPSR 0x1F).setR 0 0x80000000) = some s' ∧
      s'.R 0 = 0 ∧ s'.flagZ = true ∧ s'.flagN = false ∧ s'.flagC = true ∧ s'.flagV = true := by
  obtain ⟨s', h0, hC, hV, _, hN, hZ, hR⟩ :=
    dataProcessing_add_flags sampleEnv false 4 0xE0900000 ((sampleCPU.setCPSR 0x1F).setR 0 0x80000000)
      (Or.inl rfl) (by decide) (by decide) (by decide)
  exact ⟨by decide, by decide, s', h0, (hR (by decide)).trans (by decide), hZ.trans (by decide), hN.trans (by decide),
    hC.trans (by decide), hV.trans (by decide)⟩

/-! ## The decode tables -/

set_option maxRecDepth 100000 in
/-- No ARM table index, written as `64 * a + b`, is decoded to the
unknown-opcode stub. -/
theorem decode_total_aux : ∀ a : Fin 64, ∀ b : Fin 64,
    decode (64 * a.val + b.val) ≠ .unknownOpcodeArm := by
  decide

set_option maxRecDepth 100000 in
/-- The Thumb table indices, written as `32 * a + b`, that are decoded to
the unknown-opcode stub. -/
theorem decodeThumb_unknown_aux : ∀ a : Fin 32, ∀ b : Fin 32,
    (decodeThumb (32 * a.val + b.val) = .unknownOpcodeThumb ↔
      ((708 ≤ 32 * a.val + b.val ∧ 32 * a.val + b.val ≤ 719) ∨
        (728 ≤ 32 * a.val + b.val ∧ 32 * a.val + b.val ≤ 751) ∨
        (760 ≤ 32 * a.val + b.val ∧ 32 * a.val + b.val ≤ 767))) := by
  decide

/-- C25: every one of the 4096 ARM table indices is decoded to an instruction
handler (among them the undefined-instruction handler), never to the
unknown-opcode stub; so the handler called for it is not the stub call. -/
theorem decode_total (i : Nat) (h : i < 4096) : decode i ≠ .unknownOpcodeArm := by
  have := decode_total_aux ⟨i / 64, by omega⟩ ⟨i % 64, Nat.mod_lt _ (by decide)⟩
  have e : 64 * (i / 64) + i % 64 = i := Nat.div_add_mod i 64
  simp only [e] at this
  exact this

/-- Witness for C25: the index `0x090` of `MUL`. -/
theorem decode_total_witness : 0x090 < 4096 ∧ decode 0x090 ≠ .unknownOpcodeArm :=
  ⟨by decide, decode_total 0x090 (by decide)⟩

/-- C24 fails on the code: `decodeThumb` leaves 44 of the 1024 Thumb table
indices on the unknown-opcode stub, namely 708..719, 728..751 and 760..767
(opcodes `0xB100..0xB3FF`, `0xB600..0xBBFF` and `0xBE00..0xBFFF`), and no
others.  Index 708 is one of them, and executing the Thumb opcode `0xB100`
calls the fatal `hacf()` hook. -/
theorem decodeThumb_not_total :
    decodeThumb 708 = .unknownOpcodeThumb ∧
    (execute sampleEnv ((sampleCPU.setCPSR 0x3F).setPipelineOpcode3 0xB100)).map (fun s => decide (BusEvent.hacf ∈ s.bus)) = some true ∧
    (∀ i, i < 1024 →
      (decodeThumb i = .unknownOpcodeThumb ↔
        ((708 ≤ i ∧ i ≤ 719) ∨ (728 ≤ i ∧ i ≤ 751) ∨ (760 ≤ i ∧ i ≤ 767)))) := by
  refine ⟨by decide, by decide, ?_⟩
  intro i h
  have := decodeThumb_unknown_aux ⟨i / 32, by omega⟩ ⟨i % 32, Nat.mod_lt _ (by decide)⟩
  have e : 32 * (i / 32) + i % 32 = i := Nat.div_add_mod i 32
  simp only [e] at this
  exact this

/-! ## The breakpoint table -/

/-- An address is determined by its page index and its bit index. -/
theorem address_split {a b : Nat} (h1 : a >>> 16 = b >>> 16) (h2 : a &&& 0xFFFF = b &&& 0xFFFF) : a = b := by
  have ea : a &&& 0xFFFF = a % 2 ^ 16 := Nat.and_pow_two_sub_one_eq_mod a 16
  have eb : b &&& 0xFFFF = b % 2 ^ 16 := Nat.and_pow_two_sub_one_eq_mod b 16
  rw [ea, eb] at h2
  rw [Nat.shiftRight_eq_div_pow, Nat.shiftRight_eq_div_pow] at h1
  omega

theorem bitIndex_lt (a : Nat) : a &&& 0xFFFF < 65536 :=
  lt_of_le_of_lt Nat.and_le_right (by decide)

/-- Invariant of the breakpoint table: a page that is present has a bit set,
and only bits below `BMP_SIZE` are ever set. -/
theorem table_inv_add (a : Nat) (s : CPU)
    (h : ∀ k p, s.breakpointsTable k = some p → p ≠ 0 ∧ ∀ j, 65536 ≤ j → p.testBit j = false) :
    ∀ k p, (addBreakpoint a s).breakpointsTable k = some p → p ≠ 0 ∧ ∀ j, 65536 ≤ j → p.testBit j = false := by
  intro k p hp
  unfold addBreakpoint at hp
  simp only [Function.update_apply] at hp
  split at hp
  · injection hp with hp
    subst hp
    have hb : ((s.breakpointsTable (a >>> 16)).getD 0 ||| 2 ^ (a &&& 0xFFFF)).testBit (a &&& 0xFFFF) = true := by
      simp [Nat.testBit_or, Nat.testBit_two_pow_self]
    refine ⟨fun h0 => by rw [h0] at hb; simp at hb, ?_⟩
    intro j hj
    have hne : ¬ (a &&& 0xFFFF) = j := by have := bitIndex_lt a; omega
    rw [Nat.testBit_or, Nat.testBit_two_pow]
    cases hq : s.breakpointsTable (a >>> 16) with
    | none => simp [hne]
    | some q => simp [hne, (h _ q hq).2 j hj]
  · exact h k p hp

theorem table_inv_remove (a : Nat) (s : CPU)
    (h : ∀ k p, s.breakpointsTable k = some p → p ≠ 0 ∧ ∀ j, 65536 ≤ j → p.testBit j = false) :
    ∀ k p, (removeBreakpoint a s).breakpointsTable k = some p →
      p ≠ 0 ∧ ∀ j, 65536 ≤ j → p.testBit j = false := by
  intro k p hp
  unfold removeBreakpoint at hp
  cases hq : s.breakpointsTable (a >>> 16) with
  | none => rw [hq] at hp; exact h k p hp
  | some q =>
    rw [hq] at hp
    simp only [Function.update_apply] at hp
    split at hp
    · split at hp
      · exact absurd hp (by simp)
      · rename_i hne
        injection hp with hp
        subst hp
        refine ⟨hne, ?_⟩
        intro j hj
        have e := testBit_setBit q (a &&& 0xFFFF) j false
        unfold setBit at e
        simp only [Bool.false_eq_true, if_false] at e
        rw [e]
        split
        · rfl
        · exact (h _ q hq).2 j hj
    · exact h k p hp

theorem isBreakpoint_add_self (a : Nat) (s : CPU) : isBreakpoint (addBreakpoint a s) a = true := by
  simp [isBreakpoint, addBreakpoint, Nat.testBit_or, Nat.testBit_two_pow_self]

theorem isBreakpoint_remove_self (a : Nat) (s : CPU) : isBreakpoint (removeBreakpoint a s) a = false := by
  unfold isBreakpoint removeBreakpoint
  cases hq : s.breakpointsTable (a >>> 16) with
  | none => simp [hq]
  | some q =>
    have e := testBit_setBit q (a &&& 0xFFFF) (a &&& 0xFFFF) false
    unfold setBit at e
    simp only [Bool.false_eq_true, if_false, if_true] at e
    simp only [Function.update_same]
    split
    · rename_i p hp
      split at hp
      · exact absurd hp (by simp)
      · injection hp with hp
        rw [← hp]; exact e
    · rfl

theorem isBreakpoint_add_other (a b : Nat) (s : CPU) (hab : b ≠ a) :
    isBreakpoint (addBreakpoint a s) b = isBreakpoint s b := by
  unfold isBreakpoint addBreakpoint
  simp only [Function.update_apply]
  by_cases hk : b >>> 16 = a >>> 16
  · have hj : ¬ (a &&& 0xFFFF) = (b &&& 0xFFFF) := fun e => hab (address_split hk e.symm)
    rw [if_pos hk, hk]
    cases hq : s.breakpointsTable (a >>> 16) with
    | none => simp [Nat.testBit_two_pow, hj]
    | some q => simp [Nat.testBit_or, Nat.testBit_two_pow, hj]
  · rw [if_neg hk]

theorem isBreakpoint_remove_other (a b : Nat) (s : CPU) (hab : b ≠ a) :
    isBreakpoint (removeBreakpoint a s) b = isBreakpoint s b := by
  unfold isBreakpoint removeBreakpoint
  cases hq : s.breakpointsTable (a >>> 16) with
  | none => rfl
  | some q =>
    simp only [Function.update_apply]
    by_cases hk : b >>> 16 = a >>> 16
    · have hj : ¬ (b &&& 0xFFFF) = (a &&& 0xFFFF) := fun e => hab (address_split hk e)
      have e := testBit_setBit q (a &&& 0xFFFF) (b &&& 0xFFFF) false
      unfold setBit at e
      simp only [Bool.false_eq_true, if_false, if_neg hj] at e
      rw [if_pos hk, hk, hq]
      by_cases h0 : q ^^^ (q &&& 2 ^ (a &&& 0xFFFF)) = 0
      · rw [if_pos h0]
        rw [h0] at e
        simp at e
        simp [e]
      · rw [if_neg h0]
        exact e
    · rw [if_neg hk]

/-- The breakpoint status after a sequence of calls, from any table that
satisfies the invariant. -/
theorem run_calls_status (a : Nat) : ∀ (cs : List BreakpointCall) (s : CPU) (st : Bool),
    (∀ k p, s.breakpointsTable k = some p → p ≠ 0 ∧ ∀ j, 65536 ≤ j → p.testBit j = false) →
    isBreakpoint s a = st →
    isBreakpoint (cs.foldl (fun s c => c.run s) s) a =
      cs.foldl (fun st c =>
        match c with
        | .add b => if b = a then true else st
        | .remove b => if b = a then false else st) st ∧
    (∀ k p, (cs.foldl (fun s c => c.run s) s).breakpointsTable k = some p →
      p ≠ 0 ∧ ∀ j, 65536 ≤ j → p.testBit j = false) := by
  intro cs
  induction cs with
  | nil => intro s st hinv hst; exact ⟨hst, hinv⟩
  | cons c cs ih =>
    intro s st hinv hst
    simp only [List.foldl_cons]
    cases c with
    | add b =>
      apply ih _ _ (table_inv_add b s hinv)
      show isBreakpoint (addBreakpoint b s) a = (if b = a then true else st)
      by_cases hb : b = a
      · rw [if_pos hb, hb]; exact isBreakpoint_add_self a s
      · rw [if_neg hb, isBreakpoint_add_other b a s (fun e => hb e.symm)]; exact hst
    | remove b =>
      apply ih _ _ (table_inv_remove b s hinv)
      show isBreakpoint (removeBreakpoint b s) a = (if b = a then false else st)
      by_cases hb : b = a
      · rw [if_pos hb, hb]; exact isBreakpoint_remove_self a s
      · rw [if_neg hb, isBreakpoint_remove_other b a s (fun e => hb e.symm)]; exact hst

/-- A page is present exactly when one of its addresses is a breakpoint. -/
theorem page_present_iff (t : CPU)
    (hinv : ∀ k p, t.breakpointsTable k = some p → p ≠ 0 ∧ ∀ j, 65536 ≤ j → p.testBit j = false) (k : Nat) :
    (t.breakpointsTable k).isSome = true ↔ ∃ b, b >>> 16 = k ∧ isBreakpoint t b = true := by
  constructor
  · intro h
    obtain ⟨p, hp⟩ := Option.isSome_iff_exists.mp h
    obtain ⟨h0, hhi⟩ := hinv k p hp
    obtain ⟨j, hj⟩ := Nat.ne_zero_implies_bit_true h0
    have hj' : j < 65536 := by
      by_contra hc
      rw [hhi j (by omega)] at hj
      exact absurd hj (by simp)
    have e1 : (k * 65536 + j) >>> 16 = k := by
      rw [Nat.shiftRight_eq_div_pow]; omega
    have e2 : (k * 65536 + j) &&& 0xFFFF = j := by
      have := Nat.and_pow_two_sub_one_eq_mod (k * 65536 + j) 16
      rw [show (0xFFFF : Nat) = 2 ^ 16 - 1 from rfl, this]; omega
    refine ⟨k * 65536 + j, e1, ?_⟩
    unfold isBreakpoint
    rw [e1, hp, e2]
    exact hj
  · rintro ⟨b, hb, hbp⟩
    unfold isBreakpoint at hbp
    rw [hb] at hbp
    cases hq : t.breakpointsTable k with
    | none => rw [hq] at hbp; exact absurd hbp (by simp)
    | some q => rfl

/-- C26: starting from the empty breakpoint table, after any sequence `cs` of
`addBreakpoint`/`removeBreakpoint` calls, an address `a` passes the
breakpoint test of `cycle` exactly when the last call naming `a` was
`addBreakpoint(a)`; one more `addBreakpoint(a)` or `removeBreakpoint(a)` sets
or clears the status of `a` and leaves the status of every other address
unchanged; a page is present exactly when one of its addresses is a
breakpoint; and `removeBreakpoint` on an address whose page is absent returns
the state unchanged. -/
theorem breakpoint_table (a : Nat) (cs : List BreakpointCall) (s : CPU)
    (hs : ∀ k, s.breakpointsTable k = none) :
    isBreakpoint (runBreakpointCalls cs s) a = lastCallIsAdd a cs ∧
    isBreakpoint (addBreakpoint a (runBreakpointCalls cs s)) a = true ∧
    isBreakpoint (removeBreakpoint a (runBreakpointCalls cs s)) a = false ∧
    (∀ b, b ≠ a →
      isBreakpoint (addBreakpoint a (runBreakpointCalls cs s)) b = isBreakpoint (runBreakpointCalls cs s) b ∧
      isBreakpoint (removeBreakpoint a (runBreakpointCalls cs s)) b =
        isBreakpoint (runBreakpointCalls cs s) b) ∧
    (∀ k, ((runBreakpointCalls cs s).breakpointsTable k).isSome = true ↔
      ∃ b, b >>> 16 = k ∧ isBreakpoint (runBreakpointCalls cs s) b = true) ∧
    ((runBreakpointCalls cs s).breakpointsTable (a >>> 16) = none →
      removeBreakpoint a (runBreakpointCalls cs s) = runBreakpointCalls cs s) := by
  have hinv0 : ∀ k p, s.breakpointsTable k = some p → p ≠ 0 ∧ ∀ j, 65536 ≤ j → p.testBit j = false := by
    intro k p hp; rw [hs k] at hp; exact absurd hp (by simp)
  have hst0 : isBreakpoint s a = false := by simp [isBreakpoint, hs]
  obtain ⟨h1, hinv⟩ := run_calls_status a cs s false hinv0 hst0
  refine ⟨h1, isBreakpoint_add_self a _, isBreakpoint_remove_self a _, ?_, page_present_iff _ hinv, ?_⟩
  · intro b hb
    exact ⟨isBreakpoint_add_other a b _ hb, isBreakpoint_remove_other a b _ hb⟩
  · intro h
    simp only [removeBreakpoint, h]

/-- Witness for C26: on the sample state (empty table), after
`addBreakpoint(0x08000000)`, `addBreakpoint(0x08000004)`,
`removeBreakpoint(0x08000000)` the address `0x08000004` is a breakpoint and
`0x08000000` is not. -/
theorem breakpoint_table_witness :
    (∀ k, sampleCPU.breakpointsTable k = none) ∧
    isBreakpoint (runBreakpointCalls [.add 0x08000000, .add 0x08000004, .remove 0x08000000] sampleCPU)
      0x08000004 = true ∧
    isBreakpoint (runBreakpointCalls [.add 0x08000000, .add 0x08000004, .remove 0x08000000] sampleCPU)
      0x08000000 = false :=
  ⟨fun _ => rfl,
    (breakpoint_table 0x08000004 [.add 0x08000000, .add 0x08000004, .remove 0x08000000] sampleCPU
      (fun _ => rfl)).1.trans (by decide),
    (breakpoint_table 0x08000000 [.add 0x08000000, .add 0x08000004, .remove 0x08000000] sampleCPU
      (fun _ => rfl)).1.trans (by decide)⟩

/-! ## Subtraction flags -/

theorem xor_lt_32 {a b : Nat} (ha : a < 2 ^ 32) (hb : b < 2 ^ 32) : a ^^^ b < 2 ^ 32 :=
  Nat.xor_lt_two_pow ha hb

/-- The overflow expression of SUB, CMP and RSB. -/
theorem sub_overflow_bit (a b r : Nat) :
    decide (((a ^^^ b) &&& (a ^^^ r) &&& 0x80000000) > 0) =
      ((a.testBit 31 != b.testBit 31) && (r.testBit 31 != a.testBit 31)) := by
  have h := and_80000000_ne_zero ((a ^^^ b) &&& (a ^^^ r))
  have e : ((a ^^^ b) &&& (a ^^^ r) &&& 0x80000000 > 0) ↔
      ((a ^^^ b) &&& (a ^^^ r) &&& 0x80000000 ≠ 0) := Nat.pos_iff_ne_zero
  rw [decide_eq_decide.mpr e, h, Nat.testBit_and, Nat.testBit_xor, Nat.testBit_xor]
  cases a.testBit 31 <;> cases b.testBit 31 <;> cases r.testBit 31 <;> rfl

/-- The overflow expression of SBC and RSC. -/
theorem sbc_overflow_bit (a b r : Nat) (ha : a < 2 ^ 32) (hb : b < 2 ^ 32) :
    decide (((a ^^^ b) &&& (a ^^^ r)) >>> 31 ≠ 0) =
      ((a.testBit 31 != b.testBit 31) && (r.testBit 31 != a.testBit 31)) := by
  rw [shiftRight_31_ne_zero _ (and_lt_left (xor_lt_32 ha hb)), Nat.testBit_and, Nat.testBit_xor,
    Nat.testBit_xor]
  cases a.testBit 31 <;> cases b.testBit 31 <;> cases r.testBit 31 <;> rfl

/-- Sign disagreement is signed overflow of the exact difference. -/
theorem sub_overflow_signed (a b w : Nat) (ha : a < 2 ^ 32) (hb : b < 2 ^ 32) (hw : w ≤ 1) :
    ((a.testBit 31 != b.testBit 31) && (((a + 2 ^ 32 - (b + w)) % 2 ^ 32).testBit 31 != a.testBit 31)) =
      decide (¬ (-2 ^ 31 ≤ toI32 a - toI32 b - (w : Int) ∧ toI32 a - toI32 b - (w : Int) < 2 ^ 31)) := by
  have hr : (a + 2 ^ 32 - (b + w)) % 2 ^ 32 < 2 ^ 32 := Nat.mod_lt _ (by decide)
  rw [testBit_31 a ha, testBit_31 b hb, testBit_31 _ hr]
  unfold toI32
  rw [Nat.mod_eq_of_lt ha, Nat.mod_eq_of_lt hb]
  by_cases h1 : 2 ^ 31 ≤ a <;> by_cases h2 : 2 ^ 31 ≤ b <;>
    by_cases h3 : 2 ^ 31 ≤ (a + 2 ^ 32 - (b + w)) % 2 ^ 32 <;>
    simp only [h1, h2, h3, decide_True, decide_False] <;> (split <;> split <;> simp <;> omega)

theorem sub_result_int (a b w : Nat) (ha : a < 2 ^ 32) (hb : b < 2 ^ 32) (hw : w ≤ 1) :
    (((a + 2 ^ 32 - (b + w)) % 2 ^ 32 : Nat) : Int) = ((a : Int) - (b : Int) - (w : Int)) % 2 ^ 32 := by
  omega

/-- C21: SUB, CMP, RSB, SBC and RSC with the S bit set and a destination other
than R15, on 32-bit operands `op1` (Rn) and `op2` (the shifter output) with
incoming carry `c`.  With `(a, b) = (op1, op2)` for SUB, CMP, SBC and
`(op2, op1)` for RSB, RSC, and `borrow = 0` for SUB, CMP, RSB and `1 - c` for
SBC, RSC: the instruction returns a state in which C is set exactly when
`a ≥ b + borrow` as unsigned numbers, V is set exactly when the signed value
`signed(a) - signed(b) - borrow` lies outside `[-2^31, 2^31)`, N is bit 31 of
the result `(a - b - borrow) mod 2^32` and Z is set exactly when the result is
0; every operation but CMP writes the result to Rd. -/
theorem dataProcessing_sub_flags (E : Env) (iBit : Bool) (operation opcode : Nat) (s : CPU)
    (hop : operation = 0x2 ∨ operation = 0xA ∨ operation = 0x3 ∨ operation = 0x6 ∨ operation = 0x7)
    (hRd : (opcode &&& 0xF000) >>> 12 ≠ 15)
    (h1 : (if (!iBit && opcode.testBit 4) then fetchOpcode E s else s).R (reg4 (opcode >>> 16)) < 2 ^ 32)
    (h2 : (computeShift false iBit opcode (if (!iBit && opcode.testBit 4) then fetchOpcode E s else s)).2 < 2 ^ 32) :
    let s1 := if (!iBit && opcode.testBit 4) then fetchOpcode E s else s
    let op1 := s1.R (reg4 (opcode >>> 16))
    let op2 := (computeShift false iBit opcode s1).2
    let a := if operation = 0x3 ∨ operation = 0x7 then op2 else op1
    let b := if operation = 0x3 ∨ operation = 0x7 then op1 else op2
    let borrow := if operation = 0x6 ∨ operation = 0x7 then (!s.flagC).toNat else 0
    let result : Nat := (a + 2 ^ 32 - (b + borrow)) % 2 ^ 32
    (result : Int) = ((a : Int) - (b : Int) - (borrow : Int)) % 2 ^ 32 ∧
    ∃ s', dataProcessing E iBit operation true opcode s = some s' ∧
      s'.flagC = decide (a ≥ b + borrow) ∧
      s'.flagV = decide (¬ (-2 ^ 31 ≤ toI32 a - toI32 b - (borrow : Int) ∧
        toI32 a - toI32 b - (borrow : Int) < 2 ^ 31)) ∧
      s'.flagN = result.testBit 31 ∧
      s'.flagZ = decide (result = 0) ∧
      (operation ≠ 0xA → s'.R (reg4 ((opcode &&& 0xF000) >>> 12)) = result) := by
  intro s1 op1 op2 a b borrow result
  have hlog : ¬ (operation < 2 ∨ operation = 8 ∨ operation = 9 ∨ operation ≥ 0xC) := by
    rcases hop with h | h | h | h | h <;> subst h <;> decide
  obtain ⟨t1, f, g, ht1, hf, hg, hd⟩ := dataProcessing_arith E iBit operation opcode s hlog hRd
  have hs1 : t1 = s1 := ht1
  rw [hs1] at hf hd
  clear ht1 hs1 t1
  have hC1 : s1.flagC = s.flagC := by
    show (if (!iBit && opcode.testBit 4) = true then fetchOpcode E s else s).flagC = s.flagC
    split
    · exact (flags_fetchOpcode E s).2.2.1
    · rfl
  have ho1 : op1 < 2 ^ 32 := h1
  have ho2 : op2 < 2 ^ 32 := h2
  have ha : a < 2 ^ 32 := by
    show (if operation = 0x3 ∨ operation = 0x7 then op2 else op1) < 2 ^ 32
    split <;> assumption
  have hb : b < 2 ^ 32 := by
    show (if operation = 0x3 ∨ operation = 0x7 then op1 else op2) < 2 ^ 32
    split <;> assumption
  have hw : borrow ≤ 1 := by
    show (if operation = 0x6 ∨ operation = 0x7 then (!s.flagC).toNat else 0) ≤ 1
    split
    · cases s.flagC <;> decide
    · exact Nat.zero_le _
  have hr : dataProcessingOp operation op1 op2 s1.flagC s1.flagV =
      (result, decide (a ≥ b + borrow),
        (a.testBit 31 != b.testBit 31) && (result.testBit 31 != a.testBit 31)) := by
    rcases hop with h | h | h | h | h <;> subst h
    · have e : sub32 op1 op2 = result := by
        show sub32 op1 op2 = (op1 + 2 ^ 32 - (op2 + 0)) % 2 ^ 32
        unfold sub32; omega
      simp only [dataProcessingOp, sub_overflow_bit, e]
      rfl
    · have e : sub32 op1 op2 = result := by
        show sub32 op1 op2 = (op1 + 2 ^ 32 - (op2 + 0)) % 2 ^ 32
        unfold sub32; omega
      simp only [dataProcessingOp, sub_overflow_bit, e]
      rfl
    · have e : sub32 op2 op1 = result := by
        show sub32 op2 op1 = (op2 + 2 ^ 32 - (op1 + 0)) % 2 ^ 32
        unfold sub32; omega
      simp only [dataProcessingOp, sub_overflow_bit, e]
      rfl
    · have e : u32 (op1 + 2 ^ 64 - (op2 + (!s1.flagC).toNat)) = result := by
        show u32 (op1 + 2 ^ 64 - (op2 + (!s1.flagC).toNat)) = (op1 + 2 ^ 32 - (op2 + (!s.flagC).toNat)) % 2 ^ 32
        rw [hC1]
        have : (!s.flagC).toNat ≤ 1 := by cases s.flagC <;> decide
        unfold u32; omega
      simp only [dataProcessingOp, sbc_overflow_bit op1 op2 _ ho1 ho2, e]
      rw [hC1]
      rfl
    · have e : u32 (op2 + 2 ^ 64 - (op1 + (!s1.flagC).toNat)) = result := by
        show u32 (op2 + 2 ^ 64 - (op1 + (!s1.flagC).toNat)) = (op2 + 2 ^ 32 - (op1 + (!s.flagC).toNat)) % 2 ^ 32
        rw [hC1]
        have : (!s.flagC).toNat ≤ 1 := by cases s.flagC <;> decide
        unfold u32; omega
      simp only [dataProcessingOp, sbc_overflow_bit op2 op1 _ ho2 ho1, e]
      rw [hC1]
      rfl
  have hop1 : dataProcessingOp operation (s1.R (reg4 (opcode >>> 16))) (computeShift false iBit opcode s1).2
      s1.flagC s1.flagV = dataProcessingOp operation op1 op2 s1.flagC s1.flagV := rfl
  rw [hop1, hr] at hf hd
  have hres : result < 2 ^ 32 := Nat.mod_lt _ (by decide)
  obtain ⟨fN, fZ, fC, fV, _⟩ := flag_chain s1 (decide (result >>> 31 ≠ 0)) (decide (result = 0))
    (decide (a ≥ b + borrow))
    ((a.testBit 31 != b.testBit 31) && (result.testBit 31 != a.testBit 31))
  rw [← hf] at fN fZ fC fV
  have gflags : g.flagN = f.flagN ∧ g.flagZ = f.flagZ ∧ g.flagC = f.flagC ∧ g.flagV = f.flagV := by
    rw [hg]
    split
    · exact ⟨rfl, rfl, rfl, rfl⟩
    · exact flags_fetchOpcode E f
  refine ⟨sub_result_int a b borrow ha hb hw, _, hd, ?_, ?_, ?_, ?_, ?_⟩
  · rw [← fC, ← gflags.2.2.1]
    split <;> rfl
  · rw [← sub_overflow_signed a b borrow ha hb hw, ← fV, ← gflags.2.2.2]
    split <;> rfl
  · rw [← shiftRight_31_ne_zero result hres, ← fN, ← gflags.1]
    split <;> rfl
  · rw [← fZ, ← gflags.2.1]
    split <;> rfl
  · intro hne
    have : operation < 8 ∨ operation ≥ 0xC := by
      rcases hop with h | h | h | h | h <;> subst h <;> first | decide | exact absurd rfl hne
    rw [if_pos this]
    simp [R_setR]

/-- Witness for C21: `SUBS r0, r1, r2` with `R1 = 0x200`, `R2 = 0x300` and
all flags clear gives `R0 = 0xFFFFFF00`, N = 1, Z = 0, C = 0 (a borrow) and
V = 0. -/
theorem dataProcessing_sub_flags_witness :
    (0xE0510002 &&& 0xF000) >>> 12 ≠ 15 ∧
    decode (((0xE0510002 &&& 0x0FF00000) >>> 16) ||| ((0xE0510002 &&& 0x000000F0) >>> 4)) =
      .dataProcessing false 2 true ∧
    ∃ s', dataProcessing sampleEnv false 2 true 0xE0510002 (sampleCPU.setCPSR 0x1F) = some s' ∧
      s'.R 0 = 0xFFFFFF00 ∧ s'.flagN = true ∧ s'.flagZ = false ∧ s'.flagC = false ∧ s'.flagV = false := by
  obtain ⟨_, s', h0, hC, hV, hN, hZ, hR⟩ :=
    dataProcessing_sub_flags sampleEnv false 2 0xE0510002 (sampleCPU.setCPSR 0x1F)
      (Or.inl rfl) (by decide) (by decide) (by decide)
  exact ⟨by decide, by decide, s', h0, (hR (by decide)).trans (by decide), hN.trans (by decide),
    hZ.trans (by decide), hC.trans (by decide), hV.trans (by decide)⟩

/-! ## Logical operations -/

theorem CPSR_flushPipeline (E : Env) (t : CPU) : (flushPipeline E t).CPSR = t.CPSR := by
  unfold flushPipeline
  split <;> simp [busRead]

theorem CPSR_fetchOpcode (E : Env) (t : CPU) : (fetchOpcode E t).CPSR = t.CPSR :=
  (fetchOpcode_fields E t).1

/-- The state returned by `dataProcessing` for a logical operation with the S
bit set and a destination other than R15. -/
theorem dataProcessing_logical (E : Env) (iBit : Bool) (operation opcode : Nat) (s : CPU)
    (hlog : operation < 2 ∨ operation = 8 ∨ operation = 9 ∨ operation ≥ 0xC)
    (hRd : (opcode &&& 0xF000) >>> 12 ≠ 15) :
    ∃ s1 f g, s1 = (if (!iBit && opcode.testBit 4) then fetchOpcode E s else s) ∧
      f = ((s1.setFlagN ((dataProcessingOp operation (s1.R (reg4 (opcode >>> 16)))
              (computeShift false iBit opcode s1).2 s1.flagC s1.flagV).1 >>> 31 ≠ 0)).setFlagZ
            ((dataProcessingOp operation (s1.R (reg4 (opcode >>> 16)))
              (computeShift false iBit opcode s1).2 s1.flagC s1.flagV).1 = 0)).setFlagC
            (computeShift false iBit opcode s1).1 ∧
      g = (if (!iBit && opcode.testBit 4) then iCycle 1 f else fetchOpcode E f) ∧
      dataProcessing E iBit operation true opcode s =
        some (if operation < 8 ∨ operation ≥ 0xC then
          g.setR (reg4 ((opcode &&& 0xF000) >>> 12))
            (dataProcessingOp operation (s1.R (reg4 (opcode >>> 16)))
              (computeShift false iBit opcode s1).2 s1.flagC s1.flagV).1
          else g) := by
  refine ⟨_, _, _, rfl, rfl, rfl, ?_⟩
  unfold dataProcessing
  simp only [hlog, hRd, if_true, if_false]
  split <;> rfl

/-- With the S bit clear `dataProcessing` returns a state with the CPSR it was
given. -/
theorem dataProcessing_noS (E : Env) (iBit : Bool) (operation opcode : Nat) (s : CPU) :
    ∃ s', dataProcessing E iBit operation false opcode s = some s' ∧ s'.CPSR = s.CPSR := by
  unfold dataProcessing
  simp only [Bool.false_eq_true, if_false]
  have h1 : (if (!iBit && opcode.testBit 4) = true then fetchOpcode E s else s).CPSR = s.CPSR := by
    split
    · exact CPSR_fetchOpcode E s
    · rfl
  generalize (if (!iBit && opcode.testBit 4) = true then fetchOpcode E s else s) = s1 at h1
  have h2 : (if (!iBit && opcode.testBit 4) = true then iCycle 1 s1 else fetchOpcode E s1).CPSR = s.CPSR := by
    split
    · exact h1
    · rw [CPSR_fetchOpcode]; exact h1
  generalize (if (!iBit && opcode.testBit 4) = true then iCycle 1 s1 else fetchOpcode E s1) = s2 at h2
  split
  · split
    · exact ⟨_, rfl, by rw [CPSR_flushPipeline]; exact h2⟩
    · exact ⟨_, rfl, h2⟩
  · exact ⟨_, rfl, h2⟩

theorem flag_chain3 (t : CPU) (n z c : Bool) :
    (((t.setFlagN n).setFlagZ z).setFlagC c).flagN = n ∧
    (((t.setFlagN n).setFlagZ z).setFlagC c).flagZ = z ∧
    (((t.setFlagN n).setFlagZ z).setFlagC c).flagC = c ∧
    (((t.setFlagN n).setFlagZ z).setFlagC c).flagV = t.flagV := by
  simp [CPU.setFlagN, CPU.setFlagZ, CPU.setFlagC, testBit_setBit, CPU.flagV]

/-- C22: the logical operations AND (0), EOR (1), TST (8), TEQ (9), ORR (0xC),
MOV (0xD), BIC (0xE), MVN (0xF) with the S bit set and a destination other
than R15, on 32-bit operands: the instruction returns a state in which C is
the shifter carry-out, V is unchanged, N is bit 31 of the result and Z is set
exactly when the result is 0; every operation but TST and TEQ writes the
result to Rd.  With the S bit clear, for each of the sixteen operations and
every destination, the instruction returns a state with the CPSR unchanged. -/
theorem dataProcessing_logical_flags (E : Env) (iBit : Bool) (operation opcode : Nat) (s : CPU)
    (hop : operation = 0x0 ∨ operation = 0x1 ∨ operation = 0x8 ∨ operation = 0x9 ∨ operation = 0xC ∨
      operation = 0xD ∨ operation = 0xE ∨ operation = 0xF)
    (hRd : (opcode &&& 0xF000) >>> 12 ≠ 15)
    (h1 : (if (!iBit && opcode.testBit 4) then fetchOpcode E s else s).R (reg4 (opcode >>> 16)) < 2 ^ 32)
    (h2 : (computeShift false iBit opcode (if (!iBit && opcode.testBit 4) then fetchOpcode E s else s)).2 < 2 ^ 32) :
    let s1 := if (!iBit && opcode.testBit 4) then fetchOpcode E s else s
    let op1 := s1.R (reg4 (opcode >>> 16))
    let op2 := (computeShift false iBit opcode s1).2
    let result :=
      if operation = 0x0 ∨ operation = 0x8 then op1 &&& op2
      else if operation = 0x1 ∨ operation = 0x9 then op1 ^^^ op2
      else if operation = 0xC then op1 ||| op2
      else if operation = 0xD then op2
      else if operation = 0xE then op1 &&& not32 op2
      else not32 op2
    (∃ s', dataProcessing E iBit operation true opcode s = some s' ∧
      s'.flagC = (computeShift false iBit opcode s1).1 ∧
      s'.flagV = s.flagV ∧
      s'.flagN = result.testBit 31 ∧
      s'.flagZ = decide (result = 0) ∧
      (operation ≠ 0x8 → operation ≠ 0x9 → s'.R (reg4 ((opcode &&& 0xF000) >>> 12)) = result)) ∧
    (∀ op : Nat, ∀ code : Nat, ∃ s', dataProcessing E iBit op false code s = some s' ∧ s'.CPSR = s.CPSR) := by
  intro s1 op1 op2 result
  refine ⟨?_, fun op code => dataProcessing_noS E iBit op code s⟩
  have hlog : operation < 2 ∨ operation = 8 ∨ operation = 9 ∨ operation ≥ 0xC := by
    rcases hop with h | h | h | h | h | h | h | h <;> subst h <;> decide
  obtain ⟨t1, f, g, ht1, hf, hg, hd⟩ := dataProcessing_logical E iBit operation opcode s hlog hRd
  have hs1 : t1 = s1 := ht1
  rw [hs1] at hf hd
  clear ht1 hs1 t1
  have hV1 : s1.flagV = s.flagV := by
    show (if (!iBit && opcode.testBit 4) = true then fetchOpcode E s else s).flagV = s.flagV
    split
    · exact (flags_fetchOpcode E s).2.2.2
    · rfl
  have ho1 : op1 < 2 ^ 32 := h1
  have ho2 : op2 < 2 ^ 32 := h2
  have hr : (dataProcessingOp operation op1 op2 s1.flagC s1.flagV).1 = result := by
    rcases hop with h | h | h | h | h | h | h | h <;> subst h <;> rfl
  have hres : result < 2 ^ 32 := by
    rw [← hr]
    rcases hop with h | h | h | h | h | h | h | h <;> subst h
    · exact and_lt_left ho1
    · exact xor_lt_32 ho1 ho2
    · exact and_lt_left ho1
    · exact xor_lt_32 ho1 ho2
    · exact Nat.or_lt_two_pow ho1 ho2
    · exact ho2
    · exact and_lt_left ho1
    · exact not32_lt op2
  have hop1 : (dataProcessingOp operation (s1.R (reg4 (opcode >>> 16))) (computeShift false iBit opcode s1).2
      s1.flagC s1.flagV).1 = result := hr
  rw [hop1] at hf hd
  obtain ⟨fN, fZ, fC, fV⟩ := flag_chain3 s1 (decide (result >>> 31 ≠ 0)) (decide (result = 0))
    (computeShift false iBit opcode s1).1
  rw [← hf] at fN fZ fC fV
  have gflags : g.flagN = f.flagN ∧ g.flagZ = f.flagZ ∧ g.flagC = f.flagC ∧ g.flagV = f.flagV := by
    rw [hg]
    split
    · exact ⟨rfl, rfl, rfl, rfl⟩
    · exact flags_fetchOpcode E f
  refine ⟨_, hd, ?_, ?_, ?_, ?_, ?_⟩
  · rw [← fC, ← gflags.2.2.1]
    split <;> rfl
  · rw [← hV1, ← fV, ← gflags.2.2.2]
    split <;> rfl
  · rw [← shiftRight_31_ne_zero result hres, ← fN, ← gflags.1]
    split <;> rfl
  · rw [← fZ, ← gflags.2.1]
    split <;> rfl
  · intro hne8 hne9
    have : operation < 8 ∨ operation ≥ 0xC := by
      rcases hop with h | h | h | h | h | h | h | h <;> subst h <;>
        first | decide | exact absurd rfl hne8 | exact absurd rfl hne9
    rw [if_pos this]
    simp [R_setR]

/-- Witness for C22: `MOVS r0, #0` (`0xE3B00000`) with `CPSR = 0x1F` gives
`R0 = 0`, Z = 1, N = 0 and leaves C and V clear; the CPSR is `0x4000001F`. -/
theorem dataProcessing_logical_flags_witness :
    (0xE3B00000 &&& 0xF000) >>> 12 ≠ 15 ∧
    decode (((0xE3B00000 &&& 0x0FF00000) >>> 16) ||| ((0xE3B00000 &&& 0x000000F0) >>> 4)) =
      .dataProcessing true 0xD true ∧
    ∃ s', dataProcessing sampleEnv true 0xD true 0xE3B00000 (sampleCPU.setCPSR 0x1F) = some s' ∧
      s'.R 0 = 0 ∧ s'.flagZ = true ∧ s'.flagN = false ∧ s'.flagC = false ∧ s'.flagV = false := by
  obtain ⟨s', h0, hC, hV, hN, hZ, hR⟩ :=
    (dataProcessing_logical_flags sampleEnv true 0xD 0xE3B00000 (sampleCPU.setCPSR 0x1F)
      (by decide) (by decide) (by decide) (by decide)).1
  exact ⟨by decide, by decide, s', h0, (hR (by decide) (by decide)).trans (by decide), hZ.trans (by decide),
    hN.trans (by decide), hC.trans (by decide), hV.trans (by decide)⟩

/-! ## Data processing with the S bit set and destination R15 -/

/-- Fields after `flushPipeline`, with `w` the instruction width. -/
theorem flushPipeline_facts (E : Env) (s : CPU) :
    (flushPipeline E s).R 15 = (u32 (s.R 15) / width s * width s + 2 * width s) % 2 ^ 32 ∧
    (flushPipeline E s).pipelineOpcode3 =
      E.busRead s.bus (8 * width s) true (sub32 ((flushPipeline E s).R 15) (2 * width s)) false %
        2 ^ (8 * width s) ∧
    (flushPipeline E s).bus =
      .read (8 * width s) true (sub32 ((flushPipeline E s).R 15) (width s)) true ::
        .read (8 * width s) true (sub32 ((flushPipeline E s).R 15) (2 * width s)) false :: s.bus ∧
    (∀ i : Fin 16, i ≠ 15 → (flushPipeline E s).R i = s.R i) ∧
    (∀ b j, (flushPipeline E s).bank b j = s.bank b j) := by
  by_cases ht : s.thumbMode = true
  · have hw : width s = 2 := by simp [width, ht]
    have hR : (flushPipeline E s).R 15 = u32 ((s.R 15 &&& 0xFFFFFFFE) + 4) := by
      simp [flushPipeline, ht, busRead]
    rw [hw, hR, and_FFFFFFFE]
    refine ⟨by unfold u32; omega, ?_, ?_, ?_, ?_⟩
    · simp [flushPipeline, ht, busRead, and_FFFFFFFE]
    · simp [flushPipeline, ht, busRead, and_FFFFFFFE]
    · intro i hi; simp [flushPipeline, ht, busRead, R_setR, hi]
    · intro b j; simp [flushPipeline, ht, busRead]
  · have ht' : s.thumbMode = false := by simpa using ht
    have hw : width s = 4 := by simp [width, ht']
    have hR : (flushPipeline E s).R 15 = u32 ((s.R 15 &&& 0xFFFFFFFC) + 8) := by
      simp [flushPipeline, ht', busRead]
    rw [hw, hR, and_FFFFFFFC]
    refine ⟨by unfold u32; omega, ?_, ?_, ?_, ?_⟩
    · simp [flushPipeline, ht', busRead, and_FFFFFFFC]
    · simp [flushPipeline, ht', busRead, and_FFFFFFFC]
    · intro i hi; simp [flushPipeline, ht', busRead, R_setR, hi]
    · intro b j; simp [flushPipeline, ht', busRead]

/-- The flag writes of `dataProcessing` leave the mode, the registers and the
banks alone. -/
theorem flags_frame (t : CPU) (n z c c2 v : Bool) (p : Prop) [Decidable p] :
    (if p then ((t.setFlagN n).setFlagZ z).setFlagC c
      else (((t.setFlagN n).setFlagZ z).setFlagC c2).setFlagV v).mode = t.mode ∧
    (∀ i, (if p then ((t.setFlagN n).setFlagZ z).setFlagC c
      else (((t.setFlagN n).setFlagZ z).setFlagC c2).setFlagV v).R i = t.R i) ∧
    (∀ b j, (if p then ((t.setFlagN n).setFlagZ z).setFlagC c
      else (((t.setFlagN n).setFlagZ z).setFlagC c2).setFlagV v).bank b j = t.bank b j) ∧
    (if p then ((t.setFlagN n).setFlagZ z).setFlagC c
      else (((t.setFlagN n).setFlagZ z).setFlagC c2).setFlagV v).bus = t.bus := by
  split <;>
    simp [CPU.setFlagN, CPU.setFlagZ, CPU.setFlagC, CPU.setFlagV, mode_setBit, CPU.mode]

/-- The state returned by `dataProcessing` with the S bit set and destination
R15. -/
theorem dataProcessing_rd15 (E : Env) (iBit : Bool) (operation opcode : Nat) (s : CPU)
    (hRd : (opcode &&& 0xF000) >>> 12 = 15) :
    ∃ s1 f g, s1 = (if (!iBit && opcode.testBit 4) then fetchOpcode E s else s) ∧
      f = (if operation < 2 ∨ operation = 8 ∨ operation = 9 ∨ operation ≥ 0xC then
          ((s1.setFlagN ((dataProcessingOp operation (s1.R (reg4 (opcode >>> 16)))
              (computeShift false iBit opcode s1).2 s1.flagC s1.flagV).1 >>> 31 ≠ 0)).setFlagZ
            ((dataProcessingOp operation (s1.R (reg4 (opcode >>> 16)))
              (computeShift false iBit opcode s1).2 s1.flagC s1.flagV).1 = 0)).setFlagC
            (computeShift false iBit opcode s1).1
        else
          (((s1.setFlagN ((dataProcessingOp operation (s1.R (reg4 (opcode >>> 16)))
              (computeShift false iBit opcode s1).2 s1.flagC s1.flagV).1 >>> 31 ≠ 0)).setFlagZ
            ((dataProcessingOp operation (s1.R (reg4 (opcode >>> 16)))
              (computeShift false iBit opcode s1).2 s1.flagC s1.flagV).1 = 0)).setFlagC
            (dataProcessingOp operation (s1.R (reg4 (opcode >>> 16)))
              (computeShift false iBit opcode s1).2 s1.flagC s1.flagV).2.1).setFlagV
            (dataProcessingOp operation (s1.R (reg4 (opcode >>> 16)))
              (computeShift false iBit opcode s1).2 s1.flagC s1.flagV).2.2) ∧
      g = (if (!iBit && opcode.testBit 4) then iCycle 1 f else fetchOpcode E f) ∧
      dataProcessing E iBit operation true opcode s =
        (if operation < 8 ∨ operation ≥ 0xC then
          match leaveMode (g.setR 15
            (dataProcessingOp operation (s1.R (reg4 (opcode >>> 16)))
              (computeShift false iBit opcode s1).2 s1.flagC s1.flagV).1) with
          | none => none
          | some s2 => some (flushPipeline E s2)
        else leaveMode g) := by
  refine ⟨_, _, _, rfl, rfl, rfl, ?_⟩
  unfold dataProcessing
  simp only [hRd, if_true]
  rfl

theorem spsrBank_modeBank {m : Nat} {b : BankId} (h : spsrBank m = some b) :
    modeBank m = some b ∧ privilegedMode m := by
  unfold spsrBank at h
  unfold privilegedMode
  split at h
  · rename_i e; subst e; exact ⟨h, Or.inl rfl⟩
  · split at h
    · rename_i e; subst e; exact ⟨h, Or.inr (Or.inl rfl)⟩
    · split at h
      · rename_i e; subst e; exact ⟨h, Or.inr (Or.inr (Or.inl rfl))⟩
      · split at h
        · rename_i e; subst e; exact ⟨h, Or.inr (Or.inr (Or.inr (Or.inl rfl)))⟩
        · split at h
          · rename_i e; subst e; exact ⟨h, Or.inr (Or.inr (Or.inr (Or.inr rfl)))⟩
          · exact absurd h (by simp)

/-- Closed form of `leaveMode` from a mode that owns an SPSR holding a valid
mode. -/
theorem leaveMode_closed (t : CPU) (b new : BankId) (hb : spsrBank t.mode = some b)
    (hnew : modeBank (t.bank b 7 &&& 0x1F) = some new) :
    ∃ u, leaveMode t = some u ∧ u.CPSR = t.bank b 7 ∧ u.bus = t.bus ∧ u.R 15 = t.R 15 ∧
      u.R 13 = (if new = b then t.R 13 else t.bank new 5) ∧
      u.R 14 = (if new = b then t.R 14 else t.bank new 6) ∧
      u.bank new 5 = (if new = b then t.R 13 else t.bank new 5) ∧
      u.bank new 6 = (if new = b then t.R 14 else t.bank new 6) := by
  obtain ⟨u0, hu0, e1, _, _, _, _, _, _, _, _, eR, eB⟩ :=
    bankRegisters_false_some t (t.bank b 7 &&& 0x1F) b new (spsrBank_modeBank hb).1 hnew
  refine ⟨u0.setCPSR (t.bank b 7), by simp only [leaveMode, hb, hu0], by simp, by simp [e1], ?_, ?_, ?_, ?_, ?_⟩
  · simp [eR]
  · simp [eR]
  · simp [eR]
  · simp only [bank_setCPSR, eB]
    by_cases h : new = b <;> simp [h]
  · simp only [bank_setCPSR, eB]
    by_cases h : new = b <;> simp [h]

/-- The steps of `dataProcessing` before the register write leave the mode,
the banks and R0..R14 alone. -/
theorem dataProcessing_frame (E : Env) (c : Bool) (s s1 f g : CPU)
    (hs1 : s1 = if c then fetchOpcode E s else s)
    (hf : f.mode = s1.mode ∧ (∀ i, f.R i = s1.R i) ∧ (∀ b j, f.bank b j = s1.bank b j) ∧ f.bus = s1.bus)
    (hg : g = if c then iCycle 1 f else fetchOpcode E f) :
    g.mode = s.mode ∧ (∀ i : Fin 16, i ≠ 15 → g.R i = s.R i) ∧ (∀ b j, g.bank b j = s.bank b j) := by
  obtain ⟨f1, f2, f3, _⟩ := hf
  cases c
  · simp only [Bool.false_eq_true, if_false] at hs1 hg
    subst hs1
    obtain ⟨gC, gB, _, gR, _⟩ := fetchOpcode_fields E f
    rw [hg]
    refine ⟨?_, ?_, ?_⟩
    · show (fetchOpcode E f).CPSR % 32 = _
      rw [gC]; exact f1
    · intro i hi; rw [gR i hi, f2]
    · intro b j; rw [gB, f3]
  · simp only [if_true] at hs1 hg
    obtain ⟨gC, gB, _, gR, _⟩ := fetchOpcode_fields E s
    rw [hg]
    refine ⟨?_, ?_, ?_⟩
    · show f.mode = _
      rw [f1, hs1]
      show (fetchOpcode E s).CPSR % 32 = _
      rw [gC]; rfl
    · intro i hi
      show f.R i = _
      rw [f2, hs1, gR i hi]
    · intro b j
      show f.bank b j = _
      rw [f3, hs1, gB]

/-- C23: a data-processing instruction with the S bit set and destination R15,
run in a mode that owns an SPSR (FIQ, IRQ, SVC, ABT, UND) whose SPSR holds a
valid mode, returns a state whose CPSR is that SPSR bit for bit (the flags
computed by the operation are not kept) and whose R13 and R14 are those of
the bank of the restored mode (the saved values when the bank changes, the
current values when it does not).  For the operations that write a result
(all but TST, TEQ, CMP, CMN) the pipeline is refilled from the result with the
width `w` given by the T bit of the SPSR: R15 is the result rounded down to
`w` plus `2 * w`, and `pipelineOpcode3` is the value of the non-sequential
code read at `R15 - 2 * w`. -/
theorem dataProcessing_restore_cpsr (E : Env) (iBit : Bool) (operation opcode : Nat) (s : CPU) (b : BankId)
    (hRd : (opcode &&& 0xF000) >>> 12 = 15)
    (hb : spsrBank s.mode = some b)
    (hv : validMode (s.bank b 7 &&& 0x1F)) :
    let s1 := if (!iBit && opcode.testBit 4) then fetchOpcode E s else s
    let result := (dataProcessingOp operation (s1.R (reg4 (opcode >>> 16)))
      (computeShift false iBit opcode s1).2 s1.flagC s1.flagV).1
    let w := if (s.bank b 7).testBit 5 then 2 else 4
    privilegedMode s.mode ∧
    ∃ s' new, dataProcessing E iBit operation true opcode s = some s' ∧
      modeBank (s.bank b 7 &&& 0x1F) = some new ∧
      s'.CPSR = s.bank b 7 ∧
      s'.R 13 = s'.bank new 5 ∧ s'.R 14 = s'.bank new 6 ∧
      s'.R 13 = (if new = b then s.R 13 else s.bank new 5) ∧
      s'.R 14 = (if new = b then s.R 14 else s.bank new 6) ∧
      (operation < 8 ∨ operation ≥ 0xC →
        s'.R 15 = (u32 result / w * w + 2 * w) % 2 ^ 32 ∧
        ∃ pre, s'.bus = .read (8 * w) true (sub32 (s'.R 15) w) true ::
            .read (8 * w) true (sub32 (s'.R 15) (2 * w)) false :: pre ∧
          s'.pipelineOpcode3 = E.busRead pre (8 * w) true (sub32 (s'.R 15) (2 * w)) false % 2 ^ (8 * w)) := by
  intro s1 result w
  refine ⟨(spsrBank_modeBank hb).2, ?_⟩
  obtain ⟨new, hnew⟩ := modeBank_of_valid hv
  obtain ⟨t1, f, g, ht1, hf, hg, hd⟩ := dataProcessing_rd15 E iBit operation opcode s hRd
  have hs1 : t1 = s1 := ht1
  rw [hs1] at hf hd
  have hff : f.mode = s1.mode ∧ (∀ i, f.R i = s1.R i) ∧ (∀ b j, f.bank b j = s1.bank b j) ∧ f.bus = s1.bus := by
    rw [hf]
    exact flags_frame s1 _ _ _ _ _ (operation < 2 ∨ operation = 8 ∨ operation = 9 ∨ operation ≥ 0xC)
  obtain ⟨gm, gR, gB⟩ := dataProcessing_frame E (!iBit && opcode.testBit 4) s s1 f g rfl hff hg
  by_cases hw : operation < 8 ∨ operation ≥ 0xC
  · rw [if_pos hw] at hd
    have tm : (g.setR 15 result).mode = s.mode := gm
    have tB : ∀ b j, (g.setR 15 result).bank b j = s.bank b j := fun b j => by rw [bank_setR]; exact gB b j
    have hb' : spsrBank (g.setR 15 result).mode = some b := by rw [tm]; exact hb
    have hnew' : modeBank ((g.setR 15 result).bank b 7 &&& 0x1F) = some new := by rw [tB]; exact hnew
    obtain ⟨u, hu, uC, ubus, u15, u13, u14, ub5, ub6⟩ := leaveMode_closed (g.setR 15 result) b new hb' hnew'
    have hd' : dataProcessing E iBit operation true opcode s = some (flushPipeline E u) := by
      rw [hd]
      show (match leaveMode (g.setR 15 result) with
        | none => none
        | some s2 => some (flushPipeline E s2)) = _
      rw [hu]
    obtain ⟨p15, p3, pbus, pR, pB⟩ := flushPipeline_facts E u
    have hwid : width u = w := by
      show (if u.CPSR.testBit 5 = true then 2 else 4) = _
      rw [uC, tB]
    rw [hwid] at p15 p3 pbus
    have e13 : (g.setR 15 result).R 13 = s.R 13 := by
      rw [R_setR, if_neg (by decide)]; exact gR 13 (by decide)
    have e14 : (g.setR 15 result).R 14 = s.R 14 := by
      rw [R_setR, if_neg (by decide)]; exact gR 14 (by decide)
    have e15 : (g.setR 15 result).R 15 = result := by simp [R_setR]
    rw [e13, tB] at u13 ub5
    rw [e14, tB] at u14 ub6
    refine ⟨_, new, hd', hnew, ?_, ?_, ?_, ?_, ?_, fun _ => ⟨?_, u.bus, pbus, p3⟩⟩
    · rw [CPSR_flushPipeline, uC, tB]
    · rw [pR 13 (by decide), pB, u13, ub5]
    · rw [pR 14 (by decide), pB, u14, ub6]
    · rw [pR 13 (by decide), u13]
    · rw [pR 14 (by decide), u14]
    · rw [p15, u15, e15]
  · rw [if_neg hw] at hd
    have hb' : spsrBank g.mode = some b := by rw [gm]; exact hb
    have hnew' : modeBank (g.bank b 7 &&& 0x1F) = some new := by rw [gB]; exact hnew
    obtain ⟨u, hu, uC, ubus, u15, u13, u14, ub5, ub6⟩ := leaveMode_closed g b new hb' hnew'
    rw [gR 13 (by decide), gB] at u13 ub5
    rw [gR 14 (by decide), gB] at u14 ub6
    refine ⟨u, new, hd.trans hu, hnew, ?_, ?_, ?_, u13, u14, fun h => absurd h hw⟩
    · rw [uC, gB]
    · rw [u13, ub5]
    · rw [u14, ub6]

/-- Witness for C23: `MOVS pc, r14` (`0xE1B0F00E`) in SVC mode with N set,
`SPSR_svc = 0x30` (User mode, Thumb state) and `R14 = 0xF00`: the CPSR becomes
`0x30`, R13 and R14 are the User-bank values `0x15` and `0x16`, and the
Thumb pipeline is refilled from `0xF00`, so R15 is `0xF04`. -/
theorem dataProcessing_restore_cpsr_witness :
    (0xE1B0F00E &&& 0xF000) >>> 12 = 15 ∧ spsrBank ((sampleCPU.setCPSR 0x80000013).setBank .svc 7 0x30).mode = some .svc ∧
    validMode (((sampleCPU.setCPSR 0x80000013).setBank .svc 7 0x30).bank .svc 7 &&& 0x1F) ∧
    ∃ s', dataProcessing sampleEnv false 0xD true 0xE1B0F00E ((sampleCPU.setCPSR 0x80000013).setBank .svc 7 0x30) = some s' ∧
      s'.CPSR = 0x30 ∧ s'.R 13 = 0x15 ∧ s'.R 14 = 0x16 ∧ s'.R 15 = 0xF04 := by
  obtain ⟨_, s', new, h0, hn, hC, _, _, h13, h14, h15⟩ :=
    dataProcessing_restore_cpsr sampleEnv false 0xD 0xE1B0F00E ((sampleCPU.setCPSR 0x80000013).setBank .svc 7 0x30) .svc (by decide) (by decide) (by decide)
  have hn' : new = .usr := by
    have e : modeBank (((sampleCPU.setCPSR 0x80000013).setBank .svc 7 0x30).bank .svc 7 &&& 0x1F) = some .usr := by decide
    rw [e] at hn
    exact (Option.some.inj hn).symm
  subst hn'
  exact ⟨by decide, by decide, by decide, s', h0, hC.trans (by decide), h13.trans (by decide),
    h14.trans (by decide), (h15 (by decide)).1.trans (by decide)⟩

/-! ## Multiplier cycles -/

theorem countl_zero_le (m : Nat) : countl_zero m ≤ 32 := by
  unfold countl_zero
  split <;> omega

/-- `countl_zero m` is at least `k` exactly when `m` fits in `32 - k` bits. -/
theorem le_countl_zero (m k : Nat) (hm : m < 2 ^ 32) (hk : k ≤ 32) :
    k ≤ countl_zero m ↔ m < 2 ^ (32 - k) := by
  unfold countl_zero
  rw [Nat.mod_eq_of_lt hm]
  by_cases h0 : m = 0
  · simp [h0, hk]
  · rw [if_neg h0]
    have hlog : Nat.log2 m < 32 := (Nat.log2_lt h0).mpr hm
    have e : k ≤ 31 - Nat.log2 m ↔ Nat.log2 m < 32 - k := by omega
    rw [e, Nat.log2_lt h0]

theorem le_countl_one (m k : Nat) (hm : m < 2 ^ 32) (hk : k ≤ 32) :
    k ≤ countl_one m ↔ 2 ^ 32 - 2 ^ (32 - k) ≤ m := by
  unfold countl_one
  rw [le_countl_zero (not32 m) k (not32_lt m) hk]
  have hp : 2 ^ (32 - k) ≤ 2 ^ 32 := Nat.pow_le_pow_right (by decide) (by omega)
  have hp1 : 0 < 2 ^ (32 - k) := Nat.two_pow_pos _
  unfold not32
  rw [Nat.mod_eq_of_lt hm]
  omega

/-- The cycle formula as a function of the leading-bit count. -/
theorem tdiv_cycles (M : Nat) (h32 : M ≤ 32) :
    0 ≤ Int.tdiv (31 - (M : Int)) 8 ∧ Int.tdiv (31 - (M : Int)) 8 ≤ 3 ∧
    (1 ≤ M → Int.tdiv (31 - (M : Int)) 8 ≤ 3) ∧
    (Int.tdiv (31 - (M : Int)) 8 = 0 ↔ 24 ≤ M) ∧
    (M = 0 → Int.tdiv (31 - (M : Int)) 8 = 3) := by
  interval_cases M <;> decide

/-- The signed multiplier cycle count is in 1..4, and is 1 exactly when bits
31..8 of the multiplier are all zero or all one. -/
theorem multiplierCyclesSigned_range (m : Nat) (hm : m < 2 ^ 32) :
    1 ≤ multiplierCyclesSigned m ∧ multiplierCyclesSigned m ≤ 4 ∧
    (multiplierCyclesSigned m = 1 ↔ (m >>> 8 = 0 ∨ m >>> 8 = 0xFFFFFF)) := by
  unfold multiplierCyclesSigned
  have hz := countl_zero_le m
  have ho : countl_one m ≤ 32 := countl_zero_le _
  have hM : max (countl_zero m) (countl_one m) ≤ 32 := max_le hz ho
  obtain ⟨t0, t3, _, t1, _⟩ := tdiv_cycles (max (countl_zero m) (countl_one m)) hM
  refine ⟨by omega, by omega, ?_⟩
  have e : Int.tdiv (31 - ((max (countl_zero m) (countl_one m) : Nat) : Int)) 8 + 1 = 1 ↔
      Int.tdiv (31 - ((max (countl_zero m) (countl_one m) : Nat) : Int)) 8 = 0 := by omega
  rw [e, t1, le_max_iff, le_countl_zero m 24 hm (by decide), le_countl_one m 24 hm (by decide),
    Nat.shiftRight_eq_div_pow]
  constructor
  · rintro (h | h)
    · left; omega
    · right; omega
  · rintro (h | h)
    · left; omega
    · right; omega

/-- The unsigned multiplier cycle count is in 1..4, and is 1 exactly when bits
31..8 of the multiplier are all zero. -/
theorem multiplierCyclesUnsigned_range (m : Nat) (hm : m < 2 ^ 32) :
    1 ≤ multiplierCyclesUnsigned m ∧ multiplierCyclesUnsigned m ≤ 4 ∧
    (multiplierCyclesUnsigned m = 1 ↔ m >>> 8 = 0) := by
  unfold multiplierCyclesUnsigned
  have hz := countl_zero_le m
  obtain ⟨t0, t3, _, t1, _⟩ := tdiv_cycles (countl_zero m) hz
  refine ⟨by omega, by omega, ?_⟩
  have e : Int.tdiv (31 - ((countl_zero m : Nat) : Int)) 8 + 1 = 1 ↔
      Int.tdiv (31 - ((countl_zero m : Nat) : Int)) 8 = 0 := by omega
  rw [e, t1, le_countl_zero m 24 hm (by decide), Nat.shiftRight_eq_div_pow]
  omega

/-! ## Multiply -/

/-- C27: MUL and MLA with multiplier `m = R[Rs]` (a 32-bit value) and a
destination other than R15: Rd receives `(R[Rm] * m) mod 2^32`, with `R[Rn]`
added modulo `2^32` for MLA (the operands Rm and Rn are read after the
prefetch, so they are the values before the instruction unless the register is
R15); with S set N is bit 31 of that result and Z its zero test, with S clear
N and Z are unchanged, and C and V are unchanged either way; after the
prefetch the bus sees `iCycle(1)` for MLA only and then `iCycle(n)` with
`n = ((31 - max(clz(m), clo(m))) / 8) + 1` in truncating division.  That `n`
is in 1..4 and is 1 exactly when bits 31..8 of `m` are all zero or all one. -/
theorem multiply_spec (E : Env) (accumulate sBit : Bool) (opcode : Nat) (s : CPU)
    (hRd : (opcode >>> 16) &&& 0xF ≠ 15) (hm : s.R (reg4 (opcode >>> 8)) < 2 ^ 32) :
    let m := s.R (reg4 (opcode >>> 8))
    let s1 := fetchOpcode E s
    let result :=
      if accumulate then (s1.R (reg4 opcode) * m + s1.R (reg4 (opcode >>> 12))) % 2 ^ 32
      else (s1.R (reg4 opcode) * m) % 2 ^ 32
    let n := Int.tdiv (31 - (max (countl_zero m) (countl_one m) : Nat)) 8 + 1
    let s' := multiply E accumulate sBit opcode s
    (∀ i : Fin 16, i ≠ 15 → s1.R i = s.R i) ∧
    s'.R (reg4 ((opcode >>> 16) &&& 0xF)) = result ∧
    s'.flagN = (if sBit then result.testBit 31 else s.flagN) ∧
    s'.flagZ = (if sBit then decide (result = 0) else s.flagZ) ∧
    s'.flagC = s.flagC ∧ s'.flagV = s.flagV ∧
    s'.bus = (if accumulate then [.iCycle n, .iCycle 1] else [.iCycle n]) ++
      (.read (8 * width s) true (s.R 15) s.nextFetchType :: s.bus) ∧
    1 ≤ n ∧ n ≤ 4 ∧ (n = 1 ↔ (m >>> 8 = 0 ∨ m >>> 8 = 0xFFFFFF)) := by
  intro m s1 result n s'
  obtain ⟨gC, gB, g15, gR, gbus, _, _⟩ := fetchOpcode_fields E s
  obtain ⟨fN, fZ, fC, fV⟩ := flags_fetchOpcode E s
  have hres : result < 2 ^ 32 := by
    show (if accumulate then _ else _) < 2 ^ 32
    split <;> exact Nat.mod_lt _ (by decide)
  have hr : (if accumulate = true then u32 (u32 (m * s1.R (reg4 opcode)) + s1.R (reg4 (opcode >>> 12)))
      else u32 (m * s1.R (reg4 opcode))) = result := by
    show _ = (if accumulate then _ else _)
    cases accumulate
    · simp only [Bool.false_eq_true, if_false, u32, Nat.mul_comm]
    · simp only [if_true, u32, Nat.mul_comm]
      omega
  have hs' : s' = iCycle n
      (if sBit then
        (((if accumulate then iCycle 1 s1 else s1).setR (reg4 ((opcode >>> 16) &&& 0xF)) result).setFlagN
          (result >>> 31 ≠ 0)).setFlagZ (result = 0)
       else (if accumulate then iCycle 1 s1 else s1).setR (reg4 ((opcode >>> 16) &&& 0xF)) result) := by
    show multiply E accumulate sBit opcode s = _
    unfold multiply
    simp only [hRd, ne_eq, not_false_eq_true, if_true]
    rw [← hr]
    rfl
  have hN := shiftRight_31_ne_zero result hres
  refine ⟨gR, ?_, ?_, ?_, ?_, ?_, ?_, multiplierCyclesSigned_range m hm⟩
  · rw [hs']
    cases sBit <;> simp [iCycle, CPU.setFlagN, CPU.setFlagZ, R_setR]
  · rw [hs']
    cases sBit <;> cases accumulate <;>
      simp [iCycle, CPU.setFlagN, CPU.setFlagZ, testBit_setBit, s1, fN, hN, gC, CPU.flagN, CPU.flagZ, CPU.flagC, CPU.flagV]
  · rw [hs']
    cases sBit <;> cases accumulate <;>
      simp [iCycle, CPU.setFlagN, CPU.setFlagZ, testBit_setBit, s1, fZ, gC, CPU.flagN, CPU.flagZ, CPU.flagC, CPU.flagV]
  · rw [hs']
    cases sBit <;> cases accumulate <;>
      simp [iCycle, CPU.setFlagN, CPU.setFlagZ, testBit_setBit, s1, fC, gC, CPU.flagN, CPU.flagZ, CPU.flagC, CPU.flagV]
  · rw [hs']
    cases sBit <;> cases accumulate <;>
      simp [iCycle, CPU.setFlagN, CPU.setFlagZ, testBit_setBit, s1, fV, gC, CPU.flagN, CPU.flagZ, CPU.flagC, CPU.flagV]
  · rw [hs']
    cases sBit <;> cases accumulate <;>
      simp [iCycle, CPU.setFlagN, CPU.setFlagZ, s1, gbus]

theorem shiftLeft_32_or (a b : Nat) (hb : b < 2 ^ 32) : (a <<< 32) ||| b = a * 2 ^ 32 + b := by
  rw [Nat.shiftLeft_eq, Nat.mul_comm, ← Nat.mul_add_lt_is_or hb]

theorem shiftRight_63_ne_zero (x : Nat) (h : x < 2 ^ 64) : decide (x >>> 63 ≠ 0) = x.testBit 63 := by
  rw [Nat.testBit_to_div_mod, Nat.shiftRight_eq_div_pow]
  by_cases hx : 9223372036854775808 ≤ x
  · have : x / 9223372036854775808 = 1 := by omega
    simp [this]
  · have : x / 9223372036854775808 = 0 := by omega
    simp [this]

/-- C28: UMULL, SMULL, UMLAL and SMLAL with multiplier `m = R[Rs]`, with RdLo
and RdHi distinct and neither R15: RdHi:RdLo receives the 64-bit value of the
product of `R[Rm]` and `m` (both read as signed 32-bit numbers for the signed
forms, as unsigned numbers otherwise), plus the prior value of RdHi:RdLo
modulo `2^64` for the accumulate forms; with S set N is bit 63 of that value
and Z is set exactly when it is 0, and C and V are unchanged; after the
prefetch the bus sees `iCycle(1)` for the accumulate forms only and then
`iCycle(n + 1)`, where `n = ((31 - max(clz(m), clo(m))) / 8) + 1` for the
signed forms and `((31 - clz(m)) / 8) + 1` for the unsigned forms, in
truncating division; `n` is in 1..4. -/
theorem multiplyLong_spec (E : Env) (signedMul accumulate sBit : Bool) (opcode : Nat) (s : CPU)
    (hLo : (opcode >>> 12) &&& 0xF ≠ 15) (hHi : (opcode >>> 16) &&& 0xF ≠ 15)
    (hne : (opcode >>> 12) &&& 0xF ≠ (opcode >>> 16) &&& 0xF)
    (hm : s.R (reg4 (opcode >>> 8)) < 2 ^ 32)
    (hlo : s.R (reg4 ((opcode >>> 12) &&& 0xF)) < 2 ^ 32) :
    let m := s.R (reg4 (opcode >>> 8))
    let s1 := fetchOpcode E s
    let lo := reg4 ((opcode >>> 12) &&& 0xF)
    let hi := reg4 ((opcode >>> 16) &&& 0xF)
    let product : Int := if signedMul then toI32 (s1.R (reg4 opcode)) * toI32 m else (s1.R (reg4 opcode) : Int) * (m : Int)
    let prior : Nat := if accumulate then s.R hi * 2 ^ 32 + s.R lo else 0
    let result : Nat := ((product + (prior : Int)) % 2 ^ 64).toNat
    let n : Int := if signedMul then Int.tdiv (31 - (max (countl_zero m) (countl_one m) : Nat)) 8 + 1
      else Int.tdiv (31 - (countl_zero m : Nat)) 8 + 1
    let s' := multiplyLong E signedMul accumulate sBit opcode s
    (∀ i : Fin 16, i ≠ 15 → s1.R i = s.R i) ∧
    s'.R lo = result % 2 ^ 32 ∧ s'.R hi = result / 2 ^ 32 ∧ s'.R hi * 2 ^ 32 + s'.R lo = result ∧
    result < 2 ^ 64 ∧
    s'.flagN = (if sBit then result.testBit 63 else s.flagN) ∧
    s'.flagZ = (if sBit then decide (result = 0) else s.flagZ) ∧
    s'.flagC = s.flagC ∧ s'.flagV = s.flagV ∧
    s'.bus = (if accumulate then [.iCycle (n + 1), .iCycle 1] else [.iCycle (n + 1)]) ++
      (.read (8 * width s) true (s.R 15) s.nextFetchType :: s.bus) ∧
    1 ≤ n ∧ n ≤ 4 := by
  intro m s1 lo hi product prior result n s'
  obtain ⟨gC, gB, g15, gR, gbus, _, _⟩ := fetchOpcode_fields E s
  obtain ⟨fN, fZ, fC, fV⟩ := flags_fetchOpcode E s
  have hres : result < 2 ^ 64 := by
    show ((product + (prior : Int)) % 2 ^ 64).toNat < 2 ^ 64
    omega
  have hlo15 : lo ≠ 15 := by
    intro h
    have := congrArg Fin.val h
    have e : lo.val = ((opcode >>> 12) &&& 0xF) % 16 := rfl
    have b : (opcode >>> 12) &&& 0xF ≤ 0xF := Nat.and_le_right
    have e15 : ((15 : Fin 16) : Nat) = 15 := rfl
    rw [e, e15] at this
    omega
  have hhi15 : hi ≠ 15 := by
    intro h
    have := congrArg Fin.val h
    have e : hi.val = ((opcode >>> 16) &&& 0xF) % 16 := rfl
    have b : (opcode >>> 16) &&& 0xF ≤ 0xF := Nat.and_le_right
    have e15 : ((15 : Fin 16) : Nat) = 15 := rfl
    rw [e, e15] at this
    omega
  have hlohi : lo ≠ hi := by
    intro h
    have := congrArg Fin.val h
    have e1 : lo.val = ((opcode >>> 12) &&& 0xF) % 16 := rfl
    have e2 : hi.val = ((opcode >>> 16) &&& 0xF) % 16 := rfl
    have b1 : (opcode >>> 12) &&& 0xF ≤ 0xF := Nat.and_le_right
    have b2 : (opcode >>> 16) &&& 0xF ≤ 0xF := Nat.and_le_right
    rw [e1, e2] at this
    omega
  have hprior : (s1.R hi <<< 32) ||| s1.R lo = s.R hi * 2 ^ 32 + s.R lo := by
    show ((fetchOpcode E s).R hi <<< 32) ||| (fetchOpcode E s).R lo = _
    rw [gR hi hhi15, gR lo hlo15]
    exact shiftLeft_32_or _ _ hlo
  have hr : (if accumulate = true then
        ((if signedMul = true then ((toI32 m * toI32 (s1.R (reg4 opcode))) % 2 ^ 64).toNat
          else (m * s1.R (reg4 opcode)) % 2 ^ 64) + ((s1.R hi <<< 32) ||| s1.R lo)) % 2 ^ 64
      else (if signedMul = true then ((toI32 m * toI32 (s1.R (reg4 opcode))) % 2 ^ 64).toNat
          else (m * s1.R (reg4 opcode)) % 2 ^ 64)) = result := by
    rw [hprior]
    show _ = ((product + (prior : Int)) % 2 ^ 64).toNat
    show _ = (((if signedMul then toI32 (s1.R (reg4 opcode)) * toI32 m
      else (s1.R (reg4 opcode) : Int) * (m : Int)) +
        ((if accumulate then s.R hi * 2 ^ 32 + s.R lo else 0 : Nat) : Int)) % 2 ^ 64).toNat
    generalize hP : toI32 m * toI32 (s1.R (reg4 opcode)) = P
    have hP' : toI32 (s1.R (reg4 opcode)) * toI32 m = P := by rw [← hP, Int.mul_comm]
    generalize hQ : m * s1.R (reg4 opcode) = Q
    have hQ' : (s1.R (reg4 opcode) : Int) * (m : Int) = (Q : Int) := by
      rw [← hQ]; push_cast; rw [Int.mul_comm]
    rw [hP', hQ']
    generalize s.R hi * 2 ^ 32 + s.R lo = A
    cases accumulate <;> cases signedMul <;> simp only [Bool.false_eq_true, if_false, if_true] <;>
      push_cast <;> omega
  have hs' : s' =
      ((iCycle (n + 1) (if sBit then
          ((if accumulate then iCycle 1 s1 else s1).setFlagN (result >>> 63 ≠ 0)).setFlagZ (result = 0)
        else (if accumulate then iCycle 1 s1 else s1))).setR lo (u32 result)).setR hi (u32 (result >>> 32)) := by
    show multiplyLong E signedMul accumulate sBit opcode s = _
    unfold multiplyLong
    simp only [hLo, hHi, ne_eq, not_false_eq_true, if_true]
    rw [← hr]
    rfl
  have hN := shiftRight_63_ne_zero result hres
  have hRlo : s'.R lo = result % 2 ^ 32 := by
    rw [hs']; simp [R_setR, hlohi, u32]
  have hRhi : s'.R hi = result / 2 ^ 32 := by
    rw [hs']
    simp only [R_setR, if_true, u32, Nat.shiftRight_eq_div_pow]
    omega
  refine ⟨gR, hRlo, hRhi, ?_, hres, ?_, ?_, ?_, ?_, ?_, ?_⟩
  · rw [hRlo, hRhi]; omega
  · rw [hs']
    cases sBit <;> cases accumulate <;>
      simp [iCycle, CPU.setFlagN, CPU.setFlagZ, testBit_setBit, s1, fN, hN, gC, CPU.flagN, CPU.flagZ,
        CPU.flagC, CPU.flagV]
  · rw [hs']
    cases sBit <;> cases accumulate <;>
      simp [iCycle, CPU.setFlagN, CPU.setFlagZ, testBit_setBit, s1, fZ, gC, CPU.flagN, CPU.flagZ,
        CPU.flagC, CPU.flagV]
  · rw [hs']
    cases sBit <;> cases accumulate <;>
      simp [iCycle, CPU.setFlagN, CPU.setFlagZ, testBit_setBit, s1, fC, gC, CPU.flagN, CPU.flagZ,
        CPU.flagC, CPU.flagV]
  · rw [hs']
    cases sBit <;> cases accumulate <;>
      simp [iCycle, CPU.setFlagN, CPU.setFlagZ, testBit_setBit, s1, fV, gC, CPU.flagN, CPU.flagZ,
        CPU.flagC, CPU.flagV]
  · rw [hs']
    cases sBit <;> cases accumulate <;>
      simp [iCycle, CPU.setFlagN, CPU.setFlagZ, s1, gbus]
  · show 1 ≤ (if signedMul then _ else _) ∧ (if signedMul then _ else _) ≤ 4
    cases signedMul
    · simp only [Bool.false_eq_true, if_false]
      exact ⟨(multiplierCyclesUnsigned_range m hm).1, (multiplierCyclesUnsigned_range m hm).2.1⟩
    · simp only [if_true]
      exact ⟨(multiplierCyclesSigned_range m hm).1, (multiplierCyclesSigned_range m hm).2.1⟩

/-- Witness for C27: `MUL r0, r1, r2` on the sample state (`R1 = 0x200`,
`R2 = 0x300`) gives `R0 = 0x60000` after the prefetch and `iCycle(2)`. -/
theorem multiply_spec_witness :
    (0xE0000291 >>> 16) &&& 0xF ≠ 15 ∧ sampleCPU.R (reg4 (0xE0000291 >>> 8)) < 2 ^ 32 ∧
    (multiply sampleEnv false false 0xE0000291 sampleCPU).R 0 = 0x60000 ∧
    (multiply sampleEnv false false 0xE0000291 sampleCPU).bus = [.iCycle 2, .read 32 true 0x1000 false] := by
  have hz : countl_zero 0x300 = 22 := by
    have a := (le_countl_zero 0x300 22 (by decide) (by decide)).mpr (by decide)
    have b := mt (le_countl_zero 0x300 23 (by decide) (by decide)).mp (by decide)
    omega
  have ho : countl_one 0x300 = 0 := by
    have b := mt (le_countl_one 0x300 1 (by decide) (by decide)).mp (by decide)
    omega
  have hm : sampleCPU.R (reg4 (0xE0000291 >>> 8)) = 0x300 := by decide
  obtain ⟨_, hR, _, _, _, _, hbus, _⟩ :=
    multiply_spec sampleEnv false false 0xE0000291 sampleCPU (by decide) (by decide)
  rw [hm, hz, ho] at hbus
  exact ⟨by decide, by decide, hR.trans (by decide), hbus.trans (by decide)⟩

/-- Witness for C28: `SMULL r0, r3, r1, r2` with `R1 = 0xFFFFFFFF` (minus one)
and `R2 = 0x300` gives `R3:R0 = 0xFFFFFFFF:0xFFFFFD00`, the 64-bit value of
`-0x300`. -/
theorem multiplyLong_spec_witness :
    (0xE0C30291 >>> 12) &&& 0xF ≠ 15 ∧ (0xE0C30291 >>> 16) &&& 0xF ≠ 15 ∧
    (0xE0C30291 >>> 12) &&& 0xF ≠ (0xE0C30291 >>> 16) &&& 0xF ∧
    decode (((0xE0C30291 &&& 0x0FF00000) >>> 16) ||| ((0xE0C30291 &&& 0x000000F0) >>> 4)) =
      .multiplyLong true false false ∧
    (multiplyLong sampleEnv true false false 0xE0C30291 (sampleCPU.setR 1 0xFFFFFFFF)).R 0 = 0xFFFFFD00 ∧
    (multiplyLong sampleEnv true false false 0xE0C30291 (sampleCPU.setR 1 0xFFFFFFFF)).R 3 = 0xFFFFFFFF := by
  obtain ⟨_, hlo, hhi, _⟩ :=
    multiplyLong_spec sampleEnv true false false 0xE0C30291 (sampleCPU.setR 1 0xFFFFFFFF)
      (by decide) (by decide) (by decide) (by decide) (by decide)
  exact ⟨by decide, by decide, by decide, by decide, hlo.trans (by decide), hhi.trans (by decide)⟩

/-! ## MSR to the CPSR in User mode -/

/-- Bits of the value that the PSR stores write when the control byte is
kept. -/
theorem psr_user_bits (c F : Nat) (q : Bool) (i : Nat) :
    ((if q = true then ((0 ||| (F &&& 0xF0000000)) ||| (c &&& 0x000000FF)) ||| 0x00000040
      else ((0 ||| (F &&& 0xF0000000)) ||| (c &&& 0x000000FF))) ||| 0x00000010).testBit i =
    ((decide (28 ≤ i ∧ i < 32) && F.testBit i) || (decide (i < 8) && c.testBit i) ||
      (q && decide (i = 6)) || decide (i = 4)) := by
  have e1 : (0xF0000000 : Nat) = (2 ^ 4 - 1) <<< 28 := by decide
  have e2 : (0x000000FF : Nat) = 2 ^ 8 - 1 := by decide
  have e3 : (0x00000040 : Nat) = 2 ^ 6 := by decide
  have e4 : (0x00000010 : Nat) = 2 ^ 4 := by decide
  rw [e1, e2, e3, e4]
  have d1 : ∀ x : Bool, (x && (decide (i ≥ 28) && decide (i - 28 < 4))) = (decide (28 ≤ i ∧ i < 32) && x) := by
    intro x
    by_cases h : 28 ≤ i
    · by_cases h2 : i < 32
      · have h3 : i - 28 < 4 := by omega
        simp [h, h2, h3]
      · have h3 : ¬ i - 28 < 4 := by omega
        simp [h, h2, h3]
    · simp [h]
  have d2 : ∀ x : Bool, (x && decide (i < 8)) = (decide (i < 8) && x) := fun x => Bool.and_comm _ _
  have d6 : decide (6 = i) = decide (i = 6) := decide_eq_decide.mpr eq_comm
  have d4 : decide (4 = i) = decide (i = 4) := decide_eq_decide.mpr eq_comm
  cases q <;>
    simp only [Bool.false_eq_true, if_false, if_true, Nat.testBit_or, Nat.testBit_and, Nat.testBit_shiftLeft,
      Nat.testBit_two_pow_sub_one, Nat.testBit_two_pow, Nat.zero_testBit, Bool.false_or, Bool.false_and,
      Bool.or_false, Bool.true_and, d1, d2, d6, d4]

/-- Closed form of the PSR store to the CPSR in User mode. -/
theorem psrStore_user (E : Env) (opcode operand : Nat) (s : CPU) (hm : s.mode = MODE_USER) :
    psrStore E false opcode operand s =
      some (fetchOpcode E (s.setCPSR
        ((if E.disableFiq = true then
            ((0 ||| ((if opcode.testBit 19 then operand else s.CPSR) &&& 0xF0000000)) |||
              (s.CPSR &&& 0x000000FF)) ||| 0x00000040
          else ((0 ||| ((if opcode.testBit 19 then operand else s.CPSR) &&& 0xF0000000)) |||
              (s.CPSR &&& 0x000000FF))) ||| 0x00000010))) := by
  unfold psrStore
  simp only [hm]
  cases opcode.testBit 19 <;> cases E.disableFiq <;> simp

/-- The PSR store to the CPSR in User mode, for any operand. -/
theorem psrStore_user_spec (E : Env) (opcode operand : Nat) (s : CPU) (hm : s.mode = MODE_USER)
    (hF : E.disableFiq = false ∨ s.fiqDisable = true) :
    ∃ s', psrStore E false opcode operand s = some s' ∧
      s'.CPSR % 256 = s.CPSR % 256 ∧ s'.mode = MODE_USER ∧
      (∀ i, 28 ≤ i → i < 32 →
        s'.CPSR.testBit i = if opcode.testBit 19 then operand.testBit i else s.CPSR.testBit i) ∧
      (∀ i, 8 ≤ i → i < 28 → s'.CPSR.testBit i = false) ∧
      (∀ i : Fin 16, i ≠ 15 → s'.R i = s.R i) ∧ (∀ b j, s'.bank b j = s.bank b j) := by
  refine ⟨_, psrStore_user E opcode operand s hm, ?_⟩
  obtain ⟨gC, gB, _, gR, _⟩ := fetchOpcode_fields E
    (s.setCPSR ((if E.disableFiq = true then
        ((0 ||| ((if opcode.testBit 19 then operand else s.CPSR) &&& 0xF0000000)) |||
          (s.CPSR &&& 0x000000FF)) ||| 0x00000040
      else ((0 ||| ((if opcode.testBit 19 then operand else s.CPSR) &&& 0xF0000000)) |||
          (s.CPSR &&& 0x000000FF))) ||| 0x00000010))
  have hbits := psr_user_bits s.CPSR (if opcode.testBit 19 then operand else s.CPSR) E.disableFiq
  rw [CPSR_setCPSR] at gC
  have h4 : s.CPSR.testBit 4 = true := by
    have e : s.CPSR % 32 = 16 := hm
    have e2 := Nat.testBit_mod_two_pow s.CPSR 5 4
    rw [show (2 : Nat) ^ 5 = 32 from rfl, e] at e2
    simpa using e2.symm
  have h6 : E.disableFiq = true → s.CPSR.testBit 6 = true := by
    intro h
    rcases hF with hF | hF
    · rw [hF] at h; exact absurd h (by simp)
    · exact hF
  have hlow : ∀ i, i < 8 → (fetchOpcode E (s.setCPSR ((if E.disableFiq = true then
        ((0 ||| ((if opcode.testBit 19 then operand else s.CPSR) &&& 0xF0000000)) |||
          (s.CPSR &&& 0x000000FF)) ||| 0x00000040
      else ((0 ||| ((if opcode.testBit 19 then operand else s.CPSR) &&& 0xF0000000)) |||
          (s.CPSR &&& 0x000000FF))) ||| 0x00000010))).CPSR.testBit i = s.CPSR.testBit i := by
    intro i hi
    rw [gC, hbits]
    have a : ¬ (28 ≤ i ∧ i < 32) := by omega
    by_cases e4 : i = 4
    · subst e4; simp [h4]
    · by_cases e6 : i = 6
      · subst e6
        cases hq : E.disableFiq
        · simp
        · simp [h6 hq]
      · simp [a, hi, e4, e6]
  refine ⟨?_, ?_, ?_, ?_, ?_, ?_⟩
  · rw [show (256 : Nat) = 2 ^ 8 from rfl]
    apply Nat.eq_of_testBit_eq
    intro i
    rw [Nat.testBit_mod_two_pow, Nat.testBit_mod_two_pow]
    by_cases hi : i < 8
    · rw [hlow i hi]
    · simp [hi]
  · show _ % 32 = MODE_USER
    rw [← hm]
    show _ % 2 ^ 5 = s.CPSR % 2 ^ 5
    apply Nat.eq_of_testBit_eq
    intro i
    rw [Nat.testBit_mod_two_pow, Nat.testBit_mod_two_pow]
    by_cases hi : i < 5
    · rw [hlow i (by omega)]
    · simp [hi]
  · intro i h28 h32
    rw [gC, hbits]
    have a : ¬ i < 8 := by omega
    have b : ¬ i = 6 := by omega
    have c : ¬ i = 4 := by omega
    have d : 28 ≤ i ∧ i < 32 := ⟨h28, h32⟩
    cases opcode.testBit 19 <;> simp [a, b, c, d]
  · intro i h8 h28
    rw [gC, hbits]
    have a : ¬ i < 8 := by omega
    have b : ¬ i = 6 := by omega
    have c : ¬ i = 4 := by omega
    have d : ¬ (28 ≤ i ∧ i < 32) := by omega
    simp [a, b, c, d]
  · intro i hi
    rw [gR i hi]; simp
  · intro b j
    rw [gB]; simp

/-- C29: MSR to the CPSR (register or immediate form) while the CPSR mode is
User, in the default build or with F already set: for every operand and every
field mask the instruction returns a state in which bits 7..0 of the CPSR
(mode, T, F, I) are unchanged, R0..R14 and every bank slot are unchanged (no
re-banking), and bits 31..28 are bits 31..28 of the operand when opcode bit
19 is set and unchanged otherwise.  Bits 27..8, which hold no CPSR field, read
as zero afterwards. -/
theorem msr_cpsr_user (E : Env) (opcode : Nat) (s : CPU) (hm : s.mode = MODE_USER)
    (hF : E.disableFiq = false ∨ s.fiqDisable = true) :
    let operandReg := s.R (reg4 opcode)
    let operandImm :=
      if (opcode &&& 0xF00) >>> 7 ≠ 0 then ror32 (opcode &&& 0xFF) ((opcode &&& 0xF00) >>> 7)
      else opcode &&& 0xFF
    (∃ s', psrStoreReg E false opcode s = some s' ∧
      s'.CPSR % 256 = s.CPSR % 256 ∧ s'.mode = MODE_USER ∧
      (∀ i, 28 ≤ i → i < 32 →
        s'.CPSR.testBit i = if opcode.testBit 19 then operandReg.testBit i else s.CPSR.testBit i) ∧
      (∀ i, 8 ≤ i → i < 28 → s'.CPSR.testBit i = false) ∧
      (∀ i : Fin 16, i ≠ 15 → s'.R i = s.R i) ∧ (∀ b j, s'.bank b j = s.bank b j)) ∧
    (∃ s', psrStoreImmediate E false opcode s = some s' ∧
      s'.CPSR % 256 = s.CPSR % 256 ∧ s'.mode = MODE_USER ∧
      (∀ i, 28 ≤ i → i < 32 →
        s'.CPSR.testBit i = if opcode.testBit 19 then operandImm.testBit i else s.CPSR.testBit i) ∧
      (∀ i, 8 ≤ i → i < 28 → s'.CPSR.testBit i = false) ∧
      (∀ i : Fin 16, i ≠ 15 → s'.R i = s.R i) ∧ (∀ b j, s'.bank b j = s.bank b j)) := by
  intro operandReg operandImm
  exact ⟨psrStore_user_spec E opcode operandReg s hm hF, psrStore_user_spec E opcode operandImm s hm hF⟩

/-- Witness for C29: `MSR CPSR_fc, r1` (`0xE129F001`) in User mode with
`R1 = 0xF00000DF` sets the four flags and leaves the control byte `0x10`
alone: the CPSR becomes `0xF0000010`. -/
theorem msr_cpsr_user_witness :
    ((sampleCPU.setCPSR 0x10).setR 1 0xF00000DF).mode = MODE_USER ∧
    decode (((0xE129F001 &&& 0x0FF00000) >>> 16) ||| ((0xE129F001 &&& 0x000000F0) >>> 4)) =
      .psrStoreReg false ∧
    (psrStoreReg sampleEnv false 0xE129F001 ((sampleCPU.setCPSR 0x10).setR 1 0xF00000DF)).map
      (fun s => s.CPSR) = some 0xF0000010 ∧
    ∃ s', psrStoreReg sampleEnv false 0xE129F001 ((sampleCPU.setCPSR 0x10).setR 1 0xF00000DF) = some s' ∧
      s'.CPSR % 256 = 0x10 := by
  obtain ⟨s', h0, hlow, _⟩ :=
    (msr_cpsr_user sampleEnv 0xE129F001 ((sampleCPU.setCPSR 0x10).setR 1 0xF00000DF) (by decide)
      (Or.inl rfl)).1
  exact ⟨by decide, by decide, by decide, s', h0, hlow.trans (by decide)⟩

/-! ## Branch -/

/-- The branch offset expression `((i32)((opcode & 0x00FFFFFF) << 8)) >> 6` is
four times the sign-extended 24-bit field, as a 32-bit word. -/
theorem branch_offset (opcode : Nat) :
    asr32 (u32 ((opcode &&& 0x00FFFFFF) <<< 8)) 6 =
      ((4 * (if opcode &&& 0x00FFFFFF < 2 ^ 23 then ((opcode &&& 0x00FFFFFF : Nat) : Int)
        else ((opcode &&& 0x00FFFFFF : Nat) : Int) - 2 ^ 24)) % 2 ^ 32).toNat := by
  have hf : opcode &&& 0x00FFFFFF < 2 ^ 24 := lt_of_le_of_lt Nat.and_le_right (by decide)
  generalize opcode &&& 0x00FFFFFF = f at hf
  unfold asr32 ofInt32 toI32 u32
  rw [Int.shiftRight_eq_div_pow, Nat.shiftLeft_eq]
  have e : f * 2 ^ 8 % 2 ^ 32 % 2 ^ 32 = f * 256 := by omega
  rw [e]
  push_cast
  split <;> split <;> omega

/-- C30: ARM `B` and `BL` at address `A` (ARM state, R15 = `A + 8`) with 24-bit
offset field `f`: the target is `(A + 8 + 4 * signext24(f)) mod 2^32`; the
instruction refills the pipeline from the target, so `pipelineOpcode3` is the
value of the non-sequential code read at the target rounded down to a
multiple of 4 and R15 is that address plus 8; `BL` sets R14 to `A + 4` and `B`
leaves R14 unchanged; the CPSR and R0..R13 are unchanged. -/
theorem branch_spec (E : Env) (link : Bool) (opcode : Nat) (s : CPU) (A : Nat)
    (hT : s.thumbMode = false) (h15 : s.R 15 = u32 (A + 8)) :
    let f := opcode &&& 0x00FFFFFF
    let signext24 : Int := if f < 2 ^ 23 then (f : Int) else (f : Int) - 2 ^ 24
    let target : Nat := (((A : Int) + 8 + 4 * signext24) % 2 ^ 32).toNat
    let s' := branch E link opcode s
    s'.R 15 = (target / 4 * 4 + 8) % 2 ^ 32 ∧
    s'.pipelineOpcode3 =
      E.busRead (.read 32 true (s.R 15) s.nextFetchType :: s.bus) 32 true (target / 4 * 4) false % 2 ^ 32 ∧
    s'.bus = .read 32 true ((target / 4 * 4 + 4) % 2 ^ 32) true :: .read 32 true (target / 4 * 4) false ::
      .read 32 true (s.R 15) s.nextFetchType :: s.bus ∧
    s'.R 14 = (if link then u32 (A + 4) else s.R 14) ∧
    s'.CPSR = s.CPSR ∧
    (∀ i : Fin 16, i ≠ 14 → i ≠ 15 → s'.R i = s.R i) := by
  intro f signext24 target s'
  have htarget : u32 (s.R 15 + asr32 (u32 ((opcode &&& 0x00FFFFFF) <<< 8)) 6) = target := by
    rw [branch_offset, h15]
    show _ = (((A : Int) + 8 + 4 * (if opcode &&& 0x00FFFFFF < 2 ^ 23 then
      ((opcode &&& 0x00FFFFFF : Nat) : Int) else ((opcode &&& 0x00FFFFFF : Nat) : Int) - 2 ^ 24)) % 2 ^ 32).toNat
    have hf : opcode &&& 0x00FFFFFF < 2 ^ 24 := lt_of_le_of_lt Nat.and_le_right (by decide)
    generalize opcode &&& 0x00FFFFFF = g at hf
    unfold u32
    split <;> omega
  have ht32 : target < 2 ^ 32 := by
    show (((A : Int) + 8 + 4 * signext24) % 2 ^ 32).toNat < 2 ^ 32
    omega
  obtain ⟨gC, gB, g15, gR, gbus, _, _⟩ := fetchOpcode_fields E s
  have hwid : width s = 4 := by simp [width, hT]
  rw [hwid] at g15 gbus
  generalize hu : ((if link then (fetchOpcode E s).setR 14 (sub32 ((fetchOpcode E s).R 15) 8)
    else fetchOpcode E s).setR 15 target) = u
  have hs' : s' = flushPipeline E u := by
    show branch E link opcode s = _
    unfold branch
    simp only [htarget]
    rw [← hu]
  have uC : u.CPSR = s.CPSR := by
    subst hu; cases link <;> simp [gC]
  have uT : width u = 4 := by
    show (if u.CPSR.testBit 5 = true then 2 else 4) = 4
    rw [uC]
    have : s.CPSR.testBit 5 = false := hT
    simp [this]
  have u15 : u.R 15 = target := by subst hu; simp [R_setR]
  have ubus : u.bus = .read 32 true (s.R 15) s.nextFetchType :: s.bus := by
    subst hu; cases link <;> simp [gbus]
  obtain ⟨p15, p3, pbus, pR, _⟩ := flushPipeline_facts E u
  rw [uT, u15] at p15
  have e15 : (flushPipeline E u).R 15 = (target / 4 * 4 + 8) % 2 ^ 32 := by
    rw [p15]; unfold u32; omega
  have es8 : sub32 ((flushPipeline E u).R 15) (2 * 4) = target / 4 * 4 := by
    rw [e15]; unfold sub32; omega
  have es4 : sub32 ((flushPipeline E u).R 15) 4 = (target / 4 * 4 + 4) % 2 ^ 32 := by
    rw [e15]; unfold sub32; omega
  rw [uT, es8, ubus] at p3
  rw [uT, es8, es4, ubus] at pbus
  rw [hs']
  refine ⟨e15, p3, pbus, ?_, ?_, ?_⟩
  · rw [pR 14 (by decide)]
    subst hu
    cases link
    · simp [R_setR, gR]
    · have e : sub32 (u32 (u32 (A + 8) + 4)) 8 = u32 (A + 4) := by unfold sub32 u32; omega
      simp [R_setR, g15, h15, e]
  · rw [CPSR_flushPipeline, uC]
  · intro i h14 h15'
    rw [pR i h15']
    subst hu
    cases link <;> simp [R_setR, h14, h15', gR i h15']

/-- Witness for C30: `BL` with offset field `0xFFFFFE` (minus two words) at
`0x1000` in ARM state branches to `0x1000` and sets R14 to `0x1004`; R15 is
`0x1008` afterwards. -/
theorem branch_spec_witness :
    (sampleCPU.setR 15 0x1008).thumbMode = false ∧ (sampleCPU.setR 15 0x1008).R 15 = u32 (0x1000 + 8) ∧
    decode (((0xEBFFFFFE &&& 0x0FF00000) >>> 16) ||| ((0xEBFFFFFE &&& 0x000000F0) >>> 4)) = .branch true ∧
    (branch sampleEnv true 0xEBFFFFFE (sampleCPU.setR 15 0x1008)).R 15 = 0x1008 ∧
    (branch sampleEnv true 0xEBFFFFFE (sampleCPU.setR 15 0x1008)).R 14 = 0x1004 := by
  obtain ⟨h15, _, _, h14, _⟩ :=
    branch_spec sampleEnv true 0xEBFFFFFE (sampleCPU.setR 15 0x1008) 0x1000 (by decide) (by decide)
  exact ⟨by decide, by decide, by decide, h15.trans (by decide), h14.trans (by decide)⟩

/-! ## Mode entry and the Thumb bit -/

/-- C40: from a valid current mode, `bankRegisters(newMode, enterMode = true)`
with a valid `newMode` leaves CPSR bits 4..0 equal to `newMode`, CPSR bit 5
(T) clear and every CPSR bit 6..31 (I, F, the flags, bits 8..27) unchanged,
for USR and SYS targets as for the others; slot 7 (the SPSR) of `newMode`'s
bank receives the pre-call CPSR exactly when `newMode` is privileged, and no
other SPSR slot changes.  With `enterMode = false` the CPSR and every SPSR
slot are unchanged. -/
theorem bankRegisters_enter_cpsr (s : CPU) (newMode : Nat) (hc : validMode s.mode) (hn : validMode newMode) :
    ∃ new s' t, modeBank newMode = some new ∧
      bankRegisters newMode true s = some s' ∧ bankRegisters newMode false s = some t ∧
      s'.CPSR % 32 = newMode ∧ s'.mode = newMode ∧ s'.thumbMode = false ∧
      (∀ i, 6 ≤ i → i < 32 → s'.CPSR.testBit i = s.CPSR.testBit i) ∧
      (∀ b : BankId, s'.bank b 7 = if privilegedMode newMode ∧ b = new then s.CPSR else s.bank b 7) ∧
      t.CPSR = s.CPSR ∧ (∀ b : BankId, t.bank b 7 = s.bank b 7) := by
  obtain ⟨cur, h1⟩ := modeBank_of_valid hc
  obtain ⟨new, h2⟩ := modeBank_of_valid hn
  obtain ⟨s', hs', _, _, _, _, _, _, _, _, eC, _, eB⟩ := bankRegisters_true_some s newMode cur new h1 h2
  obtain ⟨t, ht, _, _, _, _, _, _, _, _, fC, _, fB⟩ := bankRegisters_false_some s newMode cur new h1 h2
  have hlt : newMode < 32 := by
    unfold validMode at hn
    rcases hn with h | h | h | h | h | h | h <;> rw [h] <;> decide
  have hmod : s'.CPSR % 32 = newMode := by
    rw [eC, enter_mode_bits, Nat.mod_eq_of_lt hlt]
  refine ⟨new, s', t, h2, hs', ht, hmod, ?_, ?_, ?_, ?_, fC, ?_⟩
  · exact hmod
  · show s'.CPSR.testBit 5 = false
    rw [eC]
    exact enter_bit5 _ _ hlt
  · intro i h6 h32
    rw [eC]
    exact enter_high_bits _ _ _ (by omega) h6 h32
  · intro b
    rw [eB b 7]
    have hp : (newMode ≠ MODE_SYSTEM ∧ newMode ≠ MODE_USER) ↔ privilegedMode newMode := by
      unfold validMode at hn
      unfold privilegedMode
      rcases hn with h | h | h | h | h | h | h <;> rw [h] <;> decide
    by_cases hb : privilegedMode newMode ∧ b = new
    · rw [if_pos hb, if_pos ⟨hp.2 hb.1, hb.2, rfl⟩]
    · rw [if_neg hb, if_neg (fun h => hb ⟨hp.1 h.1, h.2.1⟩)]
      simp
  · intro b
    rw [fB b 7]
    simp

/-- Witness for C40: entering IRQ mode from SYS mode in Thumb state with all
flags set. -/
theorem bankRegisters_enter_cpsr_witness :
    validMode (sampleCPU.setCPSR 0xF000003F).mode ∧ validMode MODE_IRQ ∧
    (sampleCPU.setCPSR 0xF000003F).thumbMode = true ∧
    ∃ new s' t, modeBank MODE_IRQ = some new ∧
      bankRegisters MODE_IRQ true (sampleCPU.setCPSR 0xF000003F) = some s' ∧
      bankRegisters MODE_IRQ false (sampleCPU.setCPSR 0xF000003F) = some t ∧
      s'.CPSR % 32 = MODE_IRQ ∧ s'.mode = MODE_IRQ ∧ s'.thumbMode = false ∧
      (∀ i, 6 ≤ i → i < 32 → s'.CPSR.testBit i = (sampleCPU.setCPSR 0xF000003F).CPSR.testBit i) ∧
      (∀ b : BankId, s'.bank b 7 =
        if privilegedMode MODE_IRQ ∧ b = new then (sampleCPU.setCPSR 0xF000003F).CPSR
        else (sampleCPU.setCPSR 0xF000003F).bank b 7) ∧
      t.CPSR = (sampleCPU.setCPSR 0xF000003F).CPSR ∧
      (∀ b : BankId, t.bank b 7 = (sampleCPU.setCPSR 0xF000003F).bank b 7) :=
  ⟨by decide, by decide, by decide,
    bankRegisters_enter_cpsr (sampleCPU.setCPSR 0xF000003F) MODE_IRQ (by decide) (by decide)⟩

/-! ## Branch and exchange -/

/-- C31: ARM `BX Rm` executed in ARM state with register value `v`: afterwards
CPSR.T is bit 0 of `v` and every other CPSR bit is unchanged; when bit 0 is 1
the pipeline is refilled with two halfword code reads from `v & ~1` (the
first one non-sequential, its value in `pipelineOpcode3`) and R15 is
`(v & ~1) + 4`; when bit 0 is 0 it is refilled with two word code reads from
`v & ~3` and R15 is `(v & ~3) + 8`; R0..R14 are unchanged. -/
theorem branchExchange_spec (E : Env) (opcode : Nat) (s : CPU) (hT : s.thumbMode = false) :
    let v := s.R (reg4 opcode)
    let fetched := BusEvent.read 32 true (s.R 15) s.nextFetchType :: s.bus
    let s' := branchExchange E opcode s
    s'.thumbMode = v.testBit 0 ∧
    (∀ i, i ≠ 5 → s'.CPSR.testBit i = s.CPSR.testBit i) ∧
    (v.testBit 0 = true →
      s'.R 15 = u32 ((v &&& 0xFFFFFFFE) + 4) ∧
      s'.pipelineOpcode3 = E.busRead fetched 16 true (v &&& 0xFFFFFFFE) false % 2 ^ 16 ∧
      s'.bus = .read 16 true (u32 ((v &&& 0xFFFFFFFE) + 2)) true ::
        .read 16 true (v &&& 0xFFFFFFFE) false :: fetched) ∧
    (v.testBit 0 = false →
      s'.R 15 = u32 ((v &&& 0xFFFFFFFC) + 8) ∧
      s'.pipelineOpcode3 = E.busRead fetched 32 true (v &&& 0xFFFFFFFC) false % 2 ^ 32 ∧
      s'.bus = .read 32 true (u32 ((v &&& 0xFFFFFFFC) + 4)) true ::
        .read 32 true (v &&& 0xFFFFFFFC) false :: fetched) ∧
    (∀ i : Fin 16, i ≠ 15 → s'.R i = s.R i) := by
  intro v fetched s'
  obtain ⟨gC, gB, g15, gR, gbus, _, _⟩ := fetchOpcode_fields E s
  have hwid : width s = 4 := by simp [width, hT]
  rw [hwid] at gbus
  have hnt : decide (s.R (reg4 opcode) &&& 1 ≠ 0) = v.testBit 0 := and_one_ne_zero _
  generalize hu : (((fetchOpcode E s).setThumbMode (v.testBit 0)).setR 15
    (v &&& (if v.testBit 0 = true then 0xFFFFFFFE else 0xFFFFFFFC))) = u
  have hs' : s' = flushPipeline E u := by
    show branchExchange E opcode s = _
    have hiff : (s.R (reg4 opcode) &&& 1 ≠ 0) ↔ v.testBit 0 = true := by
      rw [← hnt]; simp
    unfold branchExchange
    simp only [hiff, Bool.decide_eq_true]
    rw [← hu]
  have uC : u.CPSR = setBit s.CPSR 5 (v.testBit 0) := by
    subst hu; simp [CPU.setThumbMode, gC]
  have uT : u.thumbMode = v.testBit 0 := by
    show u.CPSR.testBit 5 = _
    rw [uC, testBit_setBit]; simp
  have u15 : u.R 15 = v &&& (if v.testBit 0 = true then 0xFFFFFFFE else 0xFFFFFFFC) := by
    subst hu; simp [R_setR]
  have ubus : u.bus = fetched := by
    subst hu; simp [CPU.setThumbMode, gbus, fetched]
  obtain ⟨p15, p3, pbus, pR, _⟩ := flushPipeline_facts E u
  rw [hs']
  refine ⟨?_, ?_, ?_, ?_, ?_⟩
  · show (flushPipeline E u).CPSR.testBit 5 = _
    rw [CPSR_flushPipeline]
    exact uT
  · intro i hi
    rw [CPSR_flushPipeline, uC, testBit_setBit, if_neg hi]
  · intro hb
    have hw : width u = 2 := by simp [width, uT, hb]
    rw [hb, if_pos rfl] at u15
    rw [hw, u15] at p15
    have e15 : (flushPipeline E u).R 15 = u32 ((v &&& 0xFFFFFFFE) + 4) := by
      rw [p15, and_FFFFFFFE]; unfold u32; omega
    have es4 : sub32 ((flushPipeline E u).R 15) (2 * 2) = v &&& 0xFFFFFFFE := by
      rw [e15, and_FFFFFFFE]; unfold sub32 u32; omega
    have es2 : sub32 ((flushPipeline E u).R 15) 2 = u32 ((v &&& 0xFFFFFFFE) + 2) := by
      rw [e15, and_FFFFFFFE]; unfold sub32 u32; omega
    rw [hw, es4, ubus] at p3
    rw [hw, es4, es2, ubus] at pbus
    exact ⟨e15, p3, pbus⟩
  · intro hb
    have hw : width u = 4 := by simp [width, uT, hb]
    rw [hb] at u15
    simp only [Bool.false_eq_true, if_false] at u15
    rw [hw, u15] at p15
    have e15 : (flushPipeline E u).R 15 = u32 ((v &&& 0xFFFFFFFC) + 8) := by
      rw [p15, and_FFFFFFFC]; unfold u32; omega
    have es8 : sub32 ((flushPipeline E u).R 15) (2 * 4) = v &&& 0xFFFFFFFC := by
      rw [e15, and_FFFFFFFC]; unfold sub32 u32; omega
    have es4 : sub32 ((flushPipeline E u).R 15) 4 = u32 ((v &&& 0xFFFFFFFC) + 4) := by
      rw [e15, and_FFFFFFFC]; unfold sub32 u32; omega
    rw [hw, es8, ubus] at p3
    rw [hw, es8, es4, ubus] at pbus
    exact ⟨e15, p3, pbus⟩
  · intro i hi
    rw [pR i hi]
    subst hu
    simp [R_setR, hi, CPU.setThumbMode, gR i hi]

/-- Witness for C31: `BX r0` (`0xE12FFF10`) with R0 = `0x201` switches to
Thumb state, reads `pipelineOpcode3` from `0x200` and leaves R15 = `0x204`. -/
theorem branchExchange_spec_witness :
    (sampleCPU.setR 0 0x201).thumbMode = false ∧
    decode (((0xE12FFF10 &&& 0x0FF00000) >>> 16) ||| ((0xE12FFF10 &&& 0x000000F0) >>> 4)) = .branchExchange ∧
    (branchExchange sampleEnv 0xE12FFF10 (sampleCPU.setR 0 0x201)).thumbMode = true ∧
    (branchExchange sampleEnv 0xE12FFF10 (sampleCPU.setR 0 0x201)).R 15 = 0x204 ∧
    (branchExchange sampleEnv 0xE12FFF10 (sampleCPU.setR 0 0x201)).bus =
      [.read 16 true 0x202 true, .read 16 true 0x200 false, .read 32 true 0x1000 false] := by
  obtain ⟨hT, _, hodd, _, _⟩ := branchExchange_spec sampleEnv 0xE12FFF10 (sampleCPU.setR 0 0x201) (by decide)
  obtain ⟨h15, _, hbus⟩ := hodd (by decide)
  exact ⟨by decide, by decide, hT.trans (by decide), h15.trans (by decide), hbus.trans (by decide)⟩

/-! ## Thumb long branch with link -/

/-- The expression `(i32)((u32)opcode << 21) >> 9` is 4096 times the
sign-extended 11-bit field, as a 32-bit word. -/
theorem long_branch_offset (opcode : Nat) :
    asr32 (u32 (opcode <<< 21)) 9 =
      ((4096 * (if opcode &&& 0x7FF < 2 ^ 10 then ((opcode &&& 0x7FF : Nat) : Int)
        else ((opcode &&& 0x7FF : Nat) : Int) - 2 ^ 11)) % 2 ^ 32).toNat := by
  have hand : opcode &&& 0x7FF = opcode % 2 ^ 11 := Nat.and_pow_two_sub_one_eq_mod opcode 11
  rw [hand]
  unfold asr32 ofInt32 toI32 u32
  rw [Int.shiftRight_eq_div_pow, Nat.shiftLeft_eq]
  have e : opcode * 2 ^ 21 % 2 ^ 32 % 2 ^ 32 = (opcode % 2 ^ 11) * 2097152 := by omega
  rw [e]
  have hf : opcode % 2 ^ 11 < 2 ^ 11 := Nat.mod_lt _ (by decide)
  generalize opcode % 2 ^ 11 = f at hf
  push_cast
  split <;> split <;> omega

/-- C36: Thumb long branch with link.  In Thumb state with the high half
(11-bit field `hi`) at address `A` (R15 = `A + 4`): the high half alone sets
R14 to `(A + 4 + (signext11(hi) << 12)) mod 2^32` and performs one halfword
opcode fetch (R15 becomes `A + 6`), leaving the CPSR, the banks and every
register other than R14 and R15 unchanged; the low half (11-bit field `lo`)
executed next sets R14 to `(A + 4) | 1` and refills the pipeline with halfword
reads from `((A + 4 + (signext11(hi) << 12)) + (lo << 1)) & ~1` modulo `2^32`,
leaving R15 at that address plus 4. -/
theorem thumbLongBranchLink_spec (E : Env) (highOpcode lowOpcode : Nat) (s : CPU) (A : Nat)
    (hT : s.thumbMode = true) (h15 : s.R 15 = u32 (A + 4)) :
    let hi := highOpcode &&& 0x7FF
    let lo := lowOpcode &&& 0x7FF
    let signext11 : Int := if hi < 2 ^ 10 then (hi : Int) else (hi : Int) - 2 ^ 11
    let s1 := thumbLongBranchLink E false highOpcode s
    let s2 := thumbLongBranchLink E true lowOpcode s1
    let target : Nat := (((A : Int) + 4 + signext11 * 4096 + 2 * lo) % 2 ^ 32).toNat
    (s1.R 14 = (((A : Int) + 4 + signext11 * 4096) % 2 ^ 32).toNat ∧
      s1.R 15 = u32 (A + 6) ∧ s1.CPSR = s.CPSR ∧
      (∀ i : Fin 16, i ≠ 14 → i ≠ 15 → s1.R i = s.R i) ∧
      (∀ b j, s1.bank b j = s.bank b j) ∧
      s1.bus = .read 16 true (u32 (A + 4)) s.nextFetchType :: s.bus) ∧
    (s2.R 14 = u32 (A + 4) ||| 1 ∧
      s2.R 15 = (target / 2 * 2 + 4) % 2 ^ 32 ∧
      s2.pipelineOpcode3 =
        E.busRead (.read 16 true (u32 (A + 6)) true :: s1.bus) 16 true (target / 2 * 2) false % 2 ^ 16 ∧
      s2.bus = .read 16 true ((target / 2 * 2 + 2) % 2 ^ 32) true :: .read 16 true (target / 2 * 2) false ::
        .read 16 true (u32 (A + 6)) true :: s1.bus ∧
      s2.CPSR = s.CPSR ∧
      (∀ i : Fin 16, i ≠ 14 → i ≠ 15 → s2.R i = s.R i)) := by
  intro hi lo signext11 s1 s2 target
  have hhi : hi < 2 ^ 11 := lt_of_le_of_lt Nat.and_le_right (by decide)
  have hlo : lo < 2 ^ 11 := lt_of_le_of_lt Nat.and_le_right (by decide)
  -- the high half
  have hs1 : s1 = fetchOpcode E (s.setR 14 (u32 (s.R 15 + asr32 (u32 (highOpcode <<< 21)) 9))) := by
    show thumbLongBranchLink E false highOpcode s = _
    simp [thumbLongBranchLink]
  have h14v : u32 (s.R 15 + asr32 (u32 (highOpcode <<< 21)) 9) =
      (((A : Int) + 4 + signext11 * 4096) % 2 ^ 32).toNat := by
    rw [long_branch_offset, h15]
    show _ = (((A : Int) + 4 + (if hi < 2 ^ 10 then (hi : Int) else (hi : Int) - 2 ^ 11) * 4096) % 2 ^ 32).toNat
    show u32 (u32 (A + 4) + ((4096 * (if hi < 2 ^ 10 then (hi : Int) else (hi : Int) - 2 ^ 11)) % 2 ^ 32).toNat) = _
    unfold u32
    split <;> omega
  rw [h14v] at hs1
  generalize hr14 : (((A : Int) + 4 + signext11 * 4096) % 2 ^ 32).toNat = r14 at hs1
  have hr14lt : r14 < 2 ^ 32 := by rw [← hr14]; omega
  obtain ⟨gC, gB, g15, gR, gbus, _, _⟩ := fetchOpcode_fields E (s.setR 14 r14)
  have hT1 : (s.setR 14 r14).thumbMode = true := hT
  have hw1 : width (s.setR 14 r14) = 2 := by simp [width, hT1]
  rw [hw1] at g15 gbus
  have e15 : s1.R 15 = u32 (A + 6) := by
    rw [hs1, g15]; simp [R_setR, h15]; unfold u32; omega
  have e14 : s1.R 14 = r14 := by
    rw [hs1, gR 14 (by decide)]; simp [R_setR]
  have eC : s1.CPSR = s.CPSR := by rw [hs1, gC]; simp
  have eR : ∀ i : Fin 16, i ≠ 14 → i ≠ 15 → s1.R i = s.R i := by
    intro i h14 h15'
    rw [hs1, gR i h15']; simp [R_setR, h14]
  have eB : ∀ b j, s1.bank b j = s.bank b j := by
    intro b j; rw [hs1, gB]; simp
  have ebus : s1.bus = .read 16 true (u32 (A + 4)) s.nextFetchType :: s.bus := by
    rw [hs1, gbus]; simp [R_setR, h15]
  have eN : s1.nextFetchType = true := by
    rw [hs1, fetchOpcode_thumb E _ hT1]; simp
  have hT2 : s1.thumbMode = true := by
    show s1.CPSR.testBit 5 = true
    rw [eC]; exact hT
  -- the low half
  have htarget : u32 (s1.R 14 + ((lowOpcode &&& 0x7FF) <<< 1)) = target := by
    rw [e14, ← hr14]
    show u32 ((((A : Int) + 4 + signext11 * 4096) % 2 ^ 32).toNat + (lo <<< 1)) =
      (((A : Int) + 4 + signext11 * 4096 + 2 * lo) % 2 ^ 32).toNat
    rw [Nat.shiftLeft_eq]
    generalize signext11 * 4096 = off
    unfold u32
    omega
  have ht32 : target < 2 ^ 32 := by
    show (((A : Int) + 4 + signext11 * 4096 + 2 * lo) % 2 ^ 32).toNat < 2 ^ 32
    omega
  have e : sub32 (s1.R 15) 2 ||| 1 = u32 (A + 4) ||| 1 := by
    rw [e15]
    have : sub32 (u32 (A + 6)) 2 = u32 (A + 4) := by unfold sub32 u32; omega
    rw [this]
  have hs2 : s2 = flushPipeline E ((fetchOpcode E (s1.setR 14 (u32 (A + 4) ||| 1))).setR 15 target) := by
    show thumbLongBranchLink E true lowOpcode s1 = _
    simp only [thumbLongBranchLink, if_true, htarget, e]
  have t15 : (s1.setR 14 (u32 (A + 4) ||| 1)).R 15 = u32 (A + 6) := by simp [R_setR, e15]
  have t14 : (s1.setR 14 (u32 (A + 4) ||| 1)).R 14 = u32 (A + 4) ||| 1 := by simp [R_setR]
  have tR : ∀ i : Fin 16, i ≠ 14 → i ≠ 15 → (s1.setR 14 (u32 (A + 4) ||| 1)).R i = s.R i := by
    intro i h14 h15'
    simp [R_setR, h14, eR i h14 h15']
  have tC : (s1.setR 14 (u32 (A + 4) ||| 1)).CPSR = s.CPSR := eC
  have tN : (s1.setR 14 (u32 (A + 4) ||| 1)).nextFetchType = true := eN
  have tbus : (s1.setR 14 (u32 (A + 4) ||| 1)).bus = s1.bus := rfl
  generalize s1.setR 14 (u32 (A + 4) ||| 1) = t at hs2 t15 t14 tR tC tN tbus
  obtain ⟨kC, kB, k15, kR, kbus, _, _⟩ := fetchOpcode_fields E t
  have hw3 : width t = 2 := by
    show (if t.CPSR.testBit 5 = true then 2 else 4) = 2
    rw [tC]
    have : s.CPSR.testBit 5 = true := hT
    simp [this]
  rw [hw3, t15, tN, tbus] at kbus
  rw [tC] at kC
  have k14 := kR 14 (by decide)
  rw [t14] at k14
  have kR' : ∀ i : Fin 16, i ≠ 14 → i ≠ 15 → (fetchOpcode E t).R i = s.R i := by
    intro i h14 h15'
    rw [kR i h15', tR i h14 h15']
  generalize fetchOpcode E t = f at hs2 k14 kbus kC kR'
  generalize hu : f.setR 15 target = u at hs2
  have uC : u.CPSR = s.CPSR := by subst hu; simp [kC]
  have uT : width u = 2 := by
    show (if u.CPSR.testBit 5 = true then 2 else 4) = 2
    rw [uC]
    have : s.CPSR.testBit 5 = true := hT
    simp [this]
  have u15 : u.R 15 = target := by subst hu; simp [R_setR]
  have ubus : u.bus = .read 16 true (u32 (A + 6)) true :: s1.bus := by
    subst hu; simp [kbus]
  have u14 : u.R 14 = u32 (A + 4) ||| 1 := by
    subst hu; simp [R_setR, k14]
  obtain ⟨p15, p3, pbus, pR, _⟩ := flushPipeline_facts E u
  rw [uT, u15] at p15
  have f15 : (flushPipeline E u).R 15 = (target / 2 * 2 + 4) % 2 ^ 32 := by
    rw [p15]; unfold u32; omega
  have es4 : sub32 ((flushPipeline E u).R 15) (2 * 2) = target / 2 * 2 := by
    rw [f15]; unfold sub32; omega
  have es2 : sub32 ((flushPipeline E u).R 15) 2 = (target / 2 * 2 + 2) % 2 ^ 32 := by
    rw [f15]; unfold sub32; omega
  rw [uT, es4, ubus] at p3
  rw [uT, es4, es2, ubus] at pbus
  refine ⟨⟨e14, e15, eC, eR, eB, ebus⟩, ?_⟩
  rw [hs2]
  refine ⟨?_, f15, p3, pbus, ?_, ?_⟩
  · rw [pR 14 (by decide), u14]
  · rw [CPSR_flushPipeline, uC]
  · intro i h14 h15'
    rw [pR i h15']
    subst hu
    simp [R_setR, h15', kR' i h14 h15']

/-- Witness for C36: the pair `0xF000`, `0xF810` (`BL` forward by `0x20`) at
`0x2000` in Thumb state: the high half sets R14 to `0x2004`; after the low
half R14 is `0x2005`, the pipeline is refilled from `0x2024` and R15 is
`0x2028`. -/
theorem thumbLongBranchLink_spec_witness :
    ((sampleCPU.setCPSR 0x3F).setR 15 0x2004).thumbMode = true ∧
    ((sampleCPU.setCPSR 0x3F).setR 15 0x2004).R 15 = u32 (0x2000 + 4) ∧
    decodeThumb (0xF000 >>> 6) = .thumbLongBranchLink false ∧
    decodeThumb (0xF810 >>> 6) = .thumbLongBranchLink true ∧
    (thumbLongBranchLink sampleEnv false 0xF000 ((sampleCPU.setCPSR 0x3F).setR 15 0x2004)).R 14 = 0x2004 ∧
    (thumbLongBranchLink sampleEnv true 0xF810
      (thumbLongBranchLink sampleEnv false 0xF000 ((sampleCPU.setCPSR 0x3F).setR 15 0x2004))).R 14 = 0x2005 ∧
    (thumbLongBranchLink sampleEnv true 0xF810
      (thumbLongBranchLink sampleEnv false 0xF000 ((sampleCPU.setCPSR 0x3F).setR 15 0x2004))).R 15 = 0x2028 := by
  obtain ⟨⟨h14, _⟩, g14, g15, _⟩ :=
    thumbLongBranchLink_spec sampleEnv 0xF000 0xF810 ((sampleCPU.setCPSR 0x3F).setR 15 0x2004) 0x2000
      (by decide) (by decide)
  exact ⟨by decide, by decide, by decide, by decide, h14.trans (by decide), g14.trans (by decide),
    g15.trans (by decide)⟩

/-! ## Data processing: the value of R15 seen by the operand reads -/

/-- The shifter reads the registers and the C flag only. -/
theorem computeShift_congr (dt iBit : Bool) (opcode : Nat) (s t : CPU)
    (hR : ∀ i, s.R i = t.R i) (hC : s.flagC = t.flagC) :
    computeShift dt iBit opcode s = computeShift dt iBit opcode t := by
  unfold computeShift
  simp only [hR, hC]

/-- The state returned by `dataProcessing` for a destination other than R15. -/
theorem dataProcessing_rd_ne15 (E : Env) (iBit sBit : Bool) (operation opcode : Nat) (s : CPU)
    (hRd : (opcode &&& 0xF000) >>> 12 ≠ 15) :
    ∃ s1 f g, s1 = (if (!iBit && opcode.testBit 4) then fetchOpcode E s else s) ∧
      f = (if sBit then
          (if operation < 2 ∨ operation = 8 ∨ operation = 9 ∨ operation ≥ 0xC then
            ((s1.setFlagN ((dataProcessingOp operation (s1.R (reg4 (opcode >>> 16)))
                (computeShift false iBit opcode s1).2 s1.flagC s1.flagV).1 >>> 31 ≠ 0)).setFlagZ
              ((dataProcessingOp operation (s1.R (reg4 (opcode >>> 16)))
                (computeShift false iBit opcode s1).2 s1.flagC s1.flagV).1 = 0)).setFlagC
              (computeShift false iBit opcode s1).1
          else
            (((s1.setFlagN ((dataProcessingOp operation (s1.R (reg4 (opcode >>> 16)))
                (computeShift false iBit opcode s1).2 s1.flagC s1.flagV).1 >>> 31 ≠ 0)).setFlagZ
              ((dataProcessingOp operation (s1.R (reg4 (opcode >>> 16)))
                (computeShift false iBit opcode s1).2 s1.flagC s1.flagV).1 = 0)).setFlagC
              (dataProcessingOp operation (s1.R (reg4 (opcode >>> 16)))
                (computeShift false iBit opcode s1).2 s1.flagC s1.flagV).2.1).setFlagV
              (dataProcessingOp operation (s1.R (reg4 (opcode >>> 16)))
                (computeShift false iBit opcode s1).2 s1.flagC s1.flagV).2.2)
        else s1) ∧
      g = (if (!iBit && opcode.testBit 4) then iCycle 1 f else fetchOpcode E f) ∧
      dataProcessing E iBit operation sBit opcode s =
        some (if operation < 8 ∨ operation ≥ 0xC then
          g.setR (reg4 ((opcode &&& 0xF000) >>> 12))
            (dataProcessingOp operation (s1.R (reg4 (opcode >>> 16)))
              (computeShift false iBit opcode s1).2 s1.flagC s1.flagV).1
          else g) := by
  refine ⟨_, _, _, rfl, rfl, rfl, ?_⟩
  unfold dataProcessing
  simp only [hRd, if_true, if_false]
  cases sBit
  · simp only [Bool.false_eq_true, if_false]
    split <;> rfl
  · simp only [if_true]
    split <;> rfl

/-- Fields after the flag update of `dataProcessing`. -/
theorem dataProcessing_flag_fields (s1 : CPU) (sBit : Bool) (p : Prop) [Decidable p] (n z c c2 v : Bool) :
    let f := if sBit then
        (if p then ((s1.setFlagN n).setFlagZ z).setFlagC c
          else (((s1.setFlagN n).setFlagZ z).setFlagC c2).setFlagV v)
      else s1
    f.bus = s1.bus ∧ (∀ i, f.R i = s1.R i) ∧ f.thumbMode = s1.thumbMode ∧
    f.nextFetchType = s1.nextFetchType ∧
    (sBit = true → f.flagN = n ∧ f.flagZ = z ∧ f.flagC = (if p then c else c2) ∧
      f.flagV = (if p then s1.flagV else v)) := by
  intro f
  cases sBit
  · refine ⟨rfl, fun _ => rfl, rfl, rfl, ?_⟩
    intro h; exact absurd h (by decide)
  · by_cases hp : p
    · have hf : f = ((s1.setFlagN n).setFlagZ z).setFlagC c := by
        show (if true = true then (if p then _ else _) else s1) = _
        rw [if_pos rfl, if_pos hp]
      rw [hf]
      refine ⟨?_, ?_, ?_, ?_, ?_⟩
      · simp [CPU.setFlagN, CPU.setFlagZ, CPU.setFlagC]
      · intro i; simp [CPU.setFlagN, CPU.setFlagZ, CPU.setFlagC]
      · simp [CPU.setFlagN, CPU.setFlagZ, CPU.setFlagC, testBit_setBit, CPU.thumbMode]
      · simp [CPU.setFlagN, CPU.setFlagZ, CPU.setFlagC]
      · intro _
        rw [if_pos hp, if_pos hp]
        exact flag_chain3 s1 n z c
    · have hf : f = (((s1.setFlagN n).setFlagZ z).setFlagC c2).setFlagV v := by
        show (if true = true then (if p then _ else _) else s1) = _
        rw [if_pos rfl, if_neg hp]
      rw [hf]
      refine ⟨?_, ?_, ?_, ?_, ?_⟩
      · simp [CPU.setFlagN, CPU.setFlagZ, CPU.setFlagC, CPU.setFlagV]
      · intro i; simp [CPU.setFlagN, CPU.setFlagZ, CPU.setFlagC, CPU.setFlagV]
      · simp [CPU.setFlagN, CPU.setFlagZ, CPU.setFlagC, CPU.setFlagV, testBit_setBit, CPU.thumbMode]
      · simp [CPU.setFlagN, CPU.setFlagZ, CPU.setFlagC, CPU.setFlagV]
      · intro _
        rw [if_neg hp, if_neg hp]
        obtain ⟨a, b, c', d, _⟩ := flag_chain s1 n z c2 v
        exact ⟨a, b, c', d⟩

theorem reg4_destination_ne (opcode : Nat) (hRd : (opcode &&& 0xF000) >>> 12 ≠ 15) :
    reg4 ((opcode &&& 0xF000) >>> 12) ≠ 15 := by
  have hle : opcode &&& 0xF000 ≤ 0xF000 := Nat.and_le_right
  have hx : (opcode &&& 0xF000) >>> 12 ≤ 15 := by
    rw [Nat.shiftRight_eq_div_pow]; omega
  intro h
  have h' := congrArg Fin.val h
  simp only [reg4] at h'
  have e15 : ((15 : Fin 16) : Nat) = 15 := rfl
  rw [e15] at h'
  omega

/-- C38: an ARM data-processing instruction at address `A` (ARM state, R15 =
`A + 8`) with a destination other than R15.  When operand 2 is a register
shifted by a register-specified amount, the operands are those read from the
register file with R15 = `A + 12`, whether R15 is read as Rn, Rm or Rs, and the
bus sees one opcode fetch followed by one internal cycle; for the immediate
and immediate-shift forms the operands are those read with R15 = `A + 8` and
the bus sees one opcode fetch and no internal cycle.  The result written to
Rd and the flags written when S is set are those of these operands, and R15
is `A + 12` afterwards. -/
theorem dataProcessing_pc_reads (E : Env) (iBit sBit : Bool) (operation opcode : Nat) (s : CPU) (A : Nat)
    (hT : s.thumbMode = false) (h15 : s.R 15 = u32 (A + 8))
    (hRd : (opcode &&& 0xF000) >>> 12 ≠ 15) :
    let shiftReg := !iBit && opcode.testBit 4
    let pc := if shiftReg then u32 (A + 12) else u32 (A + 8)
    let view := s.setR 15 pc
    let sh := computeShift false iBit opcode view
    let r := dataProcessingOp operation (view.R (reg4 (opcode >>> 16))) sh.2 s.flagC s.flagV
    let logical := operation < 2 ∨ operation = 8 ∨ operation = 9 ∨ operation ≥ 0xC
    ∃ s', dataProcessing E iBit operation sBit opcode s = some s' ∧
      s'.bus = (if shiftReg then [BusEvent.iCycle 1] else []) ++
        (.read 32 true (u32 (A + 8)) s.nextFetchType :: s.bus) ∧
      (operation < 8 ∨ operation ≥ 0xC → s'.R (reg4 ((opcode &&& 0xF000) >>> 12)) = r.1) ∧
      (sBit = true → s'.flagN = decide (r.1 >>> 31 ≠ 0) ∧ s'.flagZ = decide (r.1 = 0) ∧
        s'.flagC = (if logical then sh.1 else r.2.1) ∧ s'.flagV = (if logical then s.flagV else r.2.2)) ∧
      s'.R 15 = u32 (A + 12) := by
  intro shiftReg pc view sh r logical
  have hpc : pc = if shiftReg then u32 (A + 12) else u32 (A + 8) := rfl
  have hview : view = s.setR 15 pc := rfl
  have hsh : sh = computeShift false iBit opcode view := rfl
  have hr : r = dataProcessingOp operation (view.R (reg4 (opcode >>> 16))) sh.2 s.flagC s.flagV := rfl
  have hsr : (!iBit && opcode.testBit 4) = shiftReg := rfl
  have hlogical : logical = (operation < 2 ∨ operation = 8 ∨ operation = 9 ∨ operation ≥ 0xC) := rfl
  clear_value r sh view pc shiftReg
  obtain ⟨s1, f, g, hs1, hf, hg, hd⟩ := dataProcessing_rd_ne15 E iBit sBit operation opcode s hRd
  rw [hsr] at hs1 hg
  obtain ⟨gC, gB, g15, gR, gbus, _, _⟩ := fetchOpcode_fields E s
  have hwid : width s = 4 := by simp [width, hT]
  rw [hwid, h15] at g15 gbus
  have e12 : u32 (u32 (A + 8) + 4) = u32 (A + 12) := by unfold u32; omega
  rw [e12] at g15
  -- the operands
  have hR1 : ∀ i, s1.R i = view.R i := by
    intro i
    rw [hs1, hview, hpc, R_setR]
    cases shiftReg
    · simp only [Bool.false_eq_true, if_false]
      split
      · next h => rw [h, h15]
      · rfl
    · simp only [if_true]
      split
      · next h => rw [h, g15]
      · next h => exact gR i h
  have hC1 : s1.flagC = s.flagC ∧ s1.flagV = s.flagV := by
    rw [hs1]
    split
    · exact ⟨(flags_fetchOpcode E s).2.2.1, (flags_fetchOpcode E s).2.2.2⟩
    · exact ⟨rfl, rfl⟩
  have hshift : computeShift false iBit opcode s1 = sh := by
    rw [hsh]
    exact computeShift_congr false iBit opcode s1 view hR1 (hC1.1.trans (by rw [hview]; rfl))
  have hop : dataProcessingOp operation (s1.R (reg4 (opcode >>> 16))) (computeShift false iBit opcode s1).2
      s1.flagC s1.flagV = r := by
    rw [hr, hshift, hR1, hC1.1, hC1.2]
  rw [hop, hshift] at hf
  rw [hop] at hd
  -- the flag update
  obtain ⟨fbus, fR, fT, fN, fflags⟩ := dataProcessing_flag_fields s1 sBit
    (operation < 2 ∨ operation = 8 ∨ operation = 9 ∨ operation ≥ 0xC)
    (decide (r.1 >>> 31 ≠ 0)) (decide (r.1 = 0)) sh.1 r.2.1 r.2.2
  rw [← hf] at fbus fR fT fN fflags
  have hs1bus : s1.bus = if shiftReg then .read 32 true (u32 (A + 8)) s.nextFetchType :: s.bus else s.bus := by
    rw [hs1]; split
    · exact gbus
    · rfl
  have hs1T : s1.thumbMode = false := by
    rw [hs1]; split
    · show (fetchOpcode E s).CPSR.testBit 5 = false
      rw [gC]; exact hT
    · exact hT
  -- the final fetch or internal cycle
  have hgbus : g.bus = (if shiftReg then [BusEvent.iCycle 1] else []) ++
      (.read 32 true (u32 (A + 8)) s.nextFetchType :: s.bus) := by
    rw [hg]
    cases shiftReg
    · simp only [Bool.false_eq_true, if_false] at hs1 hs1bus ⊢
      obtain ⟨_, _, _, _, kbus, _, _⟩ := fetchOpcode_fields E f
      have hwf : width f = 4 := by simp [width, fT, hs1T]
      rw [kbus, hwf, fbus, hs1bus, fR, fN, hs1, h15]
      rfl
    · simp only [if_true] at hs1bus ⊢
      show BusEvent.iCycle 1 :: f.bus = _
      rw [fbus, hs1bus]
      rfl
  have hg15 : g.R 15 = u32 (A + 12) := by
    rw [hg]
    cases shiftReg
    · simp only [Bool.false_eq_true, if_false] at hs1 ⊢
      obtain ⟨_, _, k15, _, _, _, _⟩ := fetchOpcode_fields E f
      have hwf : width f = 4 := by simp [width, fT, hs1T]
      rw [k15, hwf, fR, hs1, h15, e12]
    · simp only [if_true] at hs1 ⊢
      show f.R 15 = _
      rw [fR, hs1, g15]
  have hgflags : g.flagN = f.flagN ∧ g.flagZ = f.flagZ ∧ g.flagC = f.flagC ∧ g.flagV = f.flagV := by
    rw [hg]
    split
    · exact ⟨rfl, rfl, rfl, rfl⟩
    · exact flags_fetchOpcode E f
  have hne := reg4_destination_ne opcode hRd
  refine ⟨_, hd, ?_, ?_, ?_, ?_⟩
  · split
    · simp only [bus_setR]; exact hgbus
    · exact hgbus
  · intro hw
    rw [if_pos hw]
    simp [R_setR]
  · intro hS
    obtain ⟨a, b, c, d⟩ := fflags hS
    rw [hC1.2] at d
    have key : ∀ t : CPU, t.CPSR = g.CPSR → t.flagN = decide (r.1 >>> 31 ≠ 0) ∧ t.flagZ = decide (r.1 = 0) ∧
        t.flagC = (if operation < 2 ∨ operation = 8 ∨ operation = 9 ∨ operation ≥ 0xC then sh.1 else r.2.1) ∧
        t.flagV = (if operation < 2 ∨ operation = 8 ∨ operation = 9 ∨ operation ≥ 0xC then s.flagV else r.2.2) := by
      intro t ht
      refine ⟨?_, ?_, ?_, ?_⟩
      · show t.CPSR.testBit 31 = _
        rw [ht]; exact hgflags.1.trans a
      · show t.CPSR.testBit 30 = _
        rw [ht]; exact hgflags.2.1.trans b
      · show t.CPSR.testBit 29 = _
        rw [ht]; exact hgflags.2.2.1.trans c
      · show t.CPSR.testBit 28 = _
        rw [ht]; exact hgflags.2.2.2.trans d
    split
    · exact key _ rfl
    · exact key _ rfl
  · split
    · rw [R_setR, if_neg (Ne.symm hne)]; exact hg15
    · exact hg15

/-- Witness for C38: at `0x1000`, `ADD r0, pc, r1, LSL r2` (`0xE08F0211`,
register-specified shift, R1 = `0x200`, R2 = `0x300`) reads R15 as `0x100C`
and issues a fetch and an internal cycle, while `ADD r0, pc, r1`
(`0xE08F0001`) reads R15 as `0x1008` and issues the fetch only. -/
theorem dataProcessing_pc_reads_witness :
    (sampleCPU.setR 15 0x1008).thumbMode = false ∧ (sampleCPU.setR 15 0x1008).R 15 = u32 (0x1000 + 8) ∧
    (0xE08F0211 &&& 0xF000) >>> 12 ≠ 15 ∧ (0xE08F0001 &&& 0xF000) >>> 12 ≠ 15 ∧
    decode (((0xE08F0211 &&& 0x0FF00000) >>> 16) ||| ((0xE08F0211 &&& 0x000000F0) >>> 4)) =
      .dataProcessing false 4 false ∧
    decode (((0xE08F0001 &&& 0x0FF00000) >>> 16) ||| ((0xE08F0001 &&& 0x000000F0) >>> 4)) =
      .dataProcessing false 4 false ∧
    (∃ s', dataProcessing sampleEnv false 4 false 0xE08F0211 (sampleCPU.setR 15 0x1008) = some s' ∧
      s'.R 0 = 0x120C ∧ s'.bus = [.iCycle 1, .read 32 true 0x1008 false] ∧ s'.R 15 = 0x100C) ∧
    (∃ s', dataProcessing sampleEnv false 4 false 0xE08F0001 (sampleCPU.setR 15 0x1008) = some s' ∧
      s'.R 0 = 0x1208 ∧ s'.bus = [.read 32 true 0x1008 false] ∧ s'.R 15 = 0x100C) := by
  obtain ⟨s1, h1, b1, r1, _, p1⟩ :=
    dataProcessing_pc_reads sampleEnv false false 4 0xE08F0211 (sampleCPU.setR 15 0x1008) 0x1000
      (by decide) (by decide) (by decide)
  obtain ⟨s2, h2, b2, r2, _, p2⟩ :=
    dataProcessing_pc_reads sampleEnv false false 4 0xE08F0001 (sampleCPU.setR 15 0x1008) 0x1000
      (by decide) (by decide) (by decide)
  exact ⟨by decide, by decide, by decide, by decide, by decide, by decide,
    ⟨s1, h1, (r1 (by decide)).trans (by decide), b1.trans (by decide), p1.trans (by decide)⟩,
    ⟨s2, h2, (r2 (by decide)).trans (by decide), b2.trans (by decide), p2.trans (by decide)⟩⟩

/-! ## Single data transfer: LDR -/

/-- The value `rotateMisaligned<u32>` returns is the word rotated right by
eight times the low two address bits. -/
theorem rotateMisaligned_word (raw address : Nat) (hraw : raw < 2 ^ 32) :
    rotateMisaligned 4 raw address < 2 ^ 32 ∧
    ∀ i, i < 32 → (rotateMisaligned 4 raw address).testBit i = raw.testBit ((i + 8 * (address % 4)) % 32) := by
  have hand : address &&& (4 - 1) = address % 4 := Nat.and_pow_two_sub_one_eq_mod address 2
  have hlt : address % 4 < 4 := Nat.mod_lt _ (by decide)
  unfold rotateMisaligned
  rw [hand]
  have hr : address % 4 * 8 % 32 = 8 * (address % 4) := by omega
  simp only [hr]
  by_cases h0 : 8 * (address % 4) = 0
  · rw [if_pos h0, h0]
    have e : u32 raw = raw := Nat.mod_eq_of_lt hraw
    rw [e]
    refine ⟨hraw, ?_⟩
    intro i hi
    rw [Nat.add_zero, Nat.mod_eq_of_lt hi]
  · rw [if_neg h0]
    refine ⟨ror32_lt _ _, ?_⟩
    intro i hi
    exact testBit_ror32 raw _ i hraw (by omega) hi

theorem reg4_field_ne (x : Nat) (h : x &&& 0xF ≠ 15) : reg4 (x &&& 0xF) ≠ 15 := by
  have hle : x &&& 0xF ≤ 0xF := Nat.and_le_right
  intro h'
  have h2 := congrArg Fin.val h'
  simp only [reg4] at h2
  have e15 : ((15 : Fin 16) : Nat) = 15 := rfl
  rw [e15] at h2
  omega

/-- C32: ARM `LDR` (word, pre-indexed, no writeback) at address `A` (ARM
state, R15 = `A + 8`).  The effective address is the base value plus (U = 1)
or minus (U = 0) the offset modulo `2^32`, where a base of R15 reads as
`A + 8` and the offset of the immediate form is `opcode[11:0]`; after the
opcode fetch one non-sequential word data read is made at that address and
one internal cycle follows; the loaded value is the word read rotated right
by `8 * (address mod 4)` bits.  When Rd is not R15 it receives the loaded
value, R15 is `A + 12` and no other register changes.  When Rd is R15 the
pipeline is refilled from the loaded value rounded down to a multiple of 4.
The CPSR is unchanged. -/
theorem singleDataTransfer_ldr (E : Env) (iBit upDown : Bool) (opcode : Nat) (s : CPU) (A : Nat)
    (hT : s.thumbMode = false) (h15 : s.R 15 = u32 (A + 8)) :
    let baseRegister := (opcode >>> 16) &&& 0xF
    let rd := (opcode >>> 12) &&& 0xF
    let offset := (computeShift true iBit opcode s).2
    let b := s.R (reg4 baseRegister)
    let address := if upDown then u32 (b + offset) else sub32 b offset
    let fetched := BusEvent.read 32 true (u32 (A + 8)) s.nextFetchType :: s.bus
    let raw := E.busRead fetched 32 false address false % 2 ^ 32
    let value := rotateMisaligned 4 raw address
    let s' := singleDataTransfer E iBit true upDown false false true opcode s
    (baseRegister = 15 → b = u32 (A + 8)) ∧
    (iBit = false → offset = opcode &&& 0xFFF) ∧
    (∀ i, i < 32 → value.testBit i = raw.testBit ((i + 8 * (address % 4)) % 32)) ∧
    (rd ≠ 15 →
      s'.R (reg4 rd) = value ∧
      s'.bus = .iCycle 1 :: .read 32 false address false :: fetched ∧
      s'.R 15 = u32 (A + 12) ∧
      (∀ i : Fin 16, i ≠ reg4 rd → i ≠ 15 → s'.R i = s.R i)) ∧
    (rd = 15 →
      s'.R 15 = u32 ((value &&& 0xFFFFFFFC) + 8) ∧
      s'.pipelineOpcode3 = E.busRead (.iCycle 1 :: .read 32 false address false :: fetched) 32 true
        (value &&& 0xFFFFFFFC) false % 2 ^ 32 ∧
      s'.bus = .read 32 true (u32 ((value &&& 0xFFFFFFFC) + 4)) true ::
        .read 32 true (value &&& 0xFFFFFFFC) false ::
        .iCycle 1 :: .read 32 false address false :: fetched ∧
      (∀ i : Fin 16, i ≠ 15 → s'.R i = s.R i)) ∧
    s'.CPSR = s.CPSR := by
  intro baseRegister rd offset b address fetched raw value s'
  obtain ⟨gC, gB, g15, gR, gbus, _, _⟩ := fetchOpcode_fields E s
  have hwid : width s = 4 := by simp [width, hT]
  rw [hwid, h15] at g15 gbus
  have e12 : u32 (u32 (A + 8) + 4) = u32 (A + 12) := by unfold u32; omega
  rw [e12] at g15
  have hraw : raw < 2 ^ 32 := Nat.mod_lt _ (by decide)
  obtain ⟨hvlt, hvbits⟩ := rotateMisaligned_word raw address hraw
  have hu : s' = (if rd = 15 then
      flushPipeline E (iCycle 1 ((((fetchOpcode E s).emit (.read 32 false address false)).setR (reg4 rd) value)))
      else iCycle 1 ((((fetchOpcode E s).emit (.read 32 false address false)).setR (reg4 rd) value))) := by
    show singleDataTransfer E iBit true upDown false false true opcode s = _
    simp only [singleDataTransfer, busRead, gbus, Bool.false_eq_true, if_false, if_true, false_and,
      Bool.not_true]
  generalize hf : fetchOpcode E s = f at hu gC gB g15 gR gbus
  refine ⟨?_, ?_, hvbits, ?_, ?_, ?_⟩
  · intro hb
    show s.R (reg4 ((opcode >>> 16) &&& 0xF)) = _
    have e : reg4 ((opcode >>> 16) &&& 0xF) = 15 := by
      have hb' : (opcode >>> 16) &&& 0xF = 15 := hb
      rw [hb']; rfl
    rw [e, h15]
  · intro hi
    subst hi
    rfl
  · intro hrd
    have hne := reg4_field_ne (opcode >>> 12) hrd
    rw [hu, if_neg hrd]
    refine ⟨?_, ?_, ?_, ?_⟩
    · simp [iCycle, R_setR]
    · simp [iCycle, gbus, fetched]
    · simp only [iCycle, R_emit, R_setR]
      rw [if_neg (Ne.symm hne)]
      exact g15
    · intro i hi hi15
      simp only [iCycle, R_emit, R_setR]
      rw [if_neg hi]
      exact gR i hi15
  · intro hrd
    rw [hu, if_pos hrd]
    have e : reg4 rd = 15 := by rw [hrd]; rfl
    rw [e]
    generalize hw : iCycle 1 ((f.emit (.read 32 false address false)).setR 15 value) = w
    have wC : w.CPSR = s.CPSR := by subst hw; simp [iCycle, gC]
    have wT : width w = 4 := by
      show (if w.CPSR.testBit 5 = true then 2 else 4) = 4
      rw [wC]
      have : s.CPSR.testBit 5 = false := hT
      simp [this]
    have w15 : w.R 15 = value := by subst hw; simp [iCycle, R_setR]
    have wbus : w.bus = .iCycle 1 :: .read 32 false address false :: fetched := by
      subst hw; simp [iCycle, gbus, fetched]
    obtain ⟨p15, p3, pbus, pR, _⟩ := flushPipeline_facts E w
    rw [wT, w15] at p15
    have f15 : (flushPipeline E w).R 15 = u32 ((value &&& 0xFFFFFFFC) + 8) := by
      rw [p15, and_FFFFFFFC]; unfold u32; omega
    have es8 : sub32 ((flushPipeline E w).R 15) (2 * 4) = value &&& 0xFFFFFFFC := by
      rw [f15, and_FFFFFFFC]; unfold sub32 u32; omega
    have es4 : sub32 ((flushPipeline E w).R 15) 4 = u32 ((value &&& 0xFFFFFFFC) + 4) := by
      rw [f15, and_FFFFFFFC]; unfold sub32 u32; omega
    rw [wT, es8, wbus] at p3
    rw [wT, es8, es4, wbus] at pbus
    refine ⟨f15, p3, pbus, ?_⟩
    intro i hi
    rw [pR i hi]
    subst hw
    simp only [iCycle, R_emit, R_setR]
    rw [if_neg hi]
    exact gR i hi
  · rw [hu]
    split
    · rw [CPSR_flushPipeline]; simp [iCycle, gC]
    · simp [iCycle, gC]

/-- Witness for C32: `LDR r0, [pc, #0]` (`0xE59F0000`) at `0x100` over a
memory with `0xDEADBEEF` at `0x108` gives R0 = `0xDEADBEEF` after one word
read at `0x108` and one internal cycle. -/
theorem singleDataTransfer_ldr_witness :
    (sampleCPU.setR 15 0x108).thumbMode = false ∧ (sampleCPU.setR 15 0x108).R 15 = u32 (0x100 + 8) ∧
    decode (((0xE59F0000 &&& 0x0FF00000) >>> 16) ||| ((0xE59F0000 &&& 0x000000F0) >>> 4)) =
      .singleDataTransfer false true true false false true ∧
    (singleDataTransfer memoryEnv false true true false false true 0xE59F0000 (sampleCPU.setR 15 0x108)).R 0 =
      0xDEADBEEF ∧
    (singleDataTransfer memoryEnv false true true false false true 0xE59F0000 (sampleCPU.setR 15 0x108)).bus =
      [.iCycle 1, .read 32 false 0x108 false, .read 32 true 0x108 false] := by
  obtain ⟨_, _, _, h, _⟩ :=
    singleDataTransfer_ldr memoryEnv false true 0xE59F0000 (sampleCPU.setR 15 0x108) 0x100 (by decide) (by decide)
  obtain ⟨h0, hbus, _⟩ := h (by decide)
  exact ⟨by decide, by decide, by decide, h0.trans (by decide), hbus.trans (by decide)⟩

/-! ## Halfword and signed loads -/

/-- `rotateMisaligned<u16>` leaves a halfword alone at an even address and
rotates it right by 8 bits, as a 32-bit word, at an odd one. -/
theorem rotateMisaligned_half (h a : Nat) (hh : h < 2 ^ 16) :
    rotateMisaligned 2 h a = if a % 2 = 1 then h / 256 + h % 256 * 2 ^ 24 else h := by
  have hand : a &&& (2 - 1) = a % 2 := Nat.and_pow_two_sub_one_eq_mod a 1
  unfold rotateMisaligned
  rw [hand]
  by_cases ha : a % 2 = 1
  · rw [if_pos ha, ha]
    have e : ¬ (1 * 8 % 32 = 0) := by decide
    simp only [e, if_false]
    unfold ror32
    have e1 : (h <<< (32 - 1 * 8 % 32)) % 2 ^ 32 = 2 ^ 24 * (h % 256) := by
      rw [Nat.shiftLeft_eq]
      have : 32 - 1 * 8 % 32 = 24 := by decide
      rw [this]
      omega
    have e2 : (h % 2 ^ 32) >>> (1 * 8 % 32) = h / 256 := by
      rw [Nat.shiftRight_eq_div_pow]
      have : 1 * 8 % 32 = 8 := by decide
      rw [this]
      have : h % 2 ^ 32 = h := by omega
      rw [this]
    rw [e1, e2, Nat.lor_comm]
    have hlt : h / 256 < 2 ^ 24 := by omega
    rw [← Nat.mul_add_lt_is_or hlt]
    omega
  · rw [if_neg ha]
    have h0 : a % 2 = 0 := by omega
    rw [h0]
    have e : (0 * 8 % 32 = 0) := by decide
    simp only [e, if_true]
    unfold u32
    omega

/-- The expression `(i32)(y << 24) >> 24` sign-extends the low byte. -/
theorem sign_extend_byte (y : Nat) :
    asr32 (u32 (y <<< 24)) 24 = if y % 256 < 128 then y % 256 else y % 256 + 0xFFFFFF00 := by
  unfold asr32 ofInt32 toI32 u32
  rw [Int.shiftRight_eq_div_pow, Nat.shiftLeft_eq]
  have e : y * 2 ^ 24 % 2 ^ 32 % 2 ^ 32 = (y % 256) * 16777216 := by omega
  rw [e]
  have hf : y % 256 < 256 := Nat.mod_lt _ (by decide)
  generalize y % 256 = f at hf
  push_cast
  split <;> split <;> omega

/-- The expression `(i32)(h << 16) >> 16` sign-extends the low halfword. -/
theorem sign_extend_half (h : Nat) :
    asr32 (u32 (h <<< 16)) 16 = if h % 65536 < 32768 then h % 65536 else h % 65536 + 0xFFFF0000 := by
  unfold asr32 ofInt32 toI32 u32
  rw [Int.shiftRight_eq_div_pow, Nat.shiftLeft_eq]
  have e : h * 2 ^ 16 % 2 ^ 32 % 2 ^ 32 = (h % 65536) * 65536 := by omega
  rw [e]
  have hf : h % 65536 < 65536 := Nat.mod_lt _ (by decide)
  generalize h % 65536 = f at hf
  push_cast
  split <;> split <;> omega

/-- The value `LDRSH` computes from the halfword read. -/
theorem ldrsh_value (h a : Nat) (hh : h < 2 ^ 16) :
    (if a &&& 1 ≠ 0 then asr32 (u32 (rotateMisaligned 2 h a <<< 24)) 24
      else asr32 (u32 (rotateMisaligned 2 h a <<< 16)) 16) =
    if a % 2 = 1 then (if h / 256 < 128 then h / 256 else h / 256 + 0xFFFFFF00)
    else (if h < 32768 then h else h + 0xFFFF0000) := by
  have hand : a &&& 1 = a % 2 := Nat.and_pow_two_sub_one_eq_mod a 1
  rw [hand, rotateMisaligned_half h a hh]
  by_cases ha : a % 2 = 1
  · have hne : a % 2 ≠ 0 := by omega
    rw [if_pos hne, if_pos ha, if_pos ha, sign_extend_byte]
    have e : (h / 256 + h % 256 * 2 ^ 24) % 256 = h / 256 := by omega
    rw [e]
  · have h0 : ¬ (a % 2 ≠ 0) := by omega
    rw [if_neg h0, if_neg ha, if_neg ha, sign_extend_half]
    have e : h % 65536 = h := by omega
    rw [e]

/-- The states returned by the loads through `halfwordDataTransfer` when Rd
is not R15 and the base is not R15 with writeback: the loaded value is in Rd
and the bus has seen the opcode fetch, the data read and one internal cycle. -/
theorem halfwordDataTransfer_load (E : Env) (prePostIndex upDown immediateOffset writeBack : Bool)
    (opcode : Nat) (s : CPU)
    (hrd : (opcode >>> 12) &&& 0xF ≠ 15)
    (hb : ¬ ((opcode >>> 16) &&& 0xF = 15 ∧ writeBack = true)) :
    let offset := if immediateOffset then ((opcode &&& 0xF00) >>> 4) ||| (opcode &&& 0xF) else s.R (reg4 opcode)
    let b := s.R (reg4 ((opcode >>> 16) &&& 0xF))
    let a := if prePostIndex then (if upDown then u32 (b + offset) else sub32 b offset) else b
    let hist := (fetchOpcode E s).bus
    let h := E.busRead hist 16 false a false % 2 ^ 16
    let y := E.busRead hist 8 false a false % 2 ^ 8
    let rd := reg4 ((opcode >>> 12) &&& 0xF)
    ((halfwordDataTransfer E prePostIndex upDown immediateOffset writeBack true 1 opcode s).R rd =
        rotateMisaligned 2 h a ∧
      (halfwordDataTransfer E prePostIndex upDown immediateOffset writeBack true 1 opcode s).bus =
        .iCycle 1 :: .read 16 false a false :: hist) ∧
    ((halfwordDataTransfer E prePostIndex upDown immediateOffset writeBack true 2 opcode s).R rd =
        asr32 (u32 (y <<< 24)) 24 ∧
      (halfwordDataTransfer E prePostIndex upDown immediateOffset writeBack true 2 opcode s).bus =
        .iCycle 1 :: .read 8 false a false :: hist) ∧
    ((halfwordDataTransfer E prePostIndex upDown immediateOffset writeBack true 3 opcode s).R rd =
        (if a &&& 1 ≠ 0 then asr32 (u32 (rotateMisaligned 2 h a <<< 24)) 24
          else asr32 (u32 (rotateMisaligned 2 h a <<< 16)) 16) ∧
      (halfwordDataTransfer E prePostIndex upDown immediateOffset writeBack true 3 opcode s).bus =
        .iCycle 1 :: .read 16 false a false :: hist) := by
  intro offset b a hist h y rd
  have hb' : ¬ ((opcode >>> 16) &&& 0xF = 15 ∧ writeBack = true) := hb
  refine ⟨⟨?_, ?_⟩, ⟨?_, ?_⟩, ⟨?_, ?_⟩⟩ <;>
    simp [halfwordDataTransfer, hb', hrd, busRead, iCycle, R_setR, h, y, hist, a, b, offset, rd]

/-- The states returned by the loads through `thumbLoadStoreSext`: the loaded
value is in Rd and the bus has seen the opcode fetch, the data read and one
internal cycle. -/
theorem thumbLoadStoreSext_load (E : Env) (offsetReg opcode : Nat) (t : CPU) :
    let a := u32 (t.R (reg3 (opcode >>> 3)) + t.R (reg4 offsetReg))
    let hist := (fetchOpcode E t).bus
    let h := E.busRead hist 16 false a false % 2 ^ 16
    let y := E.busRead hist 8 false a false % 2 ^ 8
    ((thumbLoadStoreSext E 2 offsetReg opcode t).R (reg3 opcode) = rotateMisaligned 2 h a ∧
      (thumbLoadStoreSext E 2 offsetReg opcode t).bus = .iCycle 1 :: .read 16 false a false :: hist) ∧
    ((thumbLoadStoreSext E 1 offsetReg opcode t).R (reg3 opcode) = asr32 (u32 (y <<< 24)) 24 ∧
      (thumbLoadStoreSext E 1 offsetReg opcode t).bus = .iCycle 1 :: .read 8 false a false :: hist) ∧
    ((thumbLoadStoreSext E 3 offsetReg opcode t).R (reg3 opcode) =
        (if a &&& 1 ≠ 0 then asr32 (u32 (rotateMisaligned 2 h a <<< 24)) 24
          else asr32 (u32 (rotateMisaligned 2 h a <<< 16)) 16) ∧
      (thumbLoadStoreSext E 3 offsetReg opcode t).bus = .iCycle 1 :: .read 16 false a false :: hist) := by
  intro a hist h y
  refine ⟨⟨?_, ?_⟩, ⟨?_, ?_⟩, ⟨?_, ?_⟩⟩ <;>
    simp [thumbLoadStoreSext, busRead, iCycle, R_setR, h, y, hist, a]

/-- C35: halfword and signed loads.  With `a` the effective address, `h` the
halfword and `y` the byte the bus returns for the non-sequential data read at
`a`: `LDRH` yields `h` at an even address and `h` rotated right by 8 bits as a
32-bit word at an odd one; `LDRSB` yields `y` sign-extended from 8 bits;
`LDRSH` yields `h` sign-extended from 16 bits at an even address and the high
byte `h[15:8]` sign-extended from 8 bits at an odd one.  The ARM form
(`halfwordDataTransfer` with a destination other than R15 and not a base of
R15 with writeback) and the Thumb form (`thumbLoadStoreSext`) load the value
of the same function of the address and the bus data into the destination;
each makes one data read, of 16 bits (8 for `LDRSB`), and one internal cycle. -/
theorem halfword_load_values (E : Env) (prePostIndex upDown immediateOffset writeBack : Bool)
    (opcode : Nat) (s : CPU) (offsetReg thumbOpcode : Nat) (t : CPU)
    (hrd : (opcode >>> 12) &&& 0xF ≠ 15)
    (hb : ¬ ((opcode >>> 16) &&& 0xF = 15 ∧ writeBack = true)) :
    let sext8 := fun (y : Nat) => if y < 128 then y else y + 0xFFFFFF00
    let sext16 := fun (h : Nat) => if h < 32768 then h else h + 0xFFFF0000
    let ldrh := fun (a h : Nat) => if a % 2 = 1 then h / 256 + h % 256 * 2 ^ 24 else h
    let ldrsh := fun (a h : Nat) => if a % 2 = 1 then sext8 (h / 256) else sext16 h
    let offset := if immediateOffset then ((opcode &&& 0xF00) >>> 4) ||| (opcode &&& 0xF) else s.R (reg4 opcode)
    let b := s.R (reg4 ((opcode >>> 16) &&& 0xF))
    let a := if prePostIndex then (if upDown then u32 (b + offset) else sub32 b offset) else b
    let hist := (fetchOpcode E s).bus
    let h := E.busRead hist 16 false a false % 2 ^ 16
    let y := E.busRead hist 8 false a false % 2 ^ 8
    let rd := reg4 ((opcode >>> 12) &&& 0xF)
    let arm := fun (shBits : Nat) =>
      halfwordDataTransfer E prePostIndex upDown immediateOffset writeBack true shBits opcode s
    let ta := u32 (t.R (reg3 (thumbOpcode >>> 3)) + t.R (reg4 offsetReg))
    let thist := (fetchOpcode E t).bus
    let th := E.busRead thist 16 false ta false % 2 ^ 16
    let ty := E.busRead thist 8 false ta false % 2 ^ 8
    let thumb := fun (hsBits : Nat) => thumbLoadStoreSext E hsBits offsetReg thumbOpcode t
    ((arm 1).R rd = ldrh a h ∧ (arm 1).bus = .iCycle 1 :: .read 16 false a false :: hist) ∧
    ((arm 2).R rd = sext8 y ∧ (arm 2).bus = .iCycle 1 :: .read 8 false a false :: hist) ∧
    ((arm 3).R rd = ldrsh a h ∧ (arm 3).bus = .iCycle 1 :: .read 16 false a false :: hist) ∧
    ((thumb 2).R (reg3 thumbOpcode) = ldrh ta th ∧
      (thumb 2).bus = .iCycle 1 :: .read 16 false ta false :: thist) ∧
    ((thumb 1).R (reg3 thumbOpcode) = sext8 ty ∧
      (thumb 1).bus = .iCycle 1 :: .read 8 false ta false :: thist) ∧
    ((thumb 3).R (reg3 thumbOpcode) = ldrsh ta th ∧
      (thumb 3).bus = .iCycle 1 :: .read 16 false ta false :: thist) := by
  intro sext8 sext16 ldrh ldrsh offset b a hist h y rd arm ta thist th ty thumb
  have hh : h < 2 ^ 16 := Nat.mod_lt _ (by decide)
  have hy : y < 2 ^ 8 := Nat.mod_lt _ (by decide)
  have hth : th < 2 ^ 16 := Nat.mod_lt _ (by decide)
  have hty : ty < 2 ^ 8 := Nat.mod_lt _ (by decide)
  have ey : y % 256 = y := Nat.mod_eq_of_lt hy
  have ety : ty % 256 = ty := Nat.mod_eq_of_lt hty
  obtain ⟨⟨a1, b1⟩, ⟨a2, b2⟩, ⟨a3, b3⟩⟩ :=
    halfwordDataTransfer_load E prePostIndex upDown immediateOffset writeBack opcode s hrd hb
  obtain ⟨⟨c2, d2⟩, ⟨c1, d1⟩, ⟨c3, d3⟩⟩ := thumbLoadStoreSext_load E offsetReg thumbOpcode t
  have v1 : rotateMisaligned 2 h a = ldrh a h := rotateMisaligned_half h a hh
  have v2 : asr32 (u32 (y <<< 24)) 24 = sext8 y := by
    rw [sign_extend_byte, ey]
  have v3 : (if a &&& 1 ≠ 0 then asr32 (u32 (rotateMisaligned 2 h a <<< 24)) 24
      else asr32 (u32 (rotateMisaligned 2 h a <<< 16)) 16) = ldrsh a h := ldrsh_value h a hh
  have w1 : rotateMisaligned 2 th ta = ldrh ta th := rotateMisaligned_half th ta hth
  have w2 : asr32 (u32 (ty <<< 24)) 24 = sext8 ty := by
    rw [sign_extend_byte, ety]
  have w3 : (if ta &&& 1 ≠ 0 then asr32 (u32 (rotateMisaligned 2 th ta <<< 24)) 24
      else asr32 (u32 (rotateMisaligned 2 th ta <<< 16)) 16) = ldrsh ta th := ldrsh_value th ta hth
  exact ⟨⟨a1.trans v1, b1⟩, ⟨a2.trans v2, b2⟩, ⟨a3.trans v3, b3⟩, ⟨c2.trans w1, d2⟩, ⟨c1.trans w2, d1⟩,
    ⟨c3.trans w3, d3⟩⟩

/-- Witness for C35: over a bus that returns `0x8100` for the read at the odd
address `0x80FF`, with R1 = `0x80FF` and R2 = 0, the `LDRH` and `LDRSH`
instances of the ARM handler on the operand fields of `LDRSH r0, [r1]`
(`0xE1D100F0`) and the `LDRH` and `LDSH` instances of the Thumb handler on
those of `LDSH r0, [r1, r2]` (`0x5E88`) give `0x81` and `0xFFFFFF81`. -/
theorem halfword_load_values_witness :
    (0xE1D100F0 >>> 12) &&& 0xF ≠ 15 ∧ ¬ ((0xE1D100F0 >>> 16) &&& 0xF = 15 ∧ false = true) ∧
    decode (((0xE1D100F0 &&& 0x0FF00000) >>> 16) ||| ((0xE1D100F0 &&& 0x000000F0) >>> 4)) =
      .halfwordDataTransfer true true true false true 3 ∧
    decodeThumb (0x5E88 >>> 6) = .thumbLoadStoreSext 3 2 ∧
    (halfwordDataTransfer sampleEnv true true true false true 1 0xE1D100F0 (sampleCPU.setR 1 0x80FF)).R 0 = 0x81 ∧
    (halfwordDataTransfer sampleEnv true true true false true 3 0xE1D100F0 (sampleCPU.setR 1 0x80FF)).R 0 =
      0xFFFFFF81 ∧
    (thumbLoadStoreSext sampleEnv 2 2 0x5E88 (((sampleCPU.setCPSR 0x3F).setR 1 0x80FF).setR 2 0)).R 0 = 0x81 ∧
    (thumbLoadStoreSext sampleEnv 3 2 0x5E88 (((sampleCPU.setCPSR 0x3F).setR 1 0x80FF).setR 2 0)).R 0 =
      0xFFFFFF81 := by
  obtain ⟨⟨a1, _⟩, _, ⟨a3, _⟩, ⟨c2, _⟩, _, ⟨c3, _⟩⟩ :=
    halfword_load_values sampleEnv true true true false 0xE1D100F0 (sampleCPU.setR 1 0x80FF) 2 0x5E88
      (((sampleCPU.setCPSR 0x3F).setR 1 0x80FF).setR 2 0) (by decide) (by decide)
  exact ⟨by decide, by decide, by decide, by decide, a1.trans (by decide), a3.trans (by decide),
    c2.trans (by decide), c3.trans (by decide)⟩

/-! ## Thumb register shifts against the ARM shifter -/

theorem flagC_setFlagC (s : CPU) (b : Bool) : (s.setFlagC b).flagC = b := by
  simp [CPU.setFlagC, testBit_setBit]

/-- The shift cases of `thumbAluReg` compute the value and the carry of the
ARM shifter with a register-specified amount whenever the amount register
holds less than 256. -/
theorem thumbAluRegOp_shift (E : Env) (op ty opcode operand1 operand2 : Nat) (s : CPU)
    (hop : (op = 2 ∧ ty = 0) ∨ (op = 3 ∧ ty = 1) ∨ (op = 4 ∧ ty = 2) ∨ (op = 7 ∧ ty = 3))
    (h4 : opcode.testBit 4 = true) (hty : (opcode >>> 5) &&& 3 = ty)
    (hRm : s.R (reg4 opcode) = operand1) (hRs : s.R (reg4 (opcode >>> 8)) = operand2)
    (h2 : operand2 < 256) :
    (thumbAluRegOp E op operand1 operand2 s).1 = (computeShift false false opcode s).2 ∧
    (thumbAluRegOp E op operand1 operand2 s).2.flagC = (computeShift false false opcode s).1 := by
  have hand : operand2 &&& 0xFF = operand2 := by
    have := Nat.and_pow_two_sub_one_eq_mod operand2 8
    have e : (2 : Nat) ^ 8 - 1 = 0xFF := by decide
    rw [e] at this
    rw [this]
    exact Nat.mod_eq_of_lt h2
  have hfC : ∀ x : CPU, (fetchOpcode E x).flagC = x.flagC := fun x => (flags_fetchOpcode E x).2.2.1
  rcases hop with ⟨h, h'⟩ | ⟨h, h'⟩ | ⟨h, h'⟩ | ⟨h, h'⟩ <;> subst h <;> subst h' <;>
    simp only [thumbAluRegOp, computeShift, h4, hty, hRm, hRs, hand, hfC, Bool.false_and, Bool.true_and,
      Bool.false_eq_true, if_false, if_true, Bool.not_false, Bool.and_false, Bool.and_true]
  all_goals
    by_cases h0 : operand2 = 0
    · simp [h0]
    · simp only [h0, decide_False, Bool.false_eq_true, if_false, false_or, ne_eq, not_false_eq_true, if_true]
      split_ifs <;> simp [flagC_setFlagC, Nat.pos_iff_ne_zero]

/-- The state `thumbAluReg` returns for a shift when the amount register holds
less than 256: the value, N, Z and C are those of the ARM shifter followed by
the `MOVS` flag update. -/
theorem thumbAluReg_shift_low_byte (E : Env) (op ty thumbOpcode opcode : Nat) (t : CPU)
    (hop : (op = 2 ∧ ty = 0) ∨ (op = 3 ∧ ty = 1) ∨ (op = 4 ∧ ty = 2) ∨ (op = 7 ∧ ty = 3))
    (h4 : opcode.testBit 4 = true) (hty : (opcode >>> 5) &&& 3 = ty)
    (hRm : reg4 opcode = reg3 thumbOpcode) (hRs : reg4 (opcode >>> 8) = reg3 (thumbOpcode >>> 3))
    (h2 : t.R (reg3 (thumbOpcode >>> 3)) < 256) :
    (thumbAluReg E op thumbOpcode t).R (reg3 thumbOpcode) = (computeShift false false opcode t).2 ∧
    (thumbAluReg E op thumbOpcode t).flagN = decide ((computeShift false false opcode t).2 >>> 31 ≠ 0) ∧
    (thumbAluReg E op thumbOpcode t).flagZ = decide ((computeShift false false opcode t).2 = 0) ∧
    (thumbAluReg E op thumbOpcode t).flagC = (computeShift false false opcode t).1 := by
  obtain ⟨hv, hc⟩ := thumbAluRegOp_shift E op ty opcode (t.R (reg3 thumbOpcode))
    (t.R (reg3 (thumbOpcode >>> 3))) t hop h4 hty (by rw [hRm]) (by rw [hRs]) h2
  have hs : thumbAluReg E op thumbOpcode t =
      iCycle 1 ((((thumbAluRegOp E op (t.R (reg3 thumbOpcode)) (t.R (reg3 (thumbOpcode >>> 3))) t).2.setFlagN
        (decide ((thumbAluRegOp E op (t.R (reg3 thumbOpcode)) (t.R (reg3 (thumbOpcode >>> 3))) t).1 >>> 31 ≠ 0))).setFlagZ
        (decide ((thumbAluRegOp E op (t.R (reg3 thumbOpcode)) (t.R (reg3 (thumbOpcode >>> 3))) t).1 = 0))).setR
        (reg3 thumbOpcode) (thumbAluRegOp E op (t.R (reg3 thumbOpcode)) (t.R (reg3 (thumbOpcode >>> 3))) t).1) := by
    rcases hop with ⟨h, _⟩ | ⟨h, _⟩ | ⟨h, _⟩ | ⟨h, _⟩ <;> subst h <;> rfl
  rw [hs, ← hv, ← hc]
  generalize thumbAluRegOp E op (t.R (reg3 thumbOpcode)) (t.R (reg3 (thumbOpcode >>> 3))) t = r
  refine ⟨?_, ?_, ?_, ?_⟩
  · simp [iCycle, R_setR]
  · simp [iCycle, CPU.setFlagN, CPU.setFlagZ, testBit_setBit, CPU.flagN]
  · simp [iCycle, CPU.setFlagN, CPU.setFlagZ, testBit_setBit, CPU.flagZ]
  · simp [iCycle, CPU.setFlagN, CPU.setFlagZ, testBit_setBit, CPU.flagC]

/-- C37 fails on the code: the shift cases of `thumbAluReg` take the whole
32-bit value of Rs as the shift amount, while the ARM shifter takes
`R[Rs] & 0xFF`.  Thumb `LSL r0, r1` (`0x4088`) with R0 = 1, R1 = `0x100` and C
set gives R0 = 0, Z = 1, C = 0, whereas the ARM shifter on the same registers
(`MOVS r0, r0, LSL r1`, `0xE1B00110`) gives the value 1 and leaves C set, and
the ARM instruction leaves R0 = 1, Z = 0, C = 1.  The two agree, for LSL, LSR,
ASR and ROR, whenever Rs holds a value below 256. -/
theorem thumbAluReg_shift_full_rs :
    decodeThumb (0x4088 >>> 6) = .thumbAluReg 2 ∧
    decode (((0xE1B00110 &&& 0x0FF00000) >>> 16) ||| ((0xE1B00110 &&& 0x000000F0) >>> 4)) =
      .dataProcessing false 0xD true ∧
    ((thumbAluReg sampleEnv 2 0x4088 (((sampleCPU.setCPSR 0x2000003F).setR 0 1).setR 1 0x100)).R 0 = 0 ∧
      (thumbAluReg sampleEnv 2 0x4088 (((sampleCPU.setCPSR 0x2000003F).setR 0 1).setR 1 0x100)).flagZ = true ∧
      (thumbAluReg sampleEnv 2 0x4088 (((sampleCPU.setCPSR 0x2000003F).setR 0 1).setR 1 0x100)).flagC = false) ∧
    computeShift false false 0xE1B00110 (((sampleCPU.setCPSR 0x2000003F).setR 0 1).setR 1 0x100) = (true, 1) ∧
    (dataProcessing sampleEnv false 0xD true 0xE1B00110
      (((sampleCPU.setCPSR 0x2000001F).setR 0 1).setR 1 0x100)).map
        (fun s => (s.R 0, s.flagZ, s.flagC)) = some (1, false, true) ∧
    (∀ (E : Env) (op ty thumbOpcode opcode : Nat) (t : CPU),
      ((op = 2 ∧ ty = 0) ∨ (op = 3 ∧ ty = 1) ∨ (op = 4 ∧ ty = 2) ∨ (op = 7 ∧ ty = 3)) →
      opcode.testBit 4 = true → (opcode >>> 5) &&& 3 = ty →
      reg4 opcode = reg3 thumbOpcode → reg4 (opcode >>> 8) = reg3 (thumbOpcode >>> 3) →
      t.R (reg3 (thumbOpcode >>> 3)) < 256 →
      (thumbAluReg E op thumbOpcode t).R (reg3 thumbOpcode) = (computeShift false false opcode t).2 ∧
      (thumbAluReg E op thumbOpcode t).flagN = decide ((computeShift false false opcode t).2 >>> 31 ≠ 0) ∧
      (thumbAluReg E op thumbOpcode t).flagZ = decide ((computeShift false false opcode t).2 = 0) ∧
      (thumbAluReg E op thumbOpcode t).flagC = (computeShift false false opcode t).1) := by
  refine ⟨by decide, by decide, ⟨by decide, by decide, by decide⟩, by decide, by decide, ?_⟩
  intro E op ty thumbOpcode opcode t hop h4 hty hRm hRs h2
  exact thumbAluReg_shift_low_byte E op ty thumbOpcode opcode t hop h4 hty hRm hRs h2

/-! ## Block data transfer with an empty register list -/

theorem popcount16_zero : popcount16 0 = 0 := by decide

theorem testBit_of_low16_zero (opcode i : Nat) (h : opcode &&& 0xFFFF = 0) (hi : i < 16) :
    opcode.testBit i = false := by
  have e : (0xFFFF : Nat) = 2 ^ 16 - 1 := by decide
  have h' := congrArg (fun x => x.testBit i) h
  simp only [e, Nat.testBit_and, Nat.testBit_two_pow_sub_one, Nat.zero_testBit, hi, decide_True,
    Bool.and_true] at h'
  exact h'

/-- The state `blockDataTransfer` returns for an empty register list with
writeback and a base other than R15. -/
theorem blockDataTransfer_empty_eq (E : Env) (prePostIndex upDown sBit loadStore : Bool) (opcode : Nat) (s : CPU)
    (hempty : opcode &&& 0xFFFF = 0) (hb : (opcode >>> 16) &&& 0xF ≠ 15) :
    let b := s.R (reg4 ((opcode >>> 16) &&& 0xF))
    let address := if upDown then (if prePostIndex then u32 (b + 4) else b)
      else (if prePostIndex then sub32 b 0x40 else sub32 b 0x3C)
    let wb := if upDown then u32 (b + 0x40) else sub32 b 0x40
    let s1 := fetchOpcode E s
    blockDataTransfer E prePostIndex upDown sBit true loadStore opcode s =
      some (if loadStore then
        flushPipeline E (((s1.setR (reg4 ((opcode >>> 16) &&& 0xF)) wb).emit (.read 32 false address false)).setR 15
          (E.busRead s1.bus 32 false address false % 2 ^ 32))
      else
        (((s1.emit (.write 32 address (s1.R 15 % 2 ^ 32) false)).setR (reg4 ((opcode >>> 16) &&& 0xF)) wb).setNextFetchType
          false)) := by
  intro b address wb s1
  have h15 : opcode.testBit 15 = false := testBit_of_low16_zero opcode 15 hempty (by decide)
  have ewb : wb = (if upDown then u32 (u32 (b + 0 * 4) + 0x40) else sub32 (sub32 b (0 * 4)) 0x40) := by
    show (if upDown then u32 (b + 0x40) else sub32 b 0x40) = _
    split
    · unfold u32; omega
    · unfold sub32; omega
  have eaddr : address = (if upDown then (if prePostIndex then u32 (b + 4) else b)
      else (if !prePostIndex then u32 (sub32 (sub32 b (0 * 4)) 0x40 + 4) else sub32 (sub32 b (0 * 4)) 0x40)) := by
    show (if upDown then (if prePostIndex then u32 (b + 4) else b)
      else (if prePostIndex then sub32 b 0x40 else sub32 b 0x3C)) = _
    cases upDown <;> cases prePostIndex <;> simp <;> simp only [sub32, u32] <;> omega
  rw [ewb, eaddr]
  cases loadStore <;> cases upDown <;> cases prePostIndex <;>
    simp [blockDataTransfer, hempty, hb, h15, popcount16_zero, busRead, busWrite, s1, b]

/-- C34 as stated fails on the code: `STMIB r0!, {}` (`0xE9A00000`) with
R0 = `0x100`, executed with R15 = `0x1000`, makes its one data access at
`0x104`, not at the base address `0x100`. -/
theorem blockDataTransfer_empty_not_at_base :
    decode (((0xE9A00000 &&& 0x0FF00000) >>> 16) ||| ((0xE9A00000 &&& 0x000000F0) >>> 4)) =
      .blockDataTransfer true true false true false ∧
    0xE9A00000 &&& 0xFFFF = 0 ∧ sampleCPU.R 0 = 0x100 ∧
    (blockDataTransfer sampleEnv true true false true false 0xE9A00000 sampleCPU).map (fun s => s.bus) =
      some [.write 32 0x104 0x1004 false, .read 32 true 0x1000 false] := by
  refine ⟨by decide, by decide, by decide, by decide⟩

/-- C34, amended: ARM `LDM`/`STM` at address `A` (ARM state, R15 = `A + 8`)
with an empty register list, writeback and a base register other than R15
holding `b`.  Exactly one word is transferred, non-sequentially, at `b` for
IA, `b + 4` for IB, `b - 0x3C` for DA and `b - 0x40` for DB (modulo `2^32`):
`STM` stores the value of R15, which is `A + 12`; `LDM` loads the word into
R15 and refills the pipeline from it.  The base register ends as `b + 0x40`
for the incrementing forms and `b - 0x40` for the decrementing forms; no
other register of R0..R14 changes and the CPSR is unchanged. -/
theorem blockDataTransfer_empty_list (E : Env) (prePostIndex upDown sBit loadStore : Bool) (opcode : Nat)
    (s : CPU) (A : Nat) (hT : s.thumbMode = false) (h15 : s.R 15 = u32 (A + 8))
    (hempty : opcode &&& 0xFFFF = 0) (hb : (opcode >>> 16) &&& 0xF ≠ 15) :
    let base := reg4 ((opcode >>> 16) &&& 0xF)
    let b := s.R base
    let address := if upDown then (if prePostIndex then u32 (b + 4) else b)
      else (if prePostIndex then sub32 b 0x40 else sub32 b 0x3C)
    let wb := if upDown then u32 (b + 0x40) else sub32 b 0x40
    let fetched := BusEvent.read 32 true (u32 (A + 8)) s.nextFetchType :: s.bus
    ∃ s', blockDataTransfer E prePostIndex upDown sBit true loadStore opcode s = some s' ∧
      s'.R base = wb ∧
      (∀ i : Fin 16, i ≠ base → i ≠ 15 → s'.R i = s.R i) ∧
      s'.CPSR = s.CPSR ∧
      (loadStore = false →
        s'.bus = .write 32 address (u32 (A + 12)) false :: fetched ∧ s'.R 15 = u32 (A + 12)) ∧
      (loadStore = true →
        let v := E.busRead fetched 32 false address false % 2 ^ 32
        s'.R 15 = u32 ((v &&& 0xFFFFFFFC) + 8) ∧
        s'.pipelineOpcode3 =
          E.busRead (.read 32 false address false :: fetched) 32 true (v &&& 0xFFFFFFFC) false % 2 ^ 32 ∧
        s'.bus = .read 32 true (u32 ((v &&& 0xFFFFFFFC) + 4)) true :: .read 32 true (v &&& 0xFFFFFFFC) false ::
          .read 32 false address false :: fetched) := by
  intro base b address wb fetched
  have hbase : base ≠ 15 := reg4_field_ne (opcode >>> 16) hb
  have hd := blockDataTransfer_empty_eq E prePostIndex upDown sBit loadStore opcode s hempty hb
  simp only at hd
  obtain ⟨gC, gB, g15, gR, gbus, _, _⟩ := fetchOpcode_fields E s
  have hwid : width s = 4 := by simp [width, hT]
  rw [hwid, h15] at g15 gbus
  have e12 : u32 (u32 (A + 8) + 4) = u32 (A + 12) := by unfold u32; omega
  rw [e12] at g15
  have gbus' : (fetchOpcode E s).bus = fetched := gbus
  rw [gbus'] at hd
  generalize fetchOpcode E s = f at hd gC gB g15 gR gbus gbus'
  cases loadStore
  · simp only [Bool.false_eq_true, if_false] at hd
    refine ⟨_, hd, ?_, ?_, ?_, ?_, ?_⟩
    · simp [R_setR, base, wb, b]
    · intro i hi hi15
      simp only [R_setNextFetchType, R_setR, R_emit]
      rw [if_neg hi]
      exact gR i hi15
    · simp [gC]
    · intro _
      refine ⟨?_, ?_⟩
      · have e : u32 (A + 12) < 4294967296 := by unfold u32; omega
        simp [gbus', g15, address, b, base, Nat.mod_eq_of_lt e]
      · simp only [R_setNextFetchType, R_setR, R_emit]
        rw [if_neg (Ne.symm hbase)]
        exact g15
    · intro h; exact absurd h (by decide)
  · simp only [if_true] at hd
    generalize hw : (((f.setR (reg4 ((opcode >>> 16) &&& 0xF)) wb).emit (.read 32 false address false)).setR 15
      (E.busRead fetched 32 false address false % 2 ^ 32)) = w at hd
    have wC : w.CPSR = s.CPSR := by subst hw; simp [gC]
    have wT : width w = 4 := by
      show (if w.CPSR.testBit 5 = true then 2 else 4) = 4
      rw [wC]
      have : s.CPSR.testBit 5 = false := hT
      simp [this]
    have w15 : w.R 15 = E.busRead fetched 32 false address false % 2 ^ 32 := by subst hw; simp [R_setR]
    have wbus : w.bus = .read 32 false address false :: fetched := by
      subst hw; simp [gbus']
    have wR : ∀ i : Fin 16, i ≠ 15 → w.R i = if i = base then wb else s.R i := by
      intro i hi
      subst hw
      simp only [R_setR, R_emit]
      rw [if_neg hi]
      split
      · rfl
      · exact gR i hi
    obtain ⟨p15, p3, pbus, pR, _⟩ := flushPipeline_facts E w
    rw [wT, w15] at p15
    generalize E.busRead fetched 32 false address false % 2 ^ 32 = v at p15 w15
    have f15 : (flushPipeline E w).R 15 = u32 ((v &&& 0xFFFFFFFC) + 8) := by
      rw [p15, and_FFFFFFFC]; unfold u32; omega
    have es8 : sub32 ((flushPipeline E w).R 15) (2 * 4) = v &&& 0xFFFFFFFC := by
      rw [f15, and_FFFFFFFC]; unfold sub32 u32; omega
    have es4 : sub32 ((flushPipeline E w).R 15) 4 = u32 ((v &&& 0xFFFFFFFC) + 4) := by
      rw [f15, and_FFFFFFFC]; unfold sub32 u32; omega
    rw [wT, es8, wbus] at p3
    rw [wT, es8, es4, wbus] at pbus
    refine ⟨_, hd, ?_, ?_, ?_, ?_, ?_⟩
    · rw [pR base hbase, wR base hbase, if_pos rfl]
    · intro i hi hi15
      rw [pR i hi15, wR i hi15, if_neg hi]
    · rw [CPSR_flushPipeline, wC]
    · intro h; exact absurd h (by decide)
    · intro _
      exact ⟨f15, p3, pbus⟩

/-- Witness for C34: `STMDA r0!, {}` (`0xE8200000`) at `0x1000` with R0 =
`0x100` stores `0x100C` at `0xC4` and leaves R0 = `0xC0`. -/
theorem blockDataTransfer_empty_list_witness :
    (sampleCPU.setR 15 0x1008).thumbMode = false ∧ (sampleCPU.setR 15 0x1008).R 15 = u32 (0x1000 + 8) ∧
    0xE8200000 &&& 0xFFFF = 0 ∧ (0xE8200000 >>> 16) &&& 0xF ≠ 15 ∧
    decode (((0xE8200000 &&& 0x0FF00000) >>> 16) ||| ((0xE8200000 &&& 0x000000F0) >>> 4)) =
      .blockDataTransfer false false false true false ∧
    ∃ s', blockDataTransfer sampleEnv false false false true false 0xE8200000 (sampleCPU.setR 15 0x1008) =
        some s' ∧
      s'.R 0 = 0xC0 ∧ s'.bus = [.write 32 0xC4 0x100C false, .read 32 true 0x1008 false] := by
  obtain ⟨s', h, hR, _, _, hS, _⟩ :=
    blockDataTransfer_empty_list sampleEnv false false false false 0xE8200000 (sampleCPU.setR 15 0x1008) 0x1000
      (by decide) (by decide) (by decide) (by decide)
  exact ⟨by decide, by decide, by decide, by decide, by decide, s', h, hR.trans (by decide),
    (hS rfl).1.trans (by decide)⟩

/-! ## Block data transfer: the register loop -/

theorem registersBelow_zero (opcode : Nat) : registersBelow opcode 0 = 0 := rfl

theorem registersBelow_succ (opcode i : Nat) :
    registersBelow opcode (i + 1) = registersBelow opcode i + (if opcode.testBit i then 1 else 0) := by
  unfold registersBelow
  rw [List.range_succ, List.filter_append, List.length_append]
  by_cases h : opcode.testBit i = true
  · simp [h]
  · simp [h]

theorem registersBelow_mono (opcode : Nat) {i j : Nat} (h : i ≤ j) :
    registersBelow opcode i ≤ registersBelow opcode j := by
  induction j with
  | zero =>
    have : i = 0 := by omega
    rw [this]
  | succ j ih =>
    by_cases hij : i = j + 1
    · rw [hij]
    · have := ih (by omega)
      rw [registersBelow_succ]
      omega

theorem registersBelow_le (opcode i : Nat) : registersBelow opcode i ≤ i := by
  induction i with
  | zero => exact Nat.le_refl _
  | succ i ih =>
    rw [registersBelow_succ]
    split <;> omega

/-- A listed register below `j` makes the count below `j` positive. -/
theorem registersBelow_pos (opcode : Nat) {i j : Nat} (hij : i < j) (hi : opcode.testBit i = true) :
    registersBelow opcode j ≠ 0 := by
  have h1 := registersBelow_succ opcode i
  rw [hi] at h1
  simp only [if_true] at h1
  have h2 : registersBelow opcode (i + 1) ≤ registersBelow opcode j := registersBelow_mono opcode hij
  omega

theorem popcount16_low (opcode : Nat) : popcount16 (opcode &&& 0xFFFF) = registersBelow opcode 16 := by
  unfold popcount16 registersBelow
  congr 1
  apply List.filter_congr
  intro i hi
  have hi' : i < 16 := List.mem_range.mp hi
  have e : (0xFFFF : Nat) = 2 ^ 16 - 1 := by decide
  rw [e, Nat.testBit_and, Nat.testBit_two_pow_sub_one]
  simp [hi']

theorem low16_ne_zero (opcode : Nat) (h : opcode &&& 0xFFFF ≠ 0) : registersBelow opcode 16 ≠ 0 := by
  intro h0
  apply h
  apply Nat.eq_of_testBit_eq
  intro i
  have e : (0xFFFF : Nat) = 2 ^ 16 - 1 := by decide
  rw [e, Nat.testBit_and, Nat.testBit_two_pow_sub_one, Nat.zero_testBit]
  by_cases hi : i < 16
  · by_cases hb : opcode.testBit i = true
    · exact absurd h0 (registersBelow_pos opcode hi hb)
    · simp [hb]
  · simp [hi]

theorem blockEvents_zero (mk : Nat → Nat → Bool → BusEvent) (opcode start : Nat) :
    blockEvents mk opcode start 0 = [] := rfl

theorem blockEvents_succ (mk : Nat → Nat → Bool → BusEvent) (opcode start j : Nat) :
    blockEvents mk opcode start (j + 1) =
      if opcode.testBit j then
        mk j (u32 (start + 4 * registersBelow opcode j)) (decide (registersBelow opcode j ≠ 0)) ::
          blockEvents mk opcode start j
      else blockEvents mk opcode start j := by
  unfold blockEvents
  rw [List.range_succ, List.filter_append, List.map_append, List.reverse_append]
  by_cases h : opcode.testBit j = true
  · simp [h]
  · simp [h]

/-- The events depend on `mk` at the listed registers only. -/
theorem blockEvents_congr (mk mk2 : Nat → Nat → Bool → BusEvent) (opcode start j : Nat)
    (h : ∀ i, i < j → opcode.testBit i = true → ∀ a q, mk i a q = mk2 i a q) :
    blockEvents mk opcode start j = blockEvents mk2 opcode start j := by
  unfold blockEvents
  congr 1
  apply List.map_congr_left
  intro i hi
  rw [List.mem_filter, List.mem_range] at hi
  exact h i hi.1 hi.2 _ _

/-- The event of a listed register is among the events. -/
theorem mem_blockEvents (mk : Nat → Nat → Bool → BusEvent) (opcode start : Nat) {i j : Nat}
    (hij : i < j) (hi : opcode.testBit i = true) :
    mk i (u32 (start + 4 * registersBelow opcode i)) (decide (registersBelow opcode i ≠ 0)) ∈
      blockEvents mk opcode start j := by
  unfold blockEvents
  rw [List.mem_reverse, List.mem_map]
  exact ⟨i, by rw [List.mem_filter, List.mem_range]; exact ⟨hij, hi⟩, rfl⟩

theorem reg4_val_of_lt {i : Nat} (h : i < 16) : (reg4 i).val = i := by
  simp only [reg4]
  omega

theorem eq_reg4_iff (k : Fin 16) {i : Nat} (h : i < 16) : k = reg4 i ↔ k.val = i := by
  rw [Fin.ext_iff, reg4_val_of_lt h]

/-- The register loop of `STM` without the user-bank transfer, after the
registers below `j`: the `k`-th lowest listed register is written at
`a0 + 4 * k`, the first write non-sequential and the others sequential; the
base register receives the writeback value after the first write, so a listed
base is stored with its original value only when it is the lowest listed
register. -/
theorem stm_loop (writeBack : Bool) (opcode baseRegister wb : Nat) (s1 : CPU) (a0 : Nat) (ha0 : a0 < 2 ^ 32)
    (j : Nat) :
    let st := (List.range j).foldl (stmStep writeBack false opcode baseRegister wb)
      { cpu := s1, address := a0, firstReadWrite := true }
    st.address = u32 (a0 + 4 * registersBelow opcode j) ∧
    st.firstReadWrite = decide (registersBelow opcode j = 0) ∧
    st.cpu.bus = blockEvents (fun i a q => .write 32 a
      ((if writeBack = true ∧ registersBelow opcode i ≠ 0 ∧ reg4 i = reg4 baseRegister then wb
        else s1.R (reg4 i)) % 2 ^ 32) q) opcode a0 j ++ s1.bus ∧
    (∀ k, st.cpu.R k =
      if writeBack = true ∧ registersBelow opcode j ≠ 0 ∧ k = reg4 baseRegister then wb else s1.R k) ∧
    st.cpu.CPSR = s1.CPSR := by
  induction j with
  | zero =>
    refine ⟨?_, ?_, ?_, ?_, ?_⟩
    · show a0 = u32 (a0 + 4 * 0)
      unfold u32; omega
    · rfl
    · rfl
    · intro k
      show s1.R k = _
      rw [registersBelow_zero]
      simp
    · rfl
  | succ j ih =>
    intro st
    have hst : st = stmStep writeBack false opcode baseRegister wb
        ((List.range j).foldl (stmStep writeBack false opcode baseRegister wb)
          { cpu := s1, address := a0, firstReadWrite := true }) j := by
      show (List.range (j + 1)).foldl _ _ = _
      rw [List.range_succ, List.foldl_append]
      rfl
    obtain ⟨hA, hF, hB, hR, hC⟩ := ih
    generalize (List.range j).foldl (stmStep writeBack false opcode baseRegister wb)
      { cpu := s1, address := a0, firstReadWrite := true } = t at hst hA hF hB hR hC
    rw [hst, registersBelow_succ, blockEvents_succ]
    generalize hc : registersBelow opcode j = c at hA hF hB hR
    by_cases hbit : opcode.testBit j = true
    · have hstep : stmStep writeBack false opcode baseRegister wb t j =
          { cpu := if t.firstReadWrite = true then
                (if writeBack = true then
                  (busWrite 32 t.address (t.cpu.R (reg4 j)) (!t.firstReadWrite) t.cpu).setR (reg4 baseRegister) wb
                else busWrite 32 t.address (t.cpu.R (reg4 j)) (!t.firstReadWrite) t.cpu)
              else busWrite 32 t.address (t.cpu.R (reg4 j)) (!t.firstReadWrite) t.cpu,
            address := u32 (t.address + 4), firstReadWrite := false } := by
        simp [stmStep, hbit]
      rw [hstep]
      simp only [hbit, if_true]
      have hv : t.cpu.R (reg4 j) =
          (if writeBack = true ∧ c ≠ 0 ∧ reg4 j = reg4 baseRegister then wb else s1.R (reg4 j)) := hR _
      have hbus : ∀ x : CPU, x = (if t.firstReadWrite = true then
                (if writeBack = true then
                  (busWrite 32 t.address (t.cpu.R (reg4 j)) (!t.firstReadWrite) t.cpu).setR (reg4 baseRegister) wb
                else busWrite 32 t.address (t.cpu.R (reg4 j)) (!t.firstReadWrite) t.cpu)
              else busWrite 32 t.address (t.cpu.R (reg4 j)) (!t.firstReadWrite) t.cpu) →
          x.bus = .write 32 t.address (t.cpu.R (reg4 j) % 2 ^ 32) (!t.firstReadWrite) :: t.cpu.bus ∧
          x.CPSR = t.cpu.CPSR ∧
          (∀ k, x.R k = if t.firstReadWrite = true ∧ writeBack = true ∧ k = reg4 baseRegister then wb
            else t.cpu.R k) := by
        intro x hx
        rw [hx]
        cases t.firstReadWrite <;> cases writeBack <;> simp [busWrite, R_setR]
      obtain ⟨xb, xC, xR⟩ := hbus _ rfl
      refine ⟨?_, ?_, ?_, ?_, ?_⟩
      · show u32 (t.address + 4) = _
        rw [hA]; unfold u32; omega
      · show false = _
        simp
      · show CPU.bus _ = _
        rw [xb, hB, hA, hF, hv]
        simp
      · intro k
        show CPU.R _ k = _
        rw [xR k, hR k, hF]
        by_cases h0 : c = 0
        · simp [h0]
        · simp [h0]
      · show CPU.CPSR _ = _
        rw [xC, hC]
    · have hstep : stmStep writeBack false opcode baseRegister wb t j = t := by
        simp [stmStep, hbit]
      rw [hstep]
      simp only [hbit, Bool.false_eq_true, if_false, Nat.add_zero]
      exact ⟨hA, hF, hB, hR, hC⟩

/-- The register loop of `LDM` without the user-bank transfer, after the
registers below `j`: the `k`-th lowest listed register is read at
`a0 + 4 * k`, the first read non-sequential and the others sequential, and
receives the word read; the base register receives the writeback value
before the first read, so a loaded value replaces it. -/
theorem ldm_loop (E : Env) (writeBack : Bool) (opcode baseRegister wb : Nat) (s1 : CPU) (a0 : Nat)
    (ha0 : a0 < 2 ^ 32) (j : Nat) (hj : j ≤ 16) :
    let reads := fun n => blockEvents (fun _ a q => BusEvent.read 32 false a q) opcode a0 n
    let value := fun i => E.busRead (reads i ++ s1.bus) 32 false (u32 (a0 + 4 * registersBelow opcode i))
      (decide (registersBelow opcode i ≠ 0)) % 2 ^ 32
    let st := (List.range j).foldl (ldmStep E writeBack false opcode baseRegister wb)
      { cpu := s1, address := a0, firstReadWrite := true }
    st.address = u32 (a0 + 4 * registersBelow opcode j) ∧
    st.firstReadWrite = decide (registersBelow opcode j = 0) ∧
    st.cpu.bus = reads j ++ s1.bus ∧
    (∀ k : Fin 16, st.cpu.R k =
      if k.val < j ∧ opcode.testBit k.val = true then value k.val
      else if writeBack = true ∧ registersBelow opcode j ≠ 0 ∧ k = reg4 baseRegister then wb else s1.R k) ∧
    st.cpu.CPSR = s1.CPSR := by
  induction j with
  | zero =>
    intro reads value st
    refine ⟨?_, ?_, ?_, ?_, ?_⟩
    · show a0 = u32 (a0 + 4 * 0)
      unfold u32; omega
    · rfl
    · rfl
    · intro k
      show s1.R k = _
      rw [registersBelow_zero]
      simp
    · rfl
  | succ j ih =>
    intro reads value st
    have hj16 : j < 16 := by omega
    have hst : st = ldmStep E writeBack false opcode baseRegister wb
        ((List.range j).foldl (ldmStep E writeBack false opcode baseRegister wb)
          { cpu := s1, address := a0, firstReadWrite := true }) j := by
      show (List.range (j + 1)).foldl _ _ = _
      rw [List.range_succ, List.foldl_append]
      rfl
    obtain ⟨hA, hF, hB, hR, hC⟩ := ih (by omega)
    have hB' : CPU.bus _ = reads j ++ s1.bus := hB
    have hR' : ∀ k : Fin 16, CPU.R _ k =
      if k.val < j ∧ opcode.testBit k.val = true then value k.val
      else if writeBack = true ∧ registersBelow opcode j ≠ 0 ∧ k = reg4 baseRegister then wb else s1.R k := hR
    clear hB hR
    generalize (List.range j).foldl (ldmStep E writeBack false opcode baseRegister wb)
      { cpu := s1, address := a0, firstReadWrite := true } = t at hst hA hF hB' hR' hC
    have hreads : reads (j + 1) = if opcode.testBit j then
        BusEvent.read 32 false (u32 (a0 + 4 * registersBelow opcode j)) (decide (registersBelow opcode j ≠ 0)) ::
          reads j
        else reads j := blockEvents_succ _ opcode a0 j
    have hvalue : value j = E.busRead (reads j ++ s1.bus) 32 false (u32 (a0 + 4 * registersBelow opcode j))
      (decide (registersBelow opcode j ≠ 0)) % 2 ^ 32 := rfl
    rw [hst, registersBelow_succ, hreads]
    clear_value reads value
    by_cases hbit : opcode.testBit j = true
    · generalize hx : (if t.firstReadWrite = true then
          (if writeBack = true then t.cpu.setR (reg4 baseRegister) wb else t.cpu) else t.cpu) = x
      have hstep : ldmStep E writeBack false opcode baseRegister wb t j =
          { cpu := (x.emit (.read 32 false t.address (!t.firstReadWrite))).setR (reg4 j)
              (E.busRead x.bus 32 false t.address (!t.firstReadWrite) % 2 ^ 32),
            address := u32 (t.address + 4), firstReadWrite := false } := by
        rw [← hx]
        simp [ldmStep, hbit, busRead]
      have xb : x.bus = t.cpu.bus := by
        rw [← hx]; cases t.firstReadWrite <;> cases writeBack <;> rfl
      have xC : x.CPSR = t.cpu.CPSR := by
        rw [← hx]; cases t.firstReadWrite <;> cases writeBack <;> rfl
      have xR : ∀ k, x.R k = if t.firstReadWrite = true ∧ writeBack = true ∧ k = reg4 baseRegister then wb
          else t.cpu.R k := by
        intro k
        rw [← hx]; cases t.firstReadWrite <;> cases writeBack <;> simp [R_setR]
      rw [hstep]
      simp only [hbit, if_true]
      have hseq : (!t.firstReadWrite) = decide (registersBelow opcode j ≠ 0) := by
        rw [hF]; simp
      refine ⟨?_, ?_, ?_, ?_, ?_⟩
      · show u32 (t.address + 4) = _
        rw [hA]; unfold u32; omega
      · show false = _
        simp
      · show CPU.bus _ = _
        simp only [bus_setR, bus_emit]
        rw [xb, hB', hA, hseq]
        rfl
      · intro k
        show CPU.R _ k = _
        simp only [R_setR, R_emit]
        by_cases hk : k = reg4 j
        · have hkv : k.val = j := (eq_reg4_iff k hj16).1 hk
          rw [if_pos hk, if_pos ⟨by omega, by rw [hkv]; exact hbit⟩, hkv, hvalue, xb, hB', hA, hseq]
        · have hkv : k.val ≠ j := fun h => hk ((eq_reg4_iff k hj16).2 h)
          rw [if_neg hk, xR k, hR' k, hF]
          by_cases hl : k.val < j ∧ opcode.testBit k.val = true
          · have hpos := registersBelow_pos opcode hl.1 hl.2
            have hl' : k.val < j + 1 ∧ opcode.testBit k.val = true := ⟨by omega, hl.2⟩
            simp [hl, hl', hpos]
          · have hl' : ¬ (k.val < j + 1 ∧ opcode.testBit k.val = true) := by
              intro h; exact hl ⟨by omega, h.2⟩
            rw [if_neg hl, if_neg hl']
            by_cases h0 : registersBelow opcode j = 0
            · simp [h0]
            · simp [h0]
      · show CPU.CPSR _ = _
        simp only [CPSR_setR, CPSR_emit]
        rw [xC, hC]
    · have hstep : ldmStep E writeBack false opcode baseRegister wb t j = t := by
        simp [ldmStep, hbit]
      rw [hstep]
      simp only [hbit, Bool.false_eq_true, if_false, Nat.add_zero]
      refine ⟨hA, hF, hB', ?_, hC⟩
      intro k
      rw [hR' k]
      have hiff : (k.val < j + 1 ∧ opcode.testBit k.val = true) ↔ (k.val < j ∧ opcode.testBit k.val = true) := by
        constructor
        · intro h
          refine ⟨?_, h.2⟩
          by_contra hn
          have : k.val = j := by omega
          rw [this] at h
          exact hbit h.2
        · intro h; exact ⟨by omega, h.2⟩
      simp only [hiff]

/-- The state `blockDataTransfer` returns for a non-empty register list
without the S bit and with a base other than R15. -/
theorem blockDataTransfer_list_eq (E : Env) (prePostIndex upDown writeBack loadStore : Bool) (opcode : Nat)
    (s : CPU) (hne : opcode &&& 0xFFFF ≠ 0) (hb : (opcode >>> 16) &&& 0xF ≠ 15) :
    let baseRegister := (opcode >>> 16) &&& 0xF
    let b := s.R (reg4 baseRegister)
    let n := registersBelow opcode 16
    let start := if upDown then (if prePostIndex then u32 (b + 4) else b)
      else (if prePostIndex then sub32 b (n * 4) else u32 (sub32 b (n * 4) + 4))
    let wb := if upDown then u32 (b + n * 4) else sub32 b (n * 4)
    let s1 := fetchOpcode E s
    blockDataTransfer E prePostIndex upDown false writeBack loadStore opcode s =
      some (if loadStore then
        (if opcode.testBit 15 then
          flushPipeline E (iCycle 1 ((List.range 16).foldl (ldmStep E writeBack false opcode baseRegister wb)
            { cpu := s1, address := start, firstReadWrite := true }).cpu)
        else
          iCycle 1 ((List.range 16).foldl (ldmStep E writeBack false opcode baseRegister wb)
            { cpu := s1, address := start, firstReadWrite := true }).cpu)
      else
        (((List.range 16).foldl (stmStep writeBack false opcode baseRegister wb)
          { cpu := s1, address := start, firstReadWrite := true }).cpu.setNextFetchType false)) := by
  intro baseRegister b n start wb s1
  have hb' : ¬ ((opcode >>> 16) &&& 0xF = 15 ∧ writeBack = true) := fun h => hb h.1
  have hpop : popcount16 (opcode &&& 0xFFFF) = n := popcount16_low opcode
  cases loadStore <;> cases upDown <;> cases prePostIndex <;>
    simp [blockDataTransfer, hne, hb', hpop, start, wb, s1, b, baseRegister]

theorem start_lt (prePostIndex upDown : Bool) (b n : Nat) (hb : b < 2 ^ 32) :
    (if upDown then (if prePostIndex then u32 (b + 4) else b)
      else (if prePostIndex then sub32 b (n * 4) else u32 (sub32 b (n * 4) + 4))) < 2 ^ 32 := by
  cases upDown <;> cases prePostIndex <;> simp only [Bool.false_eq_true, if_false, if_true] <;>
    first
    | exact hb
    | exact Nat.mod_lt _ (by decide)

/-- A listed register is not the base when the base is not listed. -/
theorem listed_ne_base (opcode : Nat) {i : Nat} (hi : i < 16) (hbit : opcode.testBit i = true)
    (hnl : opcode.testBit ((opcode >>> 16) &&& 0xF) = false) :
    reg4 i ≠ reg4 ((opcode >>> 16) &&& 0xF) := by
  have hle : (opcode >>> 16) &&& 0xF ≤ 0xF := Nat.and_le_right
  intro h
  have h1 := congrArg Fin.val h
  rw [reg4_val_of_lt hi, reg4_val_of_lt (by omega)] at h1
  rw [h1, hnl] at hbit
  exact absurd hbit (by decide)

/-- C33: ARM `LDM`/`STM` at address `A` (ARM state, R15 = `A + 8`) without
the S bit, with a non-empty list of `n` registers and a base register other
than R15, not in the list, holding the 32-bit value `b`.  The `k`-th
lowest-numbered listed register (`k = 0..n-1`) is transferred at
`start + 4 * k` modulo `2^32`, where `start` is `b` (IA), `b + 4` (IB),
`b - 4n + 4` (DA) or `b - 4n` (DB); the first access is non-sequential and the
others are sequential; these are the only data accesses, made in ascending
register order after the opcode fetch.  `STM` stores the value of each listed
register (`A + 12` for R15); `LDM` loads each listed register with the word
read for it and ends with one internal cycle.  With writeback the base ends
as `b + 4n` (incrementing forms) or `b - 4n` (decrementing forms), without it
the base is unchanged; no other unlisted register of R0..R14 changes.  An
`LDM` whose list contains R15 refills the pipeline from the loaded value. -/
theorem blockDataTransfer_spec (E : Env) (prePostIndex upDown writeBack loadStore : Bool) (opcode : Nat)
    (s : CPU) (A : Nat) (hT : s.thumbMode = false) (h15 : s.R 15 = u32 (A + 8))
    (hne : opcode &&& 0xFFFF ≠ 0) (hb : (opcode >>> 16) &&& 0xF ≠ 15)
    (hnl : opcode.testBit ((opcode >>> 16) &&& 0xF) = false)
    (hb32 : s.R (reg4 ((opcode >>> 16) &&& 0xF)) < 2 ^ 32) :
    let base := reg4 ((opcode >>> 16) &&& 0xF)
    let b := s.R base
    let n := registersBelow opcode 16
    let start := if upDown then (if prePostIndex then u32 (b + 4) else b)
      else (if prePostIndex then sub32 b (n * 4) else u32 (sub32 b (n * 4) + 4))
    let wb := if upDown then u32 (b + n * 4) else sub32 b (n * 4)
    let fetched := BusEvent.read 32 true (u32 (A + 8)) s.nextFetchType :: s.bus
    let stored := fun (i : Nat) => if i = 15 then u32 (A + 12) else s.R (reg4 i)
    let writes := blockEvents (fun i a q => BusEvent.write 32 a (stored i % 2 ^ 32) q) opcode start 16
    let reads := fun j => blockEvents (fun _ a q => BusEvent.read 32 false a q) opcode start j
    let value := fun i => E.busRead (reads i ++ fetched) 32 false (u32 (start + 4 * registersBelow opcode i))
      (decide (registersBelow opcode i ≠ 0)) % 2 ^ 32
    ∃ s', blockDataTransfer E prePostIndex upDown false writeBack loadStore opcode s = some s' ∧
      s'.R base = (if writeBack then wb else b) ∧
      s'.CPSR = s.CPSR ∧
      (loadStore = false →
        s'.bus = writes ++ fetched ∧ s'.R 15 = u32 (A + 12) ∧
        (∀ i : Fin 16, i ≠ base → i ≠ 15 → s'.R i = s.R i)) ∧
      (loadStore = true →
        (∀ i : Fin 16, i ≠ base → i ≠ 15 →
          s'.R i = if opcode.testBit i.val = true then value i.val else s.R i) ∧
        (opcode.testBit 15 = false → s'.bus = .iCycle 1 :: reads 16 ++ fetched ∧ s'.R 15 = u32 (A + 12)) ∧
        (opcode.testBit 15 = true →
          s'.R 15 = u32 ((value 15 &&& 0xFFFFFFFC) + 8) ∧
          s'.pipelineOpcode3 =
            E.busRead (.iCycle 1 :: reads 16 ++ fetched) 32 true (value 15 &&& 0xFFFFFFFC) false % 2 ^ 32 ∧
          s'.bus = .read 32 true (u32 ((value 15 &&& 0xFFFFFFFC) + 4)) true ::
            .read 32 true (value 15 &&& 0xFFFFFFFC) false :: .iCycle 1 :: reads 16 ++ fetched)) := by
  intro base b n start wb fetched stored writes reads value
  have hbase : base ≠ 15 := reg4_field_ne (opcode >>> 16) hb
  have hstart : start < 2 ^ 32 := start_lt prePostIndex upDown b n hb32
  have hn0 : registersBelow opcode 16 ≠ 0 := low16_ne_zero opcode hne
  have hd := blockDataTransfer_list_eq E prePostIndex upDown writeBack loadStore opcode s hne hb
  obtain ⟨gC, gB, g15, gR, gbus, _, _⟩ := fetchOpcode_fields E s
  have hwid : width s = 4 := by simp [width, hT]
  rw [hwid, h15] at g15 gbus
  have e12 : u32 (u32 (A + 8) + 4) = u32 (A + 12) := by unfold u32; omega
  rw [e12] at g15
  have gbus' : (fetchOpcode E s).bus = fetched := gbus
  have gstored : ∀ i, i < 16 → (fetchOpcode E s).R (reg4 i) = stored i := by
    intro i hi
    show _ = if i = 15 then u32 (A + 12) else s.R (reg4 i)
    by_cases h : i = 15
    · rw [if_pos h, h]; exact g15
    · rw [if_neg h]
      apply gR
      intro h'
      have := (eq_reg4_iff 15 hi).1 h'.symm
      exact h this.symm
  cases loadStore
  · -- STM
    obtain ⟨_, _, lB, lR, lC⟩ := stm_loop writeBack opcode ((opcode >>> 16) &&& 0xF) wb (fetchOpcode E s) start
      hstart 16
    have hd' : blockDataTransfer E prePostIndex upDown false writeBack false opcode s = some
        (((List.range 16).foldl (stmStep writeBack false opcode ((opcode >>> 16) &&& 0xF) wb)
          { cpu := fetchOpcode E s, address := start, firstReadWrite := true }).cpu.setNextFetchType false) := hd
    generalize ((List.range 16).foldl (stmStep writeBack false opcode ((opcode >>> 16) &&& 0xF) wb)
          { cpu := fetchOpcode E s, address := start, firstReadWrite := true }) = st at hd' lB lR lC
    have lB' : st.cpu.bus = writes ++ fetched := by
      rw [lB, gbus']
      congr 1
      apply blockEvents_congr
      intro i hi hbit a q
      have hne' := listed_ne_base opcode hi hbit hnl
      simp only [hne', and_false, if_false]
      rw [gstored i hi]
    refine ⟨_, hd', ?_, ?_, ?_, ?_⟩
    · show st.cpu.R base = _
      rw [lR base]
      cases writeBack
      · simp only [Bool.false_eq_true, false_and, if_false]
        exact gR base hbase
      · have : (true = true ∧ registersBelow opcode 16 ≠ 0 ∧ base = reg4 ((opcode >>> 16) &&& 0xF)) :=
          ⟨rfl, hn0, rfl⟩
        rw [if_pos this]
        rfl
    · show st.cpu.CPSR = _
      rw [lC, gC]
    · intro _
      refine ⟨lB', ?_, ?_⟩
      · show st.cpu.R 15 = _
        rw [lR 15]
        have : ¬ (writeBack = true ∧ registersBelow opcode 16 ≠ 0 ∧ (15 : Fin 16) = reg4 ((opcode >>> 16) &&& 0xF)) :=
          fun h => hbase h.2.2.symm
        rw [if_neg this]
        exact g15
      · intro i hi hi15
        show st.cpu.R i = _
        rw [lR i]
        have : ¬ (writeBack = true ∧ registersBelow opcode 16 ≠ 0 ∧ i = reg4 ((opcode >>> 16) &&& 0xF)) :=
          fun h => hi h.2.2
        rw [if_neg this]
        exact gR i hi15
    · intro h; exact absurd h (by decide)
  · -- LDM
    obtain ⟨_, _, lB, lR, lC⟩ := ldm_loop E writeBack opcode ((opcode >>> 16) &&& 0xF) wb (fetchOpcode E s) start
      hstart 16 (Nat.le_refl _)
    rw [gbus'] at lB lR
    have lB' : CPU.bus _ = reads 16 ++ fetched := lB
    have lR' : ∀ k : Fin 16, CPU.R _ k =
        if k.val < 16 ∧ opcode.testBit k.val = true then value k.val
        else if writeBack = true ∧ registersBelow opcode 16 ≠ 0 ∧ k = reg4 ((opcode >>> 16) &&& 0xF) then wb
        else (fetchOpcode E s).R k := lR
    clear lB lR
    have hd' : blockDataTransfer E prePostIndex upDown false writeBack true opcode s = some
        (if opcode.testBit 15 then
          flushPipeline E (iCycle 1 ((List.range 16).foldl
            (ldmStep E writeBack false opcode ((opcode >>> 16) &&& 0xF) wb)
            { cpu := fetchOpcode E s, address := start, firstReadWrite := true }).cpu)
        else
          iCycle 1 ((List.range 16).foldl (ldmStep E writeBack false opcode ((opcode >>> 16) &&& 0xF) wb)
            { cpu := fetchOpcode E s, address := start, firstReadWrite := true }).cpu) := hd
    generalize ((List.range 16).foldl (ldmStep E writeBack false opcode ((opcode >>> 16) &&& 0xF) wb)
          { cpu := fetchOpcode E s, address := start, firstReadWrite := true }) = st at hd' lB' lR' lC
    -- the registers after the loop
    have cbase : st.cpu.R base = (if writeBack then wb else b) := by
      rw [lR' base]
      have hl : ¬ (base.val < 16 ∧ opcode.testBit base.val = true) := by
        intro h
        have hle : (opcode >>> 16) &&& 0xF ≤ 0xF := Nat.and_le_right
        have hv : base.val = (opcode >>> 16) &&& 0xF := reg4_val_of_lt (by omega)
        rw [hv, hnl] at h
        exact absurd h.2 (by decide)
      rw [if_neg hl]
      cases writeBack
      · simp only [Bool.false_eq_true, false_and, if_false]
        exact gR base hbase
      · have : (true = true ∧ registersBelow opcode 16 ≠ 0 ∧ base = reg4 ((opcode >>> 16) &&& 0xF)) :=
          ⟨rfl, hn0, rfl⟩
        rw [if_pos this]
        rfl
    have cR : ∀ i : Fin 16, i ≠ base → st.cpu.R i =
        if opcode.testBit i.val = true then value i.val else (fetchOpcode E s).R i := by
      intro i hi
      rw [lR' i]
      have hlt : i.val < 16 := i.isLt
      by_cases hbit : opcode.testBit i.val = true
      · rw [if_pos ⟨hlt, hbit⟩, if_pos hbit]
      · rw [if_neg (fun h => hbit h.2), if_neg hbit]
        have : ¬ (writeBack = true ∧ registersBelow opcode 16 ≠ 0 ∧ i = reg4 ((opcode >>> 16) &&& 0xF)) :=
          fun h => hi h.2.2
        rw [if_neg this]
    have e15v : ((15 : Fin 16) : Nat) = 15 := rfl
    by_cases hpc : opcode.testBit 15 = true
    · rw [if_pos hpc] at hd'
      generalize hw : iCycle 1 st.cpu = w at hd'
      have wC : w.CPSR = s.CPSR := by subst hw; simp [iCycle, lC, gC]
      have wT : width w = 4 := by
        show (if w.CPSR.testBit 5 = true then 2 else 4) = 4
        rw [wC]
        have : s.CPSR.testBit 5 = false := hT
        simp [this]
      have w15 : w.R 15 = value 15 := by
        subst hw
        simp only [iCycle, R_emit]
        rw [cR 15 (Ne.symm hbase), e15v, if_pos hpc]
      have wbus : w.bus = .iCycle 1 :: reads 16 ++ fetched := by
        subst hw; simp [iCycle, lB']
      have wR : ∀ i : Fin 16, w.R i = st.cpu.R i := by
        intro i; subst hw; simp [iCycle]
      obtain ⟨p15, p3, pbus, pR, _⟩ := flushPipeline_facts E w
      rw [wT, w15] at p15
      have f15 : (flushPipeline E w).R 15 = u32 ((value 15 &&& 0xFFFFFFFC) + 8) := by
        rw [p15, and_FFFFFFFC]; unfold u32; omega
      have es8 : sub32 ((flushPipeline E w).R 15) (2 * 4) = value 15 &&& 0xFFFFFFFC := by
        rw [f15, and_FFFFFFFC]; unfold sub32 u32; omega
      have es4 : sub32 ((flushPipeline E w).R 15) 4 = u32 ((value 15 &&& 0xFFFFFFFC) + 4) := by
        rw [f15, and_FFFFFFFC]; unfold sub32 u32; omega
      rw [wT, es8, wbus] at p3
      rw [wT, es8, es4, wbus] at pbus
      refine ⟨_, hd', ?_, ?_, ?_, ?_⟩
      · rw [pR base hbase, wR, cbase]
      · rw [CPSR_flushPipeline, wC]
      · intro h; exact absurd h (by decide)
      · intro _
        refine ⟨?_, ?_, ?_⟩
        · intro i hi hi15
          rw [pR i hi15, wR, cR i hi, gR i hi15]
        · intro h; rw [hpc] at h; exact absurd h (by decide)
        · intro _
          exact ⟨f15, p3, pbus⟩
    · rw [if_neg hpc] at hd'
      have hpc' : opcode.testBit 15 = false := by simpa using hpc
      refine ⟨_, hd', ?_, ?_, ?_, ?_⟩
      · show (iCycle 1 st.cpu).R base = _
        simp only [iCycle, R_emit]
        exact cbase
      · show (iCycle 1 st.cpu).CPSR = _
        simp [iCycle, lC, gC]
      · intro h; exact absurd h (by decide)
      · intro _
        refine ⟨?_, ?_, ?_⟩
        · intro i hi hi15
          show (iCycle 1 st.cpu).R i = _
          simp only [iCycle, R_emit]
          rw [cR i hi, gR i hi15]
        · intro _
          refine ⟨?_, ?_⟩
          · simp [iCycle, lB']
          · show (iCycle 1 st.cpu).R 15 = _
            simp only [iCycle, R_emit]
            rw [cR 15 (Ne.symm hbase), e15v, if_neg hpc]
            exact g15
        · intro h; exact absurd h hpc

/-- Witness for C33: `LDMIA r0!, {r1, pc}` (`0xE8B08002`) at `0x1000` with
R0 = `0x2000` over a memory with `0x11` at `0x2000` and `0x3000` at `0x2004`
gives R1 = `0x11`, R0 = `0x2008` and a pipeline refilled from `0x3000`. -/
theorem blockDataTransfer_spec_witness :
    ((sampleCPU.setR 0 0x2000).setR 15 0x1008).thumbMode = false ∧
    ((sampleCPU.setR 0 0x2000).setR 15 0x1008).R 15 = u32 (0x1000 + 8) ∧
    0xE8B08002 &&& 0xFFFF ≠ 0 ∧ (0xE8B08002 >>> 16) &&& 0xF ≠ 15 ∧
    Nat.testBit 0xE8B08002 ((0xE8B08002 >>> 16) &&& 0xF) = false ∧
    decode (((0xE8B08002 &&& 0x0FF00000) >>> 16) ||| ((0xE8B08002 &&& 0x000000F0) >>> 4)) =
      .blockDataTransfer false true false true true ∧
    ∃ s', blockDataTransfer memoryEnv false true false true true 0xE8B08002
        ((sampleCPU.setR 0 0x2000).setR 15 0x1008) = some s' ∧
      s'.R 1 = 0x11 ∧ s'.R 0 = 0x2008 ∧ s'.R 15 = 0x3008 ∧
      s'.bus = [.read 32 true 0x3004 true, .read 32 true 0x3000 false, .iCycle 1,
        .read 32 false 0x2004 true, .read 32 false 0x2000 false, .read 32 true 0x1008 false] := by
  obtain ⟨s', h, hbase, _, _, hL⟩ :=
    blockDataTransfer_spec memoryEnv false true true true 0xE8B08002 ((sampleCPU.setR 0 0x2000).setR 15 0x1008)
      0x1000 (by decide) (by decide) (by decide) (by decide) (by decide) (by decide)
  obtain ⟨hR, _, hpc⟩ := hL rfl
  obtain ⟨f15, _, fbus⟩ := hpc (by decide)
  exact ⟨by decide, by decide, by decide, by decide, by decide, by decide, s', h,
    (hR 1 (by decide) (by decide)).trans (by decide), hbase.trans (by decide), f15.trans (by decide),
    fbus.trans (by decide)⟩

theorem low16_ne_zero_of_listed (opcode : Nat) {i : Nat} (hi : i < 16) (hbit : opcode.testBit i = true) :
    opcode &&& 0xFFFF ≠ 0 := by
  intro h
  rw [testBit_of_low16_zero opcode i h hi] at hbit
  exact absurd hbit (by decide)

/-- C39: ARM `STM` at address `A` (ARM state, R15 = `A + 8`) with writeback,
without the S bit, with a base register other than R15 that is in the
register list and holds the 32-bit value `b`.  The registers are stored in
ascending order from `start` as for any `STM`; the base register ends with the
written-back value (`b + 4n` for the incrementing forms, `b - 4n` for the
decrementing forms, `n` the number of listed registers); the value stored for
the base is its original value `b` when no lower-numbered register is listed,
and the written-back value otherwise. -/
theorem blockDataTransfer_stm_base_in_list (E : Env) (prePostIndex upDown : Bool) (opcode : Nat)
    (s : CPU) (A : Nat) (hT : s.thumbMode = false) (h15 : s.R 15 = u32 (A + 8))
    (hb : (opcode >>> 16) &&& 0xF ≠ 15)
    (hl : opcode.testBit ((opcode >>> 16) &&& 0xF) = true)
    (hb32 : s.R (reg4 ((opcode >>> 16) &&& 0xF)) < 2 ^ 32) :
    let baseRegister := (opcode >>> 16) &&& 0xF
    let base := reg4 baseRegister
    let b := s.R base
    let n := registersBelow opcode 16
    let k := registersBelow opcode baseRegister
    let start := if upDown then (if prePostIndex then u32 (b + 4) else b)
      else (if prePostIndex then sub32 b (n * 4) else u32 (sub32 b (n * 4) + 4))
    let wb := if upDown then u32 (b + n * 4) else sub32 b (n * 4)
    let fetched := BusEvent.read 32 true (u32 (A + 8)) s.nextFetchType :: s.bus
    let stored := fun (i : Nat) =>
      if i = baseRegister then (if k = 0 then b else wb)
      else if i = 15 then u32 (A + 12) else s.R (reg4 i)
    ∃ s', blockDataTransfer E prePostIndex upDown false true false opcode s = some s' ∧
      s'.R base = wb ∧
      s'.bus = blockEvents (fun i a q => BusEvent.write 32 a (stored i % 2 ^ 32) q) opcode start 16 ++ fetched ∧
      BusEvent.write 32 (u32 (start + 4 * k)) (if k = 0 then b else wb) (decide (k ≠ 0)) ∈ s'.bus := by
  intro baseRegister base b n k start wb fetched stored
  have hle : baseRegister ≤ 0xF := Nat.and_le_right
  have hlt : baseRegister < 16 := by omega
  have hne : opcode &&& 0xFFFF ≠ 0 := low16_ne_zero_of_listed opcode hlt hl
  have hbase : base ≠ 15 := reg4_field_ne (opcode >>> 16) hb
  have hstart : start < 2 ^ 32 := start_lt prePostIndex upDown b n hb32
  have hn0 : registersBelow opcode 16 ≠ 0 := low16_ne_zero opcode hne
  have hwb : wb < 2 ^ 32 := by
    show (if upDown then u32 (b + n * 4) else sub32 b (n * 4)) < 2 ^ 32
    split <;> exact Nat.mod_lt _ (by decide)
  have hd := blockDataTransfer_list_eq E prePostIndex upDown true false opcode s hne hb
  obtain ⟨gC, gB, g15, gR, gbus, _, _⟩ := fetchOpcode_fields E s
  have hwid : width s = 4 := by simp [width, hT]
  rw [hwid, h15] at g15 gbus
  have e12 : u32 (u32 (A + 8) + 4) = u32 (A + 12) := by unfold u32; omega
  rw [e12] at g15
  have gbus' : (fetchOpcode E s).bus = fetched := gbus
  obtain ⟨_, _, lB, lR, lC⟩ := stm_loop true opcode baseRegister wb (fetchOpcode E s) start hstart 16
  have hd' : blockDataTransfer E prePostIndex upDown false true false opcode s = some
      (((List.range 16).foldl (stmStep true false opcode baseRegister wb)
        { cpu := fetchOpcode E s, address := start, firstReadWrite := true }).cpu.setNextFetchType false) := hd
  generalize ((List.range 16).foldl (stmStep true false opcode baseRegister wb)
        { cpu := fetchOpcode E s, address := start, firstReadWrite := true }) = st at hd' lB lR lC
  have lB' : st.cpu.bus =
      blockEvents (fun i a q => BusEvent.write 32 a (stored i % 2 ^ 32) q) opcode start 16 ++ fetched := by
    rw [lB, gbus']
    congr 1
    apply blockEvents_congr
    intro i hi hbit a q
    show BusEvent.write 32 a _ q = BusEvent.write 32 a ((if i = baseRegister then (if k = 0 then b else wb)
      else if i = 15 then u32 (A + 12) else s.R (reg4 i)) % 2 ^ 32) q
    by_cases hib : i = baseRegister
    · rw [hib, if_pos rfl]
      by_cases hk : k = 0
      · have : ¬ (true = true ∧ registersBelow opcode baseRegister ≠ 0 ∧ reg4 baseRegister = reg4 baseRegister) :=
          fun h => h.2.1 hk
        rw [if_neg this, if_pos hk]
        rw [gR (reg4 baseRegister) hbase]
      · have : (true = true ∧ registersBelow opcode baseRegister ≠ 0 ∧ reg4 baseRegister = reg4 baseRegister) :=
          ⟨rfl, hk, rfl⟩
        rw [if_pos this, if_neg hk]
    · have hreg : reg4 i ≠ reg4 baseRegister := by
        intro h
        have h1 := congrArg Fin.val h
        rw [reg4_val_of_lt hi, reg4_val_of_lt hlt] at h1
        exact hib h1
      have : ¬ (true = true ∧ registersBelow opcode i ≠ 0 ∧ reg4 i = reg4 baseRegister) := fun h => hreg h.2.2
      rw [if_neg this, if_neg hib]
      by_cases h : i = 15
      · rw [if_pos h, h]
        have : reg4 15 = (15 : Fin 16) := rfl
        rw [this, g15]
      · rw [if_neg h]
        have hne15 : reg4 i ≠ 15 := by
          intro h'
          have := (eq_reg4_iff 15 hi).1 h'.symm
          exact h this.symm
        rw [gR _ hne15]
  refine ⟨_, hd', ?_, ?_, ?_⟩
  · show st.cpu.R base = _
    rw [lR base]
    have : (true = true ∧ registersBelow opcode 16 ≠ 0 ∧ base = reg4 baseRegister) := ⟨rfl, hn0, rfl⟩
    rw [if_pos this]
  · exact lB'
  · show _ ∈ st.cpu.bus
    rw [lB']
    apply List.mem_append_left
    have hm := mem_blockEvents (fun i a q => BusEvent.write 32 a (stored i % 2 ^ 32) q) opcode start hlt hl
    have hs : stored baseRegister % 2 ^ 32 = (if k = 0 then b else wb) := by
      show (if baseRegister = baseRegister then (if k = 0 then b else wb)
        else if baseRegister = 15 then u32 (A + 12) else s.R (reg4 baseRegister)) % 2 ^ 32 = _
      rw [if_pos rfl]
      split
      · exact Nat.mod_eq_of_lt hb32
      · exact Nat.mod_eq_of_lt hwb
    simp only [hs] at hm
    exact hm

/-- Witness for C39: `STMIA r1!, {r0, r1, r2}` (`0xE8A10007`) at `0x1000` with
R0 = `0x100`, R1 = `0x200`, R2 = `0x300`: the base is not the lowest listed
register, so the word stored for it is the written-back value `0x20C`, and R1
ends as `0x20C`. -/
theorem blockDataTransfer_stm_base_in_list_witness :
    (sampleCPU.setR 15 0x1008).thumbMode = false ∧ (sampleCPU.setR 15 0x1008).R 15 = u32 (0x1000 + 8) ∧
    (0xE8A10007 >>> 16) &&& 0xF ≠ 15 ∧ Nat.testBit 0xE8A10007 ((0xE8A10007 >>> 16) &&& 0xF) = true ∧
    decode (((0xE8A10007 &&& 0x0FF00000) >>> 16) ||| ((0xE8A10007 &&& 0x000000F0) >>> 4)) =
      .blockDataTransfer false true false true false ∧
    ∃ s', blockDataTransfer sampleEnv false true false true false 0xE8A10007 (sampleCPU.setR 15 0x1008) =
        some s' ∧
      s'.R 1 = 0x20C ∧
      s'.bus = [.write 32 0x208 0x300 true, .write 32 0x204 0x20C true, .write 32 0x200 0x100 false,
        .read 32 true 0x1008 false] := by
  obtain ⟨s', h, hR, hbus, _⟩ :=
    blockDataTransfer_stm_base_in_list sampleEnv false true 0xE8A10007 (sampleCPU.setR 15 0x1008) 0x1000
      (by decide) (by decide) (by decide) (by decide) (by decide)
  exact ⟨by decide, by decide, by decide, by decide, by decide, s', h, hR.trans (by decide),
    hbus.trans (by decide)⟩

/-! ## The priority of `cycle` -/

theorem modeBank_of_invalid {m : Nat} (h : ¬ validMode m) : modeBank m = none := by
  cases hm : modeBank m with
  | none => rfl
  | some b => exact absurd (validMode_of_modeBank hm) h

theorem pipelineOpcode3_checkCondition (c : Nat) (s : CPU) :
    (checkCondition c s).2.pipelineOpcode3 = s.pipelineOpcode3 := by
  unfold checkCondition
  split <;> rfl

/-- The breakpoint check at the end of `cycle` changes the bus record only,
by at most the `breakpoint()` call. -/
theorem breakpointCheck_fields (E : Env) (t : CPU) :
    (breakpointCheck E t).CPSR = t.CPSR ∧ (∀ i, (breakpointCheck E t).R i = t.R i) ∧
    (∀ b j, (breakpointCheck E t).bank b j = t.bank b j) ∧
    (breakpointCheck E t).processFiq = t.processFiq ∧ (breakpointCheck E t).processIrq = t.processIrq ∧
    (breakpointCheck E t).pipelineOpcode3 = t.pipelineOpcode3 ∧
    ((breakpointCheck E t).bus = t.bus ∨ (breakpointCheck E t).bus = .breakpoint :: t.bus) := by
  rcases breakpointCheck_cases E t with e | e <;> rw [e]
  · exact ⟨rfl, fun _ => rfl, fun _ _ => rfl, rfl, rfl, rfl, Or.inl rfl⟩
  · exact ⟨rfl, fun _ => rfl, fun _ _ => by simp, rfl, rfl, rfl, Or.inr rfl⟩

/-- C9: with FIQ compiled in, `cycle` chooses by strict priority.  (1) If
the pending-FIQ flag is set and CPSR.F is 0, the call is the FIQ entry and
nothing else, whatever the IRQ state: from a valid mode (from any other mode
the entry stores through a null bank pointer) afterwards the mode
is FIQ, SPSR_fiq is the old CPSR, I and F are set, T is clear, R14 is the
return address, the pipeline has been refilled from `0x1C` (R15 = `0x24`), the
bus has seen only the two vector fetches (and the `breakpoint()` hook if a
breakpoint is set there), so no instruction was executed, the pending-FIQ flag
is clear and the pending-IRQ flag is as before.  (2) Otherwise, if the
pending-IRQ flag is set and CPSR.I is 0, the call is the IRQ entry in the same
way, through `0x18` (R15 = `0x20`), and the pending-FIQ flag is as before.
(3) Otherwise the instruction in `pipelineOpcode3` is executed: in ARM state
the `armLUT` handler of its signature if its condition passes and a bare
opcode fetch if not, in Thumb state the `thumbLUT` handler of its signature;
the breakpoint check follows.  (4) A pending interrupt whose mask bit is 1 is
not serviced and its pending flag is still set after the call. -/
theorem cycle_priority (E : Env) (s : CPU) (hE : E.disableFiq = false) :
    (s.processFiq = true ∧ s.fiqDisable = false →
      (¬ validMode s.mode → cycle E s = none) ∧
      (validMode s.mode → ∃ s', cycle E s = some s' ∧
        s'.mode = MODE_FIQ ∧ s'.bank .fiq 7 = s.CPSR ∧
        s'.irqDisable = true ∧ s'.fiqDisable = true ∧ s'.thumbMode = false ∧
        s'.R 14 = (if s.thumbMode then u32 (s.R 15) else sub32 (s.R 15) 4) ∧ s'.R 15 = 0x24 ∧
        s'.pipelineOpcode3 = E.busRead s.bus 32 true 0x1C false % 2 ^ 32 ∧
        (s'.bus = .read 32 true 0x20 true :: .read 32 true 0x1C false :: s.bus ∨
          s'.bus = .breakpoint :: .read 32 true 0x20 true :: .read 32 true 0x1C false :: s.bus) ∧
        s'.processFiq = false ∧ s'.processIrq = s.processIrq)) ∧
    (¬ (s.processFiq = true ∧ s.fiqDisable = false) → s.processIrq = true ∧ s.irqDisable = false →
      (¬ validMode s.mode → cycle E s = none) ∧
      (validMode s.mode → ∃ s', cycle E s = some s' ∧
        s'.mode = MODE_IRQ ∧ s'.bank .irq 7 = s.CPSR ∧
        s'.irqDisable = true ∧ s'.fiqDisable = true ∧ s'.thumbMode = false ∧
        s'.R 14 = (if s.thumbMode then u32 (s.R 15) else sub32 (s.R 15) 4) ∧ s'.R 15 = 0x20 ∧
        s'.pipelineOpcode3 = E.busRead s.bus 32 true 0x18 false % 2 ^ 32 ∧
        (s'.bus = .read 32 true 0x1C true :: .read 32 true 0x18 false :: s.bus ∨
          s'.bus = .breakpoint :: .read 32 true 0x1C true :: .read 32 true 0x18 false :: s.bus) ∧
        s'.processIrq = false ∧ s'.processFiq = s.processFiq)) ∧
    (¬ (s.processFiq = true ∧ s.fiqDisable = false) → ¬ (s.processIrq = true ∧ s.irqDisable = false) →
      (s.thumbMode = false →
        cycle E s =
          (if (checkCondition (s.pipelineOpcode3 >>> 28) s).1 then
            (decode (((s.pipelineOpcode3 &&& 0x0FF00000) >>> 16) ||| ((s.pipelineOpcode3 &&& 0x000000F0) >>> 4))).call
              E s.pipelineOpcode3 (checkCondition (s.pipelineOpcode3 >>> 28) s).2
          else some (fetchOpcode E (checkCondition (s.pipelineOpcode3 >>> 28) s).2)).map (breakpointCheck E)) ∧
      (s.thumbMode = true → (s.pipelineOpcode3 >>> 6) % 2 ^ 16 < 1024 →
        cycle E s =
          ((decodeThumb ((s.pipelineOpcode3 >>> 6) % 2 ^ 16)).call E (s.pipelineOpcode3 % 2 ^ 16) s).map
            (breakpointCheck E))) ∧
    (∀ s', cycle E s = some s' →
        (s.processFiq = true → s.fiqDisable = true → s'.processFiq = true) ∧
        (s.processIrq = true → s.irqDisable = true → s'.processIrq = true)) := by
  have h1 : s.processFiq = true ∧ s.fiqDisable = false →
      cycle E s = (serviceFiq E s).map (breakpointCheck E) := by
    intro h
    rw [cycle_eq]
    simp [hE, h.1, h.2]
  have h2 : ¬ (s.processFiq = true ∧ s.fiqDisable = false) → s.processIrq = true ∧ s.irqDisable = false →
      cycle E s = (serviceIrq E s).map (breakpointCheck E) := by
    intro hf h
    rw [cycle_eq]
    have : (s.processFiq && !s.fiqDisable) = false := by
      cases hp : s.processFiq <;> cases hd : s.fiqDisable <;> simp_all
    simp [hE, this, h.1, h.2]
  have h3 : ¬ (s.processFiq = true ∧ s.fiqDisable = false) → ¬ (s.processIrq = true ∧ s.irqDisable = false) →
      cycle E s = (execute E s).map (breakpointCheck E) := by
    intro hf hi
    rw [cycle_eq]
    have a : (s.processFiq && !s.fiqDisable) = false := by
      cases hp : s.processFiq <;> cases hd : s.fiqDisable <;> simp_all
    have b : (s.processIrq && !s.irqDisable) = false := by
      cases hp : s.processIrq <;> cases hd : s.irqDisable <;> simp_all
    simp [hE, a, b]
  refine ⟨?_, ?_, ?_, fun s' hs' => ?_⟩
  · intro h
    refine ⟨fun hv => ?_, fun hv => ?_⟩
    · rw [h1 h]
      have : serviceFiq E s = none := by
        unfold serviceFiq
        simp only
        rw [bankRegisters_none_cur MODE_FIQ true (s.setProcessFiq false) .fiq rfl
          (by rw [mode_setProcessFiq]; exact modeBank_of_invalid hv)]
      rw [this]
      rfl
    obtain ⟨t, ht, tF, tI, tS, tM, tid, tfd, tT, _, _, _, _, t14, t15, t3, _, tbus, _⟩ := serviceFiq_closed E s hv
    obtain ⟨bC, bR, bB, bF, bI, b3, bbus⟩ := breakpointCheck_fields E t
    refine ⟨breakpointCheck E t, by rw [h1 h, ht]; rfl, ?_, ?_, ?_, ?_, ?_, ?_, ?_, ?_, ?_, ?_, ?_⟩
    · show (breakpointCheck E t).CPSR % 32 = _
      rw [bC]; exact tM
    · rw [bB]; exact tS
    · show (breakpointCheck E t).CPSR.testBit 7 = true
      rw [bC]; exact tid
    · show (breakpointCheck E t).CPSR.testBit 6 = true
      rw [bC]; exact tfd
    · show (breakpointCheck E t).CPSR.testBit 5 = false
      rw [bC]; exact tT
    · rw [bR]; exact t14
    · rw [bR]; exact t15
    · rw [b3]; exact t3
    · rw [← tbus]; exact bbus
    · rw [bF]; exact tF
    · rw [bI]; exact tI
  · intro hf h
    refine ⟨fun hv => ?_, fun hv => ?_⟩
    · rw [h2 hf h]
      have : serviceIrq E s = none := by
        unfold serviceIrq
        simp only
        rw [bankRegisters_none_cur MODE_IRQ true (s.setProcessIrq false) .irq rfl
          (by rw [mode_setProcessIrq]; exact modeBank_of_invalid hv)]
      rw [this]
      rfl
    obtain ⟨t, ht, tI, tF, tS, tM, tid, tfd, tT, _, _, _, _, t14, t15, t3, _, tbus, _⟩ := serviceIrq_closed E s hv
    obtain ⟨bC, bR, bB, bF, bI, b3, bbus⟩ := breakpointCheck_fields E t
    refine ⟨breakpointCheck E t, by rw [h2 hf h, ht]; rfl, ?_, ?_, ?_, ?_, ?_, ?_, ?_, ?_, ?_, ?_, ?_⟩
    · show (breakpointCheck E t).CPSR % 32 = _
      rw [bC]; exact tM
    · rw [bB]; exact tS
    · show (breakpointCheck E t).CPSR.testBit 7 = true
      rw [bC]; exact tid
    · show (breakpointCheck E t).CPSR.testBit 6 = true
      rw [bC]; exact tfd
    · show (breakpointCheck E t).CPSR.testBit 5 = false
      rw [bC]; exact tT
    · rw [bR]; exact t14
    · rw [bR]; exact t15
    · rw [b3]; exact t3
    · rw [← tbus]; exact bbus
    · rw [bI]; exact tI
    · rw [bF]; exact tF
  · intro hf hi
    refine ⟨fun hT => ?_, fun hT hidx => ?_⟩
    · rw [h3 hf hi]
      congr 1
      simp only [execute, hT, Bool.false_eq_true, if_false, pipelineOpcode3_checkCondition]
    · rw [h3 hf hi]
      congr 1
      simp only [execute, hT, if_true, hidx]
  · by_cases hf : s.processFiq = true ∧ s.fiqDisable = false
    · rw [h1 hf] at hs'
      obtain ⟨t, ht, rfl⟩ := Option.map_eq_some'.mp hs'
      have st := (serviceFiq_step ht).breakpointCheck E
      refine ⟨fun _ hd => ?_, fun hp _ => ?_⟩
      · rw [hf.2] at hd; exact absurd hd (by simp)
      · rw [st.2.1]; exact hp
    · by_cases hi : s.processIrq = true ∧ s.irqDisable = false
      · rw [h2 hf hi] at hs'
        obtain ⟨t, ht, rfl⟩ := Option.map_eq_some'.mp hs'
        have st := (serviceIrq_step ht).breakpointCheck E
        refine ⟨fun hp _ => ?_, fun _ hd => ?_⟩
        · rw [st.1]; exact hp
        · rw [hi.2] at hd; exact absurd hd (by simp)
      · rw [h3 hf hi] at hs'
        obtain ⟨t, ht, rfl⟩ := Option.map_eq_some'.mp hs'
        have st := (execute_step ht).breakpointCheck E
        exact ⟨fun hp _ => by rw [st.1]; exact hp, fun hp _ => by rw [st.2.1]; exact hp⟩

/-- Witness for C9, on the sample bus.  (a) Sample state with both interrupts
pending and I = F = 0: the call is the FIQ entry, the IRQ stays pending.
(b) The same with CPSR `0x6000005F` (F = 1): the FIQ stays pending and the
call is the IRQ entry.  (c) The same with CPSR `0x600000DF` (I = F = 1) and
`0xE3A00005` (MOV r0, #5) in `pipelineOpcode3`: the instruction runs (R0 = 5,
one opcode fetch at R15) and both interrupts stay pending. -/
theorem cycle_priority_witness :
    (∃ s', cycle sampleEnv ((sampleCPU.setProcessFiq true).setProcessIrq true) = some s' ∧
      s'.mode = 0x11 ∧ s'.bank .fiq 7 = 0x6000001F ∧ s'.irqDisable = true ∧ s'.fiqDisable = true ∧
      s'.thumbMode = false ∧ s'.R 14 = 0xFFC ∧ s'.R 15 = 0x24 ∧ s'.pipelineOpcode3 = 0x1D ∧
      (s'.bus = [.read 32 true 0x20 true, .read 32 true 0x1C false] ∨
        s'.bus = [.breakpoint, .read 32 true 0x20 true, .read 32 true 0x1C false]) ∧
      s'.processFiq = false ∧ s'.processIrq = true) ∧
    (∃ s', cycle sampleEnv (((sampleCPU.setCPSR 0x6000005F).setProcessFiq true).setProcessIrq true) = some s' ∧
      s'.mode = 0x12 ∧ s'.bank .irq 7 = 0x6000005F ∧ s'.irqDisable = true ∧ s'.fiqDisable = true ∧
      s'.thumbMode = false ∧ s'.R 14 = 0xFFC ∧ s'.R 15 = 0x20 ∧ s'.pipelineOpcode3 = 0x19 ∧
      (s'.bus = [.read 32 true 0x1C true, .read 32 true 0x18 false] ∨
        s'.bus = [.breakpoint, .read 32 true 0x1C true, .read 32 true 0x18 false]) ∧
      s'.processIrq = false ∧ s'.processFiq = true) ∧
    (∃ s', cycle sampleEnv
        ((((sampleCPU.setCPSR 0x600000DF).setPipelineOpcode3 0xE3A00005).setProcessFiq true).setProcessIrq true) =
          some s' ∧
      s'.R 0 = 5 ∧ s'.R 15 = 0x1004 ∧ s'.CPSR = 0x600000DF ∧ s'.bus = [.read 32 true 0x1000 false] ∧
      s'.processFiq = true ∧ s'.processIrq = true) := by
  refine ⟨?_, ?_, ?_⟩
  · obtain ⟨s', h, a1, a2, a3, a4, a5, a6, a7, a8, a9, a10, a11⟩ :=
      ((cycle_priority sampleEnv ((sampleCPU.setProcessFiq true).setProcessIrq true) rfl).1
        ⟨rfl, by decide⟩).2 (by decide)
    exact ⟨s', h, a1, a2, a3, a4, a5, a6.trans (by decide), a7, a8.trans (by decide), a9, a10, a11⟩
  · obtain ⟨s', h, a1, a2, a3, a4, a5, a6, a7, a8, a9, a10, a11⟩ :=
      ((cycle_priority sampleEnv (((sampleCPU.setCPSR 0x6000005F).setProcessFiq true).setProcessIrq true)
        rfl).2.1 (by decide) ⟨rfl, by decide⟩).2 (by decide)
    exact ⟨s', h, a1, a2, a3, a4, a5, a6.trans (by decide), a7, a8.trans (by decide), a9, a10, a11⟩
  · have key := cycle_priority sampleEnv
      ((((sampleCPU.setCPSR 0x600000DF).setPipelineOpcode3 0xE3A00005).setProcessFiq true).setProcessIrq true) rfl
    have hrun := (key.2.2.1 (by decide) (by decide)).1 (by decide)
    have hval : (cycle sampleEnv
        ((((sampleCPU.setCPSR 0x600000DF).setPipelineOpcode3 0xE3A00005).setProcessFiq true).setProcessIrq true)).map
        (fun t => (t.R 0, t.R 15, t.CPSR, t.bus)) = some (5, 0x1004, 0x600000DF, [.read 32 true 0x1000 false]) :=
      (congrArg (Option.map (fun t => (t.R 0, t.R 15, t.CPSR, t.bus))) hrun).trans (by decide)
    cases hc : cycle sampleEnv
        ((((sampleCPU.setCPSR 0x600000DF).setPipelineOpcode3 0xE3A00005).setProcessFiq true).setProcessIrq true) with
    | none => rw [hc] at hval; exact absurd hval (by simp)
    | some s' =>
      rw [hc] at hval
      simp only [Option.map_some', Option.some.injEq, Prod.mk.injEq] at hval
      obtain ⟨b1, b2, b3, b4⟩ := hval
      exact ⟨s', rfl, b1, b2, b3, b4, (key.2.2.2 s' hc).1 rfl (by decide), (key.2.2.2 s' hc).2 rfl (by decide)⟩

/-! ## Calls with a defined result -/

theorem bankRegisters_defined (m : Nat) (em : Bool) (t : CPU) (hv : validMode t.mode) :
    ∃ u, bankRegisters m em t = some u := by
  obtain ⟨cur, h1⟩ := modeBank_of_valid hv
  cases hm : modeBank m with
  | none => exact ⟨_, bankRegisters_none_mode m em t hm⟩
  | some new =>
    cases em
    · obtain ⟨u, hu, _⟩ := bankRegisters_false_some t m cur new h1 hm
      exact ⟨u, hu⟩
    · obtain ⟨u, hu, _⟩ := bankRegisters_true_some t m cur new h1 hm
      exact ⟨u, hu⟩

theorem leaveMode_defined (t : CPU) (hv : validMode t.mode) : ∃ u, leaveMode t = some u := by
  obtain ⟨tmp, ht⟩ := leaveMode_eq t
  obtain ⟨u, hu⟩ := bankRegisters_defined (tmp &&& 0x1F) false t hv
  rw [ht, hu]
  exact ⟨_, rfl⟩

theorem mode_fetchOpcode (E : Env) (t : CPU) : (fetchOpcode E t).mode = t.mode := by
  show (fetchOpcode E t).CPSR % 32 = t.CPSR % 32
  rw [CPSR_fetchOpcode]

theorem undefined_defined (E : Env) (opcode : Nat) (s : CPU) (hv : validMode s.mode) :
    ∃ u, undefined E opcode s = some u := by
  obtain ⟨u, hu⟩ := bankRegisters_defined MODE_UNDEFINED true s hv
  simp only [undefined, hu]
  exact ⟨_, rfl⟩

theorem thumbUndefined_defined (E : Env) (opcode : Nat) (s : CPU) (hv : validMode s.mode) :
    ∃ u, thumbUndefined E opcode s = some u := by
  obtain ⟨u, hu⟩ := bankRegisters_defined MODE_UNDEFINED true s hv
  simp only [thumbUndefined, hu]
  exact ⟨_, rfl⟩

theorem softwareInterrupt_defined (E : Env) (opcode : Nat) (s : CPU) (hv : validMode s.mode) :
    ∃ u, softwareInterrupt E opcode s = some u := by
  obtain ⟨u, hu⟩ := bankRegisters_defined MODE_SUPERVISOR true (fetchOpcode E s)
    (by rw [mode_fetchOpcode]; exact hv)
  simp only [softwareInterrupt, hu]
  exact ⟨_, rfl⟩

theorem thumbSoftwareInterrupt_defined (E : Env) (opcode : Nat) (s : CPU) (hv : validMode s.mode) :
    ∃ u, thumbSoftwareInterrupt E opcode s = some u := by
  obtain ⟨u, hu⟩ := bankRegisters_defined MODE_SUPERVISOR true (fetchOpcode E s)
    (by rw [mode_fetchOpcode]; exact hv)
  simp only [thumbSoftwareInterrupt, hu]
  exact ⟨_, rfl⟩

theorem armCoprocessorRegisterTransfer_defined (E : Env) (a : Bool) (opcode : Nat) (s : CPU)
    (hv : validMode s.mode) : ∃ u, armCoprocessorRegisterTransfer E a opcode s = some u := by
  unfold armCoprocessorRegisterTransfer
  simp only
  split
  · exact ⟨_, rfl⟩
  · exact undefined_defined E opcode s hv

theorem psrStore_defined (E : Env) (targetPSR : Bool) (opcode operand : Nat) (s : CPU)
    (hv : validMode s.mode) : ∃ u, psrStore E targetPSR opcode operand s = some u := by
  obtain ⟨u, hu⟩ := bankRegisters_defined (operand &&& 0x1F) false s hv
  unfold psrStore
  cases targetPSR
  · by_cases hc : opcode.testBit 16 = true ∧ s.mode ≠ MODE_USER
    · simp [hc, hu]
    · simp [hc]
  · cases hb : spsrBank s.mode with
    | none => simp
    | some b =>
      by_cases hc : opcode.testBit 16 = true ∧ s.mode ≠ MODE_USER
      · simp [hc]
      · simp [hc]

theorem dataProcessing_defined (E : Env) (iBit sBit : Bool) (operation opcode : Nat) (s : CPU)
    (hv : validMode s.mode) : ∃ u, dataProcessing E iBit operation sBit opcode s = some u := by
  by_cases hRd : (opcode &&& 0xF000) >>> 12 = 15
  · cases sBit
    · obtain ⟨u, hu, _⟩ := dataProcessing_noS E iBit operation opcode s
      exact ⟨u, hu⟩
    · obtain ⟨s1, f, g, hs1, hf, hg, hd⟩ := dataProcessing_rd15 E iBit operation opcode s hRd
      have hff : f.mode = s1.mode ∧ (∀ i, f.R i = s1.R i) ∧ (∀ b j, f.bank b j = s1.bank b j) ∧
          f.bus = s1.bus := by
        rw [hf]
        exact flags_frame s1 _ _ _ _ _ (operation < 2 ∨ operation = 8 ∨ operation = 9 ∨ operation ≥ 0xC)
      obtain ⟨gm, _, _⟩ := dataProcessing_frame E (!iBit && opcode.testBit 4) s s1 f g hs1 hff hg
      rw [hd]
      by_cases hw : operation < 8 ∨ operation ≥ 0xC
      · rw [if_pos hw]
        obtain ⟨u, hu⟩ := leaveMode_defined (g.setR 15
          (dataProcessingOp operation (s1.R (reg4 (opcode >>> 16)))
            (computeShift false iBit opcode s1).2 s1.flagC s1.flagV).1) (by
              show validMode g.mode
              rw [gm]; exact hv)
        rw [hu]
        exact ⟨_, rfl⟩
      · rw [if_neg hw]
        exact leaveMode_defined g (by rw [gm]; exact hv)
  · obtain ⟨_, _, _, _, _, _, hd⟩ := dataProcessing_rd_ne15 E iBit sBit operation opcode s hRd
    exact ⟨_, hd⟩

theorem CPSR_ldmStep (E : Env) (writeBack alt : Bool) (opcode baseRegister wb : Nat) (st : LoopState) (i : Nat) :
    (ldmStep E writeBack alt opcode baseRegister wb st i).cpu.CPSR = st.cpu.CPSR := by
  unfold ldmStep
  by_cases hbit : opcode.testBit i = true
  · simp only [hbit, if_true, busRead]
    cases st.firstReadWrite <;> cases writeBack <;> simp
  · simp [hbit]

theorem CPSR_ldm_fold (E : Env) (writeBack alt : Bool) (opcode baseRegister wb : Nat) (l : List Nat)
    (st : LoopState) :
    (l.foldl (ldmStep E writeBack alt opcode baseRegister wb) st).cpu.CPSR = st.cpu.CPSR := by
  induction l generalizing st with
  | nil => rfl
  | cons i l ih =>
    rw [List.foldl_cons, ih, CPSR_ldmStep]

theorem blockDataTransfer_defined (E : Env) (prePostIndex upDown sBit writeBack loadStore : Bool)
    (opcode : Nat) (s : CPU) (hv : validMode s.mode) :
    ∃ u, blockDataTransfer E prePostIndex upDown sBit writeBack loadStore opcode s = some u := by
  by_cases hS : sBit = true ∧ loadStore = true ∧ opcode.testBit 15 = true
  · obtain ⟨h1, h2, h3⟩ := hS
    subst h1
    subst h2
    have hne : opcode &&& 0xFFFF ≠ 0 := low16_ne_zero_of_listed opcode (by decide) h3
    have key : ∃ x, blockDataTransfer E prePostIndex upDown true writeBack true opcode s = leaveMode x ∧
        x.CPSR = s.CPSR := by
      refine ⟨_, by simp only [blockDataTransfer, hne, h3, decide_False, Bool.false_eq_true, if_false,
        if_true, and_self, true_and, decide_True]; rfl, ?_⟩
      simp [CPSR_flushPipeline, iCycle, CPSR_ldm_fold, CPSR_fetchOpcode, unknownOpcodeArm]
    obtain ⟨x, hx, hC⟩ := key
    rw [hx]
    exact leaveMode_defined x (by show validMode (x.CPSR % 32); rw [hC]; exact hv)
  · unfold blockDataTransfer
    simp only
    rw [if_neg hS]
    exact ⟨_, rfl⟩

theorem armCall_defined (E : Env) (e : ArmEntry) (opcode : Nat) (s : CPU) (hv : validMode s.mode) :
    ∃ u, e.call E opcode s = some u := by
  cases e <;> simp only [ArmEntry.call] <;>
    first
    | exact ⟨_, rfl⟩
    | exact undefined_defined E opcode s hv
    | exact psrStore_defined E _ opcode _ s hv
    | exact dataProcessing_defined E _ _ _ opcode s hv
    | exact blockDataTransfer_defined E _ _ _ _ _ opcode s hv
    | exact armCoprocessorRegisterTransfer_defined E _ opcode s hv
    | exact softwareInterrupt_defined E opcode s hv

theorem thumbCall_defined (E : Env) (e : ThumbEntry) (opcode : Nat) (s : CPU) (hv : validMode s.mode) :
    ∃ u, e.call E opcode s = some u := by
  cases e <;> simp only [ThumbEntry.call] <;>
    first
    | exact ⟨_, rfl⟩
    | exact thumbUndefined_defined E opcode s hv
    | exact thumbSoftwareInterrupt_defined E opcode s hv

theorem mode_checkCondition (c : Nat) (s : CPU) : (checkCondition c s).2.mode = s.mode := by
  unfold checkCondition
  split <;> rfl

/-- From a valid mode, `cycle` has no defined result exactly when no interrupt
is serviced, the core is in Thumb state and the `u16` table index
`pipelineOpcode3 >> 6` is 1024 or more. -/
theorem cycle_defined_iff (E : Env) (s : CPU) (hv : validMode s.mode) :
    cycle E s = none ↔
      (¬ (E.disableFiq = false ∧ s.processFiq = true ∧ s.fiqDisable = false) ∧
        ¬ (s.processIrq = true ∧ s.irqDisable = false) ∧
        s.thumbMode = true ∧ 1024 ≤ (s.pipelineOpcode3 >>> 6) % 2 ^ 16) := by
  rw [cycle_eq]
  by_cases hf : E.disableFiq = false ∧ s.processFiq = true ∧ s.fiqDisable = false
  · obtain ⟨t, ht, _⟩ := serviceFiq_closed E s hv
    have : (!E.disableFiq && (s.processFiq && !s.fiqDisable)) = true := by simp [hf.1, hf.2.1, hf.2.2]
    rw [this, if_pos rfl, ht]
    constructor
    · intro h; exact absurd h (by simp)
    · intro h; exact absurd hf h.1
  · have hf' : (!E.disableFiq && (s.processFiq && !s.fiqDisable)) = false := by
      cases h1 : E.disableFiq <;> cases h2 : s.processFiq <;> cases h3 : s.fiqDisable <;> simp_all
    rw [hf']
    simp only [Bool.false_eq_true, if_false]
    by_cases hi : s.processIrq = true ∧ s.irqDisable = false
    · obtain ⟨t, ht, _⟩ := serviceIrq_closed E s hv
      have : (s.processIrq && !s.irqDisable) = true := by simp [hi.1, hi.2]
      rw [this, if_pos rfl, ht]
      constructor
      · intro h; exact absurd h (by simp)
      · intro h; exact absurd hi h.2.1
    · have hi' : (s.processIrq && !s.irqDisable) = false := by
        cases h2 : s.processIrq <;> cases h3 : s.irqDisable <;> simp_all
      rw [hi']
      simp only [Bool.false_eq_true, if_false]
      by_cases hT : s.thumbMode = true
      · by_cases hidx : (s.pipelineOpcode3 >>> 6) % 2 ^ 16 < 1024
        · obtain ⟨u, hu⟩ := thumbCall_defined E (decodeThumb ((s.pipelineOpcode3 >>> 6) % 2 ^ 16))
            (s.pipelineOpcode3 % 2 ^ 16) s hv
          have he : execute E s = some u := by simp only [execute, hT, if_true, hidx, hu]
          rw [he]
          constructor
          · intro h; exact absurd h (by simp)
          · intro h; omega
        · have he : execute E s = none := by simp only [execute, hT, if_true, hidx, if_false]
          rw [he]
          constructor
          · intro _; exact ⟨hf, hi, hT, by omega⟩
          · intro _; rfl
      · have hT' : s.thumbMode = false := by simpa using hT
        have he : ∃ u, execute E s = some u := by
          unfold execute
          simp only [hT', Bool.false_eq_true, if_false]
          split
          · exact armCall_defined E _ _ _ (by rw [mode_checkCondition]; exact hv)
          · exact ⟨_, rfl⟩
        obtain ⟨u, hu⟩ := he
        rw [hu]
        constructor
        · intro h; exact absurd h (by simp)
        · intro h; exact absurd h.2.2.1 hT

/-! ## Mode invariant over reachable states -/

/-- C3 (amended): let `s` be a state reached from `resetARM7TDMI` by `cycle`
calls with a defined result, with any bus contents and any setting of the
pending-interrupt flags between calls, and let `l` be the bus calls made since
the reset.  (1) If `l` holds no invalid-mode report of `bankRegisters` (the
log line `Invalid mode` followed by `hacf()`), in particular if `hacf()` was
not called, CPSR.mode is one of the seven modes USR, FIQ, IRQ, SVC, ABT, UND,
SYS and bit 4 of the CPSR is 1.  (2) Whatever happened before, if the mode of
`s` is valid, a further `cycle` call that makes no invalid-mode report ends in
a valid mode with bit 4 set.  (3) From a valid mode the next `cycle` call has
no defined result exactly when no interrupt is serviced, the core is in Thumb
state and the `u16` value `pipelineOpcode3 >> 6`, the index into the
1024-entry `thumbLUT`, is 1024 or more. -/
theorem mode_valid_unless_hacf (E : Env) (s0 s : CPU) (h : Reachable E s0 s) :
    ∃ l, s.bus = l ++ s0.bus ∧
      ((BusEvent.hacf ∉ l ∨ ∀ m, BusEvent.logInvalidMode m ∉ l) →
        validMode s.mode ∧ s.CPSR.testBit 4 = true) ∧
      (validMode s.mode →
        (∀ s', cycle E s = some s' →
          ∃ l', s'.bus = l' ++ s.bus ∧
            ((BusEvent.hacf ∉ l' ∨ ∀ m, BusEvent.logInvalidMode m ∉ l') →
              validMode s'.mode ∧ s'.CPSR.testBit 4 = true)) ∧
        (cycle E s = none ↔
          (¬ (E.disableFiq = false ∧ s.processFiq = true ∧ s.fiqDisable = false) ∧
            ¬ (s.processIrq = true ∧ s.irqDisable = false) ∧
            s.thumbMode = true ∧ 1024 ≤ (s.pipelineOpcode3 >>> 6) % 2 ^ 16))) := by
  have key : ∃ l, s.bus = l ++ s0.bus ∧ (noModeReport l → validMode s.mode) := by
    induction h with
    | reset =>
      obtain ⟨-, -, -, -, -, hm, -, -, -, -, -, -, hb, -⟩ := resetARM7TDMI_facts E s0
      exact ⟨[.read 32 true 4 true, .read 32 true 0 false], hb, fun _ => by rw [hm]; decide⟩
    | cycle _ hc ih =>
      obtain ⟨l, hl, hv⟩ := ih
      obtain ⟨l', hl', hv'⟩ := cycle_mode hc
      refine ⟨l' ++ l, by rw [hl', hl, List.append_assoc], fun hn => ?_⟩
      obtain ⟨n1, n2⟩ := noModeReport_append hn
      exact hv' n1 (hv n2)
    | pending fiq irq _ ih =>
      obtain ⟨l, hl, hv⟩ := ih
      exact ⟨l, by simpa using hl, fun hn => by simpa using hv hn⟩
  obtain ⟨l, hl, hv⟩ := key
  refine ⟨l, hl, fun hn => ⟨hv hn, by rw [testBit_four_mode]; exact validMode_testBit (hv hn)⟩,
    fun hs => ⟨fun s' hc => ?_, cycle_defined_iff E s hs⟩⟩
  obtain ⟨l', hl', hv'⟩ := cycle_mode hc
  exact ⟨l', hl', fun hn => ⟨hv' hn hs, by rw [testBit_four_mode]; exact validMode_testBit (hv' hn hs)⟩⟩

/-- Witness for C3 (amended).  (a) On a bus that returns `0xE321F01F`
(`MSR CPSR_c, #0x1F`) for every read, the state after reset and one `cycle`
is reachable with CPSR `0x1F` and no `hacf()` call: its mode is valid and the
next `cycle` has a defined result.  (b) On a bus that returns `0xE321F033`
(`MSR CPSR_c, #0x33`), the state after reset and one `cycle` is reachable with
CPSR `0x33` (Thumb state, mode SVC) and no `hacf()` call: its mode is valid,
the table index is 34752 and the next `cycle` has no defined result. -/
theorem mode_valid_unless_hacf_witness :
    (∃ s, Reachable (constEnv 0xE321F01F) sampleCPU s ∧ s.CPSR = 0x1F ∧ BusEvent.hacf ∉ s.bus ∧
      validMode s.mode ∧ s.CPSR.testBit 4 = true ∧ cycle (constEnv 0xE321F01F) s ≠ none ∧
      ∀ s', cycle (constEnv 0xE321F01F) s = some s' →
        ∃ l', s'.bus = l' ++ s.bus ∧
          ((BusEvent.hacf ∉ l' ∨ ∀ m, BusEvent.logInvalidMode m ∉ l') →
            validMode s'.mode ∧ s'.CPSR.testBit 4 = true)) ∧
    (∃ s, Reachable (constEnv 0xE321F033) sampleCPU s ∧ s.CPSR = 0x33 ∧ BusEvent.hacf ∉ s.bus ∧
      validMode s.mode ∧ s.CPSR.testBit 4 = true ∧ (s.pipelineOpcode3 >>> 6) % 2 ^ 16 = 34752 ∧
      cycle (constEnv 0xE321F033) s = none) := by
  constructor
  · have hv : (cycle (constEnv 0xE321F01F) (resetARM7TDMI (constEnv 0xE321F01F) sampleCPU)).map
        (fun s => (s.CPSR, decide (BusEvent.hacf ∈ s.bus))) = some (0x1F, false) := by
      decide
    cases hc : cycle (constEnv 0xE321F01F) (resetARM7TDMI (constEnv 0xE321F01F) sampleCPU) with
    | none => rw [hc] at hv; exact absurd hv (by simp)
    | some s =>
      rw [hc] at hv
      simp only [Option.map_some', Option.some.injEq, Prod.mk.injEq, decide_eq_false_iff_not] at hv
      obtain ⟨l, hl, h1, h2⟩ :=
        mode_valid_unless_hacf (constEnv 0xE321F01F) sampleCPU s (Reachable.cycle Reachable.reset hc)
      have hls : s.bus = l := by rw [hl]; exact List.append_nil l
      have hm := h1 (Or.inl (hls ▸ hv.2))
      have hT : s.thumbMode = false := by
        show s.CPSR.testBit 5 = false
        rw [hv.1]; decide
      refine ⟨s, Reachable.cycle Reachable.reset hc, hv.1, hv.2, hm.1, hm.2, fun hn => ?_, (h2 hm.1).1⟩
      have := ((h2 hm.1).2.mp hn).2.2.1
      rw [hT] at this
      exact absurd this (by simp)
  · have hv : (cycle (constEnv 0xE321F033) (resetARM7TDMI (constEnv 0xE321F033) sampleCPU)).map
        (fun s => (s.CPSR, s.pipelineOpcode3, s.processFiq, s.processIrq, decide (BusEvent.hacf ∈ s.bus))) =
          some (0x33, 0xE321F033, false, false, false) := by
      decide
    cases hc : cycle (constEnv 0xE321F033) (resetARM7TDMI (constEnv 0xE321F033) sampleCPU) with
    | none => rw [hc] at hv; exact absurd hv (by simp)
    | some s =>
      rw [hc] at hv
      simp only [Option.map_some', Option.some.injEq, Prod.mk.injEq, decide_eq_false_iff_not] at hv
      obtain ⟨hC, hp, hF, hI, hh⟩ := hv
      obtain ⟨l, hl, h1, h2⟩ :=
        mode_valid_unless_hacf (constEnv 0xE321F033) sampleCPU s (Reachable.cycle Reachable.reset hc)
      have hls : s.bus = l := by rw [hl]; exact List.append_nil l
      have hm := h1 (Or.inl (hls ▸ hh))
      have hT : s.thumbMode = true := by
        show s.CPSR.testBit 5 = true
        rw [hC]; decide
      have hidx : (s.pipelineOpcode3 >>> 6) % 2 ^ 16 = 34752 := by rw [hp]; decide
      refine ⟨s, Reachable.cycle Reachable.reset hc, hC, hh, hm.1, hm.2, hidx, ?_⟩
      refine (h2 hm.1).2.mpr ⟨fun hx => ?_, fun hx => ?_, hT, by rw [hidx]; decide⟩
      · rw [hF] at hx; exact absurd hx.2.1 (by simp)
      · rw [hI] at hx; exact absurd hx.1 (by simp)

end ARM7TDMI
